import Mathlib

/-!
# MOOSE: value-based kernel assembly and the coupling interface

A shallow embedding of `framework/src/kernels/KernelValue.C` and
`framework/src/interfaces/Coupleable.C`.

Conventions of the embedding.

* `Real`/`Number` arithmetic is taken exactly: the scalar type is an arbitrary
  commutative ring `R` (the integers and the rationals are executable instances).
* A libMesh `DenseVector` / `DenseMatrix` is its logical size together with its
  entries.  An access outside the logical size trips the library's bounds
  assertion; the run is then marked `aborted` and every later statement of the
  call is skipped, the state keeping what had been written up to that point.
* The quadrature data `_JxW`, `_coord`, `_test` are read-only families indexed by
  the quadrature point (and the test function).
* The member loop counters `_qp`, `_i`, `_j` are the bound variables of the
  loops; the per-point virtual functions, which read them, take them as arguments.
* A member function of `Coupleable` is run on an object and yields its result or
  the `mooseError` it stops with, together with the object afterwards; what a call
  has written before it fails stays written.
* A `std::map` is its list of entries; `operator[]` inserts a value-initialised
  entry under a missing key.
* The registry, the parameters of the owning object and the arrays of a variable
  belong to collaborators: the registry and the parameters are taken as given
  functions, an array is named by the member function that returns it.
* A value accessor returns a reference to an array (`ArrayRef`); for the default
  arrays, which the object owns, `Coupleable.contents` gives the entries.
-/

namespace Moose

/-! ## libMesh containers -/

/-- A libMesh `DenseVector<Number>`: `size()` and the entries `(i)`. -/
structure DenseVector (R : Type) where
  size : Nat
  entry : Nat → R

/-- A libMesh `DenseMatrix<Number>`: `m()` rows, `n()` columns and the entries `(i, j)`. -/
structure DenseMatrix (R : Type) where
  m : Nat
  n : Nat
  entry : Nat → Nat → R

/-- The vector after `resize(n); zero()`. -/
def DenseVector.zeroed {R : Type} [CommRing R] (n : Nat) : DenseVector R :=
  { size := n, entry := fun _ => 0 }

/-- The matrix after `resize(m, n); zero()`. -/
def DenseMatrix.zeroed {R : Type} [CommRing R] (m n : Nat) : DenseMatrix R :=
  { m := m, n := n, entry := fun _ _ => 0 }

/-- The entries of `v` after `v(i) += x` (the bound is checked by the caller). -/
def DenseVector.addAt {R : Type} [CommRing R] (v : DenseVector R) (i : Nat) (x : R) :
    DenseVector R :=
  { v with entry := Function.update v.entry i (v.entry i + x) }

/-- The entries of `a` after `a(i, j) += x` (the bounds are checked by the caller). -/
def DenseMatrix.addAt {R : Type} [CommRing R] (a : DenseMatrix R) (i j : Nat) (x : R) :
    DenseMatrix R :=
  { a with entry := Function.update a.entry i (Function.update (a.entry i) j (a.entry i j + x)) }

/-- The entries of `v` after `v += w` on vectors of one size: every entry below the
size receives the matching entry of `w`. -/
def DenseVector.addVec {R : Type} [CommRing R] (v w : DenseVector R) : DenseVector R :=
  { v with entry := fun i => if i < v.size then v.entry i + w.entry i else v.entry i }

/-- The entries of `a` after `a += b` on matrices of one shape. -/
def DenseMatrix.addMat {R : Type} [CommRing R] (a b : DenseMatrix R) : DenseMatrix R :=
  { a with entry := fun i j => if i < a.m ∧ j < a.n then a.entry i j + b.entry i j
                               else a.entry i j }

/-! ## Variables -/

/-- The value of `Moose::VarKindType` held by a variable; `other` stands for any value
that is neither enumerator. -/
inductive VarKindType where
  | VAR_NONLINEAR
  | VAR_AUXILIARY
  | other
  deriving DecidableEq, Repr

/-- The dynamic type of a field variable, as the two `dynamic_cast`s see it. -/
inductive FieldType where
  | standard
  | vector
  | unknown
  deriving DecidableEq, Repr

/-- What the two files use of a `MooseVariableFE`. -/
structure MooseVariableFE where
  name : String
  number : Nat
  kind : VarKindType
  isNodal : Bool
  fieldType : FieldType
  phiSize : Nat
  sys : Nat
  dofIndices : List Nat
  deriving DecidableEq, Repr

/-! ## KernelValue -/

/-- The per-quadrature-point virtual functions of a concrete kernel.  Each reads the
member counters it is called under: `precomputeQpResidual` reads `_qp`,
`precomputeQpJacobian` reads `_qp` and `_j`, `computeQpOffDiagJacobian(jvar)` reads
`_i`, `_j` and `_qp`. -/
structure QpFunctions (R : Type) where
  precomputeQpResidual : (qp : Nat) → R
  precomputeQpJacobian : (qp j : Nat) → R
  computeQpOffDiagJacobian : (jvar i j qp : Nat) → R

/-- The state `KernelValue` works on: the assembly blocks, the kernel members and
the solution vectors of the systems the save-in variables live in. -/
structure KernelValue (R : Type) where
  residualBlock : Nat → DenseVector R
  jacobianBlock : Nat → Nat → DenseMatrix R
  var : MooseVariableFE
  local_re : DenseVector R
  local_ke : DenseMatrix R
  n_points : Nat
  JxW : Nat → R
  coord : Nat → R
  test_size : Nat
  test : Nat → Nat → R
  phi_size : Nat
  has_save_in : Bool
  save_in : List MooseVariableFE
  has_diag_save_in : Bool
  diag_save_in : List MooseVariableFE
  solution : Nat → Nat → R

/-- A call in progress: the state so far and whether a library assertion has failed. -/
structure Run (R : Type) where
  st : KernelValue R
  aborted : Bool

/-- The state with `jacobianBlock(ivar, jvar)` replaced by `a`. -/
def KernelValue.setJacobianBlock {R : Type} (s : KernelValue R) (ivar jvar : Nat)
    (a : DenseMatrix R) : KernelValue R :=
  { s with jacobianBlock :=
      Function.update s.jacobianBlock ivar (Function.update (s.jacobianBlock ivar) jvar a) }

/-- The state with `residualBlock(ivar)` replaced by `v`. -/
def KernelValue.setResidualBlock {R : Type} (s : KernelValue R) (ivar : Nat)
    (v : DenseVector R) : KernelValue R :=
  { s with residualBlock := Function.update s.residualBlock ivar v }

/-- The solution vector of system `sys` after `add_vector(v, dofIndices)`: entry
`dofIndices[k]` receives `v(k)`, one index after the other. -/
def scatter {R : Type} [CommRing R] (sol : Nat → R) (v : DenseVector R) (dofIndices : List Nat) :
    Nat → R :=
  (List.range dofIndices.length).foldl
    (fun sol k => Function.update sol (dofIndices.getD k 0) (sol (dofIndices.getD k 0) + v.entry k))
    sol

/-- The statement `_local_re(i) += x`. -/
def Run.localReAdd {R : Type} [CommRing R] (r : Run R) (i : Nat) (x : R) : Run R :=
  if r.aborted then r
  else if i < r.st.local_re.size then
    { r with st := { r.st with local_re := r.st.local_re.addAt i x } }
  else { r with aborted := true }

/-- The statement `_local_ke(i, j) += x`. -/
def Run.localKeAdd {R : Type} [CommRing R] (r : Run R) (i j : Nat) (x : R) : Run R :=
  if r.aborted then r
  else if i < r.st.local_ke.m ∧ j < r.st.local_ke.n then
    { r with st := { r.st with local_ke := r.st.local_ke.addAt i j x } }
  else { r with aborted := true }

/-- The statement `ke(i, j) += x` on the block `ke = jacobianBlock(ivar, jvar)`. -/
def Run.blockAdd {R : Type} [CommRing R] (r : Run R) (ivar jvar i j : Nat) (x : R) : Run R :=
  if r.aborted then r
  else if i < (r.st.jacobianBlock ivar jvar).m ∧ j < (r.st.jacobianBlock ivar jvar).n then
    { r with st := r.st.setJacobianBlock ivar jvar ((r.st.jacobianBlock ivar jvar).addAt i j x) }
  else { r with aborted := true }

/-- The statement `re += _local_re` on `re = residualBlock(ivar)`. -/
def Run.residualAddLocal {R : Type} [CommRing R] (r : Run R) (ivar : Nat) : Run R :=
  if r.aborted then r
  else if (r.st.residualBlock ivar).size = r.st.local_re.size then
    { r with st := r.st.setResidualBlock ivar ((r.st.residualBlock ivar).addVec r.st.local_re) }
  else { r with aborted := true }

/-- The statement `ke += _local_ke` on `ke = jacobianBlock(ivar, jvar)`. -/
def Run.jacobianAddLocal {R : Type} [CommRing R] (r : Run R) (ivar jvar : Nat) : Run R :=
  if r.aborted then r
  else if (r.st.jacobianBlock ivar jvar).m = r.st.local_ke.m ∧
      (r.st.jacobianBlock ivar jvar).n = r.st.local_ke.n then
    let ke := (r.st.jacobianBlock ivar jvar).addMat r.st.local_ke
    { r with st := r.st.setJacobianBlock ivar jvar ke }
  else { r with aborted := true }

/-- The call `var->sys().solution().add_vector(v, var->dofIndices())`: the sizes must
agree. -/
def Run.addVector {R : Type} [CommRing R] (r : Run R) (v : DenseVector R)
    (var : MooseVariableFE) : Run R :=
  if r.aborted then r
  else if v.size = var.dofIndices.length then
    let sol := scatter (r.st.solution var.sys) v var.dofIndices
    { r with st := { r.st with solution := Function.update r.st.solution var.sys sol } }
  else { r with aborted := true }

/-- The loop `for (i = 0; i < rows; i++) diag(i) = _local_ke(i, i);`. -/
def Run.extractDiag {R : Type} [CommRing R] (r : Run R) (rows : Nat) : Run R × DenseVector R :=
  (List.range rows).foldl
    (fun (p : Run R × DenseVector R) i =>
      if p.1.aborted then p
      else if i < p.1.st.local_ke.m ∧ i < p.1.st.local_ke.n then
        (p.1, { p.2 with entry := Function.update p.2.entry i (p.1.st.local_ke.entry i i) })
      else ({ p.1 with aborted := true }, p.2))
    (r, DenseVector.zeroed rows)

/-- `KernelValue::computeResidual()`. -/
def computeResidual {R : Type} [CommRing R] (f : QpFunctions R) (s : KernelValue R) : Run R :=
  let re := s.residualBlock s.var.number
  let r0 : Run R := { st := { s with local_re := DenseVector.zeroed re.size }, aborted := false }
  let n_test := s.test_size
  let r1 := (List.range s.n_points).foldl
    (fun r qp =>
      let value := f.precomputeQpResidual qp * s.JxW qp * s.coord qp
      (List.range n_test).foldl (fun r i => r.localReAdd i (value * s.test i qp)) r)
    r0
  let r2 := r1.residualAddLocal s.var.number
  if s.has_save_in then
    s.save_in.foldl (fun r var => r.addVector r.st.local_re var) r2
  else r2

/-- `KernelValue::computeJacobian()`. -/
def computeJacobian {R : Type} [CommRing R] (f : QpFunctions R) (s : KernelValue R) : Run R :=
  let ke := s.jacobianBlock s.var.number s.var.number
  let r0 : Run R :=
    { st := { s with local_ke := DenseMatrix.zeroed ke.m ke.n }, aborted := false }
  let n_test := s.test_size
  let r1 := (List.range s.n_points).foldl
    (fun r qp =>
      (List.range s.phi_size).foldl
        (fun r j =>
          let value := f.precomputeQpJacobian qp j * s.JxW qp * s.coord qp
          (List.range n_test).foldl (fun r i => r.localKeAdd i j (value * s.test i qp)) r)
        r)
    r0
  let r2 := r1.jacobianAddLocal s.var.number s.var.number
  if s.has_diag_save_in then
    let rows := (r2.st.jacobianBlock s.var.number s.var.number).m
    let p := r2.extractDiag rows
    s.diag_save_in.foldl (fun r var => r.addVector p.2 var) p.1
  else r2

/-- `KernelValue::computeOffDiagJacobian(jvar)`. -/
def computeOffDiagJacobian {R : Type} [CommRing R] (f : QpFunctions R) (jvar : MooseVariableFE)
    (s : KernelValue R) : Run R :=
  let jvar_num := jvar.number
  if jvar_num = s.var.number then computeJacobian f s
  else
    (List.range jvar.phiSize).foldl
      (fun r j =>
        (List.range s.n_points).foldl
          (fun r qp =>
            (List.range s.test_size).foldl
              (fun r i => r.blockAdd s.var.number jvar_num i j
                (s.JxW qp * s.coord qp * f.computeQpOffDiagJacobian jvar_num i j qp))
              r)
          r)
      { st := s, aborted := false }

/-! ## Closed forms of the kernel loops -/

/-- The run with the entries of `_local_re` replaced. -/
def Run.withLocalRe {R : Type} (r : Run R) (e : Nat → R) : Run R :=
  { r with st := { r.st with local_re := { r.st.local_re with entry := e } } }

/-- The run with the entries of `_local_ke` replaced. -/
def Run.withLocalKe {R : Type} (r : Run R) (e : Nat → Nat → R) : Run R :=
  { r with st := { r.st with local_ke := { r.st.local_ke with entry := e } } }

/-- The run `computeJacobian` starts its loops from: `_local_ke` resized to the shape of
the diagonal block and zeroed. -/
def KernelValue.startJacobian {R : Type} [CommRing R] (s : KernelValue R) : Run R :=
  let ke := s.jacobianBlock s.var.number s.var.number
  { st := { s with local_ke := DenseMatrix.zeroed ke.m ke.n }, aborted := false }

/-- The run with the entries of `jacobianBlock(ivar, jvar)` replaced. -/
def Run.withBlock {R : Type} (r : Run R) (ivar jvar : Nat) (e : Nat → Nat → R) : Run R :=
  { r with st := r.st.setJacobianBlock ivar jvar { r.st.jacobianBlock ivar jvar with entry := e } }

/-! ## The default per-point functions -/

/-- `KernelValue::computeQpResidual()`: the per-point residual of the `Kernel` interface,
which this class defines to return `0.0`.  `computeResidual` does not call it: it calls
`precomputeQpResidual()`. -/
def computeQpResidual {R : Type} [CommRing R] : R := 0

/-- `KernelValue::precomputeQpJacobian()`: the default of the class, which returns `0.0`
at every quadrature point and trial function. -/
def precomputeQpJacobian {R : Type} [CommRing R] (_qp _j : Nat) : R := 0

/-! ## What the scatters add, and runs that add nothing -/

/-- The contributions of a scatter of `v` into the targets `l`: for every target and
every index `k` of `v`, the system of the target and its `k`-th degree-of-freedom index,
with the entry `v(k)` that `add_vector` adds there. -/
def contributions {R : Type} (v : DenseVector R) (l : List MooseVariableFE) :
    List ((Nat × Nat) × R) :=
  l.flatMap (fun var => (List.range v.size).map
    (fun k => ((var.sys, var.dofIndices.getD k 0), v.entry k)))

/-- The sum of the contributions `cs` that go to entry `d` of the solution vector of
system `sys`. -/
def contributionAt {R : Type} [CommRing R] (cs : List ((Nat × Nat) × R)) (sys d : Nat) : R :=
  (cs.map (fun e => if e.1 = (sys, d) then e.2 else 0)).sum

/-- What a run keeps of the state `s` while only zeros are added: the blocks and the
solution vectors of `s`, and zero buffers. -/
def Run.Untouched {R : Type} [CommRing R] (s : KernelValue R) (r : Run R) : Prop :=
  r.st.residualBlock = s.residualBlock ∧ r.st.jacobianBlock = s.jacobianBlock ∧
  r.st.solution = s.solution

/-! ## Coupleable: collaborators -/

/-- The value of `std::numeric_limits<unsigned int>::max()`. -/
def UINT_MAX : Nat := 4294967295

/-- A `std::map<std::string, α>`: its entries, at most one per key. -/
structure StdMap (α : Type) where
  entries : List (String × α)

/-- The empty map. -/
def StdMap.empty {α : Type} : StdMap α := { entries := [] }

/-- Lookup in the entries of a map. -/
def StdMap.findIn {α : Type} : List (String × α) → String → Option α
  | [], _ => none
  | (k', v) :: m, k => if k' = k then some v else StdMap.findIn m k

/-- The map member `find(k)`: the value stored under `k`, if any. -/
def StdMap.find {α : Type} (m : StdMap α) (k : String) : Option α :=
  StdMap.findIn m.entries k

/-- The map member `size()`. -/
def StdMap.size {α : Type} (m : StdMap α) : Nat := m.entries.length

/-- The entries after storing `v` under `k`: the value of an existing entry is replaced,
a missing entry is added. -/
def StdMap.setIn {α : Type} : List (String × α) → String → α → List (String × α)
  | [], k, v => [(k, v)]
  | (k', v') :: m, k, v => if k' = k then (k', v) :: m else (k', v') :: StdMap.setIn m k v

/-- The map after storing `v` under `k`. -/
def StdMap.set {α : Type} (m : StdMap α) (k : String) (v : α) : StdMap α :=
  { entries := StdMap.setIn m.entries k v }

/-- The map after evaluating `m[k]`: a missing key is inserted with the value-initialised
`d`, an existing entry is left alone. -/
def StdMap.touch {α : Type} (m : StdMap α) (k : String) (d : α) : StdMap α :=
  match m.find k with
  | some _ => m
  | none => m.set k d

/-- The value `m[k]` refers to. -/
def StdMap.valueAt {α : Type} (m : StdMap α) (k : String) (d : α) : α :=
  (m.find k).getD d

/-- What `Coupleable` uses of a `MooseVariableScalar`. -/
structure MooseVariableScalar where
  name : String
  number : Nat
  deriving DecidableEq, Repr

/-- A `RealVectorValue` / `RealGradient`. -/
abbrev RealVectorValue (R : Type) : Type := R × R × R

/-- A `RealTensorValue`. -/
abbrev RealTensorValue (R : Type) : Type := RealVectorValue R × RealVectorValue R × RealVectorValue R

/-- What `Coupleable` reads of the owning object's `InputParameters`: the object name,
the set of declared coupling names in iteration order (a `std::set`, so without
repetition), the variable names listed under a coupling name, the default constant of a
coupling, and the optional flags `implicit` and `_neighbor` (`none` when the parameter is
absent). -/
structure InputParameters (R : Type) where
  object_name : String
  coupledVars : List String
  coupledVars_nodup : coupledVars.Nodup
  getVecMooseType : String → List String
  defaultCoupledValue : String → R
  implicit : Option Bool
  neighbor : Option Bool

/-- Modelled from the spec: `InputParameters::hasCoupledValue` is not among the sources;
a coupling name "was declared" exactly when it is one of the declared coupling names of
the object's configuration. -/
def InputParameters.hasCoupledValue {R : Type} (p : InputParameters R) (coupling_name : String) :
    Bool :=
  decide (coupling_name ∈ p.coupledVars)

/-- The variable registry and the mode queries of the problem: `hasVariable`,
`getVariable(tid, name)`, `hasScalarVariable`, `getScalarVariable(tid, name)`,
`isTransient()` and `getMaxQps()`. -/
structure Problem where
  hasVariable : String → Bool
  getVariable : String → MooseVariableFE
  hasScalarVariable : String → Bool
  getScalarVariable : String → MooseVariableScalar
  isTransient : Bool
  getMaxQps : Nat

/-- The calls of `mooseError` in `Coupleable.C`, each with the values its message is built
from. -/
inductive MooseError where
  /-- "Unknown variable type!" -/
  | unknownVariableType
  /-- "...: Coupled variable ... was not found" -/
  | coupledVariableNotFound (object coupled_var_name : String)
  /-- "...: The coupled variable ... was never added to this objects's InputParameters" -/
  | neverAdded (object var_name : String)
  /-- "...: Trying to couple a scalar variable where field variable is expected", with the
  names of the scalar variables in stored order. -/
  | scalarWhereField (object var_name : String) (cvars : List String)
  /-- "...: You cannot couple an elemental variable to a nodal variable" -/
  | elementalToNodal (object : String)
  /-- "...: Trying to get a non-existent component of variable ..." -/
  | nonExistentComponent (object var_name : String)
  /-- "Variable of wrong type" -/
  | wrongType
  /-- "...: Unknown variable kind. Corrupted binary?" -/
  | unknownKind (object : String)
  /-- "Vector variables are not required to be continuous and so should not be used with
  nodal compute objects" -/
  | vectorNodal
  /-- "Older values not available for explicit schemes", with the object name where the
  call passes it. -/
  | olderExplicit (object : Option String)
  /-- "...: Calling ... on variable ... when using a "Steady" executioner is not allowed." -/
  | steadyExecutioner (object fn_name name : String)
  /-- "...: Nodal variables do not have gradients" -/
  | nodalGradient (object : String)
  /-- "...: Nodal compute objects do not support gradients" -/
  | nodalGradientUnsupported (object : String)
  /-- "Nodal variables do not have curls" -/
  | nodalCurl
  /-- "...: Nodal variables do not have second derivatives" -/
  | nodalSecond (object : String)
  /-- "...: invalid variable name for ..." -/
  | invalidDoFsName (object fn_name : String)
  /-- "...: nodal objects should not call ..." -/
  | nodalDoFs (object fn_name : String)
  deriving DecidableEq, Repr

deriving instance DecidableEq for Except

/-- The order in which `_optional_var_index[name] = max - _optional_var_index.size()`
evaluates its two sides.  The language fixes it only from C++17 on (`rhsFirst`: the size
is read before `operator[]` inserts the key); older compilers may insert first
(`lhsFirst`). -/
inductive AssignOrder where
  | rhsFirst
  | lhsFirst
  deriving DecidableEq, Repr

/-! ## Coupleable: the object -/

/-- The members of a `Coupleable` object, together with the two things it changes outside
itself: the problem's "previous Newton iteration needed" flag and the calls of the
`coupledCallback` hook (a no-op in this class, recorded here in call order). -/
structure Coupleable (R : Type) where
  c_parameters : InputParameters R
  c_name : String
  c_fe_problem : Problem
  needs_previous_newton_iteration : Bool
  c_nodal : Bool
  c_is_implicit : Bool
  coupleable_neighbor : Bool
  coupleable_max_qps : Nat
  coupled_vars : StdMap (List MooseVariableFE)
  coupled_moose_vars : List MooseVariableFE
  coupled_standard_moose_vars : List MooseVariableFE
  coupled_vector_moose_vars : List MooseVariableFE
  c_coupled_scalar_vars : StdMap (List MooseVariableScalar)
  optional_var_index : StdMap Nat
  default_value : StdMap (List R)
  default_vector_value : StdMap (List (RealVectorValue R))
  default_value_zero : List R
  default_gradient : List (RealVectorValue R)
  default_second : List (RealTensorValue R)
  default_vector_value_zero : List (RealVectorValue R)
  default_vector_gradient : List (RealTensorValue R)
  default_vector_curl : List (RealVectorValue R)
  callbacks : List (String × Bool)

/-- The member initialisers of the constructor: the object before the coupling loop. -/
def Coupleable.init {R : Type} (p : InputParameters R) (problem : Problem) (nodal : Bool)
    (needs_previous_newton_iteration : Bool) : Coupleable R :=
  { c_parameters := p
    c_name := p.object_name
    c_fe_problem := problem
    needs_previous_newton_iteration := needs_previous_newton_iteration
    c_nodal := nodal
    c_is_implicit := p.implicit.getD true
    coupleable_neighbor := p.neighbor.getD false
    coupleable_max_qps := problem.getMaxQps
    coupled_vars := StdMap.empty
    coupled_moose_vars := []
    coupled_standard_moose_vars := []
    coupled_vector_moose_vars := []
    c_coupled_scalar_vars := StdMap.empty
    optional_var_index := StdMap.empty
    default_value := StdMap.empty
    default_vector_value := StdMap.empty
    default_value_zero := []
    default_gradient := []
    default_second := []
    default_vector_value_zero := []
    default_vector_gradient := []
    default_vector_curl := []
    callbacks := [] }

/-- The statement `_coupled_vars[name].push_back(moose_var)`. -/
def Coupleable.pushCoupledVar {R : Type} (c : Coupleable R) (name : String)
    (moose_var : MooseVariableFE) : Coupleable R :=
  let vars := c.coupled_vars.valueAt name [] ++ [moose_var]
  { c with coupled_vars := c.coupled_vars.set name vars }

/-- The statement `_c_coupled_scalar_vars[name].push_back(moose_scalar_var)`. -/
def Coupleable.pushScalarVar {R : Type} (c : Coupleable R) (name : String)
    (moose_scalar_var : MooseVariableScalar) : Coupleable R :=
  let scalars := c.c_coupled_scalar_vars.valueAt name [] ++ [moose_scalar_var]
  { c with c_coupled_scalar_vars := c.c_coupled_scalar_vars.set name scalars }

/-- The body of the inner loop of the constructor, for one listed variable name. -/
def Coupleable.resolve {R : Type} (problem : Problem) (name : String) (c : Coupleable R)
    (coupled_var_name : String) : Except MooseError (Coupleable R) :=
  if problem.hasVariable coupled_var_name then
    let moose_var := problem.getVariable coupled_var_name
    let c1 := c.pushCoupledVar name moose_var
    let c2 := { c1 with coupled_moose_vars := c1.coupled_moose_vars ++ [moose_var] }
    match moose_var.fieldType with
    | .standard =>
      .ok { c2 with coupled_standard_moose_vars := c2.coupled_standard_moose_vars ++ [moose_var] }
    | .vector =>
      .ok { c2 with coupled_vector_moose_vars := c2.coupled_vector_moose_vars ++ [moose_var] }
    | .unknown => .error .unknownVariableType
  else if problem.hasScalarVariable coupled_var_name then
    .ok (c.pushScalarVar name (problem.getScalarVariable coupled_var_name))
  else .error (.coupledVariableNotFound c.c_name coupled_var_name)

/-- The value `std::numeric_limits<unsigned int>::max() - size` computed in `size_t` and
stored in an `unsigned int`. -/
def optionalIndex (size : Nat) : Nat :=
  (UINT_MAX + (2 ^ 64 - size % 2 ^ 64)) % 2 ^ 32

/-- The statement
`_optional_var_index[name] = std::numeric_limits<unsigned int>::max() - _optional_var_index.size()`. -/
def Coupleable.assignOptional {R : Type} (order : AssignOrder) (c : Coupleable R)
    (name : String) : Coupleable R :=
  match order with
  | .rhsFirst =>
    let index := optionalIndex c.optional_var_index.size
    { c with optional_var_index := c.optional_var_index.set name index }
  | .lhsFirst =>
    let inserted := c.optional_var_index.touch name 0
    { c with optional_var_index := inserted.set name (optionalIndex inserted.size) }

/-- The body of the outer loop of the constructor, for one declared coupling name. -/
def Coupleable.declare {R : Type} (order : AssignOrder) (problem : Problem) (c : Coupleable R)
    (name : String) : Except MooseError (Coupleable R) :=
  if c.c_parameters.getVecMooseType name ≠ [] then
    (c.c_parameters.getVecMooseType name).foldlM (Coupleable.resolve problem name) c
  else .ok (c.assignOptional order name)

/-- The six `resize` statements that end the constructor: the zero arrays are sized to
the maximum number of quadrature points.  `MooseArray::resize` is not among the sources;
the entries it creates are value-initialised, so that the arrays are, in the words of the
specification, "all-zero variants ... precomputed eagerly". -/
def Coupleable.sizeDefaults {R : Type} [CommRing R] (c : Coupleable R) : Coupleable R :=
  { c with
    default_value_zero := List.replicate c.coupleable_max_qps 0
    default_gradient := List.replicate c.coupleable_max_qps (0, 0, 0)
    default_second := List.replicate c.coupleable_max_qps ((0, 0, 0), (0, 0, 0), (0, 0, 0))
    default_vector_value_zero := List.replicate c.coupleable_max_qps (0, 0, 0)
    default_vector_gradient :=
      List.replicate c.coupleable_max_qps ((0, 0, 0), (0, 0, 0), (0, 0, 0))
    default_vector_curl := List.replicate c.coupleable_max_qps (0, 0, 0) }

/-- `Coupleable::Coupleable(moose_object, nodal)`: the object, or the error the
constructor stops with.  `needs_previous_newton_iteration` is the state of the problem's
flag when the object is built. -/
def Coupleable.construct {R : Type} [CommRing R] (order : AssignOrder) (p : InputParameters R)
    (problem : Problem) (nodal : Bool) (needs_previous_newton_iteration : Bool) :
    Except MooseError (Coupleable R) :=
  match p.coupledVars.foldlM (Coupleable.declare order problem)
      (Coupleable.init p problem nodal needs_previous_newton_iteration) with
  | .error e => .error e
  | .ok c => .ok c.sizeDefaults

/-! ## Coupleable: member functions

A member function is run on an object and yields what it returns, or the error it stops
with, together with the object afterwards: what a call has written before it fails stays
written. -/

/-- A member function of `Coupleable` returning an `α`. -/
def Acc (R : Type) (α : Type) : Type := Coupleable R → Except MooseError α × Coupleable R

/-- Running a member function on an object. -/
def Acc.run {R α : Type} (x : Acc R α) (c : Coupleable R) : Except MooseError α × Coupleable R :=
  x c

/-- Returning a value. -/
def Acc.ret {R α : Type} (a : α) : Acc R α := fun c => (.ok a, c)

/-- Sequencing: the second part runs on the object the first part leaves, unless the first
part has failed. -/
def Acc.andThen {R α β : Type} (x : Acc R α) (f : α → Acc R β) : Acc R β := fun c =>
  match x c with
  | (.ok a, c') => f a c'
  | (.error e, c') => (.error e, c')

instance Acc.instMonad {R : Type} : Monad (Acc R) where
  pure := Acc.ret
  bind := Acc.andThen

/-- A call of `mooseError`. -/
def mooseError {R α : Type} (e : MooseError) : Acc R α := fun c => (.error e, c)

/-- Reading the object. -/
def Acc.get {R : Type} : Acc R (Coupleable R) := fun c => (.ok c, c)

/-- Writing the object. -/
def Acc.modify {R : Type} (f : Coupleable R → Coupleable R) : Acc R Unit := fun c => (.ok (), f c)

/-- `Coupleable::coupledCallback(var_name, is_old)`: empty in this class; the call is
recorded. -/
def coupledCallback {R : Type} (var_name : String) (is_old : Bool) : Acc R Unit :=
  Acc.modify (fun c => { c with callbacks := c.callbacks ++ [(var_name, is_old)] })

/-- `Coupleable::isCoupled(var_name, i)`. -/
def isCoupled {R : Type} (var_name : String) (i : Nat) : Acc R Bool := do
  let c ← Acc.get
  match c.coupled_vars.find var_name with
  | some vars => return decide (i < vars.length)
  | none =>
    if !c.c_parameters.hasCoupledValue var_name then
      mooseError (.neverAdded c.c_name var_name)
    else
      return false

/-- The expression `_coupled_vars[var_name]`: the stored list, an empty list being
inserted under a missing key. -/
def coupledVarsAt {R : Type} (var_name : String) : Acc R (List MooseVariableFE) := do
  Acc.modify (fun c => { c with coupled_vars := c.coupled_vars.touch var_name [] })
  let c ← Acc.get
  return c.coupled_vars.valueAt var_name []

/-- `Coupleable::coupledComponents(var_name)`; the `size_t` is returned as `unsigned int`. -/
def coupledComponents {R : Type} (var_name : String) : Acc R Nat := do
  let vars ← coupledVarsAt var_name
  return vars.length % 2 ^ 32

/-- `Coupleable::checkVar(var_name)`. -/
def checkVar {R : Type} (var_name : String) : Acc R Unit := do
  let c ← Acc.get
  match c.c_coupled_scalar_vars.find var_name with
  | some scalars => mooseError (.scalarWhereField c.c_name var_name (scalars.map (fun jt => jt.name)))
  | none => return ()

/-- `Coupleable::getFEVar(var_name, comp)`. -/
def getFEVar {R : Type} (var_name : String) (comp : Nat) : Acc R MooseVariableFE := do
  let vars ← coupledVarsAt var_name
  match vars[comp]? with
  | some var =>
    let c ← Acc.get
    if !var.isNodal && c.c_nodal then
      mooseError (.elementalToNodal c.c_name)
    else
      return var
  | none =>
    let c ← Acc.get
    mooseError (.nonExistentComponent c.c_name var_name)

/-- `Coupleable::getVar(var_name, comp)`. -/
def getVar {R : Type} (var_name : String) (comp : Nat) : Acc R MooseVariableFE := do
  let vars ← coupledVarsAt var_name
  match vars[comp]? with
  | some var =>
    let c ← Acc.get
    if !var.isNodal && c.c_nodal then
      mooseError (.elementalToNodal c.c_name)
    else if var.fieldType = .standard then
      return var
    else
      mooseError .wrongType
  | none =>
    let c ← Acc.get
    mooseError (.nonExistentComponent c.c_name var_name)

/-- `Coupleable::getVectorVar(var_name, comp)`. -/
def getVectorVar {R : Type} (var_name : String) (comp : Nat) : Acc R MooseVariableFE := do
  let vars ← coupledVarsAt var_name
  match vars[comp]? with
  | some var =>
    let c ← Acc.get
    if !var.isNodal && c.c_nodal then
      mooseError (.elementalToNodal c.c_name)
    else if var.fieldType = .vector then
      return var
    else
      mooseError .wrongType
  | none =>
    let c ← Acc.get
    mooseError (.nonExistentComponent c.c_name var_name)

/-- The expression `_optional_var_index[var_name]`: the stored index, `0` being inserted
under a missing key. -/
def optionalVarIndexAt {R : Type} (var_name : String) : Acc R Nat := do
  Acc.modify (fun c => { c with optional_var_index := c.optional_var_index.touch var_name 0 })
  let c ← Acc.get
  return c.optional_var_index.valueAt var_name 0

/-- `Coupleable::coupled(var_name, comp)`. -/
def coupled {R : Type} (var_name : String) (comp : Nat) : Acc R Nat := do
  checkVar var_name
  if !(← isCoupled var_name 0) then
    optionalVarIndexAt var_name
  else
    let var ← getFEVar var_name comp
    match var.kind with
    | .VAR_NONLINEAR => return var.number
    | .VAR_AUXILIARY => return UINT_MAX - var.number
    | .other =>
      let c ← Acc.get
      mooseError (.unknownKind c.c_name)

/-! ## Coupleable: value accessors

Each accessor follows its source statement by statement.  `getVar`, `getVectorVar` and
`getFEVar` return a handle or stop with an error, never a null pointer, so the tests
`if (var == NULL) mooseError(...)` that follow these calls in the source cannot fire and
have no counterpart here. -/

/-- The arrays of a variable that `Coupleable` hands out, named after the member function
of the variable that returns them; the members of a vector variable (`sln`, `uDot`, ... of
`VectorMooseVariable`) carry the prefix `vector`. -/
inductive FieldArray where
  | nodalValue
  | nodalValueOld
  | nodalValueOlder
  | nodalValuePreviousNL
  | nodalValueNeighbor
  | nodalValueOldNeighbor
  | nodalValueOlderNeighbor
  | nodalValuePreviousNLNeighbor
  | sln
  | slnOld
  | slnOlder
  | slnPreviousNL
  | slnNeighbor
  | slnOldNeighbor
  | slnOlderNeighbor
  | slnPreviousNLNeighbor
  | vectorSln
  | vectorSlnOld
  | vectorSlnOlder
  | vectorSlnNeighbor
  | vectorSlnOldNeighbor
  | vectorSlnOlderNeighbor
  | nodalValueDot
  | uDot
  | nodalValueDotNeighbor
  | uDotNeighbor
  | vectorUDot
  | vectorUDotNeighbor
  | nodalValueDuDotDu
  | duDotDu
  | gradSln
  | gradSlnOld
  | gradSlnOlder
  | gradSlnPreviousNL
  | gradSlnNeighbor
  | gradSlnOldNeighbor
  | gradSlnOlderNeighbor
  | gradSlnPreviousNLNeighbor
  | gradSlnDot
  | gradSlnNeighborDot
  | curlSln
  | curlSlnOld
  | curlSlnOlder
  | curlSlnNeighbor
  | curlSlnOldNeighbor
  | curlSlnOlderNeighbor
  | secondSln
  | secondSlnOld
  | secondSlnOlder
  | secondSlnPreviousNL
  | secondSlnNeighbor
  | secondSlnOldNeighbor
  | secondSlnOlderNeighbor
  | secondSlnPreviousNLNeighbor
  | solutionDoFs
  | solutionDoFsOld
  | solutionDoFsOlder
  | solutionDoFsNeighbor
  | solutionDoFsOldNeighbor
  | solutionDoFsOlderNeighbor
  deriving DecidableEq, Repr

/-- What a value accessor returns a reference to: an array of a coupled variable or one of
the default arrays of the object. -/
inductive ArrayRef where
  | var (v : MooseVariableFE) (a : FieldArray)
  /-- `*_default_value[name]` -/
  | default_value (name : String)
  /-- `*_default_vector_value[name]` -/
  | default_vector_value (name : String)
  | default_value_zero
  | default_gradient
  | default_second
  | default_vector_value_zero
  | default_vector_curl
  deriving DecidableEq, Repr

/-- `Coupleable::validateExecutionerType(name, fn_name)`. -/
def validateExecutionerType {R : Type} (name : String) (fn_name : String) : Acc R Unit := do
  let c ← Acc.get
  if !c.c_fe_problem.isTransient then
    mooseError (.steadyExecutioner c.c_name fn_name name)
  else
    return ()

/-- The call `_c_fe_problem.needsPreviousNewtonIteration(state)`. -/
def needsPreviousNewtonIteration {R : Type} (state : Bool) : Acc R Unit :=
  Acc.modify (fun c => { c with needs_previous_newton_iteration := state })

/-- `Coupleable::getDefaultValue(var_name)`: the array is created on first use, sized to the
maximum number of quadrature points and filled with the default constant of the coupling. -/
def getDefaultValue {R : Type} (var_name : String) : Acc R ArrayRef := do
  let c ← Acc.get
  match c.default_value.find var_name with
  | some _ => return .default_value var_name
  | none =>
    let value := List.replicate c.coupleable_max_qps (c.c_parameters.defaultCoupledValue var_name)
    Acc.modify (fun c => { c with default_value := c.default_value.set var_name value })
    return .default_value var_name

/-- `Coupleable::getVectorDefaultValue(var_name)`. -/
def getVectorDefaultValue {R : Type} [CommRing R] (var_name : String) : Acc R ArrayRef := do
  let c ← Acc.get
  match c.default_vector_value.find var_name with
  | some _ => return .default_vector_value var_name
  | none =>
    let value : List (RealVectorValue R) := List.replicate c.coupleable_max_qps (0, 0, 0)
    Acc.modify (fun c => { c with default_vector_value := c.default_vector_value.set var_name value })
    return .default_vector_value var_name

/-- `Coupleable::coupledValue(var_name, comp)` (line 249). -/
def coupledValue {R : Type} (var_name : String) (comp : Nat) : Acc R ArrayRef := do
  checkVar var_name
  if !(← isCoupled var_name 0) then
    getDefaultValue var_name
  else
    coupledCallback var_name false
    let var ← getVar var_name comp
    let c ← Acc.get
    if !c.coupleable_neighbor then
      if c.c_nodal then
        if c.c_is_implicit then
          return .var var .nodalValue
        else
          return .var var .nodalValueOld
      else
        if c.c_is_implicit then
          return .var var .sln
        else
          return .var var .slnOld
    else
      if c.c_nodal then
        if c.c_is_implicit then
          return .var var .nodalValueNeighbor
        else
          return .var var .nodalValueOldNeighbor
      else
        if c.c_is_implicit then
          return .var var .slnNeighbor
        else
          return .var var .slnOldNeighbor

/-- `Coupleable::coupledVectorValue(var_name, comp)` (line 277). -/
def coupledVectorValue {R : Type} [CommRing R] (var_name : String) (comp : Nat) : Acc R ArrayRef := do
  if !(← isCoupled var_name 0) then
    getVectorDefaultValue var_name
  else
    coupledCallback var_name false
    let var ← getVectorVar var_name comp
    let c ← Acc.get
    if !c.coupleable_neighbor then
      if c.c_nodal then
        mooseError .vectorNodal
      else
        if c.c_is_implicit then
          return .var var .vectorSln
        else
          return .var var .vectorSlnOld
    else
      if c.c_nodal then
        mooseError .vectorNodal
      else
        if c.c_is_implicit then
          return .var var .vectorSlnNeighbor
        else
          return .var var .vectorSlnOldNeighbor

/-- `Coupleable::coupledValueOld(var_name, comp)` (line 312). -/
def coupledValueOld {R : Type} (var_name : String) (comp : Nat) : Acc R ArrayRef := do
  checkVar var_name
  if !(← isCoupled var_name 0) then
    getDefaultValue var_name
  else
    validateExecutionerType var_name "coupledValueOld"
    coupledCallback var_name true
    let var ← getVar var_name comp
    let c ← Acc.get
    if !c.coupleable_neighbor then
      if c.c_nodal then
        if c.c_is_implicit then
          return .var var .nodalValueOld
        else
          return .var var .nodalValueOlder
      else
        if c.c_is_implicit then
          return .var var .slnOld
        else
          return .var var .slnOlder
    else
      if c.c_nodal then
        if c.c_is_implicit then
          return .var var .nodalValueOldNeighbor
        else
          return .var var .nodalValueOlderNeighbor
      else
        if c.c_is_implicit then
          return .var var .slnOldNeighbor
        else
          return .var var .slnOlderNeighbor

/-- `Coupleable::coupledValueOlder(var_name, comp)` (line 341). -/
def coupledValueOlder {R : Type} (var_name : String) (comp : Nat) : Acc R ArrayRef := do
  checkVar var_name
  if !(← isCoupled var_name 0) then
    getDefaultValue var_name
  else
    validateExecutionerType var_name "coupledValueOlder"
    coupledCallback var_name true
    let var ← getVar var_name comp
    let c ← Acc.get
    if !c.coupleable_neighbor then
      if c.c_nodal then
        if c.c_is_implicit then
          return .var var .nodalValueOlder
        else
          mooseError (.olderExplicit (some c.c_name))
      else
        if c.c_is_implicit then
          return .var var .slnOlder
        else
          mooseError (.olderExplicit (some c.c_name))
    else
      if c.c_nodal then
        if c.c_is_implicit then
          return .var var .nodalValueOlderNeighbor
        else
          mooseError (.olderExplicit (some c.c_name))
      else
        if c.c_is_implicit then
          return .var var .slnOlderNeighbor
        else
          mooseError (.olderExplicit (some c.c_name))

/-- `Coupleable::coupledValuePreviousNL(var_name, comp)` (line 390). -/
def coupledValuePreviousNL {R : Type} (var_name : String) (comp : Nat) : Acc R ArrayRef := do
  checkVar var_name
  if !(← isCoupled var_name 0) then
    getDefaultValue var_name
  else
    needsPreviousNewtonIteration true
    coupledCallback var_name true
    let var ← getVar var_name comp
    let c ← Acc.get
    if !c.coupleable_neighbor then
      if c.c_nodal then
        return .var var .nodalValuePreviousNL
      else
        return .var var .slnPreviousNL
    else
      if c.c_nodal then
        return .var var .nodalValuePreviousNLNeighbor
      else
        return .var var .slnPreviousNLNeighbor

/-- `Coupleable::coupledVectorValueOld(var_name, comp)` (line 419). -/
def coupledVectorValueOld {R : Type} [CommRing R] (var_name : String) (comp : Nat) : Acc R ArrayRef := do
  if !(← isCoupled var_name 0) then
    getVectorDefaultValue var_name
  else
    validateExecutionerType var_name "coupledVectorValueOld"
    coupledCallback var_name true
    let var ← getVectorVar var_name comp
    let c ← Acc.get
    if !c.coupleable_neighbor then
      if c.c_nodal then
        mooseError .vectorNodal
      else
        if c.c_is_implicit then
          return .var var .vectorSlnOld
        else
          return .var var .vectorSlnOlder
    else
      if c.c_nodal then
        mooseError .vectorNodal
      else
        if c.c_is_implicit then
          return .var var .vectorSlnOldNeighbor
        else
          return .var var .vectorSlnOlderNeighbor

/-- `Coupleable::coupledVectorValueOlder(var_name, comp)` (line 449). -/
def coupledVectorValueOlder {R : Type} [CommRing R] (var_name : String) (comp : Nat) : Acc R ArrayRef := do
  if !(← isCoupled var_name 0) then
    getVectorDefaultValue var_name
  else
    validateExecutionerType var_name "coupledVectorValueOlder"
    coupledCallback var_name true
    let var ← getVectorVar var_name comp
    let c ← Acc.get
    if !c.coupleable_neighbor then
      if c.c_nodal then
        mooseError .vectorNodal
      else
        if c.c_is_implicit then
          return .var var .vectorSlnOlder
        else
          mooseError (.olderExplicit none)
    else
      if c.c_nodal then
        mooseError .vectorNodal
      else
        if c.c_is_implicit then
          return .var var .vectorSlnOlderNeighbor
        else
          mooseError (.olderExplicit none)

/-- `Coupleable::coupledDot(var_name, comp)` (line 489). -/
def coupledDot {R : Type} (var_name : String) (comp : Nat) : Acc R ArrayRef := do
  checkVar var_name
  if !(← isCoupled var_name 0) then
    return .default_value_zero
  else
    validateExecutionerType var_name "coupledDot"
    let var ← getVar var_name comp
    let c ← Acc.get
    if !c.coupleable_neighbor then
      if c.c_nodal then
        return .var var .nodalValueDot
      else
        return .var var .uDot
    else
      if c.c_nodal then
        return .var var .nodalValueDotNeighbor
      else
        return .var var .uDotNeighbor

/-- `Coupleable::coupledVectorDot(var_name, comp)` (line 517). -/
def coupledVectorDot {R : Type} (var_name : String) (comp : Nat) : Acc R ArrayRef := do
  checkVar var_name
  if !(← isCoupled var_name 0) then
    return .default_vector_value_zero
  else
    validateExecutionerType var_name "coupledVectorDot"
    let var ← getVectorVar var_name comp
    let c ← Acc.get
    if !c.coupleable_neighbor then
      if c.c_nodal then
        mooseError .vectorNodal
      else
        return .var var .vectorUDot
    else
      if c.c_nodal then
        mooseError .vectorNodal
      else
        return .var var .vectorUDotNeighbor

/-- `Coupleable::coupledDotDu(var_name, comp)` (line 547). -/
def coupledDotDu {R : Type} (var_name : String) (comp : Nat) : Acc R ArrayRef := do
  checkVar var_name
  if !(← isCoupled var_name 0) then
    return .default_value_zero
  else
    validateExecutionerType var_name "coupledDotDu"
    let var ← getVar var_name comp
    let c ← Acc.get
    if !c.coupleable_neighbor then
      if c.c_nodal then
        return .var var .nodalValueDuDotDu
      else
        return .var var .duDotDu
    else
      if c.c_nodal then
        return .var var .nodalValueDuDotDu
      else
        return .var var .duDotDu

/-- `Coupleable::coupledGradient(var_name, comp)` (line 575). -/
def coupledGradient {R : Type} (var_name : String) (comp : Nat) : Acc R ArrayRef := do
  checkVar var_name
  if !(← isCoupled var_name 0) then
    return .default_gradient
  else
    coupledCallback var_name false
    let c ← Acc.get
    if c.c_nodal then
      mooseError (.nodalGradient c.c_name)
    else
      let var ← getVar var_name comp
      let c ← Acc.get
      if !c.coupleable_neighbor then
        if c.c_is_implicit then
          return .var var .gradSln
        else
          return .var var .gradSlnOld
      else
        if c.c_is_implicit then
          return .var var .gradSlnNeighbor
        else
          return .var var .gradSlnOldNeighbor

/-- `Coupleable::coupledGradientOld(var_name, comp)` (line 596). -/
def coupledGradientOld {R : Type} (var_name : String) (comp : Nat) : Acc R ArrayRef := do
  checkVar var_name
  if !(← isCoupled var_name 0) then
    return .default_gradient
  else
    coupledCallback var_name true
    let c ← Acc.get
    if c.c_nodal then
      mooseError (.nodalGradientUnsupported c.c_name)
    else
      validateExecutionerType var_name "coupledGradientOld"
      let var ← getVar var_name comp
      let c ← Acc.get
      if !c.coupleable_neighbor then
        if c.c_is_implicit then
          return .var var .gradSlnOld
        else
          return .var var .gradSlnOlder
      else
        if c.c_is_implicit then
          return .var var .gradSlnOldNeighbor
        else
          return .var var .gradSlnOlderNeighbor

/-- `Coupleable::coupledGradientOlder(var_name, comp)` (line 618). -/
def coupledGradientOlder {R : Type} (var_name : String) (comp : Nat) : Acc R ArrayRef := do
  checkVar var_name
  if !(← isCoupled var_name 0) then
    return .default_gradient
  else
    coupledCallback var_name true
    let c ← Acc.get
    if c.c_nodal then
      mooseError (.nodalGradientUnsupported c.c_name)
    else
      validateExecutionerType var_name "coupledGradientOlder"
      let var ← getVar var_name comp
      let c ← Acc.get
      if c.c_is_implicit then
        if !c.coupleable_neighbor then
          return .var var .gradSlnOlder
        else
          return .var var .gradSlnOlderNeighbor
      else
        mooseError (.olderExplicit (some c.c_name))

/-- `Coupleable::coupledGradientPreviousNL(var_name, comp)` (line 645). -/
def coupledGradientPreviousNL {R : Type} (var_name : String) (comp : Nat) : Acc R ArrayRef := do
  checkVar var_name
  if !(← isCoupled var_name 0) then
    return .default_gradient
  else
    needsPreviousNewtonIteration true
    coupledCallback var_name true
    let c ← Acc.get
    if c.c_nodal then
      mooseError (.nodalGradientUnsupported c.c_name)
    else
      let var ← getVar var_name comp
      let c ← Acc.get
      if !c.coupleable_neighbor then
        return .var var .gradSlnPreviousNL
      else
        return .var var .gradSlnPreviousNLNeighbor

/-- `Coupleable::coupledGradientDot(var_name, comp)` (line 667). -/
def coupledGradientDot {R : Type} (var_name : String) (comp : Nat) : Acc R ArrayRef := do
  checkVar var_name
  if !(← isCoupled var_name 0) then
    return .default_gradient
  else
    coupledCallback var_name false
    let c ← Acc.get
    if c.c_nodal then
      mooseError (.nodalGradient c.c_name)
    else
      let var ← getVar var_name comp
      let c ← Acc.get
      if !c.coupleable_neighbor then
        return .var var .gradSlnDot
      else
        return .var var .gradSlnNeighborDot

/-- `Coupleable::coupledCurl(var_name, comp)` (line 688). -/
def coupledCurl {R : Type} (var_name : String) (comp : Nat) : Acc R ArrayRef := do
  if !(← isCoupled var_name 0) then
    return .default_vector_curl
  else
    coupledCallback var_name false
    let c ← Acc.get
    if c.c_nodal then
      mooseError (.nodalCurl)
    else
      let var ← getVectorVar var_name comp
      let c ← Acc.get
      if !c.coupleable_neighbor then
        if c.c_is_implicit then
          return .var var .curlSln
        else
          return .var var .curlSlnOld
      else
        if c.c_is_implicit then
          return .var var .curlSlnNeighbor
        else
          return .var var .curlSlnOldNeighbor

/-- `Coupleable::coupledCurlOld(var_name, comp)` (line 708). -/
def coupledCurlOld {R : Type} (var_name : String) (comp : Nat) : Acc R ArrayRef := do
  if !(← isCoupled var_name 0) then
    return .default_vector_curl
  else
    coupledCallback var_name true
    let c ← Acc.get
    if c.c_nodal then
      mooseError (.nodalCurl)
    else
      validateExecutionerType var_name "coupledCurlOld"
      let var ← getVectorVar var_name comp
      let c ← Acc.get
      if !c.coupleable_neighbor then
        if c.c_is_implicit then
          return .var var .curlSlnOld
        else
          return .var var .curlSlnOlder
      else
        if c.c_is_implicit then
          return .var var .curlSlnOldNeighbor
        else
          return .var var .curlSlnOlderNeighbor

/-- `Coupleable::coupledCurlOlder(var_name, comp)` (line 729). -/
def coupledCurlOlder {R : Type} (var_name : String) (comp : Nat) : Acc R ArrayRef := do
  if !(← isCoupled var_name 0) then
    return .default_vector_curl
  else
    coupledCallback var_name true
    let c ← Acc.get
    if c.c_nodal then
      mooseError (.nodalCurl)
    else
      validateExecutionerType var_name "coupledCurlOlder"
      let var ← getVectorVar var_name comp
      let c ← Acc.get
      if c.c_is_implicit then
        if !c.coupleable_neighbor then
          return .var var .curlSlnOlder
        else
          return .var var .curlSlnOlderNeighbor
      else
        mooseError (.olderExplicit none)

/-- `Coupleable::coupledSecond(var_name, comp)` (line 755). -/
def coupledSecond {R : Type} (var_name : String) (comp : Nat) : Acc R ArrayRef := do
  checkVar var_name
  if !(← isCoupled var_name 0) then
    return .default_second
  else
    coupledCallback var_name false
    let c ← Acc.get
    if c.c_nodal then
      mooseError (.nodalSecond c.c_name)
    else
      let var ← getVar var_name comp
      let c ← Acc.get
      if !c.coupleable_neighbor then
        if c.c_is_implicit then
          return .var var .secondSln
        else
          return .var var .secondSlnOlder
      else
        if c.c_is_implicit then
          return .var var .secondSlnNeighbor
        else
          return .var var .secondSlnOlderNeighbor

/-- `Coupleable::coupledSecondOld(var_name, comp)` (line 776). -/
def coupledSecondOld {R : Type} (var_name : String) (comp : Nat) : Acc R ArrayRef := do
  checkVar var_name
  if !(← isCoupled var_name 0) then
    return .default_second
  else
    coupledCallback var_name true
    let c ← Acc.get
    if c.c_nodal then
      mooseError (.nodalSecond c.c_name)
    else
      validateExecutionerType var_name "coupledSecondOld"
      let var ← getVar var_name comp
      let c ← Acc.get
      if !c.coupleable_neighbor then
        if c.c_is_implicit then
          return .var var .secondSlnOld
        else
          return .var var .secondSlnOlder
      else
        if c.c_is_implicit then
          return .var var .secondSlnOldNeighbor
        else
          return .var var .secondSlnOlderNeighbor

/-- `Coupleable::coupledSecondOlder(var_name, comp)` (line 797). -/
def coupledSecondOlder {R : Type} (var_name : String) (comp : Nat) : Acc R ArrayRef := do
  checkVar var_name
  if !(← isCoupled var_name 0) then
    return .default_second
  else
    coupledCallback var_name true
    let c ← Acc.get
    if c.c_nodal then
      mooseError (.nodalSecond c.c_name)
    else
      validateExecutionerType var_name "coupledSecondOlder"
      let var ← getVar var_name comp
      let c ← Acc.get
      if c.c_is_implicit then
        if !c.coupleable_neighbor then
          return .var var .secondSlnOlder
        else
          return .var var .secondSlnOlderNeighbor
      else
        mooseError (.olderExplicit (some c.c_name))

/-- `Coupleable::coupledSecondPreviousNL(var_name, comp)` (line 823). -/
def coupledSecondPreviousNL {R : Type} (var_name : String) (comp : Nat) : Acc R ArrayRef := do
  checkVar var_name
  if !(← isCoupled var_name 0) then
    return .default_second
  else
    needsPreviousNewtonIteration true
    coupledCallback var_name true
    let c ← Acc.get
    if c.c_nodal then
      mooseError (.nodalSecond c.c_name)
    else
      let var ← getVar var_name comp
      let c ← Acc.get
      if !c.coupleable_neighbor then
        return .var var .secondSlnPreviousNL
      else
        return .var var .secondSlnPreviousNLNeighbor

/-- `Coupleable::coupledNodalValue(var_name, comp)` (line 844). -/
def coupledNodalValue {R : Type} (var_name : String) (comp : Nat) : Acc R ArrayRef := do
  checkVar var_name
  if !(← isCoupled var_name 0) then
    getDefaultValue var_name
  else
    coupledCallback var_name false
    let var ← getVar var_name comp
    let c ← Acc.get
    if !c.coupleable_neighbor then
      if c.c_is_implicit then
        return .var var .nodalValue
      else
        return .var var .nodalValueOld
    else
      if c.c_is_implicit then
        return .var var .nodalValueNeighbor
      else
        return .var var .nodalValueOldNeighbor

/-- `Coupleable::coupledNodalValueOld(var_name, comp)` (line 862). -/
def coupledNodalValueOld {R : Type} (var_name : String) (comp : Nat) : Acc R ArrayRef := do
  checkVar var_name
  if !(← isCoupled var_name 0) then
    getDefaultValue var_name
  else
    validateExecutionerType var_name "coupledNodalValueOld"
    coupledCallback var_name true
    let var ← getVar var_name comp
    let c ← Acc.get
    if !c.coupleable_neighbor then
      if c.c_is_implicit then
        return .var var .nodalValueOld
      else
        return .var var .nodalValueOlder
    else
      if c.c_is_implicit then
        return .var var .nodalValueOldNeighbor
      else
        return .var var .nodalValueOlderNeighbor

/-- `Coupleable::coupledNodalValueOlder(var_name, comp)` (line 881). -/
def coupledNodalValueOlder {R : Type} (var_name : String) (comp : Nat) : Acc R ArrayRef := do
  checkVar var_name
  if !(← isCoupled var_name 0) then
    getDefaultValue var_name
  else
    validateExecutionerType var_name "coupledNodalValueOlder"
    coupledCallback var_name true
    let var ← getVar var_name comp
    let c ← Acc.get
    if c.c_is_implicit then
      if !c.coupleable_neighbor then
        return .var var .nodalValueOlder
      else
        return .var var .nodalValueOlderNeighbor
    else
      mooseError (.olderExplicit (some c.c_name))

/-- `Coupleable::coupledNodalValuePreviousNL(var_name, comp)` (line 904). -/
def coupledNodalValuePreviousNL {R : Type} (var_name : String) (comp : Nat) : Acc R ArrayRef := do
  checkVar var_name
  if !(← isCoupled var_name 0) then
    getDefaultValue var_name
  else
    needsPreviousNewtonIteration true
    coupledCallback var_name true
    let var ← getVar var_name comp
    let c ← Acc.get
    if !c.coupleable_neighbor then
      return .var var .nodalValuePreviousNL
    else
      return .var var .nodalValuePreviousNLNeighbor

/-- `Coupleable::coupledNodalDot(var_name, comp)` (line 923). -/
def coupledNodalDot {R : Type} (var_name : String) (comp : Nat) : Acc R ArrayRef := do
  checkVar var_name
  if !(← isCoupled var_name 0) then
    return .default_value_zero
  else
    validateExecutionerType var_name "coupledNodalDot"
    coupledCallback var_name false
    let var ← getVar var_name comp
    let c ← Acc.get
    if !c.coupleable_neighbor then
      return .var var .nodalValueDot
    else
      return .var var .nodalValueDotNeighbor

/-- `Coupleable::coupledSolutionDoFs(var_name, comp)` (line 942). -/
def coupledSolutionDoFs {R : Type} (var_name : String) (comp : Nat) : Acc R ArrayRef := do
  checkVar var_name
  let c ← Acc.get
  if !(← isCoupled var_name 0) then
    mooseError (.invalidDoFsName c.c_name "coupledSolutionDoFs")
  else if c.c_nodal then
    mooseError (.nodalDoFs c.c_name "coupledSolutionDoFs")
  else
    coupledCallback var_name false
    let var ← getFEVar var_name comp
    let c ← Acc.get
    if !c.coupleable_neighbor then
      if c.c_is_implicit then
        return .var var .solutionDoFs
      else
        return .var var .solutionDoFsOld
    else
      if c.c_is_implicit then
        return .var var .solutionDoFsNeighbor
      else
        return .var var .solutionDoFsOldNeighbor

/-- `Coupleable::coupledSolutionDoFsOld(var_name, comp)` (line 962). -/
def coupledSolutionDoFsOld {R : Type} (var_name : String) (comp : Nat) : Acc R ArrayRef := do
  checkVar var_name
  let c ← Acc.get
  if !(← isCoupled var_name 0) then
    mooseError (.invalidDoFsName c.c_name "coupledSolutionDoFsOld")
  else if c.c_nodal then
    mooseError (.nodalDoFs c.c_name "coupledSolutionDoFsOld")
  else
    validateExecutionerType var_name "coupledSolutionDoFsOld"
    coupledCallback var_name true
    let var ← getFEVar var_name comp
    let c ← Acc.get
    if !c.coupleable_neighbor then
      if c.c_is_implicit then
        return .var var .solutionDoFsOld
      else
        return .var var .solutionDoFsOlder
    else
      if c.c_is_implicit then
        return .var var .solutionDoFsOldNeighbor
      else
        return .var var .solutionDoFsOlderNeighbor

/-- `Coupleable::coupledSolutionDoFsOlder(var_name, comp)` (line 983). -/
def coupledSolutionDoFsOlder {R : Type} (var_name : String) (comp : Nat) : Acc R ArrayRef := do
  checkVar var_name
  let c ← Acc.get
  if !(← isCoupled var_name 0) then
    mooseError (.invalidDoFsName c.c_name "coupledSolutionDoFsOlder")
  else if c.c_nodal then
    mooseError (.nodalDoFs c.c_name "coupledSolutionDoFsOlder")
  else
    validateExecutionerType var_name "coupledSolutionDoFsOlder"
    coupledCallback var_name true
    let var ← getFEVar var_name comp
    let c ← Acc.get
    if c.c_is_implicit then
      if !c.coupleable_neighbor then
        return .var var .solutionDoFsOlder
      else
        return .var var .solutionDoFsOlderNeighbor
    else
      mooseError (.olderExplicit (some c.c_name))

/-- `Coupleable::writableCoupledValue(var_name, comp)`. -/
def writableCoupledValue {R : Type} (var_name : String) (comp : Nat) : Acc R ArrayRef :=
  coupledValue var_name comp

/-! ## Coupleable: sequences of calls -/

/-- A call of a member function of `Coupleable` with its arguments. -/
inductive Call where
  | coupledCallback (var_name : String) (is_old : Bool)
  | isCoupled (var_name : String) (i : Nat)
  | coupledComponents (var_name : String)
  | checkVar (var_name : String)
  | getFEVar (var_name : String) (comp : Nat)
  | getVar (var_name : String) (comp : Nat)
  | getVectorVar (var_name : String) (comp : Nat)
  | coupled (var_name : String) (comp : Nat)
  | getDefaultValue (var_name : String)
  | getVectorDefaultValue (var_name : String)
  | validateExecutionerType (name : String) (fn_name : String)
  | writableCoupledValue (var_name : String) (comp : Nat)
  | coupledValue (var_name : String) (comp : Nat)
  | coupledVectorValue (var_name : String) (comp : Nat)
  | coupledValueOld (var_name : String) (comp : Nat)
  | coupledValueOlder (var_name : String) (comp : Nat)
  | coupledValuePreviousNL (var_name : String) (comp : Nat)
  | coupledVectorValueOld (var_name : String) (comp : Nat)
  | coupledVectorValueOlder (var_name : String) (comp : Nat)
  | coupledDot (var_name : String) (comp : Nat)
  | coupledVectorDot (var_name : String) (comp : Nat)
  | coupledDotDu (var_name : String) (comp : Nat)
  | coupledGradient (var_name : String) (comp : Nat)
  | coupledGradientOld (var_name : String) (comp : Nat)
  | coupledGradientOlder (var_name : String) (comp : Nat)
  | coupledGradientPreviousNL (var_name : String) (comp : Nat)
  | coupledGradientDot (var_name : String) (comp : Nat)
  | coupledCurl (var_name : String) (comp : Nat)
  | coupledCurlOld (var_name : String) (comp : Nat)
  | coupledCurlOlder (var_name : String) (comp : Nat)
  | coupledSecond (var_name : String) (comp : Nat)
  | coupledSecondOld (var_name : String) (comp : Nat)
  | coupledSecondOlder (var_name : String) (comp : Nat)
  | coupledSecondPreviousNL (var_name : String) (comp : Nat)
  | coupledNodalValue (var_name : String) (comp : Nat)
  | coupledNodalValueOld (var_name : String) (comp : Nat)
  | coupledNodalValueOlder (var_name : String) (comp : Nat)
  | coupledNodalValuePreviousNL (var_name : String) (comp : Nat)
  | coupledNodalDot (var_name : String) (comp : Nat)
  | coupledSolutionDoFs (var_name : String) (comp : Nat)
  | coupledSolutionDoFsOld (var_name : String) (comp : Nat)
  | coupledSolutionDoFsOlder (var_name : String) (comp : Nat)
  deriving DecidableEq, Repr

/-- The object after a call, whether the call returned or stopped with an error. -/
def Call.perform {R : Type} [CommRing R] (call : Call) (c : Coupleable R) : Coupleable R :=
  match call with
  | .coupledCallback var_name is_old => ((Moose.coupledCallback var_name is_old).run c).2
  | .isCoupled var_name i => ((Moose.isCoupled var_name i).run c).2
  | .coupledComponents var_name => ((Moose.coupledComponents var_name).run c).2
  | .checkVar var_name => ((Moose.checkVar var_name).run c).2
  | .getFEVar var_name comp => ((Moose.getFEVar var_name comp).run c).2
  | .getVar var_name comp => ((Moose.getVar var_name comp).run c).2
  | .getVectorVar var_name comp => ((Moose.getVectorVar var_name comp).run c).2
  | .coupled var_name comp => ((Moose.coupled var_name comp).run c).2
  | .getDefaultValue var_name => ((Moose.getDefaultValue var_name).run c).2
  | .getVectorDefaultValue var_name => ((Moose.getVectorDefaultValue var_name).run c).2
  | .validateExecutionerType name fn_name => ((Moose.validateExecutionerType name fn_name).run c).2
  | .writableCoupledValue var_name comp => ((Moose.writableCoupledValue var_name comp).run c).2
  | .coupledValue var_name comp => ((Moose.coupledValue var_name comp).run c).2
  | .coupledVectorValue var_name comp => ((Moose.coupledVectorValue var_name comp).run c).2
  | .coupledValueOld var_name comp => ((Moose.coupledValueOld var_name comp).run c).2
  | .coupledValueOlder var_name comp => ((Moose.coupledValueOlder var_name comp).run c).2
  | .coupledValuePreviousNL var_name comp => ((Moose.coupledValuePreviousNL var_name comp).run c).2
  | .coupledVectorValueOld var_name comp => ((Moose.coupledVectorValueOld var_name comp).run c).2
  | .coupledVectorValueOlder var_name comp => ((Moose.coupledVectorValueOlder var_name comp).run c).2
  | .coupledDot var_name comp => ((Moose.coupledDot var_name comp).run c).2
  | .coupledVectorDot var_name comp => ((Moose.coupledVectorDot var_name comp).run c).2
  | .coupledDotDu var_name comp => ((Moose.coupledDotDu var_name comp).run c).2
  | .coupledGradient var_name comp => ((Moose.coupledGradient var_name comp).run c).2
  | .coupledGradientOld var_name comp => ((Moose.coupledGradientOld var_name comp).run c).2
  | .coupledGradientOlder var_name comp => ((Moose.coupledGradientOlder var_name comp).run c).2
  | .coupledGradientPreviousNL var_name comp => ((Moose.coupledGradientPreviousNL var_name comp).run c).2
  | .coupledGradientDot var_name comp => ((Moose.coupledGradientDot var_name comp).run c).2
  | .coupledCurl var_name comp => ((Moose.coupledCurl var_name comp).run c).2
  | .coupledCurlOld var_name comp => ((Moose.coupledCurlOld var_name comp).run c).2
  | .coupledCurlOlder var_name comp => ((Moose.coupledCurlOlder var_name comp).run c).2
  | .coupledSecond var_name comp => ((Moose.coupledSecond var_name comp).run c).2
  | .coupledSecondOld var_name comp => ((Moose.coupledSecondOld var_name comp).run c).2
  | .coupledSecondOlder var_name comp => ((Moose.coupledSecondOlder var_name comp).run c).2
  | .coupledSecondPreviousNL var_name comp => ((Moose.coupledSecondPreviousNL var_name comp).run c).2
  | .coupledNodalValue var_name comp => ((Moose.coupledNodalValue var_name comp).run c).2
  | .coupledNodalValueOld var_name comp => ((Moose.coupledNodalValueOld var_name comp).run c).2
  | .coupledNodalValueOlder var_name comp => ((Moose.coupledNodalValueOlder var_name comp).run c).2
  | .coupledNodalValuePreviousNL var_name comp => ((Moose.coupledNodalValuePreviousNL var_name comp).run c).2
  | .coupledNodalDot var_name comp => ((Moose.coupledNodalDot var_name comp).run c).2
  | .coupledSolutionDoFs var_name comp => ((Moose.coupledSolutionDoFs var_name comp).run c).2
  | .coupledSolutionDoFsOld var_name comp => ((Moose.coupledSolutionDoFsOld var_name comp).run c).2
  | .coupledSolutionDoFsOlder var_name comp => ((Moose.coupledSolutionDoFsOlder var_name comp).run c).2

/-- The object after a sequence of calls, performed from left to right. -/
def Coupleable.after {R : Type} [CommRing R] (c : Coupleable R) (calls : List Call) :
    Coupleable R :=
  calls.foldl (fun c call => call.perform c) c

/-- What every call leaves in place: `later` is the object `earlier` after any number of
calls.  The configuration, the flags, the recorded scalar variables and the zero arrays are
the same; an entry of `_coupled_vars`, `_optional_var_index` or of a default-value cache
that exists keeps its value; and a key that `_coupled_vars` did not hold is absent or holds
an empty list. -/
structure Coupleable.Extends {R : Type} (earlier later : Coupleable R) : Prop where
  c_parameters : later.c_parameters = earlier.c_parameters
  c_name : later.c_name = earlier.c_name
  c_fe_problem : later.c_fe_problem = earlier.c_fe_problem
  c_nodal : later.c_nodal = earlier.c_nodal
  c_is_implicit : later.c_is_implicit = earlier.c_is_implicit
  coupleable_neighbor : later.coupleable_neighbor = earlier.coupleable_neighbor
  coupleable_max_qps : later.coupleable_max_qps = earlier.coupleable_max_qps
  c_coupled_scalar_vars : later.c_coupled_scalar_vars = earlier.c_coupled_scalar_vars
  coupled_moose_vars : later.coupled_moose_vars = earlier.coupled_moose_vars
  coupled_standard_moose_vars :
    later.coupled_standard_moose_vars = earlier.coupled_standard_moose_vars
  coupled_vector_moose_vars : later.coupled_vector_moose_vars = earlier.coupled_vector_moose_vars
  default_value_zero : later.default_value_zero = earlier.default_value_zero
  default_gradient : later.default_gradient = earlier.default_gradient
  default_second : later.default_second = earlier.default_second
  default_vector_value_zero : later.default_vector_value_zero = earlier.default_vector_value_zero
  default_vector_gradient : later.default_vector_gradient = earlier.default_vector_gradient
  default_vector_curl : later.default_vector_curl = earlier.default_vector_curl
  coupled_vars_some : ∀ k x, earlier.coupled_vars.find k = some x →
    later.coupled_vars.find k = some x
  coupled_vars_none : ∀ k, earlier.coupled_vars.find k = none →
    later.coupled_vars.find k = none ∨ later.coupled_vars.find k = some []
  optional_var_index_some : ∀ k x, earlier.optional_var_index.find k = some x →
    later.optional_var_index.find k = some x
  default_value_some : ∀ k x, earlier.default_value.find k = some x →
    later.default_value.find k = some x
  default_vector_value_some : ∀ k x, earlier.default_vector_value.find k = some x →
    later.default_vector_value.find k = some x

/-- A member function keeps the relation `I` when every run of it, returning or failing,
leaves an object related to the one it started on. -/
def Acc.Keeps {R α : Type} (I : Coupleable R → Coupleable R → Prop) (x : Acc R α) : Prop :=
  ∀ c, I c (x.run c).2

/-- What a call yields once its first part has yielded `r` and left the object `c`: on a
value the rest `k` of the call runs, an error ends the call on `c`. -/
def thenRun {R α β : Type} (r : Except MooseError α) (c : Coupleable R)
    (k : α → Except MooseError β × Coupleable R) : Except MooseError β × Coupleable R :=
  match r with
  | .ok a => k a
  | .error e => (.error e, c)

/-! ## Coupleable: the arrays the object owns -/

/-- The entries of an array an accessor hands out: real values (`VariableValue`), vectors
(`VariableGradient`, `VectorVariableValue`, `VectorVariableCurl`) or tensors
(`VariableSecond`). -/
inductive ArrayData (R : Type) where
  | values (entries : List R)
  | vectors (entries : List (RealVectorValue R))
  | tensors (entries : List (RealTensorValue R))
  deriving DecidableEq, Repr

/-- The entries of the array `ref` refers to, for the arrays the object owns: an entry of
a default-value cache (`none` as long as the entry has not been created) or one of the
zero arrays.  The arrays of a coupled variable are held by the variable, not by the
object. -/
def Coupleable.contents {R : Type} (c : Coupleable R) : ArrayRef → Option (ArrayData R)
  | .var _ _ => none
  | .default_value name => (c.default_value.find name).map .values
  | .default_vector_value name => (c.default_vector_value.find name).map .vectors
  | .default_value_zero => some (.values c.default_value_zero)
  | .default_gradient => some (.vectors c.default_gradient)
  | .default_second => some (.tensors c.default_second)
  | .default_vector_value_zero => some (.vectors c.default_vector_value_zero)
  | .default_vector_curl => some (.vectors c.default_vector_curl)

/-- The default-value caches hold only what `getDefaultValue` and `getVectorDefaultValue`
create: under every key an array of the maximum number of quadrature points, filled with
the default constant of that coupling, respectively with zero vectors. -/
def Coupleable.CacheOk {R : Type} [CommRing R] (c : Coupleable R) : Prop :=
  (∀ k x, c.default_value.find k = some x →
    x = List.replicate c.coupleable_max_qps (c.c_parameters.defaultCoupledValue k)) ∧
  (∀ k x, c.default_vector_value.find k = some x →
    x = List.replicate c.coupleable_max_qps (0, 0, 0))

/-- The relation of an object to a later state of it in which the caches are still as
`CacheOk` says, if they were. -/
def Coupleable.KeepsCache {R : Type} [CommRing R] (earlier later : Coupleable R) : Prop :=
  earlier.CacheOk → later.CacheOk

/-! ## What construction records, in the words of the specification -/

/-- The field handles a list of variable names resolves to: the names the field
registry knows, in listed order. -/
def fieldHandles (problem : Problem) (vars : List String) : List MooseVariableFE :=
  (vars.filter problem.hasVariable).map problem.getVariable

/-- The scalar handles a list of variable names resolves to: the names only the scalar
registry knows, in listed order. -/
def scalarHandles (problem : Problem) (vars : List String) : List MooseVariableScalar :=
  (vars.filter (fun v => !problem.hasVariable v && problem.hasScalarVariable v)).map
    problem.getScalarVariable

/-- A listed variable name that stops construction: a field variable that is neither
standard nor vector typed, or a name in neither registry. -/
def unresolvable (problem : Problem) (v : String) : Bool :=
  if problem.hasVariable v then decide ((problem.getVariable v).fieldType = .unknown)
  else !problem.hasScalarVariable v

/-- The declared coupling names that list no variable: the optional, unsupplied ones. -/
def InputParameters.optionalVars {R : Type} (p : InputParameters R) : List String :=
  p.coupledVars.filter (fun name => decide (p.getVecMooseType name = []))

/-- The size `_optional_var_index` has when the index of its `k`-th entry (from 0) is
computed. -/
def AssignOrder.sizeSeen (order : AssignOrder) (k : Nat) : Nat :=
  match order with
  | .rhsFirst => k
  | .lhsFirst => k + 1

/-- The entries `_optional_var_index` gains for the optional names `names`, the first of
them being entry number `k` of the map. -/
def sentinelEntries (order : AssignOrder) : Nat → List String → List (String × Nat)
  | _, [] => []
  | k, name :: names =>
    (name, optionalIndex (order.sizeSeen k)) :: sentinelEntries order (k + 1) names

/-- The members the coupling loop of the constructor never writes. -/
structure Coupleable.SameConfig {R : Type} (c c' : Coupleable R) : Prop where
  c_parameters : c'.c_parameters = c.c_parameters
  c_name : c'.c_name = c.c_name
  c_fe_problem : c'.c_fe_problem = c.c_fe_problem
  needs_previous_newton_iteration :
    c'.needs_previous_newton_iteration = c.needs_previous_newton_iteration
  c_nodal : c'.c_nodal = c.c_nodal
  c_is_implicit : c'.c_is_implicit = c.c_is_implicit
  coupleable_neighbor : c'.coupleable_neighbor = c.coupleable_neighbor
  coupleable_max_qps : c'.coupleable_max_qps = c.coupleable_max_qps
  default_value : c'.default_value = c.default_value
  default_vector_value : c'.default_vector_value = c.default_vector_value
  callbacks : c'.callbacks = c.callbacks

/-! ## Concrete inputs -/

/-- A field variable with the given name, number, kind, continuity and type. -/
def sampleField (name : String) (number : Nat) (kind : VarKindType) (isNodal : Bool)
    (fieldType : FieldType) : MooseVariableFE :=
  { name := name, number := number, kind := kind, isNodal := isNodal, fieldType := fieldType,
    phiSize := 2, sys := 1, dofIndices := [3, 5] }

/-- An element state over the integers: two quadrature points, two test and two trial
functions, blocks of size two, and one save-in target of each kind. -/
def sampleKernel : KernelValue ℤ :=
  { residualBlock := fun _ => { size := 2, entry := fun i => if i = 0 then 10 else 20 }
    jacobianBlock := fun _ _ => { m := 2, n := 2, entry := fun i j => (i : ℤ) + 2 * j }
    var := sampleField "u" 0 .VAR_NONLINEAR true .standard
    local_re := { size := 0, entry := fun _ => 99 }
    local_ke := { m := 0, n := 0, entry := fun _ _ => 99 }
    n_points := 2
    JxW := fun qp => if qp = 0 then 1 else 2
    coord := fun _ => 3
    test_size := 2
    test := fun i qp => (i : ℤ) + qp + 1
    phi_size := 2
    has_save_in := true
    save_in := [sampleField "s" 0 .VAR_AUXILIARY true .standard]
    has_diag_save_in := true
    diag_save_in := [sampleField "d" 1 .VAR_AUXILIARY true .standard]
    solution := fun _ _ => 0 }

/-- Per-point functions of a sample kernel. -/
def sampleQp : QpFunctions ℤ :=
  { precomputeQpResidual := fun qp => (qp : ℤ) + 1
    precomputeQpJacobian := fun qp j => (qp : ℤ) + j + 1
    computeQpOffDiagJacobian := fun jvar i j qp => (jvar : ℤ) + i + j + qp }

/-- A registry with the field variables `aux0`, `aux1` (auxiliary, numbers 0 and 1), `nl0`
(primary, number 0, nodal) and `nl1` (primary, number 1, elemental, vector typed), and the
scalar variable `sc`. -/
def sampleProblem : Problem :=
  { hasVariable := fun n => n = "aux0" || n = "aux1" || n = "nl0" || n = "nl1"
    getVariable := fun n =>
      if n = "aux0" then sampleField "aux0" 0 .VAR_AUXILIARY true .standard
      else if n = "aux1" then sampleField "aux1" 1 .VAR_AUXILIARY true .standard
      else if n = "nl0" then sampleField "nl0" 0 .VAR_NONLINEAR true .standard
      else sampleField "nl1" 1 .VAR_NONLINEAR false .vector
    hasScalarVariable := fun n => n = "sc"
    getScalarVariable := fun n => { name := n, number := 0 }
    isTransient := true
    getMaxQps := 3 }

/-- The parameters of an object that declares the couplings `a` and `b` (optional, left
unsupplied), `s` (the scalar variable `sc`), `u` (`aux1`), `v` (`nl0` and `nl1`) and `w`
(`aux0`). -/
def sampleParams : InputParameters ℤ :=
  { object_name := "obj"
    coupledVars := ["a", "b", "s", "u", "v", "w"]
    coupledVars_nodup := by decide
    getVecMooseType := fun n =>
      if n = "s" then ["sc"] else if n = "u" then ["aux1"]
      else if n = "v" then ["nl0", "nl1"] else if n = "w" then ["aux0"] else []
    defaultCoupledValue := fun _ => 7
    implicit := none
    neighbor := none }

/-- The object built from `sampleParams` on `sampleProblem`. -/
def sampleObject (order : AssignOrder) (nodal : Bool) : Coupleable ℤ :=
  match Coupleable.construct order sampleParams sampleProblem nodal false with
  | .ok c => c
  | .error _ => Coupleable.init sampleParams sampleProblem nodal false

/-- The registry of `sampleProblem` under a steady executioner. -/
def sampleSteadyProblem : Problem :=
  { sampleProblem with isTransient := false }

/-- The object built from `sampleParams` on `sampleSteadyProblem`. -/
def sampleSteadyObject (nodal : Bool) : Coupleable ℤ :=
  match Coupleable.construct .rhsFirst sampleParams sampleSteadyProblem nodal false with
  | .ok c => c
  | .error _ => Coupleable.init sampleParams sampleSteadyProblem nodal false

/-- The parameters `sampleParams` of an object with an explicit time scheme. -/
def sampleExplicitParams : InputParameters ℤ :=
  { sampleParams with implicit := some false }

/-- The object built from `sampleExplicitParams` on `sampleProblem`. -/
def sampleExplicitObject (nodal : Bool) : Coupleable ℤ :=
  match Coupleable.construct .rhsFirst sampleExplicitParams sampleProblem nodal false with
  | .ok c => c
  | .error _ => Coupleable.init sampleExplicitParams sampleProblem nodal false

/-- Per-point functions of a kernel whose per-point residual is zero and which keeps the
default `precomputeQpJacobian`. -/
def sampleDefaultQp : QpFunctions ℤ :=
  { precomputeQpResidual := fun _ => 0
    precomputeQpJacobian := precomputeQpJacobian
    computeQpOffDiagJacobian := fun _ _ _ _ => 0 }

/-- The object built from `sampleParams` with the given neighbor flag on `sampleProblem`. -/
def sampleNeighborObject (neighbor : Option Bool) (nodal : Bool) : Coupleable ℤ :=
  match Coupleable.construct .rhsFirst { sampleParams with neighbor := neighbor } sampleProblem
      nodal false with
  | .ok c => c
  | .error _ => Coupleable.init { sampleParams with neighbor := neighbor } sampleProblem nodal false

/-- The sample element state with blocks of one row and two columns. -/
def sampleOneRowKernel : KernelValue ℤ :=
  { sampleKernel with
    jacobianBlock := fun _ _ => { m := 1, n := 2, entry := fun i j => (i : ℤ) + 2 * j } }

/-- A save-in target with three degree-of-freedom indices, 3, 5 and 7, in system 1. -/
def sampleLongTarget : MooseVariableFE :=
  { sampleField "s" 0 .VAR_AUXILIARY true .standard with dofIndices := [3, 5, 7] }

/-- A save-in target whose two degree-of-freedom indices are both 3, in system 1. -/
def sampleRepeatTarget : MooseVariableFE :=
  { sampleField "s" 0 .VAR_AUXILIARY true .standard with dofIndices := [3, 3] }

/-- The registry of `sampleProblem` with one more field variable, `el0` (auxiliary, number
2, elemental, standard). -/
def sampleWideProblem : Problem :=
  { sampleProblem with
    hasVariable := fun n => n = "el0" || sampleProblem.hasVariable n
    getVariable := fun n =>
      if n = "el0" then sampleField "el0" 2 .VAR_AUXILIARY false .standard
      else sampleProblem.getVariable n }

/-- The parameters of an object that declares the couplings `e` (the elemental variable
`el0`), `m` (the field variable `nl0` and the scalar variable `sc`) and `u` (`aux1`), with
the given `implicit` and neighbor flags. -/
def sampleWideParams (implicit neighbor : Option Bool) : InputParameters ℤ :=
  { object_name := "obj"
    coupledVars := ["e", "m", "u"]
    coupledVars_nodup := by decide
    getVecMooseType := fun n =>
      if n = "e" then ["el0"] else if n = "m" then ["nl0", "sc"]
      else if n = "u" then ["aux1"] else []
    defaultCoupledValue := fun _ => 7
    implicit := implicit
    neighbor := neighbor }

/-- The object built from `sampleWideParams` on `sampleWideProblem`. -/
def sampleWideObject (implicit neighbor : Option Bool) (nodal : Bool) : Coupleable ℤ :=
  match Coupleable.construct .rhsFirst (sampleWideParams implicit neighbor) sampleWideProblem
      nodal false with
  | .ok c => c
  | .error _ => Coupleable.init (sampleWideParams implicit neighbor) sampleWideProblem nodal false

/-! ## Loop lemmas for the residual -/

theorem Run.localReAdd_eq {R : Type} [CommRing R] (r : Run R) (i : Nat) (x : R)
    (ha : r.aborted = false) (hi : i < r.st.local_re.size) :
    r.localReAdd i x =
      r.withLocalRe (Function.update r.st.local_re.entry i (r.st.local_re.entry i + x)) := by
  simp [Run.localReAdd, ha, hi, Run.withLocalRe, DenseVector.addAt]

theorem Run.residual_inner {R : Type} [CommRing R] (g : Nat → R) (n : Nat) (r : Run R)
    (ha : r.aborted = false) (hn : n ≤ r.st.local_re.size) :
    (List.range n).foldl (fun r i => r.localReAdd i (g i)) r =
      r.withLocalRe (fun i => if i < n then r.st.local_re.entry i + g i
                              else r.st.local_re.entry i) := by
  induction n with
  | zero => simp [Run.withLocalRe]
  | succ k ih =>
    rw [List.range_succ, List.foldl_append, ih (Nat.le_of_succ_le hn)]
    simp only [List.foldl_cons, List.foldl_nil]
    rw [Run.localReAdd_eq _ _ _ (by simpa [Run.withLocalRe] using ha)
      (by simp only [Run.withLocalRe]; omega)]
    simp only [Run.withLocalRe]
    congr 3
    funext i
    by_cases h : i = k
    · subst h; simp
    · have : (i < k + 1) = (i < k) := by
        apply propext; omega
      simp [Function.update_apply, h, this]

theorem Run.residual_outer {R : Type} [CommRing R] (v : Nat → R) (t : Nat → Nat → R)
    (n q : Nat) (r : Run R) (ha : r.aborted = false) (hn : n ≤ r.st.local_re.size) :
    (List.range q).foldl
        (fun r qp => (List.range n).foldl (fun r i => r.localReAdd i (v qp * t i qp)) r) r =
      r.withLocalRe (fun i => if i < n then
          r.st.local_re.entry i + ∑ qp in Finset.range q, v qp * t i qp
        else r.st.local_re.entry i) := by
  induction q with
  | zero => simp [Run.withLocalRe]
  | succ k ih =>
    rw [List.range_succ, List.foldl_append, ih]
    simp only [List.foldl_cons, List.foldl_nil]
    rw [Run.residual_inner _ _ _ (by simpa [Run.withLocalRe] using ha)
      (by simpa [Run.withLocalRe] using hn)]
    simp only [Run.withLocalRe]
    congr 3
    funext i
    by_cases h : i < n
    · simp [h, Finset.sum_range_succ, add_assoc]
    · simp [h]

/-- The save-in scatter writes solution vectors only. -/
theorem Run.addVector_frame {R : Type} [CommRing R] (w : Run R → DenseVector R)
    (l : List MooseVariableFE) (r : Run R) :
    (l.foldl (fun r var => r.addVector (w r) var) r).st.local_re = r.st.local_re ∧
    (l.foldl (fun r var => r.addVector (w r) var) r).st.local_ke = r.st.local_ke ∧
    (l.foldl (fun r var => r.addVector (w r) var) r).st.residualBlock = r.st.residualBlock ∧
    (l.foldl (fun r var => r.addVector (w r) var) r).st.jacobianBlock = r.st.jacobianBlock := by
  induction l generalizing r with
  | nil => simp
  | cons a l ih =>
    simp only [List.foldl_cons]
    obtain ⟨h1, h2, h3, h4⟩ := ih (r.addVector (w r) a)
    rw [h1, h2, h3, h4]
    unfold Run.addVector
    split_ifs <;> simp

/-- The save-in scatter of the residual aborts exactly when the run had aborted or a
target has a number of degree-of-freedom indices other than the size of the buffer. -/
theorem Run.addVector_aborted {R : Type} [CommRing R] (l : List MooseVariableFE) (r : Run R) :
    (l.foldl (fun r var => r.addVector r.st.local_re var) r).aborted =
      (r.aborted || l.any (fun var => decide (r.st.local_re.size ≠ var.dofIndices.length))) := by
  induction l generalizing r with
  | nil => simp
  | cons a l ih =>
    simp only [List.foldl_cons, List.any_cons]
    rw [ih]
    unfold Run.addVector
    by_cases ha : r.aborted = true
    · simp [ha]
    · by_cases hs : r.st.local_re.size = a.dofIndices.length
      · simp [ha, hs]
      · simp [ha, hs]

/-- The run of `computeResidual` up to and including `re += _local_re`, in closed form,
when the residual block has at least as many entries as there are test functions. -/
theorem computeResidual_unfold {R : Type} [CommRing R] (f : QpFunctions R) (s : KernelValue R)
    (h : s.test_size ≤ (s.residualBlock s.var.number).size) :
    ∃ r2 : Run R,
      r2.aborted = false ∧
      r2.st.local_re.size = (s.residualBlock s.var.number).size ∧
      (∀ i, r2.st.local_re.entry i = if i < s.test_size then
          ∑ qp in Finset.range s.n_points,
            f.precomputeQpResidual qp * s.JxW qp * s.coord qp * s.test i qp
        else 0) ∧
      r2.st.residualBlock s.var.number =
        (s.residualBlock s.var.number).addVec r2.st.local_re ∧
      computeResidual f s =
        if s.has_save_in then s.save_in.foldl (fun r var => r.addVector r.st.local_re var) r2
        else r2 := by
  have key := Run.residual_outer
    (fun qp => f.precomputeQpResidual qp * s.JxW qp * s.coord qp) s.test s.test_size s.n_points
    { st := { s with local_re := DenseVector.zeroed (s.residualBlock s.var.number).size },
      aborted := false } rfl (by simpa [DenseVector.zeroed] using h)
  simp only [DenseVector.zeroed, zero_add] at key
  refine ⟨(Run.withLocalRe
      { st := { s with local_re := DenseVector.zeroed (s.residualBlock s.var.number).size },
        aborted := false }
      (fun i => if i < s.test_size then
          ∑ qp in Finset.range s.n_points,
            f.precomputeQpResidual qp * s.JxW qp * s.coord qp * s.test i qp
        else 0)).residualAddLocal s.var.number, ?_, ?_, ?_, ?_, ?_⟩
  · simp [Run.residualAddLocal, Run.withLocalRe, DenseVector.zeroed]
  · simp [Run.residualAddLocal, Run.withLocalRe, DenseVector.zeroed, KernelValue.setResidualBlock]
  · intro i
    simp [Run.residualAddLocal, Run.withLocalRe, DenseVector.zeroed, KernelValue.setResidualBlock]
  · simp [Run.residualAddLocal, Run.withLocalRe, DenseVector.zeroed, KernelValue.setResidualBlock]
  · simp only [computeResidual, DenseVector.zeroed]
    rw [key]

/-- C1. `KernelValue::computeResidual`: in every element state whose residual block of
the kernel's variable has exactly as many entries as there are test functions, after
the call `_local_re(i)` is the sum over the quadrature points of
`precomputeQpResidual(qp) * JxW[qp] * coord[qp] * test[i][qp]`, the residual block has
grown by exactly that vector, and for a constant per-point residual `c` on a block of
zeros entry `i` ends as `c * sum_qp JxW[qp] * coord[qp] * test[i][qp]`.  The sizes of
the buffer and the block are those of the block before the call, and the call aborts
only inside the save-in scatter, on a target whose index list has another length. -/
theorem computeResidual_spec {R : Type} [CommRing R] (f : QpFunctions R) (s : KernelValue R)
    (h : (s.residualBlock s.var.number).size = s.test_size) :
    (∀ i, i < s.test_size →
      (computeResidual f s).st.local_re.entry i =
        ∑ qp in Finset.range s.n_points,
          f.precomputeQpResidual qp * s.JxW qp * s.coord qp * s.test i qp) ∧
    (∀ i, i < s.test_size →
      ((computeResidual f s).st.residualBlock s.var.number).entry i =
        (s.residualBlock s.var.number).entry i + (computeResidual f s).st.local_re.entry i) ∧
    (∀ c : R, (∀ qp, f.precomputeQpResidual qp = c) →
      (∀ i, i < s.test_size → (s.residualBlock s.var.number).entry i = 0) →
      ∀ i, i < s.test_size →
        ((computeResidual f s).st.residualBlock s.var.number).entry i =
          c * ∑ qp in Finset.range s.n_points, s.JxW qp * s.coord qp * s.test i qp) ∧
    (computeResidual f s).st.local_re.size = s.test_size ∧
    ((computeResidual f s).st.residualBlock s.var.number).size = s.test_size ∧
    ((computeResidual f s).aborted = true ↔
      s.has_save_in = true ∧ ∃ var ∈ s.save_in, var.dofIndices.length ≠ s.test_size) := by
  obtain ⟨r2, ha, hsz, hent, hblk, heq⟩ := computeResidual_unfold f s (le_of_eq h.symm)
  have hfr := Run.addVector_frame (fun r => r.st.local_re) s.save_in r2
  have hab := Run.addVector_aborted s.save_in r2
  have hloc : (computeResidual f s).st.local_re = r2.st.local_re := by
    rw [heq]; split_ifs
    · exact hfr.1
    · rfl
  have hres : (computeResidual f s).st.residualBlock = r2.st.residualBlock := by
    rw [heq]; split_ifs
    · exact hfr.2.2.1
    · rfl
  have hsum : ∀ i, i < s.test_size →
      ((computeResidual f s).st.residualBlock s.var.number).entry i =
        (s.residualBlock s.var.number).entry i +
          ∑ qp in Finset.range s.n_points,
            f.precomputeQpResidual qp * s.JxW qp * s.coord qp * s.test i qp := by
    intro i hi
    rw [hres, hblk]
    simp [DenseVector.addVec, hent, hi, h]
  refine ⟨?_, ?_, ?_, ?_, ?_, ?_⟩
  · intro i hi
    rw [hloc, hent]; simp [hi]
  · intro i hi
    rw [hsum i hi, hloc, hent]; simp [hi]
  · intro c hc hz i hi
    rw [hsum i hi, hz i hi, zero_add, Finset.mul_sum]
    refine Finset.sum_congr rfl (fun qp _ => ?_)
    rw [hc qp]; ring
  · rw [hloc, hsz, h]
  · rw [hres, hblk]; simpa [DenseVector.addVec] using h
  · rw [heq]
    by_cases hs : s.has_save_in = true
    · simp only [hs, if_true, hab, ha, Bool.false_or, List.any_eq_true, decide_eq_true_eq,
        true_and, hsz, h]
      constructor
      · rintro ⟨v, hv, hne⟩; exact ⟨v, hv, fun e => hne e.symm⟩
      · rintro ⟨v, hv, hne⟩; exact ⟨v, hv, fun e => hne e.symm⟩
    · simp [hs, ha]

/-! ## Loop lemmas for the diagonal Jacobian -/

theorem Run.localKeAdd_eq {R : Type} [CommRing R] (r : Run R) (i j : Nat) (x : R)
    (ha : r.aborted = false) (hi : i < r.st.local_ke.m) (hj : j < r.st.local_ke.n) :
    r.localKeAdd i j x =
      r.withLocalKe (Function.update r.st.local_ke.entry i
        (Function.update (r.st.local_ke.entry i) j (r.st.local_ke.entry i j + x))) := by
  simp [Run.localKeAdd, ha, hi, hj, Run.withLocalKe, DenseMatrix.addAt]

theorem Run.jacobian_inner {R : Type} [CommRing R] (g : Nat → R) (j n : Nat) (r : Run R)
    (ha : r.aborted = false) (hn : n ≤ r.st.local_ke.m) (hj : j < r.st.local_ke.n) :
    (List.range n).foldl (fun r i => r.localKeAdd i j (g i)) r =
      r.withLocalKe (fun a b => if a < n ∧ b = j then r.st.local_ke.entry a b + g a
                                else r.st.local_ke.entry a b) := by
  induction n with
  | zero => simp [Run.withLocalKe]
  | succ k ih =>
    rw [List.range_succ, List.foldl_append, ih (Nat.le_of_succ_le hn)]
    simp only [List.foldl_cons, List.foldl_nil]
    rw [Run.localKeAdd_eq _ _ _ _ (by simpa [Run.withLocalKe] using ha)
      (by simp only [Run.withLocalKe]; omega) (by simpa [Run.withLocalKe] using hj)]
    simp only [Run.withLocalKe]
    congr 3
    funext a b
    by_cases h : a = k
    · subst h
      by_cases hb : b = j
      · subst hb; simp
      · simp [Function.update_apply, hb]
    · have : (a < k + 1) = (a < k) := by
        apply propext; omega
      simp [Function.update_apply, h, this]

theorem Run.jacobian_mid {R : Type} [CommRing R] (v : Nat → R) (t : Nat → R) (n p : Nat)
    (r : Run R) (ha : r.aborted = false) (hn : n ≤ r.st.local_ke.m)
    (hp : p ≤ r.st.local_ke.n) :
    (List.range p).foldl
        (fun r j => (List.range n).foldl (fun r i => r.localKeAdd i j (v j * t i)) r) r =
      r.withLocalKe (fun a b => if a < n ∧ b < p then r.st.local_ke.entry a b + v b * t a
                                else r.st.local_ke.entry a b) := by
  induction p with
  | zero => simp [Run.withLocalKe]
  | succ k ih =>
    rw [List.range_succ, List.foldl_append, ih (Nat.le_of_succ_le hp)]
    simp only [List.foldl_cons, List.foldl_nil]
    rw [Run.jacobian_inner _ _ _ _ (by simpa [Run.withLocalKe] using ha)
      (by simpa [Run.withLocalKe] using hn) (by simp only [Run.withLocalKe]; omega)]
    simp only [Run.withLocalKe]
    congr 3
    funext a b
    by_cases h : b = k
    · subst h; simp
    · have : (b < k + 1) = (b < k) := by
        apply propext; omega
      simp [h, this]

theorem Run.jacobian_outer {R : Type} [CommRing R] (v : Nat → Nat → R) (t : Nat → Nat → R)
    (n p q : Nat) (r : Run R) (ha : r.aborted = false) (hn : n ≤ r.st.local_ke.m)
    (hp : p ≤ r.st.local_ke.n) :
    (List.range q).foldl
        (fun r qp => (List.range p).foldl
          (fun r j => (List.range n).foldl
            (fun r i => r.localKeAdd i j (v qp j * t i qp)) r) r) r =
      r.withLocalKe (fun a b => if a < n ∧ b < p then
          r.st.local_ke.entry a b + ∑ qp in Finset.range q, v qp b * t a qp
        else r.st.local_ke.entry a b) := by
  induction q with
  | zero => simp [Run.withLocalKe]
  | succ k ih =>
    rw [List.range_succ, List.foldl_append, ih]
    simp only [List.foldl_cons, List.foldl_nil]
    rw [Run.jacobian_mid (fun j => v k j) (fun i => t i k) _ _ _
      (by simpa [Run.withLocalKe] using ha) (by simpa [Run.withLocalKe] using hn)
      (by simpa [Run.withLocalKe] using hp)]
    simp only [Run.withLocalKe]
    congr 3
    funext a b
    by_cases h : a < n ∧ b < p
    · simp [h, Finset.sum_range_succ, add_assoc]
    · simp [h]

theorem Run.extractDiag_fold {R : Type} [CommRing R] (r : Run R) (z : DenseVector R) (k : Nat) :
    ((List.range k).foldl
      (fun (p : Run R × DenseVector R) i =>
        if p.1.aborted then p
        else if i < p.1.st.local_ke.m ∧ i < p.1.st.local_ke.n then
          (p.1, { p.2 with entry := Function.update p.2.entry i (p.1.st.local_ke.entry i i) })
        else ({ p.1 with aborted := true }, p.2))
      (r, z)).1.st = r.st ∧
    ((List.range k).foldl
      (fun (p : Run R × DenseVector R) i =>
        if p.1.aborted then p
        else if i < p.1.st.local_ke.m ∧ i < p.1.st.local_ke.n then
          (p.1, { p.2 with entry := Function.update p.2.entry i (p.1.st.local_ke.entry i i) })
        else ({ p.1 with aborted := true }, p.2))
      (r, z)).2.size = z.size ∧
    ((List.range k).foldl
      (fun (p : Run R × DenseVector R) i =>
        if p.1.aborted then p
        else if i < p.1.st.local_ke.m ∧ i < p.1.st.local_ke.n then
          (p.1, { p.2 with entry := Function.update p.2.entry i (p.1.st.local_ke.entry i i) })
        else ({ p.1 with aborted := true }, p.2))
      (r, z)).1.aborted =
      (r.aborted || !decide (k ≤ r.st.local_ke.m ∧ k ≤ r.st.local_ke.n)) := by
  induction k with
  | zero => simp
  | succ k ih =>
    rw [List.range_succ, List.foldl_append]
    simp only [List.foldl_cons, List.foldl_nil]
    obtain ⟨h1, h2, h3⟩ := ih
    split_ifs with ha hb
    · refine ⟨h1, h2, ?_⟩
      rw [h3] at ha ⊢
      rcases Bool.or_eq_true _ _ |>.mp ha with h | h
      · simp [h]
      · simp only [Bool.not_eq_true', decide_eq_false_iff_not] at h
        have h' : ¬ (k + 1 ≤ r.st.local_ke.m ∧ k + 1 ≤ r.st.local_ke.n) := by
          intro hc; exact h ⟨by omega, by omega⟩
        rw [decide_eq_false h, decide_eq_false h']
    · refine ⟨h1, h2, ?_⟩
      rw [h3] at ha
      simp only [Bool.or_eq_true, Bool.not_eq_true', decide_eq_false_iff_not, not_or,
        Bool.not_eq_true, not_not] at ha
      rw [h1] at hb
      have h' : k + 1 ≤ r.st.local_ke.m ∧ k + 1 ≤ r.st.local_ke.n := ⟨by omega, by omega⟩
      rw [h3, decide_eq_true ha.2, decide_eq_true h']
    · refine ⟨h1, h2, ?_⟩
      rw [h1] at hb
      have h' : ¬ (k + 1 ≤ r.st.local_ke.m ∧ k + 1 ≤ r.st.local_ke.n) := by
        intro hc; exact hb ⟨by omega, by omega⟩
      rw [decide_eq_false h']
      simp

/-- Extracting the diagonal never writes the state; it aborts exactly when the run had
aborted or a diagonal index below `rows` lies outside `_local_ke`. -/
theorem Run.extractDiag_spec {R : Type} [CommRing R] (r : Run R) (rows : Nat) :
    (r.extractDiag rows).1.st = r.st ∧
    (r.extractDiag rows).2.size = rows ∧
    (r.extractDiag rows).1.aborted =
      (r.aborted || !decide (rows ≤ r.st.local_ke.m ∧ rows ≤ r.st.local_ke.n)) :=
  Run.extractDiag_fold r (DenseVector.zeroed rows) rows

/-- The scatter of a fixed vector aborts exactly when the run had aborted or a target
has a number of degree-of-freedom indices other than the size of the vector. -/
theorem Run.addVector_const_aborted {R : Type} [CommRing R] (d : DenseVector R)
    (l : List MooseVariableFE) (r : Run R) :
    (l.foldl (fun r var => r.addVector d var) r).aborted =
      (r.aborted || l.any (fun var => decide (d.size ≠ var.dofIndices.length))) := by
  induction l generalizing r with
  | nil => simp
  | cons a l ih =>
    simp only [List.foldl_cons, List.any_cons]
    rw [ih]
    unfold Run.addVector
    by_cases ha : r.aborted = true
    · simp [ha]
    · by_cases hs : d.size = a.dofIndices.length
      · simp [ha, hs]
      · simp [ha, hs]

/-- The run of `computeJacobian` up to and including `ke += _local_ke`, in closed form,
when the diagonal block has at least `n_test` rows and `_phi.size()` columns. -/
theorem computeJacobian_unfold {R : Type} [CommRing R] (f : QpFunctions R) (s : KernelValue R)
    (hm : s.test_size ≤ (s.jacobianBlock s.var.number s.var.number).m)
    (hn : s.phi_size ≤ (s.jacobianBlock s.var.number s.var.number).n) :
    ∃ r2 : Run R,
      r2.aborted = false ∧
      r2.st.local_ke.m = (s.jacobianBlock s.var.number s.var.number).m ∧
      r2.st.local_ke.n = (s.jacobianBlock s.var.number s.var.number).n ∧
      (∀ a b, r2.st.local_ke.entry a b = if a < s.test_size ∧ b < s.phi_size then
          ∑ qp in Finset.range s.n_points,
            f.precomputeQpJacobian qp b * s.JxW qp * s.coord qp * s.test a qp
        else 0) ∧
      r2.st.jacobianBlock s.var.number s.var.number =
        (s.jacobianBlock s.var.number s.var.number).addMat r2.st.local_ke ∧
      computeJacobian f s =
        if s.has_diag_save_in then
          s.diag_save_in.foldl
            (fun r var => r.addVector
              (r2.extractDiag (r2.st.jacobianBlock s.var.number s.var.number).m).2 var)
            (r2.extractDiag (r2.st.jacobianBlock s.var.number s.var.number).m).1
        else r2 := by
  have key := Run.jacobian_outer
    (fun qp j => f.precomputeQpJacobian qp j * s.JxW qp * s.coord qp) s.test s.test_size
    s.phi_size s.n_points (KernelValue.startJacobian s) rfl
    (by simpa [KernelValue.startJacobian, DenseMatrix.zeroed] using hm)
    (by simpa [KernelValue.startJacobian, DenseMatrix.zeroed] using hn)
  simp only [KernelValue.startJacobian, DenseMatrix.zeroed, zero_add] at key
  refine ⟨((KernelValue.startJacobian s).withLocalKe
      (fun a b => if a < s.test_size ∧ b < s.phi_size then
          ∑ qp in Finset.range s.n_points,
            f.precomputeQpJacobian qp b * s.JxW qp * s.coord qp * s.test a qp
        else 0)).jacobianAddLocal s.var.number s.var.number, ?_, ?_, ?_, ?_, ?_, ?_⟩
  · simp [Run.jacobianAddLocal, Run.withLocalKe, DenseMatrix.zeroed,
      KernelValue.startJacobian]
  · simp [Run.jacobianAddLocal, Run.withLocalKe, DenseMatrix.zeroed,
      KernelValue.setJacobianBlock, KernelValue.startJacobian]
  · simp [Run.jacobianAddLocal, Run.withLocalKe, DenseMatrix.zeroed,
      KernelValue.setJacobianBlock, KernelValue.startJacobian]
  · intro a b
    simp [Run.jacobianAddLocal, Run.withLocalKe, DenseMatrix.zeroed,
      KernelValue.setJacobianBlock, KernelValue.startJacobian]
  · simp [Run.jacobianAddLocal, Run.withLocalKe, DenseMatrix.zeroed,
      KernelValue.setJacobianBlock, KernelValue.startJacobian]
  · simp only [computeJacobian, DenseMatrix.zeroed, KernelValue.startJacobian]
    rw [key]

/-- C2. `KernelValue::computeJacobian`: in every element state whose diagonal Jacobian
block of the kernel's variable is `n_test x n_phi`, after the call `_local_ke(i, j)` is
the sum over the quadrature points of
`precomputeQpJacobian(qp, j) * JxW[qp] * coord[qp] * test[i][qp]` for every test index
`i` and trial index `j`, and the diagonal block has grown entrywise by exactly that
matrix.  The shapes of the buffer and the block are those of the block before the call,
and the call aborts only in the diagonal save-in part: when the block has more rows
than columns or a target's index list has a length other than the number of rows. -/
theorem computeJacobian_spec {R : Type} [CommRing R] (f : QpFunctions R) (s : KernelValue R)
    (hm : (s.jacobianBlock s.var.number s.var.number).m = s.test_size)
    (hn : (s.jacobianBlock s.var.number s.var.number).n = s.phi_size) :
    (∀ i j, i < s.test_size → j < s.phi_size →
      (computeJacobian f s).st.local_ke.entry i j =
        ∑ qp in Finset.range s.n_points,
          f.precomputeQpJacobian qp j * s.JxW qp * s.coord qp * s.test i qp) ∧
    (∀ i j, i < s.test_size → j < s.phi_size →
      ((computeJacobian f s).st.jacobianBlock s.var.number s.var.number).entry i j =
        (s.jacobianBlock s.var.number s.var.number).entry i j +
          (computeJacobian f s).st.local_ke.entry i j) ∧
    (computeJacobian f s).st.local_ke.m = s.test_size ∧
    (computeJacobian f s).st.local_ke.n = s.phi_size ∧
    ((computeJacobian f s).st.jacobianBlock s.var.number s.var.number).m = s.test_size ∧
    ((computeJacobian f s).st.jacobianBlock s.var.number s.var.number).n = s.phi_size ∧
    ((computeJacobian f s).aborted = true ↔
      s.has_diag_save_in = true ∧
        (s.phi_size < s.test_size ∨
          ∃ var ∈ s.diag_save_in, var.dofIndices.length ≠ s.test_size)) := by
  obtain ⟨r2, ha, hlm, hln, hent, hblk, heq⟩ :=
    computeJacobian_unfold f s (le_of_eq hm.symm) (le_of_eq hn.symm)
  obtain ⟨hd1, hd2, hd3⟩ :=
    Run.extractDiag_spec r2 (r2.st.jacobianBlock s.var.number s.var.number).m
  have hfr := Run.addVector_frame
    (fun _ => (r2.extractDiag (r2.st.jacobianBlock s.var.number s.var.number).m).2)
    s.diag_save_in (r2.extractDiag (r2.st.jacobianBlock s.var.number s.var.number).m).1
  have hab := Run.addVector_const_aborted
    (r2.extractDiag (r2.st.jacobianBlock s.var.number s.var.number).m).2
    s.diag_save_in (r2.extractDiag (r2.st.jacobianBlock s.var.number s.var.number).m).1
  have hloc : (computeJacobian f s).st.local_ke = r2.st.local_ke := by
    rw [heq]; split_ifs
    · rw [hfr.2.1, hd1]
    · rfl
  have hjac : (computeJacobian f s).st.jacobianBlock = r2.st.jacobianBlock := by
    rw [heq]; split_ifs
    · rw [hfr.2.2.2, hd1]
    · rfl
  have hrows : (r2.st.jacobianBlock s.var.number s.var.number).m = s.test_size := by
    rw [hblk]; simpa [DenseMatrix.addMat] using hm
  refine ⟨?_, ?_, ?_, ?_, ?_, ?_, ?_⟩
  · intro i j hi hj
    rw [hloc, hent]; simp [hi, hj]
  · intro i j hi hj
    rw [hjac, hblk, hloc]
    simp [DenseMatrix.addMat, hi, hj, hm, hn]
  · rw [hloc, hlm, hm]
  · rw [hloc, hln, hn]
  · rw [hjac]; exact hrows
  · rw [hjac, hblk]; simpa [DenseMatrix.addMat] using hn
  · rw [heq]
    by_cases hs : s.has_diag_save_in = true
    · rw [if_pos hs, hab, hd3, ha, hd2, hrows, hlm, hln, hm, hn]
      simp only [hs, Bool.false_or, true_and, Bool.or_eq_true, Bool.not_eq_true',
        decide_eq_false_iff_not, List.any_eq_true, decide_eq_true_eq]
      constructor
      · rintro (h | ⟨v, hv, hne⟩)
        · left; omega
        · right; exact ⟨v, hv, fun e => hne e.symm⟩
      · rintro (h | ⟨v, hv, hne⟩)
        · left; omega
        · right; exact ⟨v, hv, fun e => hne e.symm⟩
    · simp [hs, ha]

/-! ## Loop lemmas for the off-diagonal Jacobian -/

theorem Run.withBlock_aborted {R : Type} (r : Run R) (ivar jvar : Nat) (e : Nat → Nat → R) :
    (r.withBlock ivar jvar e).aborted = r.aborted := rfl

theorem Run.withBlock_block {R : Type} (r : Run R) (ivar jvar : Nat) (e : Nat → Nat → R) :
    (r.withBlock ivar jvar e).st.jacobianBlock ivar jvar =
      { r.st.jacobianBlock ivar jvar with entry := e } := by
  simp [Run.withBlock, KernelValue.setJacobianBlock]

theorem Run.withBlock_withBlock {R : Type} (r : Run R) (ivar jvar : Nat)
    (e e' : Nat → Nat → R) :
    (r.withBlock ivar jvar e).withBlock ivar jvar e' = r.withBlock ivar jvar e' := by
  simp [Run.withBlock, KernelValue.setJacobianBlock]

theorem Run.blockAdd_eq {R : Type} [CommRing R] (r : Run R) (ivar jvar i j : Nat) (x : R)
    (ha : r.aborted = false) (hi : i < (r.st.jacobianBlock ivar jvar).m)
    (hj : j < (r.st.jacobianBlock ivar jvar).n) :
    r.blockAdd ivar jvar i j x =
      r.withBlock ivar jvar (Function.update (r.st.jacobianBlock ivar jvar).entry i
        (Function.update ((r.st.jacobianBlock ivar jvar).entry i) j
          ((r.st.jacobianBlock ivar jvar).entry i j + x))) := by
  simp [Run.blockAdd, ha, hi, hj, Run.withBlock, DenseMatrix.addAt]

theorem Run.offdiag_inner {R : Type} [CommRing R] (ivar jvar : Nat) (g : Nat → R) (j n : Nat)
    (r : Run R) (ha : r.aborted = false) (hn : n ≤ (r.st.jacobianBlock ivar jvar).m)
    (hj : j < (r.st.jacobianBlock ivar jvar).n) :
    (List.range n).foldl (fun r i => r.blockAdd ivar jvar i j (g i)) r =
      r.withBlock ivar jvar (fun a b =>
        if a < n ∧ b = j then (r.st.jacobianBlock ivar jvar).entry a b + g a
        else (r.st.jacobianBlock ivar jvar).entry a b) := by
  induction n with
  | zero => simp [Run.withBlock, KernelValue.setJacobianBlock]
  | succ k ih =>
    rw [List.range_succ, List.foldl_append, ih (Nat.le_of_succ_le hn)]
    simp only [List.foldl_cons, List.foldl_nil]
    rw [Run.blockAdd_eq _ _ _ _ _ _ (by simpa [Run.withBlock_aborted] using ha)
      (by rw [Run.withBlock_block]; simp only; omega)
      (by rw [Run.withBlock_block]; simpa using hj)]
    rw [Run.withBlock_withBlock, Run.withBlock_block]
    congr 1
    funext a b
    by_cases h : a = k
    · subst h
      by_cases hb : b = j
      · subst hb; simp
      · simp [Function.update_apply, hb]
    · have : (a < k + 1) = (a < k) := by
        apply propext; omega
      simp [Function.update_apply, h, this]

theorem Run.offdiag_mid {R : Type} [CommRing R] (ivar jvar : Nat) (g : Nat → Nat → R)
    (j n q : Nat) (r : Run R) (ha : r.aborted = false)
    (hn : n ≤ (r.st.jacobianBlock ivar jvar).m) (hj : j < (r.st.jacobianBlock ivar jvar).n) :
    (List.range q).foldl
        (fun r qp => (List.range n).foldl (fun r i => r.blockAdd ivar jvar i j (g qp i)) r) r =
      r.withBlock ivar jvar (fun a b =>
        if a < n ∧ b = j then
          (r.st.jacobianBlock ivar jvar).entry a b + ∑ qp in Finset.range q, g qp a
        else (r.st.jacobianBlock ivar jvar).entry a b) := by
  induction q with
  | zero => simp [Run.withBlock, KernelValue.setJacobianBlock]
  | succ k ih =>
    rw [List.range_succ, List.foldl_append, ih]
    simp only [List.foldl_cons, List.foldl_nil]
    rw [Run.offdiag_inner _ _ _ _ _ _ (by simpa [Run.withBlock_aborted] using ha)
      (by rw [Run.withBlock_block]; simpa using hn)
      (by rw [Run.withBlock_block]; simpa using hj)]
    rw [Run.withBlock_withBlock, Run.withBlock_block]
    congr 1
    funext a b
    by_cases h : a < n ∧ b = j
    · simp [h, Finset.sum_range_succ, add_assoc]
    · simp [h]

theorem Run.offdiag_outer {R : Type} [CommRing R] (ivar jvar : Nat) (g : Nat → Nat → Nat → R)
    (n q p : Nat) (r : Run R) (ha : r.aborted = false)
    (hn : n ≤ (r.st.jacobianBlock ivar jvar).m) (hp : p ≤ (r.st.jacobianBlock ivar jvar).n) :
    (List.range p).foldl
        (fun r j => (List.range q).foldl
          (fun r qp => (List.range n).foldl
            (fun r i => r.blockAdd ivar jvar i j (g j qp i)) r) r) r =
      r.withBlock ivar jvar (fun a b =>
        if a < n ∧ b < p then
          (r.st.jacobianBlock ivar jvar).entry a b + ∑ qp in Finset.range q, g b qp a
        else (r.st.jacobianBlock ivar jvar).entry a b) := by
  induction p with
  | zero => simp [Run.withBlock, KernelValue.setJacobianBlock]
  | succ k ih =>
    rw [List.range_succ, List.foldl_append, ih (Nat.le_of_succ_le hp)]
    simp only [List.foldl_cons, List.foldl_nil]
    rw [Run.offdiag_mid _ _ (g k) _ _ _ _ (by simpa [Run.withBlock_aborted] using ha)
      (by rw [Run.withBlock_block]; simpa using hn)
      (by rw [Run.withBlock_block]; simp only; omega)]
    rw [Run.withBlock_withBlock, Run.withBlock_block]
    congr 1
    funext a b
    by_cases h : b = k
    · subst h; simp
    · have : (b < k + 1) = (b < k) := by
        apply propext; omega
      simp [h, this]

/-- The closed form of `computeOffDiagJacobian(jvar)` for another variable when the
block `(own, jvar)` holds every entry the loops address: the state is the starting state
with the one block replaced, and the run has not aborted. -/
theorem computeOffDiagJacobian_unfold {R : Type} [CommRing R] (f : QpFunctions R)
    (jvar : MooseVariableFE) (s : KernelValue R) (hne : jvar.number ≠ s.var.number)
    (hm : s.test_size ≤ (s.jacobianBlock s.var.number jvar.number).m)
    (hn : jvar.phiSize ≤ (s.jacobianBlock s.var.number jvar.number).n) :
    computeOffDiagJacobian f jvar s =
      Run.withBlock { st := s, aborted := false } s.var.number jvar.number (fun a b =>
        if a < s.test_size ∧ b < jvar.phiSize then
          (s.jacobianBlock s.var.number jvar.number).entry a b +
            ∑ qp in Finset.range s.n_points,
              s.JxW qp * s.coord qp * f.computeQpOffDiagJacobian jvar.number a b qp
        else (s.jacobianBlock s.var.number jvar.number).entry a b) := by
  have key := Run.offdiag_outer s.var.number jvar.number
    (fun j qp i => s.JxW qp * s.coord qp * f.computeQpOffDiagJacobian jvar.number i j qp)
    s.test_size s.n_points jvar.phiSize { st := s, aborted := false } rfl hm hn
  simp only [computeOffDiagJacobian, hne, if_false]
  rw [key]

/-- C3. For a variable `jvar` whose number is the number of the kernel's own variable,
`computeOffDiagJacobian(jvar)` ends in exactly the run `computeJacobian()` ends in from
the same starting state: the same assembly blocks, local buffers, solution vectors of
the save-in targets and the same abort flag. -/
theorem computeOffDiagJacobian_own {R : Type} [CommRing R] (f : QpFunctions R)
    (jvar : MooseVariableFE) (s : KernelValue R) (h : jvar.number = s.var.number) :
    computeOffDiagJacobian f jvar s = computeJacobian f s := by
  simp [computeOffDiagJacobian, h]

/-- C4, as amended.  For a variable `jvar` whose number differs from the kernel's own, on a block
`(own, jvar)` that holds the entries `(i, j)` with `i` below the test-function count and
`j` below `jvar.phiSize()`: `computeOffDiagJacobian(jvar)` adds to each such entry the
sum over the quadrature points of
`JxW[qp] * coord[qp] * computeQpOffDiagJacobian(jvar number)` at `(i, j, qp)`; every
other entry of the block is unchanged; the block does not depend on the test-function
values; its shape, every other block, the local buffers and the solution vectors are
unchanged, and the call does not abort. -/
theorem computeOffDiagJacobian_spec {R : Type} [CommRing R] (f : QpFunctions R)
    (jvar : MooseVariableFE) (s : KernelValue R) (hne : jvar.number ≠ s.var.number)
    (hm : s.test_size ≤ (s.jacobianBlock s.var.number jvar.number).m)
    (hn : jvar.phiSize ≤ (s.jacobianBlock s.var.number jvar.number).n) :
    (∀ i j, i < s.test_size → j < jvar.phiSize →
      ((computeOffDiagJacobian f jvar s).st.jacobianBlock s.var.number jvar.number).entry i j =
        (s.jacobianBlock s.var.number jvar.number).entry i j +
          ∑ qp in Finset.range s.n_points,
            s.JxW qp * s.coord qp * f.computeQpOffDiagJacobian jvar.number i j qp) ∧
    (∀ i j, ¬ (i < s.test_size ∧ j < jvar.phiSize) →
      ((computeOffDiagJacobian f jvar s).st.jacobianBlock s.var.number jvar.number).entry i j =
        (s.jacobianBlock s.var.number jvar.number).entry i j) ∧
    (∀ t : Nat → Nat → R,
      (computeOffDiagJacobian f jvar { s with test := t }).st.jacobianBlock
          s.var.number jvar.number =
        (computeOffDiagJacobian f jvar s).st.jacobianBlock s.var.number jvar.number) ∧
    ((computeOffDiagJacobian f jvar s).st.jacobianBlock s.var.number jvar.number).m =
      (s.jacobianBlock s.var.number jvar.number).m ∧
    ((computeOffDiagJacobian f jvar s).st.jacobianBlock s.var.number jvar.number).n =
      (s.jacobianBlock s.var.number jvar.number).n ∧
    (∀ a b, ¬ (a = s.var.number ∧ b = jvar.number) →
      (computeOffDiagJacobian f jvar s).st.jacobianBlock a b = s.jacobianBlock a b) ∧
    (computeOffDiagJacobian f jvar s).st.local_ke = s.local_ke ∧
    (computeOffDiagJacobian f jvar s).st.local_re = s.local_re ∧
    (computeOffDiagJacobian f jvar s).st.residualBlock = s.residualBlock ∧
    (computeOffDiagJacobian f jvar s).st.solution = s.solution ∧
    (computeOffDiagJacobian f jvar s).aborted = false := by
  have h := computeOffDiagJacobian_unfold f jvar s hne hm hn
  have ht : ∀ t : Nat → Nat → R, _ :=
    fun t => computeOffDiagJacobian_unfold f jvar { s with test := t } hne hm hn
  refine ⟨?_, ?_, ?_, ?_, ?_, ?_, ?_, ?_, ?_, ?_, ?_⟩
  · intro i j hi hj
    rw [h, Run.withBlock_block]; simp [hi, hj]
  · intro i j hij
    rw [h, Run.withBlock_block]; simp only [hij, if_false]
  · intro t
    rw [ht t, h, Run.withBlock_block, Run.withBlock_block]
  · rw [h, Run.withBlock_block]
  · rw [h, Run.withBlock_block]
  · intro a b hab
    rw [h]
    simp only [Run.withBlock, KernelValue.setJacobianBlock]
    by_cases ha : a = s.var.number
    · subst ha
      have hb : b ≠ jvar.number := fun e => hab ⟨rfl, e⟩
      simp [Function.update_apply, hb]
    · simp [Function.update_apply, ha]
  · rw [h]; rfl
  · rw [h]; rfl
  · rw [h]; rfl
  · rw [h]; rfl
  · rw [h]; rfl

/-! ## Concrete element states -/

/-- On the sample element state the residual block has two entries, as many as there are
test functions; `_local_re(1)` ends as 42 and the block entry grows from 20 by that
amount. -/
theorem computeResidual_spec_witness :
    (sampleKernel.residualBlock sampleKernel.var.number).size = sampleKernel.test_size ∧
    (computeResidual sampleQp sampleKernel).st.local_re.entry 1 = 42 ∧
    ((computeResidual sampleQp sampleKernel).st.residualBlock sampleKernel.var.number).entry 1 =
      20 + (computeResidual sampleQp sampleKernel).st.local_re.entry 1 :=
  ⟨rfl, ((computeResidual_spec sampleQp sampleKernel rfl).1 1 (by decide)).trans (by decide),
    (computeResidual_spec sampleQp sampleKernel rfl).2.1 1 (by decide)⟩

/-- On the sample element state the diagonal block is 2 x 2, the numbers of test and trial
functions; `_local_ke(1, 1)` ends as 66 and the block entry grows from 3 by that amount. -/
theorem computeJacobian_spec_witness :
    (sampleKernel.jacobianBlock sampleKernel.var.number sampleKernel.var.number).m =
      sampleKernel.test_size ∧
    (sampleKernel.jacobianBlock sampleKernel.var.number sampleKernel.var.number).n =
      sampleKernel.phi_size ∧
    (computeJacobian sampleQp sampleKernel).st.local_ke.entry 1 1 = 66 ∧
    ((computeJacobian sampleQp sampleKernel).st.jacobianBlock
        sampleKernel.var.number sampleKernel.var.number).entry 1 1 =
      3 + (computeJacobian sampleQp sampleKernel).st.local_ke.entry 1 1 :=
  ⟨rfl, rfl,
    ((computeJacobian_spec sampleQp sampleKernel rfl rfl).1 1 1 (by decide) (by decide)).trans
      (by decide),
    (computeJacobian_spec sampleQp sampleKernel rfl rfl).2.1 1 1 (by decide) (by decide)⟩

/-- On the sample element state the off-diagonal call for the kernel's own variable ends
in the run of `computeJacobian`. -/
theorem computeOffDiagJacobian_own_witness :
    sampleKernel.var.number = sampleKernel.var.number ∧
    computeOffDiagJacobian sampleQp sampleKernel.var sampleKernel =
      computeJacobian sampleQp sampleKernel :=
  ⟨rfl, computeOffDiagJacobian_own sampleQp sampleKernel.var sampleKernel rfl⟩

/-- On the sample element state, for another variable with number 1 and two trial
functions, the 2 x 2 block `(0, 1)` holds every addressed entry and entry `(1, 1)` grows
from 3 by 33. -/
theorem computeOffDiagJacobian_spec_witness :
    (sampleField "v" 1 .VAR_NONLINEAR true .standard).number ≠ sampleKernel.var.number ∧
    sampleKernel.test_size ≤ (sampleKernel.jacobianBlock sampleKernel.var.number 1).m ∧
    (sampleField "v" 1 .VAR_NONLINEAR true .standard).phiSize ≤
      (sampleKernel.jacobianBlock sampleKernel.var.number 1).n ∧
    ((computeOffDiagJacobian sampleQp (sampleField "v" 1 .VAR_NONLINEAR true .standard)
        sampleKernel).st.jacobianBlock sampleKernel.var.number 1).entry 1 1 = 3 + 33 :=
  ⟨by decide, by decide, by decide,
    ((computeOffDiagJacobian_spec sampleQp (sampleField "v" 1 .VAR_NONLINEAR true .standard)
      sampleKernel (by decide) (by decide) (by decide)).1 1 1 (by decide) (by decide)).trans
      (by decide)⟩

/-- C4, counterexample.  The sample element state with blocks of one row and two columns
has two test functions, and the other variable, number 1, has two trial functions.  Entry
`(0, 0)` of the block `(0, 1)` is 0 and the sum over both quadrature points for it is 15,
but the call aborts on the first access to row 1, after the first quadrature point has
added 3 to entry `(0, 0)`, which ends at 3. -/
theorem computeOffDiagJacobian_counterexample :
    (sampleField "v" 1 .VAR_NONLINEAR true .standard).number ≠ sampleOneRowKernel.var.number ∧
    sampleOneRowKernel.test_size = 2 ∧
    (sampleField "v" 1 .VAR_NONLINEAR true .standard).phiSize = 2 ∧
    (sampleOneRowKernel.jacobianBlock sampleOneRowKernel.var.number 1).m = 1 ∧
    (sampleOneRowKernel.jacobianBlock sampleOneRowKernel.var.number 1).n = 2 ∧
    (sampleOneRowKernel.jacobianBlock sampleOneRowKernel.var.number 1).entry 0 0 = 0 ∧
    (∑ qp in Finset.range sampleOneRowKernel.n_points,
      sampleOneRowKernel.JxW qp * sampleOneRowKernel.coord qp *
        sampleQp.computeQpOffDiagJacobian 1 0 0 qp) = 15 ∧
    (computeOffDiagJacobian sampleQp (sampleField "v" 1 .VAR_NONLINEAR true .standard)
      sampleOneRowKernel).aborted = true ∧
    ((computeOffDiagJacobian sampleQp (sampleField "v" 1 .VAR_NONLINEAR true .standard)
      sampleOneRowKernel).st.jacobianBlock sampleOneRowKernel.var.number 1).entry 0 0 = 3 := by
  decide

/-! ## Maps -/

theorem StdMap.findIn_setIn {α : Type} (m : List (String × α)) (k k' : String) (v : α) :
    StdMap.findIn (StdMap.setIn m k v) k' = if k = k' then some v else StdMap.findIn m k' := by
  induction m with
  | nil => simp [StdMap.setIn, StdMap.findIn]
  | cons e m ih =>
    obtain ⟨k0, v0⟩ := e
    by_cases h0 : k0 = k
    · subst h0
      by_cases h1 : k0 = k' <;> simp [StdMap.setIn, StdMap.findIn, h1]
    · by_cases h1 : k0 = k'
      · subst h1
        have : ¬ k = k0 := fun e => h0 e.symm
        simp [StdMap.setIn, StdMap.findIn, h0, this]
      · simp [StdMap.setIn, StdMap.findIn, h0, h1, ih]

theorem StdMap.find_set {α : Type} (m : StdMap α) (k k' : String) (v : α) :
    (m.set k v).find k' = if k = k' then some v else m.find k' :=
  StdMap.findIn_setIn m.entries k k' v

theorem StdMap.find_empty {α : Type} (k : String) : (StdMap.empty : StdMap α).find k = none := rfl

theorem StdMap.find_touch {α : Type} (m : StdMap α) (k k' : String) (d : α) :
    (m.touch k d).find k' =
      if k = k' then some (m.valueAt k d) else m.find k' := by
  unfold StdMap.touch StdMap.valueAt
  cases h : m.find k with
  | some x =>
    by_cases hk : k = k'
    · subst hk; simp [h]
    · simp [hk]
  | none =>
    simp [StdMap.find_set]

theorem StdMap.touch_of_find {α : Type} (m : StdMap α) (k : String) (d x : α)
    (h : m.find k = some x) : m.touch k d = m := by
  simp [StdMap.touch, h]

theorem StdMap.setIn_of_findIn_none {α : Type} (m : List (String × α)) (k : String) (v : α)
    (h : StdMap.findIn m k = none) : StdMap.setIn m k v = m ++ [(k, v)] := by
  induction m with
  | nil => rfl
  | cons e m ih =>
    obtain ⟨k0, v0⟩ := e
    by_cases h0 : k0 = k
    · simp [StdMap.findIn, h0] at h
    · simp only [StdMap.findIn, h0, if_false] at h
      simp [StdMap.setIn, h0, ih h]

theorem StdMap.setIn_last {α : Type} (m : List (String × α)) (k : String) (v w : α)
    (h : StdMap.findIn m k = none) :
    StdMap.setIn (m ++ [(k, v)]) k w = m ++ [(k, w)] := by
  induction m with
  | nil => simp [StdMap.setIn]
  | cons e m ih =>
    obtain ⟨k0, v0⟩ := e
    by_cases h0 : k0 = k
    · simp [StdMap.findIn, h0] at h
    · simp only [StdMap.findIn, h0, if_false] at h
      simp [StdMap.setIn, h0, ih h]

theorem StdMap.findIn_append {α : Type} (m m' : List (String × α)) (k : String) :
    StdMap.findIn (m ++ m') k =
      match StdMap.findIn m k with
      | some x => some x
      | none => StdMap.findIn m' k := by
  induction m with
  | nil => simp [StdMap.findIn]
  | cons e m ih =>
    obtain ⟨k0, v0⟩ := e
    by_cases h0 : k0 = k
    · simp [StdMap.findIn, h0]
    · simp [StdMap.findIn, h0, ih]

/-! ## Running member functions -/

theorem run_pure {R α : Type} (a : α) (c : Coupleable R) :
    (pure a : Acc R α).run c = (.ok a, c) := rfl

theorem run_bind {R α β : Type} (x : Acc R α) (f : α → Acc R β) (c : Coupleable R) :
    (x >>= f).run c =
      match x.run c with
      | (.ok a, c') => (f a).run c'
      | (.error e, c') => (.error e, c') := rfl

theorem run_get {R : Type} (c : Coupleable R) : (Acc.get : Acc R _).run c = (.ok c, c) := rfl

theorem run_modify {R : Type} (f : Coupleable R → Coupleable R) (c : Coupleable R) :
    (Acc.modify f).run c = (.ok (), f c) := rfl

theorem run_mooseError {R α : Type} (e : MooseError) (c : Coupleable R) :
    (mooseError e : Acc R α).run c = (.error e, c) := rfl

/-! ## What every call leaves in place -/

theorem extends_refl {R : Type} (c : Coupleable R) : c.Extends c := by
  constructor <;> first | rfl | (intro k x h; exact h) | (intro k h; exact Or.inl h)

theorem extends_trans {R : Type} {a b c : Coupleable R} (h1 : a.Extends b)
    (h2 : b.Extends c) : a.Extends c := by
  constructor
  case coupled_vars_some => intro k x h; exact h2.coupled_vars_some k x (h1.coupled_vars_some k x h)
  case coupled_vars_none =>
    intro k h
    rcases h1.coupled_vars_none k h with h' | h'
    · exact h2.coupled_vars_none k h'
    · exact Or.inr (h2.coupled_vars_some k _ h')
  case optional_var_index_some =>
    intro k x h; exact h2.optional_var_index_some k x (h1.optional_var_index_some k x h)
  case default_value_some =>
    intro k x h; exact h2.default_value_some k x (h1.default_value_some k x h)
  case default_vector_value_some =>
    intro k x h; exact h2.default_vector_value_some k x (h1.default_vector_value_some k x h)
  all_goals first
    | exact h2.c_parameters.trans h1.c_parameters
    | exact h2.c_name.trans h1.c_name
    | exact h2.c_fe_problem.trans h1.c_fe_problem
    | exact h2.c_nodal.trans h1.c_nodal
    | exact h2.c_is_implicit.trans h1.c_is_implicit
    | exact h2.coupleable_neighbor.trans h1.coupleable_neighbor
    | exact h2.coupleable_max_qps.trans h1.coupleable_max_qps
    | exact h2.c_coupled_scalar_vars.trans h1.c_coupled_scalar_vars
    | exact h2.coupled_moose_vars.trans h1.coupled_moose_vars
    | exact h2.coupled_standard_moose_vars.trans h1.coupled_standard_moose_vars
    | exact h2.coupled_vector_moose_vars.trans h1.coupled_vector_moose_vars
    | exact h2.default_value_zero.trans h1.default_value_zero
    | exact h2.default_gradient.trans h1.default_gradient
    | exact h2.default_second.trans h1.default_second
    | exact h2.default_vector_value_zero.trans h1.default_vector_value_zero
    | exact h2.default_vector_gradient.trans h1.default_vector_gradient
    | exact h2.default_vector_curl.trans h1.default_vector_curl

theorem keeps_pure {R α : Type} (a : α) : Acc.Keeps Coupleable.Extends (pure a : Acc R α) :=
  fun c => extends_refl c

theorem keeps_mooseError {R α : Type} (e : MooseError) :
    Acc.Keeps Coupleable.Extends (mooseError e : Acc R α) :=
  fun c => extends_refl c

theorem keeps_get {R : Type} : Acc.Keeps Coupleable.Extends (Acc.get : Acc R _) :=
  fun c => extends_refl c

theorem keeps_bind {R α β : Type} (x : Acc R α) (f : α → Acc R β)
    (hx : Acc.Keeps Coupleable.Extends x) (hf : ∀ a, Acc.Keeps Coupleable.Extends (f a)) :
    Acc.Keeps Coupleable.Extends (x >>= f) := by
  intro c
  rw [run_bind]
  have h1 := hx c
  cases h : x.run c with
  | mk r c' =>
    rw [h] at h1
    cases r with
    | ok a => exact extends_trans h1 (hf a c')
    | error e => exact h1

theorem keeps_ite {R α : Type} (p : Prop) [Decidable p] (x y : Acc R α)
    (hx : Acc.Keeps Coupleable.Extends x) (hy : Acc.Keeps Coupleable.Extends y) :
    Acc.Keeps Coupleable.Extends (if p then x else y) := by
  split_ifs <;> assumption

theorem keeps_coupledCallback {R : Type} (var_name : String) (is_old : Bool) :
    Acc.Keeps Coupleable.Extends (coupledCallback var_name is_old : Acc R Unit) := by
  intro c
  constructor <;> first | rfl | (intro k x h; exact h) | (intro k h; exact Or.inl h)

theorem keeps_needsPreviousNewtonIteration {R : Type} (state : Bool) :
    Acc.Keeps Coupleable.Extends (needsPreviousNewtonIteration state : Acc R Unit) := by
  intro c
  constructor <;> first | rfl | (intro k x h; exact h) | (intro k h; exact Or.inl h)

theorem keeps_coupledVarsAt {R : Type} (var_name : String) :
    Acc.Keeps Coupleable.Extends (coupledVarsAt var_name : Acc R _) := by
  intro c
  unfold coupledVarsAt
  simp only [run_bind, run_modify, run_get, run_pure]
  constructor
  case coupled_vars_some =>
    intro k x h
    simp only [StdMap.find_touch, StdMap.valueAt]
    split_ifs with hk
    · subst hk; simp [h]
    · exact h
  case coupled_vars_none =>
    intro k h
    simp only [StdMap.find_touch, StdMap.valueAt]
    split_ifs with hk
    · subst hk; simp [h]
    · exact Or.inl h
  all_goals first | rfl | (intro k x h; exact h)

theorem keeps_optionalVarIndexAt {R : Type} (var_name : String) :
    Acc.Keeps Coupleable.Extends (optionalVarIndexAt var_name : Acc R _) := by
  intro c
  unfold optionalVarIndexAt
  simp only [run_bind, run_modify, run_get, run_pure]
  constructor
  case optional_var_index_some =>
    intro k x h
    simp only [StdMap.find_touch, StdMap.valueAt]
    split_ifs with hk
    · subst hk; simp [h]
    · exact h
  all_goals first | rfl | (intro k x h; exact h) | (intro k h; exact Or.inl h)

theorem keeps_getDefaultValue {R : Type} (var_name : String) :
    Acc.Keeps Coupleable.Extends (getDefaultValue var_name : Acc R _) := by
  intro c
  unfold getDefaultValue
  simp only [run_bind, run_get]
  cases hf : c.default_value.find var_name with
  | some v => simp only [run_pure]; exact extends_refl c
  | none =>
    simp only [run_bind, run_modify, run_pure]
    constructor
    case default_value_some =>
      intro k x h
      simp only [StdMap.find_set]
      split_ifs with hk
      · subst hk; rw [hf] at h; cases h
      · exact h
    all_goals first | rfl | (intro k x h; exact h) | (intro k h; exact Or.inl h)

theorem keeps_getVectorDefaultValue {R : Type} [CommRing R] (var_name : String) :
    Acc.Keeps Coupleable.Extends (getVectorDefaultValue var_name : Acc R _) := by
  intro c
  unfold getVectorDefaultValue
  simp only [run_bind, run_get]
  cases hf : c.default_vector_value.find var_name with
  | some v => simp only [run_pure]; exact extends_refl c
  | none =>
    simp only [run_bind, run_modify, run_pure]
    constructor
    case default_vector_value_some =>
      intro k x h
      simp only [StdMap.find_set]
      split_ifs with hk
      · subst hk; rw [hf] at h; cases h
      · exact h
    all_goals first | rfl | (intro k x h; exact h) | (intro k h; exact Or.inl h)

theorem keeps_isCoupled {R : Type} (var_name : String) (i : Nat) :
    Acc.Keeps Coupleable.Extends (isCoupled var_name i : Acc R _) := by
  unfold isCoupled
  repeat' with_reducible first
    | exact keeps_pure _
    | exact keeps_mooseError _
    | exact keeps_get
    | refine keeps_bind _ _ ?_ (fun _ => ?_)
    | apply keeps_ite
    | split

theorem keeps_checkVar {R : Type} (var_name : String) :
    Acc.Keeps Coupleable.Extends (checkVar var_name : Acc R _) := by
  unfold checkVar
  repeat' with_reducible first
    | exact keeps_pure _
    | exact keeps_mooseError _
    | exact keeps_get
    | refine keeps_bind _ _ ?_ (fun _ => ?_)
    | apply keeps_ite
    | split

theorem keeps_validateExecutionerType {R : Type} (name fn_name : String) :
    Acc.Keeps Coupleable.Extends (validateExecutionerType name fn_name : Acc R _) := by
  unfold validateExecutionerType
  repeat' with_reducible first
    | exact keeps_pure _
    | exact keeps_mooseError _
    | exact keeps_get
    | refine keeps_bind _ _ ?_ (fun _ => ?_)
    | apply keeps_ite

theorem keeps_getFEVar {R : Type} (var_name : String) (comp : Nat) :
    Acc.Keeps Coupleable.Extends (getFEVar var_name comp : Acc R _) := by
  unfold getFEVar
  repeat' with_reducible first
    | exact keeps_pure _
    | exact keeps_mooseError _
    | exact keeps_get
    | exact keeps_coupledVarsAt _
    | refine keeps_bind _ _ ?_ (fun _ => ?_)
    | apply keeps_ite
    | split

theorem keeps_getVar {R : Type} (var_name : String) (comp : Nat) :
    Acc.Keeps Coupleable.Extends (getVar var_name comp : Acc R _) := by
  unfold getVar
  repeat' with_reducible first
    | exact keeps_pure _
    | exact keeps_mooseError _
    | exact keeps_get
    | exact keeps_coupledVarsAt _
    | refine keeps_bind _ _ ?_ (fun _ => ?_)
    | apply keeps_ite
    | split

theorem keeps_getVectorVar {R : Type} (var_name : String) (comp : Nat) :
    Acc.Keeps Coupleable.Extends (getVectorVar var_name comp : Acc R _) := by
  unfold getVectorVar
  repeat' with_reducible first
    | exact keeps_pure _
    | exact keeps_mooseError _
    | exact keeps_get
    | exact keeps_coupledVarsAt _
    | refine keeps_bind _ _ ?_ (fun _ => ?_)
    | apply keeps_ite
    | split

theorem keeps_coupledComponents {R : Type} (var_name : String) :
    Acc.Keeps Coupleable.Extends (coupledComponents var_name : Acc R _) := by
  unfold coupledComponents
  repeat' with_reducible first
    | exact keeps_pure _
    | exact keeps_coupledVarsAt _
    | refine keeps_bind _ _ ?_ (fun _ => ?_)

theorem keeps_coupled {R : Type} (var_name : String) (comp : Nat) :
    Acc.Keeps Coupleable.Extends (coupled var_name comp : Acc R _) := by
  unfold coupled
  repeat' with_reducible first
    | exact keeps_pure _
    | exact keeps_mooseError _
    | exact keeps_get
    | exact keeps_checkVar _
    | exact keeps_isCoupled _ _
    | exact keeps_getFEVar _ _
    | exact keeps_optionalVarIndexAt _
    | refine keeps_bind _ _ ?_ (fun _ => ?_)
    | apply keeps_ite
    | split

theorem keeps_coupledValue {R : Type} (var_name : String) (comp : Nat) :
    Acc.Keeps Coupleable.Extends (coupledValue var_name comp : Acc R _) := by
  unfold coupledValue
  repeat' with_reducible first
    | exact keeps_pure _
    | exact keeps_mooseError _
    | exact keeps_get
    | exact keeps_checkVar _
    | exact keeps_isCoupled _ _
    | exact keeps_getFEVar _ _
    | exact keeps_getVar _ _
    | exact keeps_getVectorVar _ _
    | exact keeps_getDefaultValue _
    | exact keeps_getVectorDefaultValue _
    | exact keeps_validateExecutionerType _ _
    | exact keeps_coupledCallback _ _
    | exact keeps_needsPreviousNewtonIteration _
    | refine keeps_bind _ _ ?_ (fun _ => ?_)
    | apply keeps_ite

theorem keeps_coupledVectorValue {R : Type} [CommRing R] (var_name : String) (comp : Nat) :
    Acc.Keeps Coupleable.Extends (coupledVectorValue var_name comp : Acc R _) := by
  unfold coupledVectorValue
  repeat' with_reducible first
    | exact keeps_pure _
    | exact keeps_mooseError _
    | exact keeps_get
    | exact keeps_checkVar _
    | exact keeps_isCoupled _ _
    | exact keeps_getFEVar _ _
    | exact keeps_getVar _ _
    | exact keeps_getVectorVar _ _
    | exact keeps_getDefaultValue _
    | exact keeps_getVectorDefaultValue _
    | exact keeps_validateExecutionerType _ _
    | exact keeps_coupledCallback _ _
    | exact keeps_needsPreviousNewtonIteration _
    | refine keeps_bind _ _ ?_ (fun _ => ?_)
    | apply keeps_ite

theorem keeps_coupledValueOld {R : Type} (var_name : String) (comp : Nat) :
    Acc.Keeps Coupleable.Extends (coupledValueOld var_name comp : Acc R _) := by
  unfold coupledValueOld
  repeat' with_reducible first
    | exact keeps_pure _
    | exact keeps_mooseError _
    | exact keeps_get
    | exact keeps_checkVar _
    | exact keeps_isCoupled _ _
    | exact keeps_getFEVar _ _
    | exact keeps_getVar _ _
    | exact keeps_getVectorVar _ _
    | exact keeps_getDefaultValue _
    | exact keeps_getVectorDefaultValue _
    | exact keeps_validateExecutionerType _ _
    | exact keeps_coupledCallback _ _
    | exact keeps_needsPreviousNewtonIteration _
    | refine keeps_bind _ _ ?_ (fun _ => ?_)
    | apply keeps_ite

theorem keeps_coupledValueOlder {R : Type} (var_name : String) (comp : Nat) :
    Acc.Keeps Coupleable.Extends (coupledValueOlder var_name comp : Acc R _) := by
  unfold coupledValueOlder
  repeat' with_reducible first
    | exact keeps_pure _
    | exact keeps_mooseError _
    | exact keeps_get
    | exact keeps_checkVar _
    | exact keeps_isCoupled _ _
    | exact keeps_getFEVar _ _
    | exact keeps_getVar _ _
    | exact keeps_getVectorVar _ _
    | exact keeps_getDefaultValue _
    | exact keeps_getVectorDefaultValue _
    | exact keeps_validateExecutionerType _ _
    | exact keeps_coupledCallback _ _
    | exact keeps_needsPreviousNewtonIteration _
    | refine keeps_bind _ _ ?_ (fun _ => ?_)
    | apply keeps_ite

theorem keeps_coupledValuePreviousNL {R : Type} (var_name : String) (comp : Nat) :
    Acc.Keeps Coupleable.Extends (coupledValuePreviousNL var_name comp : Acc R _) := by
  unfold coupledValuePreviousNL
  repeat' with_reducible first
    | exact keeps_pure _
    | exact keeps_mooseError _
    | exact keeps_get
    | exact keeps_checkVar _
    | exact keeps_isCoupled _ _
    | exact keeps_getFEVar _ _
    | exact keeps_getVar _ _
    | exact keeps_getVectorVar _ _
    | exact keeps_getDefaultValue _
    | exact keeps_getVectorDefaultValue _
    | exact keeps_validateExecutionerType _ _
    | exact keeps_coupledCallback _ _
    | exact keeps_needsPreviousNewtonIteration _
    | refine keeps_bind _ _ ?_ (fun _ => ?_)
    | apply keeps_ite

theorem keeps_coupledVectorValueOld {R : Type} [CommRing R] (var_name : String) (comp : Nat) :
    Acc.Keeps Coupleable.Extends (coupledVectorValueOld var_name comp : Acc R _) := by
  unfold coupledVectorValueOld
  repeat' with_reducible first
    | exact keeps_pure _
    | exact keeps_mooseError _
    | exact keeps_get
    | exact keeps_checkVar _
    | exact keeps_isCoupled _ _
    | exact keeps_getFEVar _ _
    | exact keeps_getVar _ _
    | exact keeps_getVectorVar _ _
    | exact keeps_getDefaultValue _
    | exact keeps_getVectorDefaultValue _
    | exact keeps_validateExecutionerType _ _
    | exact keeps_coupledCallback _ _
    | exact keeps_needsPreviousNewtonIteration _
    | refine keeps_bind _ _ ?_ (fun _ => ?_)
    | apply keeps_ite

theorem keeps_coupledVectorValueOlder {R : Type} [CommRing R] (var_name : String) (comp : Nat) :
    Acc.Keeps Coupleable.Extends (coupledVectorValueOlder var_name comp : Acc R _) := by
  unfold coupledVectorValueOlder
  repeat' with_reducible first
    | exact keeps_pure _
    | exact keeps_mooseError _
    | exact keeps_get
    | exact keeps_checkVar _
    | exact keeps_isCoupled _ _
    | exact keeps_getFEVar _ _
    | exact keeps_getVar _ _
    | exact keeps_getVectorVar _ _
    | exact keeps_getDefaultValue _
    | exact keeps_getVectorDefaultValue _
    | exact keeps_validateExecutionerType _ _
    | exact keeps_coupledCallback _ _
    | exact keeps_needsPreviousNewtonIteration _
    | refine keeps_bind _ _ ?_ (fun _ => ?_)
    | apply keeps_ite

theorem keeps_coupledDot {R : Type} (var_name : String) (comp : Nat) :
    Acc.Keeps Coupleable.Extends (coupledDot var_name comp : Acc R _) := by
  unfold coupledDot
  repeat' with_reducible first
    | exact keeps_pure _
    | exact keeps_mooseError _
    | exact keeps_get
    | exact keeps_checkVar _
    | exact keeps_isCoupled _ _
    | exact keeps_getFEVar _ _
    | exact keeps_getVar _ _
    | exact keeps_getVectorVar _ _
    | exact keeps_getDefaultValue _
    | exact keeps_getVectorDefaultValue _
    | exact keeps_validateExecutionerType _ _
    | exact keeps_coupledCallback _ _
    | exact keeps_needsPreviousNewtonIteration _
    | refine keeps_bind _ _ ?_ (fun _ => ?_)
    | apply keeps_ite

theorem keeps_coupledVectorDot {R : Type} (var_name : String) (comp : Nat) :
    Acc.Keeps Coupleable.Extends (coupledVectorDot var_name comp : Acc R _) := by
  unfold coupledVectorDot
  repeat' with_reducible first
    | exact keeps_pure _
    | exact keeps_mooseError _
    | exact keeps_get
    | exact keeps_checkVar _
    | exact keeps_isCoupled _ _
    | exact keeps_getFEVar _ _
    | exact keeps_getVar _ _
    | exact keeps_getVectorVar _ _
    | exact keeps_getDefaultValue _
    | exact keeps_getVectorDefaultValue _
    | exact keeps_validateExecutionerType _ _
    | exact keeps_coupledCallback _ _
    | exact keeps_needsPreviousNewtonIteration _
    | refine keeps_bind _ _ ?_ (fun _ => ?_)
    | apply keeps_ite

theorem keeps_coupledDotDu {R : Type} (var_name : String) (comp : Nat) :
    Acc.Keeps Coupleable.Extends (coupledDotDu var_name comp : Acc R _) := by
  unfold coupledDotDu
  repeat' with_reducible first
    | exact keeps_pure _
    | exact keeps_mooseError _
    | exact keeps_get
    | exact keeps_checkVar _
    | exact keeps_isCoupled _ _
    | exact keeps_getFEVar _ _
    | exact keeps_getVar _ _
    | exact keeps_getVectorVar _ _
    | exact keeps_getDefaultValue _
    | exact keeps_getVectorDefaultValue _
    | exact keeps_validateExecutionerType _ _
    | exact keeps_coupledCallback _ _
    | exact keeps_needsPreviousNewtonIteration _
    | refine keeps_bind _ _ ?_ (fun _ => ?_)
    | apply keeps_ite

theorem keeps_coupledGradient {R : Type} (var_name : String) (comp : Nat) :
    Acc.Keeps Coupleable.Extends (coupledGradient var_name comp : Acc R _) := by
  unfold coupledGradient
  repeat' with_reducible first
    | exact keeps_pure _
    | exact keeps_mooseError _
    | exact keeps_get
    | exact keeps_checkVar _
    | exact keeps_isCoupled _ _
    | exact keeps_getFEVar _ _
    | exact keeps_getVar _ _
    | exact keeps_getVectorVar _ _
    | exact keeps_getDefaultValue _
    | exact keeps_getVectorDefaultValue _
    | exact keeps_validateExecutionerType _ _
    | exact keeps_coupledCallback _ _
    | exact keeps_needsPreviousNewtonIteration _
    | refine keeps_bind _ _ ?_ (fun _ => ?_)
    | apply keeps_ite

theorem keeps_coupledGradientOld {R : Type} (var_name : String) (comp : Nat) :
    Acc.Keeps Coupleable.Extends (coupledGradientOld var_name comp : Acc R _) := by
  unfold coupledGradientOld
  repeat' with_reducible first
    | exact keeps_pure _
    | exact keeps_mooseError _
    | exact keeps_get
    | exact keeps_checkVar _
    | exact keeps_isCoupled _ _
    | exact keeps_getFEVar _ _
    | exact keeps_getVar _ _
    | exact keeps_getVectorVar _ _
    | exact keeps_getDefaultValue _
    | exact keeps_getVectorDefaultValue _
    | exact keeps_validateExecutionerType _ _
    | exact keeps_coupledCallback _ _
    | exact keeps_needsPreviousNewtonIteration _
    | refine keeps_bind _ _ ?_ (fun _ => ?_)
    | apply keeps_ite

theorem keeps_coupledGradientOlder {R : Type} (var_name : String) (comp : Nat) :
    Acc.Keeps Coupleable.Extends (coupledGradientOlder var_name comp : Acc R _) := by
  unfold coupledGradientOlder
  repeat' with_reducible first
    | exact keeps_pure _
    | exact keeps_mooseError _
    | exact keeps_get
    | exact keeps_checkVar _
    | exact keeps_isCoupled _ _
    | exact keeps_getFEVar _ _
    | exact keeps_getVar _ _
    | exact keeps_getVectorVar _ _
    | exact keeps_getDefaultValue _
    | exact keeps_getVectorDefaultValue _
    | exact keeps_validateExecutionerType _ _
    | exact keeps_coupledCallback _ _
    | exact keeps_needsPreviousNewtonIteration _
    | refine keeps_bind _ _ ?_ (fun _ => ?_)
    | apply keeps_ite

theorem keeps_coupledGradientPreviousNL {R : Type} (var_name : String) (comp : Nat) :
    Acc.Keeps Coupleable.Extends (coupledGradientPreviousNL var_name comp : Acc R _) := by
  unfold coupledGradientPreviousNL
  repeat' with_reducible first
    | exact keeps_pure _
    | exact keeps_mooseError _
    | exact keeps_get
    | exact keeps_checkVar _
    | exact keeps_isCoupled _ _
    | exact keeps_getFEVar _ _
    | exact keeps_getVar _ _
    | exact keeps_getVectorVar _ _
    | exact keeps_getDefaultValue _
    | exact keeps_getVectorDefaultValue _
    | exact keeps_validateExecutionerType _ _
    | exact keeps_coupledCallback _ _
    | exact keeps_needsPreviousNewtonIteration _
    | refine keeps_bind _ _ ?_ (fun _ => ?_)
    | apply keeps_ite

theorem keeps_coupledGradientDot {R : Type} (var_name : String) (comp : Nat) :
    Acc.Keeps Coupleable.Extends (coupledGradientDot var_name comp : Acc R _) := by
  unfold coupledGradientDot
  repeat' with_reducible first
    | exact keeps_pure _
    | exact keeps_mooseError _
    | exact keeps_get
    | exact keeps_checkVar _
    | exact keeps_isCoupled _ _
    | exact keeps_getFEVar _ _
    | exact keeps_getVar _ _
    | exact keeps_getVectorVar _ _
    | exact keeps_getDefaultValue _
    | exact keeps_getVectorDefaultValue _
    | exact keeps_validateExecutionerType _ _
    | exact keeps_coupledCallback _ _
    | exact keeps_needsPreviousNewtonIteration _
    | refine keeps_bind _ _ ?_ (fun _ => ?_)
    | apply keeps_ite

theorem keeps_coupledCurl {R : Type} (var_name : String) (comp : Nat) :
    Acc.Keeps Coupleable.Extends (coupledCurl var_name comp : Acc R _) := by
  unfold coupledCurl
  repeat' with_reducible first
    | exact keeps_pure _
    | exact keeps_mooseError _
    | exact keeps_get
    | exact keeps_checkVar _
    | exact keeps_isCoupled _ _
    | exact keeps_getFEVar _ _
    | exact keeps_getVar _ _
    | exact keeps_getVectorVar _ _
    | exact keeps_getDefaultValue _
    | exact keeps_getVectorDefaultValue _
    | exact keeps_validateExecutionerType _ _
    | exact keeps_coupledCallback _ _
    | exact keeps_needsPreviousNewtonIteration _
    | refine keeps_bind _ _ ?_ (fun _ => ?_)
    | apply keeps_ite

theorem keeps_coupledCurlOld {R : Type} (var_name : String) (comp : Nat) :
    Acc.Keeps Coupleable.Extends (coupledCurlOld var_name comp : Acc R _) := by
  unfold coupledCurlOld
  repeat' with_reducible first
    | exact keeps_pure _
    | exact keeps_mooseError _
    | exact keeps_get
    | exact keeps_checkVar _
    | exact keeps_isCoupled _ _
    | exact keeps_getFEVar _ _
    | exact keeps_getVar _ _
    | exact keeps_getVectorVar _ _
    | exact keeps_getDefaultValue _
    | exact keeps_getVectorDefaultValue _
    | exact keeps_validateExecutionerType _ _
    | exact keeps_coupledCallback _ _
    | exact keeps_needsPreviousNewtonIteration _
    | refine keeps_bind _ _ ?_ (fun _ => ?_)
    | apply keeps_ite

theorem keeps_coupledCurlOlder {R : Type} (var_name : String) (comp : Nat) :
    Acc.Keeps Coupleable.Extends (coupledCurlOlder var_name comp : Acc R _) := by
  unfold coupledCurlOlder
  repeat' with_reducible first
    | exact keeps_pure _
    | exact keeps_mooseError _
    | exact keeps_get
    | exact keeps_checkVar _
    | exact keeps_isCoupled _ _
    | exact keeps_getFEVar _ _
    | exact keeps_getVar _ _
    | exact keeps_getVectorVar _ _
    | exact keeps_getDefaultValue _
    | exact keeps_getVectorDefaultValue _
    | exact keeps_validateExecutionerType _ _
    | exact keeps_coupledCallback _ _
    | exact keeps_needsPreviousNewtonIteration _
    | refine keeps_bind _ _ ?_ (fun _ => ?_)
    | apply keeps_ite

theorem keeps_coupledSecond {R : Type} (var_name : String) (comp : Nat) :
    Acc.Keeps Coupleable.Extends (coupledSecond var_name comp : Acc R _) := by
  unfold coupledSecond
  repeat' with_reducible first
    | exact keeps_pure _
    | exact keeps_mooseError _
    | exact keeps_get
    | exact keeps_checkVar _
    | exact keeps_isCoupled _ _
    | exact keeps_getFEVar _ _
    | exact keeps_getVar _ _
    | exact keeps_getVectorVar _ _
    | exact keeps_getDefaultValue _
    | exact keeps_getVectorDefaultValue _
    | exact keeps_validateExecutionerType _ _
    | exact keeps_coupledCallback _ _
    | exact keeps_needsPreviousNewtonIteration _
    | refine keeps_bind _ _ ?_ (fun _ => ?_)
    | apply keeps_ite

theorem keeps_coupledSecondOld {R : Type} (var_name : String) (comp : Nat) :
    Acc.Keeps Coupleable.Extends (coupledSecondOld var_name comp : Acc R _) := by
  unfold coupledSecondOld
  repeat' with_reducible first
    | exact keeps_pure _
    | exact keeps_mooseError _
    | exact keeps_get
    | exact keeps_checkVar _
    | exact keeps_isCoupled _ _
    | exact keeps_getFEVar _ _
    | exact keeps_getVar _ _
    | exact keeps_getVectorVar _ _
    | exact keeps_getDefaultValue _
    | exact keeps_getVectorDefaultValue _
    | exact keeps_validateExecutionerType _ _
    | exact keeps_coupledCallback _ _
    | exact keeps_needsPreviousNewtonIteration _
    | refine keeps_bind _ _ ?_ (fun _ => ?_)
    | apply keeps_ite

theorem keeps_coupledSecondOlder {R : Type} (var_name : String) (comp : Nat) :
    Acc.Keeps Coupleable.Extends (coupledSecondOlder var_name comp : Acc R _) := by
  unfold coupledSecondOlder
  repeat' with_reducible first
    | exact keeps_pure _
    | exact keeps_mooseError _
    | exact keeps_get
    | exact keeps_checkVar _
    | exact keeps_isCoupled _ _
    | exact keeps_getFEVar _ _
    | exact keeps_getVar _ _
    | exact keeps_getVectorVar _ _
    | exact keeps_getDefaultValue _
    | exact keeps_getVectorDefaultValue _
    | exact keeps_validateExecutionerType _ _
    | exact keeps_coupledCallback _ _
    | exact keeps_needsPreviousNewtonIteration _
    | refine keeps_bind _ _ ?_ (fun _ => ?_)
    | apply keeps_ite

theorem keeps_coupledSecondPreviousNL {R : Type} (var_name : String) (comp : Nat) :
    Acc.Keeps Coupleable.Extends (coupledSecondPreviousNL var_name comp : Acc R _) := by
  unfold coupledSecondPreviousNL
  repeat' with_reducible first
    | exact keeps_pure _
    | exact keeps_mooseError _
    | exact keeps_get
    | exact keeps_checkVar _
    | exact keeps_isCoupled _ _
    | exact keeps_getFEVar _ _
    | exact keeps_getVar _ _
    | exact keeps_getVectorVar _ _
    | exact keeps_getDefaultValue _
    | exact keeps_getVectorDefaultValue _
    | exact keeps_validateExecutionerType _ _
    | exact keeps_coupledCallback _ _
    | exact keeps_needsPreviousNewtonIteration _
    | refine keeps_bind _ _ ?_ (fun _ => ?_)
    | apply keeps_ite

theorem keeps_coupledNodalValue {R : Type} (var_name : String) (comp : Nat) :
    Acc.Keeps Coupleable.Extends (coupledNodalValue var_name comp : Acc R _) := by
  unfold coupledNodalValue
  repeat' with_reducible first
    | exact keeps_pure _
    | exact keeps_mooseError _
    | exact keeps_get
    | exact keeps_checkVar _
    | exact keeps_isCoupled _ _
    | exact keeps_getFEVar _ _
    | exact keeps_getVar _ _
    | exact keeps_getVectorVar _ _
    | exact keeps_getDefaultValue _
    | exact keeps_getVectorDefaultValue _
    | exact keeps_validateExecutionerType _ _
    | exact keeps_coupledCallback _ _
    | exact keeps_needsPreviousNewtonIteration _
    | refine keeps_bind _ _ ?_ (fun _ => ?_)
    | apply keeps_ite

theorem keeps_coupledNodalValueOld {R : Type} (var_name : String) (comp : Nat) :
    Acc.Keeps Coupleable.Extends (coupledNodalValueOld var_name comp : Acc R _) := by
  unfold coupledNodalValueOld
  repeat' with_reducible first
    | exact keeps_pure _
    | exact keeps_mooseError _
    | exact keeps_get
    | exact keeps_checkVar _
    | exact keeps_isCoupled _ _
    | exact keeps_getFEVar _ _
    | exact keeps_getVar _ _
    | exact keeps_getVectorVar _ _
    | exact keeps_getDefaultValue _
    | exact keeps_getVectorDefaultValue _
    | exact keeps_validateExecutionerType _ _
    | exact keeps_coupledCallback _ _
    | exact keeps_needsPreviousNewtonIteration _
    | refine keeps_bind _ _ ?_ (fun _ => ?_)
    | apply keeps_ite

theorem keeps_coupledNodalValueOlder {R : Type} (var_name : String) (comp : Nat) :
    Acc.Keeps Coupleable.Extends (coupledNodalValueOlder var_name comp : Acc R _) := by
  unfold coupledNodalValueOlder
  repeat' with_reducible first
    | exact keeps_pure _
    | exact keeps_mooseError _
    | exact keeps_get
    | exact keeps_checkVar _
    | exact keeps_isCoupled _ _
    | exact keeps_getFEVar _ _
    | exact keeps_getVar _ _
    | exact keeps_getVectorVar _ _
    | exact keeps_getDefaultValue _
    | exact keeps_getVectorDefaultValue _
    | exact keeps_validateExecutionerType _ _
    | exact keeps_coupledCallback _ _
    | exact keeps_needsPreviousNewtonIteration _
    | refine keeps_bind _ _ ?_ (fun _ => ?_)
    | apply keeps_ite

theorem keeps_coupledNodalValuePreviousNL {R : Type} (var_name : String) (comp : Nat) :
    Acc.Keeps Coupleable.Extends (coupledNodalValuePreviousNL var_name comp : Acc R _) := by
  unfold coupledNodalValuePreviousNL
  repeat' with_reducible first
    | exact keeps_pure _
    | exact keeps_mooseError _
    | exact keeps_get
    | exact keeps_checkVar _
    | exact keeps_isCoupled _ _
    | exact keeps_getFEVar _ _
    | exact keeps_getVar _ _
    | exact keeps_getVectorVar _ _
    | exact keeps_getDefaultValue _
    | exact keeps_getVectorDefaultValue _
    | exact keeps_validateExecutionerType _ _
    | exact keeps_coupledCallback _ _
    | exact keeps_needsPreviousNewtonIteration _
    | refine keeps_bind _ _ ?_ (fun _ => ?_)
    | apply keeps_ite

theorem keeps_coupledNodalDot {R : Type} (var_name : String) (comp : Nat) :
    Acc.Keeps Coupleable.Extends (coupledNodalDot var_name comp : Acc R _) := by
  unfold coupledNodalDot
  repeat' with_reducible first
    | exact keeps_pure _
    | exact keeps_mooseError _
    | exact keeps_get
    | exact keeps_checkVar _
    | exact keeps_isCoupled _ _
    | exact keeps_getFEVar _ _
    | exact keeps_getVar _ _
    | exact keeps_getVectorVar _ _
    | exact keeps_getDefaultValue _
    | exact keeps_getVectorDefaultValue _
    | exact keeps_validateExecutionerType _ _
    | exact keeps_coupledCallback _ _
    | exact keeps_needsPreviousNewtonIteration _
    | refine keeps_bind _ _ ?_ (fun _ => ?_)
    | apply keeps_ite

theorem keeps_coupledSolutionDoFs {R : Type} (var_name : String) (comp : Nat) :
    Acc.Keeps Coupleable.Extends (coupledSolutionDoFs var_name comp : Acc R _) := by
  unfold coupledSolutionDoFs
  repeat' with_reducible first
    | exact keeps_pure _
    | exact keeps_mooseError _
    | exact keeps_get
    | exact keeps_checkVar _
    | exact keeps_isCoupled _ _
    | exact keeps_getFEVar _ _
    | exact keeps_getVar _ _
    | exact keeps_getVectorVar _ _
    | exact keeps_getDefaultValue _
    | exact keeps_getVectorDefaultValue _
    | exact keeps_validateExecutionerType _ _
    | exact keeps_coupledCallback _ _
    | exact keeps_needsPreviousNewtonIteration _
    | refine keeps_bind _ _ ?_ (fun _ => ?_)
    | apply keeps_ite

theorem keeps_coupledSolutionDoFsOld {R : Type} (var_name : String) (comp : Nat) :
    Acc.Keeps Coupleable.Extends (coupledSolutionDoFsOld var_name comp : Acc R _) := by
  unfold coupledSolutionDoFsOld
  repeat' with_reducible first
    | exact keeps_pure _
    | exact keeps_mooseError _
    | exact keeps_get
    | exact keeps_checkVar _
    | exact keeps_isCoupled _ _
    | exact keeps_getFEVar _ _
    | exact keeps_getVar _ _
    | exact keeps_getVectorVar _ _
    | exact keeps_getDefaultValue _
    | exact keeps_getVectorDefaultValue _
    | exact keeps_validateExecutionerType _ _
    | exact keeps_coupledCallback _ _
    | exact keeps_needsPreviousNewtonIteration _
    | refine keeps_bind _ _ ?_ (fun _ => ?_)
    | apply keeps_ite

theorem keeps_coupledSolutionDoFsOlder {R : Type} (var_name : String) (comp : Nat) :
    Acc.Keeps Coupleable.Extends (coupledSolutionDoFsOlder var_name comp : Acc R _) := by
  unfold coupledSolutionDoFsOlder
  repeat' with_reducible first
    | exact keeps_pure _
    | exact keeps_mooseError _
    | exact keeps_get
    | exact keeps_checkVar _
    | exact keeps_isCoupled _ _
    | exact keeps_getFEVar _ _
    | exact keeps_getVar _ _
    | exact keeps_getVectorVar _ _
    | exact keeps_getDefaultValue _
    | exact keeps_getVectorDefaultValue _
    | exact keeps_validateExecutionerType _ _
    | exact keeps_coupledCallback _ _
    | exact keeps_needsPreviousNewtonIteration _
    | refine keeps_bind _ _ ?_ (fun _ => ?_)
    | apply keeps_ite

/-- Every call leaves an object that extends the one it was made on. -/
theorem perform_extends {R : Type} [CommRing R] (call : Call) (c : Coupleable R) :
    c.Extends (call.perform c) := by
  cases call
  case coupledCallback n b => exact keeps_coupledCallback n b c
  case isCoupled n i => exact keeps_isCoupled n i c
  case coupledComponents n => exact keeps_coupledComponents n c
  case checkVar n => exact keeps_checkVar n c
  case getFEVar n k => exact keeps_getFEVar n k c
  case getVar n k => exact keeps_getVar n k c
  case getVectorVar n k => exact keeps_getVectorVar n k c
  case coupled n k => exact keeps_coupled n k c
  case getDefaultValue n => exact keeps_getDefaultValue n c
  case getVectorDefaultValue n => exact keeps_getVectorDefaultValue n c
  case validateExecutionerType n f => exact keeps_validateExecutionerType n f c
  case writableCoupledValue n k => exact keeps_coupledValue n k c
  case coupledValue n k => exact keeps_coupledValue n k c
  case coupledVectorValue n k => exact keeps_coupledVectorValue n k c
  case coupledValueOld n k => exact keeps_coupledValueOld n k c
  case coupledValueOlder n k => exact keeps_coupledValueOlder n k c
  case coupledValuePreviousNL n k => exact keeps_coupledValuePreviousNL n k c
  case coupledVectorValueOld n k => exact keeps_coupledVectorValueOld n k c
  case coupledVectorValueOlder n k => exact keeps_coupledVectorValueOlder n k c
  case coupledDot n k => exact keeps_coupledDot n k c
  case coupledVectorDot n k => exact keeps_coupledVectorDot n k c
  case coupledDotDu n k => exact keeps_coupledDotDu n k c
  case coupledGradient n k => exact keeps_coupledGradient n k c
  case coupledGradientOld n k => exact keeps_coupledGradientOld n k c
  case coupledGradientOlder n k => exact keeps_coupledGradientOlder n k c
  case coupledGradientPreviousNL n k => exact keeps_coupledGradientPreviousNL n k c
  case coupledGradientDot n k => exact keeps_coupledGradientDot n k c
  case coupledCurl n k => exact keeps_coupledCurl n k c
  case coupledCurlOld n k => exact keeps_coupledCurlOld n k c
  case coupledCurlOlder n k => exact keeps_coupledCurlOlder n k c
  case coupledSecond n k => exact keeps_coupledSecond n k c
  case coupledSecondOld n k => exact keeps_coupledSecondOld n k c
  case coupledSecondOlder n k => exact keeps_coupledSecondOlder n k c
  case coupledSecondPreviousNL n k => exact keeps_coupledSecondPreviousNL n k c
  case coupledNodalValue n k => exact keeps_coupledNodalValue n k c
  case coupledNodalValueOld n k => exact keeps_coupledNodalValueOld n k c
  case coupledNodalValueOlder n k => exact keeps_coupledNodalValueOlder n k c
  case coupledNodalValuePreviousNL n k => exact keeps_coupledNodalValuePreviousNL n k c
  case coupledNodalDot n k => exact keeps_coupledNodalDot n k c
  case coupledSolutionDoFs n k => exact keeps_coupledSolutionDoFs n k c
  case coupledSolutionDoFsOld n k => exact keeps_coupledSolutionDoFsOld n k c
  case coupledSolutionDoFsOlder n k => exact keeps_coupledSolutionDoFsOlder n k c

/-- Every sequence of calls leaves an object that extends the one it started on. -/
theorem Coupleable.after_extends {R : Type} [CommRing R] (c : Coupleable R) (calls : List Call) :
    c.Extends (c.after calls) := by
  unfold Coupleable.after
  induction calls generalizing c with
  | nil => exact extends_refl c
  | cons call calls ih =>
    simp only [List.foldl_cons]
    exact extends_trans (perform_extends call c) (ih _)

/-! ## The constructor -/

theorem sameConfig_refl {R : Type} (c : Coupleable R) : c.SameConfig c := by
  constructor <;> rfl

theorem sameConfig_trans {R : Type} {a b c : Coupleable R} (h1 : a.SameConfig b)
    (h2 : b.SameConfig c) : a.SameConfig c := by
  constructor
  all_goals first
    | exact h2.c_parameters.trans h1.c_parameters
    | exact h2.c_name.trans h1.c_name
    | exact h2.c_fe_problem.trans h1.c_fe_problem
    | exact h2.needs_previous_newton_iteration.trans h1.needs_previous_newton_iteration
    | exact h2.c_nodal.trans h1.c_nodal
    | exact h2.c_is_implicit.trans h1.c_is_implicit
    | exact h2.coupleable_neighbor.trans h1.coupleable_neighbor
    | exact h2.coupleable_max_qps.trans h1.coupleable_max_qps
    | exact h2.default_value.trans h1.default_value
    | exact h2.default_vector_value.trans h1.default_vector_value
    | exact h2.callbacks.trans h1.callbacks

/-- One step of the inner loop of the constructor. -/
theorem resolve_step {R : Type} (problem : Problem) (name : String) (c : Coupleable R)
    (v : String) :
    (unresolvable problem v = true →
      Coupleable.resolve problem name c v =
        .error (if problem.hasVariable v then .unknownVariableType
                else .coupledVariableNotFound c.c_name v)) ∧
    (unresolvable problem v = false →
      ∃ c', Coupleable.resolve problem name c v = .ok c' ∧ c.SameConfig c' ∧
        c'.optional_var_index = c.optional_var_index ∧
        (∀ k, c'.coupled_vars.find k =
          if name = k ∧ problem.hasVariable v = true then
            some (c.coupled_vars.valueAt name [] ++ [problem.getVariable v])
          else c.coupled_vars.find k) ∧
        (∀ k, c'.c_coupled_scalar_vars.find k =
          if name = k ∧ problem.hasVariable v = false then
            some (c.c_coupled_scalar_vars.valueAt name [] ++ [problem.getScalarVariable v])
          else c.c_coupled_scalar_vars.find k)) := by
  unfold unresolvable Coupleable.resolve
  by_cases hv : problem.hasVariable v = true
  · simp only [hv, if_true]
    cases hft : (problem.getVariable v).fieldType
    · refine ⟨by simp, fun _ => ⟨_, rfl, ?_, rfl, ?_, ?_⟩⟩
      · constructor <;> rfl
      · intro k; simp [Coupleable.pushCoupledVar, StdMap.find_set]
      · intro k; simp [Coupleable.pushCoupledVar]
    · refine ⟨by simp, fun _ => ⟨_, rfl, ?_, rfl, ?_, ?_⟩⟩
      · constructor <;> rfl
      · intro k; simp [Coupleable.pushCoupledVar, StdMap.find_set]
      · intro k; simp [Coupleable.pushCoupledVar]
    · simp
  · simp only [hv, if_false, Bool.false_eq_true]
    by_cases hs : problem.hasScalarVariable v = true
    · simp only [hs, if_true]
      refine ⟨by simp, fun _ => ⟨_, rfl, ?_, rfl, ?_, ?_⟩⟩
      · constructor <;> rfl
      · intro k; simp [Coupleable.pushScalarVar]
      · intro k; simp [Coupleable.pushScalarVar, StdMap.find_set]
    · simp [hs]


theorem valueAt_eq_of_find {α : Type} (m : StdMap α) (k : String) (d x : α)
    (h : m.find k = some x) : m.valueAt k d = x := by
  simp [StdMap.valueAt, h]

theorem fieldHandles_cons (problem : Problem) (v : String) (vars : List String) :
    fieldHandles problem (v :: vars) =
      if problem.hasVariable v = true then problem.getVariable v :: fieldHandles problem vars
      else fieldHandles problem vars := by
  unfold fieldHandles
  by_cases h : problem.hasVariable v = true <;> simp [List.filter_cons, h]

theorem scalarHandles_cons (problem : Problem) (v : String) (vars : List String) :
    scalarHandles problem (v :: vars) =
      if (!problem.hasVariable v && problem.hasScalarVariable v) = true then
        problem.getScalarVariable v :: scalarHandles problem vars
      else scalarHandles problem vars := by
  unfold scalarHandles
  by_cases h : (!problem.hasVariable v && problem.hasScalarVariable v) = true
  · simp only [List.filter_cons, h, if_true, List.map_cons]
  · simp only [List.filter_cons, h, if_false]
    rfl

/-- The inner loop of the constructor, for the variable names listed under one coupling. -/
theorem resolve_fold {R : Type} (problem : Problem) (name : String) (vars : List String)
    (c : Coupleable R) :
    (vars.any (unresolvable problem) = true →
      ∃ e, vars.foldlM (Coupleable.resolve problem name) c = .error e ∧
        (e = .unknownVariableType ∨ ∃ v ∈ vars, e = .coupledVariableNotFound c.c_name v)) ∧
    (vars.any (unresolvable problem) = false →
      ∃ c', vars.foldlM (Coupleable.resolve problem name) c = .ok c' ∧ c.SameConfig c' ∧
        c'.optional_var_index = c.optional_var_index ∧
        (∀ k, c'.coupled_vars.find k =
          if name = k ∧ fieldHandles problem vars ≠ [] then
            some (c.coupled_vars.valueAt name [] ++ fieldHandles problem vars)
          else c.coupled_vars.find k) ∧
        (∀ k, c'.c_coupled_scalar_vars.find k =
          if name = k ∧ scalarHandles problem vars ≠ [] then
            some (c.c_coupled_scalar_vars.valueAt name [] ++ scalarHandles problem vars)
          else c.c_coupled_scalar_vars.find k)) := by
  induction vars generalizing c with
  | nil =>
    refine ⟨by simp, fun _ => ⟨c, rfl, sameConfig_refl c, rfl, ?_, ?_⟩⟩
    · intro k; simp [fieldHandles]
    · intro k; simp [scalarHandles]
  | cons v vars ih =>
    obtain ⟨hbad, hgood⟩ := resolve_step problem name c v
    by_cases hv : unresolvable problem v = true
    · refine ⟨fun _ => ⟨(if problem.hasVariable v then .unknownVariableType
          else .coupledVariableNotFound c.c_name v), ?_, ?_⟩, ?_⟩
      · rw [List.foldlM_cons, hbad hv]; rfl
      · by_cases h : problem.hasVariable v = true
        · left; simp [h]
        · right; exact ⟨v, List.mem_cons_self _ _, by simp [h]⟩
      · intro h; simp [hv] at h
    · have hv' : unresolvable problem v = false := by simpa using hv
      obtain ⟨c1, hc1, hcfg1, hidx1, hvars1, hsc1⟩ := hgood hv'
      obtain ⟨ihbad, ihgood⟩ := ih c1
      constructor
      · intro h
        have h' : vars.any (unresolvable problem) = true := by simpa [hv'] using h
        obtain ⟨e, he, hcase⟩ := ihbad h'
        refine ⟨e, ?_, ?_⟩
        · rw [List.foldlM_cons, hc1]; exact he
        · rcases hcase with h1 | ⟨w, hw, h1⟩
          · exact Or.inl h1
          · right; exact ⟨w, List.mem_cons_of_mem _ hw, by rw [h1, hcfg1.c_name]⟩
      · intro h
        have h' : vars.any (unresolvable problem) = false := by simpa [hv'] using h
        obtain ⟨c2, hc2, hcfg2, hidx2, hvars2, hsc2⟩ := ihgood h'
        refine ⟨c2, ?_, sameConfig_trans hcfg1 hcfg2, hidx2.trans hidx1, ?_, ?_⟩
        · rw [List.foldlM_cons, hc1]; exact hc2
        · intro k
          rw [hvars2 k, fieldHandles_cons]
          by_cases hk : name = k
          · subst hk
            by_cases hf : problem.hasVariable v = true
            · have e1 : c1.coupled_vars.valueAt name [] =
                  c.coupled_vars.valueAt name [] ++ [problem.getVariable v] :=
                valueAt_eq_of_find _ _ _ _ (by rw [hvars1]; simp [hf])
              rw [hvars1 name, e1]
              by_cases hrest : fieldHandles problem vars = []
              · simp [hf, hrest]
              · simp [hf, hrest]
            · have e1 : c1.coupled_vars.valueAt name [] = c.coupled_vars.valueAt name [] := by
                simp [StdMap.valueAt, hvars1, hf]
              rw [hvars1 name, e1]
              simp [hf]
          · simp [hk, hvars1]
        · intro k
          rw [hsc2 k, scalarHandles_cons]
          have hsv : problem.hasVariable v = false → problem.hasScalarVariable v = true := by
            intro hf
            simp [unresolvable, hf] at hv'
            exact hv'
          by_cases hk : name = k
          · subst hk
            by_cases hf : problem.hasVariable v = true
            · have e1 : c1.c_coupled_scalar_vars.valueAt name [] =
                  c.c_coupled_scalar_vars.valueAt name [] := by
                simp [StdMap.valueAt, hsc1, hf]
              rw [hsc1 name, e1]
              simp [hf]
            · have hf' : problem.hasVariable v = false := by simpa using hf
              have e1 : c1.c_coupled_scalar_vars.valueAt name [] =
                  c.c_coupled_scalar_vars.valueAt name [] ++ [problem.getScalarVariable v] :=
                valueAt_eq_of_find _ _ _ _ (by rw [hsc1]; simp [hf'])
              rw [hsc1 name, e1]
              by_cases hrest : scalarHandles problem vars = []
              · simp [hf', hsv hf', hrest]
              · simp [hf', hsv hf', hrest]
          · simp [hk, hsc1]


/-- The assignment of the placeholder index of one optional coupling. -/
theorem assignOptional_spec {R : Type} (order : AssignOrder) (c : Coupleable R) (name : String)
    (h : c.optional_var_index.find name = none) :
    c.SameConfig (c.assignOptional order name) ∧
    (c.assignOptional order name).coupled_vars = c.coupled_vars ∧
    (c.assignOptional order name).c_coupled_scalar_vars = c.c_coupled_scalar_vars ∧
    (c.assignOptional order name).optional_var_index.entries =
      c.optional_var_index.entries ++
        [(name, optionalIndex (order.sizeSeen c.optional_var_index.size))] := by
  have h' : StdMap.findIn c.optional_var_index.entries name = none := h
  cases order
  · refine ⟨by constructor <;> rfl, rfl, rfl, ?_⟩
    simp only [Coupleable.assignOptional, StdMap.set, AssignOrder.sizeSeen]
    exact StdMap.setIn_of_findIn_none _ _ _ h'
  · refine ⟨by constructor <;> rfl, rfl, rfl, ?_⟩
    simp only [Coupleable.assignOptional, StdMap.set, StdMap.touch, h, AssignOrder.sizeSeen,
      StdMap.size]
    rw [StdMap.setIn_of_findIn_none _ _ _ h', StdMap.setIn_last _ _ _ _ h']
    simp

theorem sentinelEntries_findIn_none (order : AssignOrder) (k : Nat) (names : List String)
    (n : String) (h : n ∉ names) : StdMap.findIn (sentinelEntries order k names) n = none := by
  induction names generalizing k with
  | nil => rfl
  | cons a names ih =>
    have ha : ¬ a = n := fun e => h (e ▸ List.mem_cons_self _ _)
    simp only [sentinelEntries, StdMap.findIn, ha, if_false]
    exact ih _ (fun hm => h (List.mem_cons_of_mem _ hm))

/-- The coupling loop of the constructor over a list of distinct coupling names none of
which the maps hold yet. -/
theorem declare_fold {R : Type} (order : AssignOrder) (problem : Problem) (names : List String)
    (c : Coupleable R) (hnd : names.Nodup)
    (hfresh : ∀ n ∈ names, c.coupled_vars.find n = none ∧
      c.c_coupled_scalar_vars.find n = none ∧ c.optional_var_index.find n = none) :
    (names.any (fun n => (c.c_parameters.getVecMooseType n).any (unresolvable problem)) = true →
      ∃ e, names.foldlM (Coupleable.declare order problem) c = .error e ∧
        (e = .unknownVariableType ∨
          ∃ n ∈ names, ∃ v ∈ c.c_parameters.getVecMooseType n,
            e = .coupledVariableNotFound c.c_name v)) ∧
    (names.any (fun n => (c.c_parameters.getVecMooseType n).any (unresolvable problem)) = false →
      ∃ c', names.foldlM (Coupleable.declare order problem) c = .ok c' ∧ c.SameConfig c' ∧
        (∀ k, c'.coupled_vars.find k =
          if k ∈ names ∧ fieldHandles problem (c.c_parameters.getVecMooseType k) ≠ [] then
            some (fieldHandles problem (c.c_parameters.getVecMooseType k))
          else c.coupled_vars.find k) ∧
        (∀ k, c'.c_coupled_scalar_vars.find k =
          if k ∈ names ∧ scalarHandles problem (c.c_parameters.getVecMooseType k) ≠ [] then
            some (scalarHandles problem (c.c_parameters.getVecMooseType k))
          else c.c_coupled_scalar_vars.find k) ∧
        c'.optional_var_index.entries =
          c.optional_var_index.entries ++
            sentinelEntries order c.optional_var_index.size
              (names.filter (fun n => decide (c.c_parameters.getVecMooseType n = [])))) := by
  induction names generalizing c with
  | nil =>
    refine ⟨by simp, fun _ => ⟨c, rfl, sameConfig_refl c, ?_, ?_, ?_⟩⟩
    · intro k; simp
    · intro k; simp
    · simp [sentinelEntries]
  | cons n names ih =>
    have hn : n ∉ names := (List.nodup_cons.mp hnd).1
    have hnd' : names.Nodup := (List.nodup_cons.mp hnd).2
    obtain ⟨hfv, hfs, hfi⟩ := hfresh n (List.mem_cons_self _ _)
    have hne : ∀ k ∈ names, ¬ n = k := fun k hk e => hn (e ▸ hk)
    by_cases hopt : c.c_parameters.getVecMooseType n = []
    · -- an optional coupling
      obtain ⟨hcfg1, hv1, hs1, hi1⟩ := assignOptional_spec order c n hfi
      have hstep : Coupleable.declare order problem c n = .ok (c.assignOptional order n) := by
        simp [Coupleable.declare, hopt]
      have hfresh1 : ∀ m ∈ names, (c.assignOptional order n).coupled_vars.find m = none ∧
          (c.assignOptional order n).c_coupled_scalar_vars.find m = none ∧
          (c.assignOptional order n).optional_var_index.find m = none := by
        intro m hm
        obtain ⟨a1, a2, a3⟩ := hfresh m (List.mem_cons_of_mem _ hm)
        refine ⟨by rw [hv1]; exact a1, by rw [hs1]; exact a2, ?_⟩
        show StdMap.findIn _ m = none
        rw [hi1, StdMap.findIn_append]
        have a3' : StdMap.findIn c.optional_var_index.entries m = none := a3
        simp [a3', StdMap.findIn, hne m hm]
      obtain ⟨ihbad, ihgood⟩ := ih (c.assignOptional order n) hnd' hfresh1
      rw [hcfg1.c_parameters, hcfg1.c_name] at ihbad
      rw [hcfg1.c_parameters] at ihgood
      constructor
      · intro h
        have h' : names.any
            (fun n => (c.c_parameters.getVecMooseType n).any (unresolvable problem)) = true := by
          simpa [hopt] using h
        obtain ⟨e, he, hcase⟩ := ihbad h'
        refine ⟨e, by rw [List.foldlM_cons, hstep]; exact he, ?_⟩
        rcases hcase with h1 | ⟨m, hm, v, hv, h1⟩
        · exact Or.inl h1
        · exact Or.inr ⟨m, List.mem_cons_of_mem _ hm, v, hv, h1⟩
      · intro h
        have h' : names.any
            (fun n => (c.c_parameters.getVecMooseType n).any (unresolvable problem)) = false := by
          simpa [hopt] using h
        obtain ⟨c2, hc2, hcfg2, hvars2, hsc2, hidx2⟩ := ihgood h'
        refine ⟨c2, by rw [List.foldlM_cons, hstep]; exact hc2,
          sameConfig_trans hcfg1 hcfg2, ?_, ?_, ?_⟩
        · intro k
          rw [hvars2 k, hv1]
          by_cases hk : k = n
          · subst hk; simp [hopt, fieldHandles, hn, hfv]
          · simp [hk]
        · intro k
          rw [hsc2 k, hs1]
          by_cases hk : k = n
          · subst hk; simp [hopt, scalarHandles, hn, hfs]
          · simp [hk]
        · have hsz : (c.assignOptional order n).optional_var_index.size =
              c.optional_var_index.size + 1 := by
            simp [StdMap.size, hi1]
          rw [hidx2, hi1, hsz]
          simp [List.filter_cons, hopt, sentinelEntries]
    · -- a coupling that lists variables
      have hstep : Coupleable.declare order problem c n =
          (c.c_parameters.getVecMooseType n).foldlM (Coupleable.resolve problem n) c := by
        simp [Coupleable.declare, hopt]
      obtain ⟨rbad, rgood⟩ := resolve_fold problem n (c.c_parameters.getVecMooseType n) c
      by_cases hb : (c.c_parameters.getVecMooseType n).any (unresolvable problem) = true
      · obtain ⟨e, he, hcase⟩ := rbad hb
        refine ⟨fun _ => ⟨e, ?_, ?_⟩, ?_⟩
        · rw [List.foldlM_cons, hstep, he]; rfl
        · rcases hcase with h1 | ⟨v, hv, h1⟩
          · exact Or.inl h1
          · exact Or.inr ⟨n, List.mem_cons_self _ _, v, hv, h1⟩
        · intro h; simp [hb] at h
      · have hb' : (c.c_parameters.getVecMooseType n).any (unresolvable problem) = false := by
          simpa using hb
        obtain ⟨c1, hc1, hcfg1, hi1, hv1, hs1⟩ := rgood hb'
        have hfresh1 : ∀ m ∈ names, c1.coupled_vars.find m = none ∧
            c1.c_coupled_scalar_vars.find m = none ∧ c1.optional_var_index.find m = none := by
          intro m hm
          obtain ⟨a1, a2, a3⟩ := hfresh m (List.mem_cons_of_mem _ hm)
          refine ⟨?_, ?_, by rw [hi1]; exact a3⟩
          · rw [hv1]; simp [hne m hm, a1]
          · rw [hs1]; simp [hne m hm, a2]
        obtain ⟨ihbad, ihgood⟩ := ih c1 hnd' hfresh1
        rw [hcfg1.c_parameters, hcfg1.c_name] at ihbad
        rw [hcfg1.c_parameters] at ihgood
        have hval1 : c.coupled_vars.valueAt n [] = [] := by simp [StdMap.valueAt, hfv]
        have hval2 : c.c_coupled_scalar_vars.valueAt n [] = [] := by simp [StdMap.valueAt, hfs]
        constructor
        · intro h
          have h' : names.any
              (fun n => (c.c_parameters.getVecMooseType n).any (unresolvable problem)) = true := by
            simpa [hb'] using h
          obtain ⟨e, he, hcase⟩ := ihbad h'
          refine ⟨e, by rw [List.foldlM_cons, hstep, hc1]; exact he, ?_⟩
          rcases hcase with h1 | ⟨m, hm, v, hv, h1⟩
          · exact Or.inl h1
          · exact Or.inr ⟨m, List.mem_cons_of_mem _ hm, v, hv, h1⟩
        · intro h
          have h' : names.any
              (fun n => (c.c_parameters.getVecMooseType n).any (unresolvable problem)) = false := by
            simpa [hb'] using h
          obtain ⟨c2, hc2, hcfg2, hvars2, hsc2, hidx2⟩ := ihgood h'
          refine ⟨c2, by rw [List.foldlM_cons, hstep, hc1]; exact hc2,
            sameConfig_trans hcfg1 hcfg2, ?_, ?_, ?_⟩
          · intro k
            rw [hvars2 k, hv1 k, hval1]
            by_cases hk : k = n
            · subst hk; simp [hn]
            · have hk' : ¬ n = k := fun e => hk e.symm
              simp [hk, hk']
          · intro k
            rw [hsc2 k, hs1 k, hval2]
            by_cases hk : k = n
            · subst hk; simp [hn]
            · have hk' : ¬ n = k := fun e => hk e.symm
              simp [hk, hk']
          · rw [hidx2, hi1]
            simp [List.filter_cons, hopt]


/-- The constructor in closed form: it fails exactly when a listed variable name is
unresolvable, and otherwise yields the object whose maps hold, for every declared
coupling, the field handles, the scalar handles and the placeholder indices in order. -/
theorem construct_spec {R : Type} [CommRing R] (order : AssignOrder) (p : InputParameters R)
    (problem : Problem) (nodal flag : Bool) :
    (p.coupledVars.any (fun n => (p.getVecMooseType n).any (unresolvable problem)) = true →
      ∃ e, Coupleable.construct order p problem nodal flag = .error e ∧
        (e = .unknownVariableType ∨
          ∃ n ∈ p.coupledVars, ∃ v ∈ p.getVecMooseType n,
            e = .coupledVariableNotFound p.object_name v)) ∧
    (p.coupledVars.any (fun n => (p.getVecMooseType n).any (unresolvable problem)) = false →
      ∃ c, Coupleable.construct order p problem nodal flag = .ok c ∧
        c.c_parameters = p ∧ c.c_name = p.object_name ∧ c.c_fe_problem = problem ∧
        c.c_nodal = nodal ∧ c.needs_previous_newton_iteration = flag ∧
        c.c_is_implicit = p.implicit.getD true ∧
        c.coupleable_neighbor = p.neighbor.getD false ∧
        c.coupleable_max_qps = problem.getMaxQps ∧
        (∀ k, c.coupled_vars.find k =
          if k ∈ p.coupledVars ∧ fieldHandles problem (p.getVecMooseType k) ≠ [] then
            some (fieldHandles problem (p.getVecMooseType k))
          else none) ∧
        (∀ k, c.c_coupled_scalar_vars.find k =
          if k ∈ p.coupledVars ∧ scalarHandles problem (p.getVecMooseType k) ≠ [] then
            some (scalarHandles problem (p.getVecMooseType k))
          else none) ∧
        c.optional_var_index.entries = sentinelEntries order 0 p.optionalVars) := by
  obtain ⟨hbad, hgood⟩ := declare_fold order problem p.coupledVars
    (Coupleable.init p problem nodal flag) p.coupledVars_nodup
    (fun n _ => ⟨rfl, rfl, rfl⟩)
  constructor
  · intro h
    obtain ⟨e, he, hcase⟩ := hbad h
    refine ⟨e, ?_, hcase⟩
    unfold Coupleable.construct
    rw [he]
  · intro h
    obtain ⟨c, hc, hcfg, hv, hs, hi⟩ := hgood h
    refine ⟨c.sizeDefaults, ?_, ?_⟩
    · unfold Coupleable.construct
      rw [hc]
    · refine ⟨hcfg.c_parameters, hcfg.c_name, hcfg.c_fe_problem, hcfg.c_nodal,
        hcfg.needs_previous_newton_iteration, hcfg.c_is_implicit, hcfg.coupleable_neighbor,
        hcfg.coupleable_max_qps, ?_, ?_, ?_⟩
      · intro k; exact hv k
      · intro k; exact hs k
      · show c.optional_var_index.entries = _
        rw [hi]; rfl

/-! ## Running the queries -/

theorem isCoupled_run {R : Type} (var_name : String) (i : Nat) (c : Coupleable R) :
    (isCoupled var_name i).run c =
      (match c.coupled_vars.find var_name with
        | some vars => .ok (decide (i < vars.length))
        | none =>
          if c.c_parameters.hasCoupledValue var_name then .ok false
          else .error (.neverAdded c.c_name var_name), c) := by
  unfold isCoupled
  simp only [run_bind, run_get]
  cases h : c.coupled_vars.find var_name with
  | some vars => simp [run_pure]
  | none =>
    by_cases h2 : c.c_parameters.hasCoupledValue var_name
    · simp [h2, run_pure]
    · simp [h2, run_mooseError]

theorem checkVar_run {R : Type} (var_name : String) (c : Coupleable R) :
    (checkVar var_name).run c =
      (match c.c_coupled_scalar_vars.find var_name with
        | some scalars =>
          .error (.scalarWhereField c.c_name var_name (scalars.map (fun jt => jt.name)))
        | none => .ok (), c) := by
  unfold checkVar
  simp only [run_bind, run_get]
  cases h : c.c_coupled_scalar_vars.find var_name <;> simp [run_pure, run_mooseError]

theorem coupledVarsAt_run {R : Type} (var_name : String) (c : Coupleable R) :
    (coupledVarsAt var_name).run c =
      (.ok (c.coupled_vars.valueAt var_name []),
        { c with coupled_vars := c.coupled_vars.touch var_name [] }) := by
  unfold coupledVarsAt
  simp [run_bind, run_get, run_modify, run_pure, StdMap.valueAt, StdMap.find_touch]

theorem getFEVar_run {R : Type} (var_name : String) (comp : Nat) (c : Coupleable R) :
    (getFEVar var_name comp).run c =
      (match (c.coupled_vars.valueAt var_name [])[comp]? with
        | some var =>
          if (!var.isNodal && c.c_nodal) = true then .error (.elementalToNodal c.c_name)
          else .ok var
        | none => .error (.nonExistentComponent c.c_name var_name),
        { c with coupled_vars := c.coupled_vars.touch var_name [] }) := by
  unfold getFEVar
  simp only [run_bind, coupledVarsAt_run]
  cases h : (c.coupled_vars.valueAt var_name [])[comp]? with
  | none => simp [run_bind, run_get, run_mooseError]
  | some var =>
    simp only [run_bind, run_get]
    split_ifs <;> simp [run_mooseError, run_pure]

/-- After `coupledComponents(var_name)` the query `isCoupled(var_name, i)` never fails,
whether or not the name was declared: the key is in `_coupled_vars` by then. -/
theorem isCoupled_after_coupledComponents {R : Type} (var_name : String) (i : Nat)
    (c : Coupleable R) :
    ((isCoupled var_name i).run ((coupledComponents var_name).run c).2).1 =
      .ok (decide (i < (c.coupled_vars.valueAt var_name []).length)) := by
  unfold coupledComponents
  simp only [run_bind, coupledVarsAt_run, run_pure, isCoupled_run, StdMap.find_touch, if_true]

theorem optionalVarIndexAt_run {R : Type} (var_name : String) (c : Coupleable R) :
    (optionalVarIndexAt var_name).run c =
      (.ok (c.optional_var_index.valueAt var_name 0),
        { c with optional_var_index := c.optional_var_index.touch var_name 0 }) := by
  unfold optionalVarIndexAt
  simp [run_bind, run_get, run_modify, run_pure, StdMap.valueAt, StdMap.find_touch]

/-- `coupled` on a name without scalar variables whose entry of `_coupled_vars` is missing
or empty, that was declared and has a stored index: the stored index, and the object is
left as it was. -/
theorem coupled_run_optional {R : Type} (n : String) (comp s : Nat) (c : Coupleable R)
    (hs : c.c_coupled_scalar_vars.find n = none)
    (hv : c.coupled_vars.find n = none ∨ c.coupled_vars.find n = some [])
    (hd : c.c_parameters.hasCoupledValue n = true)
    (hi : c.optional_var_index.find n = some s) :
    (coupled n comp).run c = (.ok s, c) := by
  unfold coupled
  simp only [run_bind, checkVar_run, hs, isCoupled_run]
  have htouch : c.optional_var_index.touch n 0 = c.optional_var_index :=
    StdMap.touch_of_find _ _ _ _ hi
  rcases hv with hv | hv
  · simp [hv, hd, optionalVarIndexAt_run, StdMap.valueAt, hi, htouch]
  · simp [hv, optionalVarIndexAt_run, StdMap.valueAt, hi, htouch]

/-- `coupled` on a name without scalar variables that holds at least one field handle. -/
theorem coupled_run_field {R : Type} (n : String) (comp : Nat) (c : Coupleable R)
    (vars : List MooseVariableFE) (hs : c.c_coupled_scalar_vars.find n = none)
    (hv : c.coupled_vars.find n = some vars) (h0 : vars ≠ []) :
    (coupled n comp).run c =
      (match vars[comp]? with
        | some var =>
          if (!var.isNodal && c.c_nodal) = true then .error (.elementalToNodal c.c_name)
          else
            match var.kind with
            | .VAR_NONLINEAR => .ok var.number
            | .VAR_AUXILIARY => .ok (UINT_MAX - var.number)
            | .other => .error (.unknownKind c.c_name)
        | none => .error (.nonExistentComponent c.c_name n), c) := by
  unfold coupled
  have hlen : 0 < vars.length := List.length_pos.mpr h0
  have htouch : c.coupled_vars.touch n [] = c.coupled_vars := StdMap.touch_of_find _ _ _ _ hv
  have hval : c.coupled_vars.valueAt n [] = vars := by simp [StdMap.valueAt, hv]
  simp only [run_bind, checkVar_run, hs, isCoupled_run, hv, hlen, decide_True, Bool.not_true,
    Bool.false_eq_true, if_false, getFEVar_run, hval, htouch]
  cases hc : vars[comp]? with
  | none => simp
  | some var =>
    by_cases hnod : (!var.isNodal && c.c_nodal) = true
    · simp [hnod]
    · simp only [hnod, if_false]
      cases hk : var.kind <;> simp [hk, run_pure, run_bind, run_get, run_mooseError]


/-! ## The placeholder indices -/

theorem optionalIndex_eq (s : Nat) (h : s ≤ UINT_MAX) : optionalIndex s = UINT_MAX - s := by
  unfold optionalIndex
  unfold UINT_MAX at h ⊢
  omega

theorem findIn_sentinelEntries (order : AssignOrder) (k : Nat) (names : List String)
    (n : String) :
    StdMap.findIn (sentinelEntries order k names) n =
      if n ∈ names then some (optionalIndex (order.sizeSeen (k + names.indexOf n))) else none := by
  induction names generalizing k with
  | nil => simp [sentinelEntries, StdMap.findIn]
  | cons a names ih =>
    by_cases ha : a = n
    · subst ha
      simp [sentinelEntries, StdMap.findIn]
    · have ha' : ¬ n = a := fun e => ha e.symm
      simp only [sentinelEntries, StdMap.findIn, ha, if_false, ih, List.mem_cons, ha', false_or,
        List.indexOf_cons_ne _ ha]
      have : k + 1 + names.indexOf n = k + (names.indexOf n).succ := by omega
      rw [this]

theorem sizeSeen_le (order : AssignOrder) (i len : Nat) (h : i < len) :
    order.sizeSeen i ≤ len := by
  cases order <;> simp only [AssignOrder.sizeSeen] <;> omega

theorem sizeSeen_inj (order : AssignOrder) (i j : Nat) (h : order.sizeSeen i = order.sizeSeen j) :
    i = j := by
  cases order <;> simp only [AssignOrder.sizeSeen] at h <;> omega

/-- What a successful construction leaves in the object. -/
theorem construct_ok {R : Type} [CommRing R] (order : AssignOrder) (p : InputParameters R)
    (problem : Problem) (nodal flag : Bool) (c : Coupleable R)
    (hc : Coupleable.construct order p problem nodal flag = .ok c) :
    p.coupledVars.any (fun n => (p.getVecMooseType n).any (unresolvable problem)) = false ∧
    c.c_parameters = p ∧ c.c_name = p.object_name ∧ c.c_fe_problem = problem ∧
    c.c_nodal = nodal ∧ c.needs_previous_newton_iteration = flag ∧
    c.c_is_implicit = p.implicit.getD true ∧
    c.coupleable_neighbor = p.neighbor.getD false ∧
    c.coupleable_max_qps = problem.getMaxQps ∧
    (∀ k, c.coupled_vars.find k =
      if k ∈ p.coupledVars ∧ fieldHandles problem (p.getVecMooseType k) ≠ [] then
        some (fieldHandles problem (p.getVecMooseType k))
      else none) ∧
    (∀ k, c.c_coupled_scalar_vars.find k =
      if k ∈ p.coupledVars ∧ scalarHandles problem (p.getVecMooseType k) ≠ [] then
        some (scalarHandles problem (p.getVecMooseType k))
      else none) ∧
    (∀ k, c.optional_var_index.find k =
      if k ∈ p.optionalVars then
        some (optionalIndex (order.sizeSeen (p.optionalVars.indexOf k)))
      else none) := by
  obtain ⟨hbad, hgood⟩ := construct_spec order p problem nodal flag
  by_cases hb : p.coupledVars.any
      (fun n => (p.getVecMooseType n).any (unresolvable problem)) = true
  · obtain ⟨e, he, _⟩ := hbad hb
    rw [he] at hc; cases hc
  · have hb' : p.coupledVars.any
        (fun n => (p.getVecMooseType n).any (unresolvable problem)) = false := by
      simpa using hb
    obtain ⟨c', hc', h1, h2, h3, h4, h5, h6, h7, h8, h9, h10, h11⟩ := hgood hb'
    rw [hc'] at hc
    have e : c' = c := Except.ok.inj hc
    rw [← e]
    refine ⟨hb', h1, h2, h3, h4, h5, h6, h7, h8, h9, h10, ?_⟩
    intro k
    show StdMap.findIn c'.optional_var_index.entries k = _
    rw [h11, findIn_sentinelEntries]
    simp

theorem mem_optionalVars {R : Type} (p : InputParameters R) (n : String) :
    n ∈ p.optionalVars ↔ n ∈ p.coupledVars ∧ p.getVecMooseType n = [] := by
  simp [InputParameters.optionalVars, List.mem_filter]

/-! ## The claims about `Coupleable` -/

/-- C5, as amended.  On the object a successful construction yields, for a declared
coupling `name`: when no scalar variable is recorded under `name`, component `comp`
resolved to the field variable `var`, and the object is not nodal or `var` is nodal,
`coupled(name, comp)` returns `var.number()` for a primary variable, `UINT_MAX - number`
for an auxiliary one and fails with "Unknown variable kind" for any other kind; on a nodal
object with an elemental `var` it fails with "cannot couple an elemental variable to a
nodal variable"; when a scalar variable is recorded under `name` it fails in `checkVar`;
and when the coupling lists no variable it returns the index stored for `name` at
construction, for every component. -/
theorem coupled_spec {R : Type} [CommRing R] (order : AssignOrder) (p : InputParameters R)
    (problem : Problem) (nodal flag : Bool) (c : Coupleable R)
    (hc : Coupleable.construct order p problem nodal flag = .ok c)
    (name : String) (hn : name ∈ p.coupledVars) :
    (∀ comp var,
      (fieldHandles problem (p.getVecMooseType name))[comp]? = some var →
      scalarHandles problem (p.getVecMooseType name) = [] →
      (nodal = true → var.isNodal = true) →
      ((coupled name comp).run c).1 =
        match var.kind with
        | .VAR_NONLINEAR => .ok var.number
        | .VAR_AUXILIARY => .ok (UINT_MAX - var.number)
        | .other => .error (.unknownKind p.object_name)) ∧
    (∀ comp var,
      (fieldHandles problem (p.getVecMooseType name))[comp]? = some var →
      scalarHandles problem (p.getVecMooseType name) = [] →
      nodal = true → var.isNodal = false →
      ((coupled name comp).run c).1 = .error (.elementalToNodal p.object_name)) ∧
    (∀ comp,
      scalarHandles problem (p.getVecMooseType name) ≠ [] →
      ((coupled name comp).run c).1 =
        .error (.scalarWhereField p.object_name name
          ((scalarHandles problem (p.getVecMooseType name)).map (fun jt => jt.name)))) ∧
    (p.getVecMooseType name = [] →
      ∃ s, c.optional_var_index.find name = some s ∧
        ∀ comp, ((coupled name comp).run c).1 = .ok s) := by
  obtain ⟨_, hp, hname, _, hnod, _, _, _, _, hv, hs, hi⟩ :=
    construct_ok order p problem nodal flag c hc
  refine ⟨?_, ?_, ?_, ?_⟩
  · intro comp var hvar hsc hnodal
    have hne : fieldHandles problem (p.getVecMooseType name) ≠ [] := by
      intro h; rw [h] at hvar; simp at hvar
    have hv' := hv name
    have hs' := hs name
    simp only [hn, hne, hsc, true_and, ne_eq, not_false_eq_true, not_true_eq_false,
      if_true, if_false, and_false] at hv' hs'
    rw [coupled_run_field name comp c _ hs' hv' hne, hvar]
    have : ¬ (!var.isNodal && c.c_nodal) = true := by
      rw [hnod]
      cases hnv : nodal
      · simp
      · simp [hnodal hnv]
    cases hk : var.kind <;> simp [hk, this, hname]
  · intro comp var hvar hsc hnodal hvn
    have hne : fieldHandles problem (p.getVecMooseType name) ≠ [] := by
      intro h; rw [h] at hvar; simp at hvar
    have hv' := hv name
    have hs' := hs name
    simp only [hn, hne, hsc, true_and, ne_eq, not_false_eq_true, not_true_eq_false,
      if_true, if_false, and_false] at hv' hs'
    rw [coupled_run_field name comp c _ hs' hv' hne, hvar]
    simp [hnod, hnodal, hvn, hname]
  · intro comp hsc
    have hs' := hs name
    simp only [hn, hsc, true_and, ne_eq, not_false_eq_true, if_true] at hs'
    unfold coupled
    simp [run_bind, checkVar_run, hs', hname]
  · intro hopt
    have hmem : name ∈ p.optionalVars := (mem_optionalVars p name).mpr ⟨hn, hopt⟩
    have hi' := hi name
    simp only [hmem, if_true] at hi'
    refine ⟨_, hi', fun comp => ?_⟩
    have hv' := hv name
    have hs' := hs name
    simp only [hopt, fieldHandles, scalarHandles, List.filter_nil, List.map_nil, ne_eq,
      not_true_eq_false, and_false, if_false] at hv' hs'
    rw [coupled_run_optional name comp _ c hs' (Or.inl hv')
      (by rw [hp]; simpa [InputParameters.hasCoupledValue] using hn) hi']


/-- C7.  On the object a successful construction yields (with at most `UINT_MAX` optional
couplings, so that the 32-bit index does not wrap): every coupling declared optional and
left unsupplied has one value that `coupled` returns for it after every sequence of calls
of member functions and for every component; and two different such couplings get
different values, whatever calls precede either query. -/
theorem coupled_optional_distinct_stable {R : Type} [CommRing R] (order : AssignOrder)
    (p : InputParameters R) (problem : Problem) (nodal flag : Bool) (c : Coupleable R)
    (hc : Coupleable.construct order p problem nodal flag = .ok c)
    (hsmall : p.optionalVars.length ≤ UINT_MAX) :
    (∀ name, name ∈ p.coupledVars → p.getVecMooseType name = [] →
      ∃ s, ∀ calls comp, ((coupled name comp).run (c.after calls)).1 = .ok s) ∧
    (∀ name₁ name₂, name₁ ∈ p.coupledVars → p.getVecMooseType name₁ = [] →
      name₂ ∈ p.coupledVars → p.getVecMooseType name₂ = [] → name₁ ≠ name₂ →
      ∀ calls₁ calls₂ comp₁ comp₂,
        ((coupled name₁ comp₁).run (c.after calls₁)).1 ≠
          ((coupled name₂ comp₂).run (c.after calls₂)).1) := by
  obtain ⟨_, hp, _, _, _, _, _, _, _, hv, hs, hi⟩ :=
    construct_ok order p problem nodal flag c hc
  have key : ∀ name, name ∈ p.coupledVars → p.getVecMooseType name = [] →
      ∀ calls comp, ((coupled name comp).run (c.after calls)).1 =
        .ok (optionalIndex (order.sizeSeen (p.optionalVars.indexOf name))) := by
    intro name hn hopt calls comp
    have hmem : name ∈ p.optionalVars := (mem_optionalVars p name).mpr ⟨hn, hopt⟩
    have hi' := hi name
    simp only [hmem, if_true] at hi'
    have hv' := hv name
    have hs' := hs name
    simp only [hopt, fieldHandles, scalarHandles, List.filter_nil, List.map_nil, ne_eq,
      not_true_eq_false, and_false, if_false] at hv' hs'
    have hext := Coupleable.after_extends c calls
    rw [coupled_run_optional name comp _ (c.after calls)
      (by rw [hext.c_coupled_scalar_vars]; exact hs')
      (hext.coupled_vars_none name hv')
      (by rw [hext.c_parameters, hp]; simpa [InputParameters.hasCoupledValue] using hn)
      (hext.optional_var_index_some name _ hi')]
  refine ⟨fun name hn hopt => ⟨_, key name hn hopt⟩, ?_⟩
  intro n1 n2 h1 o1 h2 o2 hne calls1 calls2 comp1 comp2 heq
  rw [key n1 h1 o1, key n2 h2 o2] at heq
  have m1 : n1 ∈ p.optionalVars := (mem_optionalVars p n1).mpr ⟨h1, o1⟩
  have m2 : n2 ∈ p.optionalVars := (mem_optionalVars p n2).mpr ⟨h2, o2⟩
  have l1 := sizeSeen_le order _ _ (List.indexOf_lt_length.mpr m1)
  have l2 := sizeSeen_le order _ _ (List.indexOf_lt_length.mpr m2)
  have e := Except.ok.inj heq
  rw [optionalIndex_eq _ (le_trans l1 hsmall), optionalIndex_eq _ (le_trans l2 hsmall)] at e
  have e' : order.sizeSeen (p.optionalVars.indexOf n1) =
      order.sizeSeen (p.optionalVars.indexOf n2) := by
    have := le_trans l1 hsmall
    have := le_trans l2 hsmall
    omega
  exact hne ((List.indexOf_inj m1 m2).mp (sizeSeen_inj order _ _ e'))

/-- C9, as amended.  On the object a successful construction yields, for every declared
coupling `name` and every index `i`: `isCoupled(name, i)` returns true exactly when `i` is
below the number of listed variable names that the field registry knows, that is the
number of field handles recorded under `name`; scalar variables are not counted.  The call
does not fail and leaves the object as it was. -/
theorem isCoupled_spec {R : Type} [CommRing R] (order : AssignOrder) (p : InputParameters R)
    (problem : Problem) (nodal flag : Bool) (c : Coupleable R)
    (hc : Coupleable.construct order p problem nodal flag = .ok c)
    (name : String) (hn : name ∈ p.coupledVars) (i : Nat) :
    ((isCoupled name i).run c).1 =
      .ok (decide (i < ((p.getVecMooseType name).filter problem.hasVariable).length)) ∧
    ((isCoupled name i).run c).2 = c := by
  obtain ⟨_, hp, _, _, _, _, _, _, _, hv, _, _⟩ :=
    construct_ok order p problem nodal flag c hc
  rw [isCoupled_run]
  refine ⟨?_, rfl⟩
  have hv' := hv name
  by_cases hne : fieldHandles problem (p.getVecMooseType name) = []
  · simp only [hne, ne_eq, not_true_eq_false, and_false, if_false] at hv'
    have hd : c.c_parameters.hasCoupledValue name = true := by
      rw [hp]; simpa [InputParameters.hasCoupledValue] using hn
    have hlen : ((p.getVecMooseType name).filter problem.hasVariable).length = 0 := by
      simpa [fieldHandles] using hne
    simp [hv', hd, hlen]
  · simp only [hn, hne, ne_eq, not_false_eq_true, and_self, if_true] at hv'
    simp [hv', fieldHandles]


theorem unresolvable_iff (problem : Problem) (v : String) :
    unresolvable problem v = true ↔
      (problem.hasVariable v = false ∧ problem.hasScalarVariable v = false) ∨
      (problem.hasVariable v = true ∧ (problem.getVariable v).fieldType = .unknown) := by
  unfold unresolvable
  by_cases h : problem.hasVariable v = true
  · simp [h]
  · have h' : problem.hasVariable v = false := by simpa using h
    simp [h']

theorem handles_length (problem : Problem) (vars : List String)
    (h : vars.any (unresolvable problem) = false) :
    (fieldHandles problem vars).length + (scalarHandles problem vars).length = vars.length := by
  induction vars with
  | nil => rfl
  | cons v vars ih =>
    have hv : unresolvable problem v = false := by
      have := h; simp only [List.any_cons, Bool.or_eq_false_iff] at this; exact this.1
    have hr : vars.any (unresolvable problem) = false := by
      have := h; simp only [List.any_cons, Bool.or_eq_false_iff] at this; exact this.2
    have ih' := ih hr
    rw [fieldHandles_cons, scalarHandles_cons]
    by_cases hf : problem.hasVariable v = true
    · simp only [hf, if_true, Bool.not_true, Bool.false_and, Bool.false_eq_true, if_false,
        List.length_cons]
      omega
    · have hf' : problem.hasVariable v = false := by simpa using hf
      have hs : problem.hasScalarVariable v = true := by
        simp [unresolvable, hf'] at hv; exact hv
      simp only [hf', hs, Bool.false_eq_true, if_false, Bool.not_false, Bool.and_self, if_true,
        List.length_cons]
      omega

/-- C8.  Construction fails exactly when some variable name listed under a declared
coupling is in neither registry or names a field variable that is neither standard nor
vector typed, and then with "Unknown variable type!" or with "Coupled variable ... was not
found" for a listed name.  When it succeeds, for every declared coupling the recorded
field handles are the handles of the listed names the field registry knows (whether or
not the scalar registry knows them too), in listed order; the recorded scalar handles are
those of the listed names only the scalar registry knows, in listed order; and the two
lists together hold one entry per listed name. -/
theorem construct_resolves {R : Type} [CommRing R] (order : AssignOrder) (p : InputParameters R)
    (problem : Problem) (nodal flag : Bool) :
    ((∃ e, Coupleable.construct order p problem nodal flag = .error e) ↔
      ∃ name ∈ p.coupledVars, ∃ v ∈ p.getVecMooseType name,
        (problem.hasVariable v = false ∧ problem.hasScalarVariable v = false) ∨
        (problem.hasVariable v = true ∧ (problem.getVariable v).fieldType = .unknown)) ∧
    (∀ e, Coupleable.construct order p problem nodal flag = .error e →
      e = .unknownVariableType ∨
      ∃ name ∈ p.coupledVars, ∃ v ∈ p.getVecMooseType name,
        e = .coupledVariableNotFound p.object_name v) ∧
    (∀ c, Coupleable.construct order p problem nodal flag = .ok c →
      ∀ name ∈ p.coupledVars,
        c.coupled_vars.valueAt name [] =
          ((p.getVecMooseType name).filter problem.hasVariable).map problem.getVariable ∧
        c.c_coupled_scalar_vars.valueAt name [] =
          ((p.getVecMooseType name).filter
            (fun v => !problem.hasVariable v && problem.hasScalarVariable v)).map
              problem.getScalarVariable ∧
        (c.coupled_vars.valueAt name []).length +
            (c.c_coupled_scalar_vars.valueAt name []).length =
          (p.getVecMooseType name).length) := by
  obtain ⟨hbad, hgood⟩ := construct_spec order p problem nodal flag
  have hiff : p.coupledVars.any
        (fun n => (p.getVecMooseType n).any (unresolvable problem)) = true ↔
      ∃ name ∈ p.coupledVars, ∃ v ∈ p.getVecMooseType name,
        (problem.hasVariable v = false ∧ problem.hasScalarVariable v = false) ∨
        (problem.hasVariable v = true ∧ (problem.getVariable v).fieldType = .unknown) := by
    simp only [List.any_eq_true, unresolvable_iff]
  refine ⟨?_, ?_, ?_⟩
  · rw [← hiff]
    constructor
    · rintro ⟨e, he⟩
      by_contra hb
      have hb' : p.coupledVars.any
          (fun n => (p.getVecMooseType n).any (unresolvable problem)) = false := by
        simpa using hb
      obtain ⟨c, hc, _⟩ := hgood hb'
      rw [hc] at he; cases he
    · intro hb
      obtain ⟨e, he, _⟩ := hbad hb
      exact ⟨e, he⟩
  · intro e he
    by_cases hb : p.coupledVars.any
        (fun n => (p.getVecMooseType n).any (unresolvable problem)) = true
    · obtain ⟨e', he', hcase⟩ := hbad hb
      rw [he'] at he
      have : e' = e := Except.error.inj he
      rw [← this]; exact hcase
    · have hb' : p.coupledVars.any
          (fun n => (p.getVecMooseType n).any (unresolvable problem)) = false := by
        simpa using hb
      obtain ⟨c, hc, _⟩ := hgood hb'
      rw [hc] at he; cases he
  · intro c hc name hn
    obtain ⟨hall, _, _, _, _, _, _, _, _, hv, hs, _⟩ :=
      construct_ok order p problem nodal flag c hc
    have hgoodn : (p.getVecMooseType name).any (unresolvable problem) = false := by
      by_contra hcon
      have hcon' : (p.getVecMooseType name).any (unresolvable problem) = true := by
        simpa using hcon
      have : p.coupledVars.any
          (fun n => (p.getVecMooseType n).any (unresolvable problem)) = true :=
        List.any_eq_true.mpr ⟨name, hn, hcon'⟩
      rw [hall] at this; cases this
    have e1 : c.coupled_vars.valueAt name [] = fieldHandles problem (p.getVecMooseType name) := by
      unfold StdMap.valueAt
      rw [hv name]
      by_cases hne : fieldHandles problem (p.getVecMooseType name) = []
      · simp [hne]
      · simp [hn, hne]
    have e2 : c.c_coupled_scalar_vars.valueAt name [] =
        scalarHandles problem (p.getVecMooseType name) := by
      unfold StdMap.valueAt
      rw [hs name]
      by_cases hne : scalarHandles problem (p.getVecMooseType name) = []
      · simp [hne]
      · simp [hn, hne]
    refine ⟨e1, e2, ?_⟩
    rw [e1, e2]
    exact handles_length problem _ hgoodn

/-- C5, counterexample.  On a nodal object, component 1 of the coupling `v` resolved to the
field variable `nl1`, a primary variable with number 1 that is elemental: `coupled("v", 1)`
does not return 1 but fails. -/
theorem coupled_counterexample :
    Coupleable.construct .rhsFirst sampleParams sampleProblem true false =
      .ok (sampleObject .rhsFirst true) ∧
    (fieldHandles sampleProblem (sampleParams.getVecMooseType "v"))[1]? =
      some (sampleField "nl1" 1 .VAR_NONLINEAR false .vector) ∧
    ((coupled "v" 1).run (sampleObject .rhsFirst true)).1 = .error (.elementalToNodal "obj") ∧
    ((coupled "v" 1).run (sampleObject .rhsFirst true)).1 ≠ .ok 1 :=
  ⟨rfl, by decide, by decide, by decide⟩

/-- On the sample object the coupling `u` is declared and resolved to the auxiliary variable
number 1, a nodal field variable with no scalar variable beside it: `coupled("u", 0)` is
`UINT_MAX - 1`. -/
theorem coupled_spec_witness :
    Coupleable.construct .rhsFirst sampleParams sampleProblem false false =
      .ok (sampleObject .rhsFirst false) ∧
    "u" ∈ sampleParams.coupledVars ∧
    ((coupled "u" 0).run (sampleObject .rhsFirst false)).1 = .ok (UINT_MAX - 1) :=
  ⟨rfl, by decide,
    (coupled_spec .rhsFirst sampleParams sampleProblem false false
      (sampleObject .rhsFirst false) rfl "u" (by decide)).1 0
      (sampleField "aux1" 1 .VAR_AUXILIARY true .standard) (by decide) (by decide)
      (by decide)⟩

/-- C6 at the failing inputs.  The sample object declares the optional, unsupplied couplings
`a` and `b`, the coupling `w` resolved to the auxiliary variable number 0 and the coupling
`u` resolved to the auxiliary variable number 1.  When the size is read before the key is
inserted, the placeholder of `a` is `UINT_MAX`, the id of `w`; when the key is inserted
first, the placeholder of `a` is `UINT_MAX - 1`, the id of `u`.  In the first order the
placeholder of `b` collides with the id of `u` as well. -/
theorem optional_index_collides :
    ((coupled "a" 0).run (sampleObject .rhsFirst false)).1 = .ok UINT_MAX ∧
    ((coupled "w" 0).run (sampleObject .rhsFirst false)).1 = .ok UINT_MAX ∧
    ((coupled "b" 0).run (sampleObject .rhsFirst false)).1 = .ok (UINT_MAX - 1) ∧
    ((coupled "u" 0).run (sampleObject .rhsFirst false)).1 = .ok (UINT_MAX - 1) ∧
    ((coupled "a" 0).run (sampleObject .lhsFirst false)).1 = .ok (UINT_MAX - 1) ∧
    ((coupled "u" 0).run (sampleObject .lhsFirst false)).1 = .ok (UINT_MAX - 1) ∧
    sampleParams.getVecMooseType "a" = [] ∧ sampleParams.getVecMooseType "b" = [] ∧
    fieldHandles sampleProblem (sampleParams.getVecMooseType "w") =
      [sampleField "aux0" 0 .VAR_AUXILIARY true .standard] ∧
    fieldHandles sampleProblem (sampleParams.getVecMooseType "u") =
      [sampleField "aux1" 1 .VAR_AUXILIARY true .standard] :=
  ⟨by decide, by decide, by decide, by decide, by decide, by decide, by decide, by decide,
    by decide, by decide⟩

/-- On the sample object, which has two optional couplings, `coupled("a")` after
`coupledComponents("a")` and `coupledValue("b")` differs from `coupled("b")` after a failing
`getVar("b", 3)`. -/
theorem coupled_optional_distinct_stable_witness :
    Coupleable.construct .rhsFirst sampleParams sampleProblem false false =
      .ok (sampleObject .rhsFirst false) ∧
    sampleParams.optionalVars.length ≤ UINT_MAX ∧
    ((coupled "a" 0).run ((sampleObject .rhsFirst false).after
        [.coupledComponents "a", .coupledValue "b" 0])).1 ≠
      ((coupled "b" 0).run ((sampleObject .rhsFirst false).after [.getVar "b" 3])).1 :=
  ⟨rfl, by decide,
    (coupled_optional_distinct_stable .rhsFirst sampleParams sampleProblem false false
      (sampleObject .rhsFirst false) rfl (by decide)).2 "a" "b" (by decide) (by decide)
      (by decide) (by decide) (by decide) _ _ 0 0⟩

/-- C9, counterexample.  Component 0 of the coupling `s` resolved to the scalar variable
`sc`, which construction recorded, yet `isCoupled("s", 0)` returns false. -/
theorem isCoupled_counterexample :
    Coupleable.construct .rhsFirst sampleParams sampleProblem false false =
      .ok (sampleObject .rhsFirst false) ∧
    (sampleParams.getVecMooseType "s")[0]? = some "sc" ∧
    sampleProblem.hasScalarVariable "sc" = true ∧
    (sampleObject .rhsFirst false).c_coupled_scalar_vars.find "s" =
      some [sampleProblem.getScalarVariable "sc"] ∧
    ((isCoupled "s" 0).run (sampleObject .rhsFirst false)).1 = .ok false :=
  ⟨rfl, by decide, by decide, by decide, by decide⟩

/-- On the sample object the declared coupling `v` lists two field variables:
`isCoupled("v", 1)` is true and `isCoupled("v", 2)` is false. -/
theorem isCoupled_spec_witness :
    Coupleable.construct .rhsFirst sampleParams sampleProblem false false =
      .ok (sampleObject .rhsFirst false) ∧
    "v" ∈ sampleParams.coupledVars ∧
    ((isCoupled "v" 1).run (sampleObject .rhsFirst false)).1 = .ok true ∧
    ((isCoupled "v" 2).run (sampleObject .rhsFirst false)).1 = .ok false :=
  ⟨rfl, by decide,
    (isCoupled_spec .rhsFirst sampleParams sampleProblem false false
      (sampleObject .rhsFirst false) rfl "v" (by decide) 1).1,
    (isCoupled_spec .rhsFirst sampleParams sampleProblem false false
      (sampleObject .rhsFirst false) rfl "v" (by decide) 2).1⟩

/-- C10 at the failing input.  The name `zz` is not a declared coupling of the sample
object.  On the fresh object `isCoupled("zz", 0)` fails with "was never added"; after
`coupledComponents("zz")`, and likewise after `getFEVar`, `getVar` or `getVectorVar` on
`zz`, it returns false, and `coupled("zz", 0)` then returns 0. -/
theorem isCoupled_undeclared_after_calls :
    "zz" ∉ sampleParams.coupledVars ∧
    ((isCoupled "zz" 0).run (sampleObject .rhsFirst false)).1 = .error (.neverAdded "obj" "zz") ∧
    ((isCoupled "zz" 0).run
      ((sampleObject .rhsFirst false).after [.coupledComponents "zz"])).1 = .ok false ∧
    ((isCoupled "zz" 0).run
      ((sampleObject .rhsFirst false).after [.getFEVar "zz" 0])).1 = .ok false ∧
    ((isCoupled "zz" 0).run
      ((sampleObject .rhsFirst false).after [.getVar "zz" 0])).1 = .ok false ∧
    ((isCoupled "zz" 0).run
      ((sampleObject .rhsFirst false).after [.getVectorVar "zz" 0])).1 = .ok false ∧
    ((coupled "zz" 0).run
      ((sampleObject .rhsFirst false).after [.coupledComponents "zz"])).1 = .ok 0 :=
  ⟨by decide, by decide, by decide, by decide, by decide, by decide, by decide⟩

/-! ## Running the parts of an accessor -/

theorem validateExecutionerType_run {R : Type} (name fn_name : String) (c : Coupleable R) :
    (validateExecutionerType name fn_name).run c =
      (if c.c_fe_problem.isTransient = true then .ok ()
        else .error (.steadyExecutioner c.c_name fn_name name), c) := by
  unfold validateExecutionerType
  simp only [run_bind, run_get]
  cases h : c.c_fe_problem.isTransient <;> simp [run_pure, run_mooseError]

theorem coupledCallback_run {R : Type} (var_name : String) (is_old : Bool) (c : Coupleable R) :
    (coupledCallback var_name is_old).run c =
      (.ok (), { c with callbacks := c.callbacks ++ [(var_name, is_old)] }) := rfl

theorem needsPreviousNewtonIteration_run {R : Type} (state : Bool) (c : Coupleable R) :
    (needsPreviousNewtonIteration state).run c =
      (.ok (), { c with needs_previous_newton_iteration := state }) := rfl

theorem getVar_run {R : Type} (var_name : String) (comp : Nat) (c : Coupleable R) :
    (getVar var_name comp).run c =
      (match (c.coupled_vars.valueAt var_name [])[comp]? with
        | some var =>
          if (!var.isNodal && c.c_nodal) = true then .error (.elementalToNodal c.c_name)
          else if var.fieldType = .standard then .ok var
          else .error .wrongType
        | none => .error (.nonExistentComponent c.c_name var_name),
        { c with coupled_vars := c.coupled_vars.touch var_name [] }) := by
  unfold getVar
  simp only [run_bind, coupledVarsAt_run]
  cases h : (c.coupled_vars.valueAt var_name [])[comp]? with
  | none => simp [run_bind, run_get, run_mooseError]
  | some var =>
    simp only [run_bind, run_get]
    split_ifs <;> simp [run_mooseError, run_pure]

theorem getVectorVar_run {R : Type} (var_name : String) (comp : Nat) (c : Coupleable R) :
    (getVectorVar var_name comp).run c =
      (match (c.coupled_vars.valueAt var_name [])[comp]? with
        | some var =>
          if (!var.isNodal && c.c_nodal) = true then .error (.elementalToNodal c.c_name)
          else if var.fieldType = .vector then .ok var
          else .error .wrongType
        | none => .error (.nonExistentComponent c.c_name var_name),
        { c with coupled_vars := c.coupled_vars.touch var_name [] }) := by
  unfold getVectorVar
  simp only [run_bind, coupledVarsAt_run]
  cases h : (c.coupled_vars.valueAt var_name [])[comp]? with
  | none => simp [run_bind, run_get, run_mooseError]
  | some var =>
    simp only [run_bind, run_get]
    split_ifs <;> simp [run_mooseError, run_pure]

theorem getDefaultValue_run {R : Type} (var_name : String) (c : Coupleable R) :
    (getDefaultValue var_name).run c =
      (.ok (.default_value var_name),
        match c.default_value.find var_name with
        | some _ => c
        | none =>
          let value := List.replicate c.coupleable_max_qps
            (c.c_parameters.defaultCoupledValue var_name)
          { c with default_value := c.default_value.set var_name value }) := by
  unfold getDefaultValue
  simp only [run_bind, run_get]
  cases h : c.default_value.find var_name <;> simp [run_pure, run_bind, run_modify]

theorem getVectorDefaultValue_run {R : Type} [CommRing R] (var_name : String) (c : Coupleable R) :
    (getVectorDefaultValue var_name).run c =
      (.ok (.default_vector_value var_name),
        match c.default_vector_value.find var_name with
        | some _ => c
        | none =>
          let value : List (RealVectorValue R) := List.replicate c.coupleable_max_qps (0, 0, 0)
          { c with default_vector_value := c.default_vector_value.set var_name value }) := by
  unfold getVectorDefaultValue
  simp only [run_bind, run_get]
  cases h : c.default_vector_value.find var_name <;> simp [run_pure, run_bind, run_modify]


theorem run_ite {R α : Type} (p : Prop) [Decidable p] (x y : Acc R α) (c : Coupleable R) :
    (if p then x else y).run c = if p then x.run c else y.run c := by
  split_ifs <;> rfl


theorem run_bind_thenRun {R α β : Type} (x : Acc R α) (f : α → Acc R β) (c : Coupleable R) :
    (x >>= f).run c = thenRun (x.run c).1 (x.run c).2 (fun a => (f a).run (x.run c).2) := by
  rw [run_bind]
  cases h : x.run c with
  | mk r c' => cases r <;> rfl

theorem thenRun_ok {R α β : Type} (a : α) (c : Coupleable R)
    (k : α → Except MooseError β × Coupleable R) : thenRun (.ok a) c k = k a := rfl

theorem thenRun_error {R α β : Type} (e : MooseError) (c : Coupleable R)
    (k : α → Except MooseError β × Coupleable R) :
    thenRun (.error e : Except MooseError α) c k = (.error e, c) := rfl

theorem thenRun_fails {R α β : Type} (r : Except MooseError α) (c : Coupleable R)
    (k : α → Except MooseError β × Coupleable R)
    (h : ∀ a, r = .ok a → ∃ e, (k a).1 = .error e) : ∃ e, (thenRun r c k).1 = .error e := by
  cases r with
  | ok a => exact h a rfl
  | error e => exact ⟨e, rfl⟩

/-! ## The default-value caches under calls -/

theorem cache_pure {R α : Type} [CommRing R] (a : α) :
    Acc.Keeps Coupleable.KeepsCache (pure a : Acc R α) :=
  fun _ h => h

theorem cache_mooseError {R α : Type} [CommRing R] (e : MooseError) :
    Acc.Keeps Coupleable.KeepsCache (mooseError e : Acc R α) :=
  fun _ h => h

theorem cache_get {R : Type} [CommRing R] : Acc.Keeps Coupleable.KeepsCache (Acc.get : Acc R _) :=
  fun _ h => h

theorem cache_bind {R α β : Type} [CommRing R] (x : Acc R α) (f : α → Acc R β)
    (hx : Acc.Keeps Coupleable.KeepsCache x) (hf : ∀ a, Acc.Keeps Coupleable.KeepsCache (f a)) :
    Acc.Keeps Coupleable.KeepsCache (x >>= f) := by
  intro c h
  rw [run_bind]
  have h1 := hx c h
  cases hr : x.run c with
  | mk r c' =>
    rw [hr] at h1
    cases r with
    | ok a => exact hf a c' h1
    | error e => exact h1

theorem cache_ite {R α : Type} [CommRing R] (p : Prop) [Decidable p] (x y : Acc R α)
    (hx : Acc.Keeps Coupleable.KeepsCache x) (hy : Acc.Keeps Coupleable.KeepsCache y) :
    Acc.Keeps Coupleable.KeepsCache (if p then x else y) := by
  split_ifs <;> assumption

theorem cache_coupledCallback {R : Type} [CommRing R] (var_name : String) (is_old : Bool) :
    Acc.Keeps Coupleable.KeepsCache (coupledCallback var_name is_old : Acc R Unit) :=
  fun _ h => h

theorem cache_needsPreviousNewtonIteration {R : Type} [CommRing R] (state : Bool) :
    Acc.Keeps Coupleable.KeepsCache (needsPreviousNewtonIteration state : Acc R Unit) :=
  fun _ h => h

theorem cache_coupledVarsAt {R : Type} [CommRing R] (var_name : String) :
    Acc.Keeps Coupleable.KeepsCache (coupledVarsAt var_name : Acc R _) := by
  intro c h
  rw [coupledVarsAt_run]
  exact h

theorem cache_optionalVarIndexAt {R : Type} [CommRing R] (var_name : String) :
    Acc.Keeps Coupleable.KeepsCache (optionalVarIndexAt var_name : Acc R _) := by
  intro c h
  rw [optionalVarIndexAt_run]
  exact h

theorem cache_getDefaultValue {R : Type} [CommRing R] (var_name : String) :
    Acc.Keeps Coupleable.KeepsCache (getDefaultValue var_name : Acc R _) := by
  intro c h
  rw [getDefaultValue_run]
  cases hf : c.default_value.find var_name with
  | some v => exact h
  | none =>
    refine ⟨?_, h.2⟩
    intro k x hk
    simp only [StdMap.find_set] at hk
    split_ifs at hk with hkk
    · subst hkk
      exact (Option.some.inj hk).symm
    · exact h.1 k x hk

theorem cache_getVectorDefaultValue {R : Type} [CommRing R] (var_name : String) :
    Acc.Keeps Coupleable.KeepsCache (getVectorDefaultValue var_name : Acc R _) := by
  intro c h
  rw [getVectorDefaultValue_run]
  cases hf : c.default_vector_value.find var_name with
  | some v => exact h
  | none =>
    refine ⟨h.1, ?_⟩
    intro k x hk
    simp only [StdMap.find_set] at hk
    split_ifs at hk with hkk
    · subst hkk
      exact (Option.some.inj hk).symm
    · exact h.2 k x hk

theorem cache_isCoupled {R : Type} [CommRing R] (var_name : String) (i : Nat) :
    Acc.Keeps Coupleable.KeepsCache (isCoupled var_name i : Acc R _) := by
  unfold isCoupled
  repeat' with_reducible first
    | exact cache_pure _
    | exact cache_mooseError _
    | exact cache_get
    | refine cache_bind _ _ ?_ (fun _ => ?_)
    | apply cache_ite
    | split

theorem cache_checkVar {R : Type} [CommRing R] (var_name : String) :
    Acc.Keeps Coupleable.KeepsCache (checkVar var_name : Acc R _) := by
  unfold checkVar
  repeat' with_reducible first
    | exact cache_pure _
    | exact cache_mooseError _
    | exact cache_get
    | refine cache_bind _ _ ?_ (fun _ => ?_)
    | apply cache_ite
    | split

theorem cache_validateExecutionerType {R : Type} [CommRing R] (name fn_name : String) :
    Acc.Keeps Coupleable.KeepsCache (validateExecutionerType name fn_name : Acc R _) := by
  unfold validateExecutionerType
  repeat' with_reducible first
    | exact cache_pure _
    | exact cache_mooseError _
    | exact cache_get
    | refine cache_bind _ _ ?_ (fun _ => ?_)
    | apply cache_ite

theorem cache_getFEVar {R : Type} [CommRing R] (var_name : String) (comp : Nat) :
    Acc.Keeps Coupleable.KeepsCache (getFEVar var_name comp : Acc R _) := by
  unfold getFEVar
  repeat' with_reducible first
    | exact cache_pure _
    | exact cache_mooseError _
    | exact cache_get
    | exact cache_coupledVarsAt _
    | refine cache_bind _ _ ?_ (fun _ => ?_)
    | apply cache_ite
    | split

theorem cache_getVar {R : Type} [CommRing R] (var_name : String) (comp : Nat) :
    Acc.Keeps Coupleable.KeepsCache (getVar var_name comp : Acc R _) := by
  unfold getVar
  repeat' with_reducible first
    | exact cache_pure _
    | exact cache_mooseError _
    | exact cache_get
    | exact cache_coupledVarsAt _
    | refine cache_bind _ _ ?_ (fun _ => ?_)
    | apply cache_ite
    | split

theorem cache_getVectorVar {R : Type} [CommRing R] (var_name : String) (comp : Nat) :
    Acc.Keeps Coupleable.KeepsCache (getVectorVar var_name comp : Acc R _) := by
  unfold getVectorVar
  repeat' with_reducible first
    | exact cache_pure _
    | exact cache_mooseError _
    | exact cache_get
    | exact cache_coupledVarsAt _
    | refine cache_bind _ _ ?_ (fun _ => ?_)
    | apply cache_ite
    | split

theorem cache_coupledComponents {R : Type} [CommRing R] (var_name : String) :
    Acc.Keeps Coupleable.KeepsCache (coupledComponents var_name : Acc R _) := by
  unfold coupledComponents
  repeat' with_reducible first
    | exact cache_pure _
    | exact cache_coupledVarsAt _
    | refine cache_bind _ _ ?_ (fun _ => ?_)

theorem cache_coupled {R : Type} [CommRing R] (var_name : String) (comp : Nat) :
    Acc.Keeps Coupleable.KeepsCache (coupled var_name comp : Acc R _) := by
  unfold coupled
  repeat' with_reducible first
    | exact cache_pure _
    | exact cache_mooseError _
    | exact cache_get
    | exact cache_checkVar _
    | exact cache_isCoupled _ _
    | exact cache_getFEVar _ _
    | exact cache_optionalVarIndexAt _
    | refine cache_bind _ _ ?_ (fun _ => ?_)
    | apply cache_ite
    | split

theorem cache_coupledValue {R : Type} [CommRing R] (var_name : String) (comp : Nat) :
    Acc.Keeps Coupleable.KeepsCache (coupledValue var_name comp : Acc R _) := by
  unfold coupledValue
  repeat' with_reducible first
    | exact cache_pure _
    | exact cache_mooseError _
    | exact cache_get
    | exact cache_checkVar _
    | exact cache_isCoupled _ _
    | exact cache_getFEVar _ _
    | exact cache_getVar _ _
    | exact cache_getVectorVar _ _
    | exact cache_getDefaultValue _
    | exact cache_getVectorDefaultValue _
    | exact cache_validateExecutionerType _ _
    | exact cache_coupledCallback _ _
    | exact cache_needsPreviousNewtonIteration _
    | refine cache_bind _ _ ?_ (fun _ => ?_)
    | apply cache_ite

theorem cache_coupledVectorValue {R : Type} [CommRing R] (var_name : String) (comp : Nat) :
    Acc.Keeps Coupleable.KeepsCache (coupledVectorValue var_name comp : Acc R _) := by
  unfold coupledVectorValue
  repeat' with_reducible first
    | exact cache_pure _
    | exact cache_mooseError _
    | exact cache_get
    | exact cache_checkVar _
    | exact cache_isCoupled _ _
    | exact cache_getFEVar _ _
    | exact cache_getVar _ _
    | exact cache_getVectorVar _ _
    | exact cache_getDefaultValue _
    | exact cache_getVectorDefaultValue _
    | exact cache_validateExecutionerType _ _
    | exact cache_coupledCallback _ _
    | exact cache_needsPreviousNewtonIteration _
    | refine cache_bind _ _ ?_ (fun _ => ?_)
    | apply cache_ite

theorem cache_coupledValueOld {R : Type} [CommRing R] (var_name : String) (comp : Nat) :
    Acc.Keeps Coupleable.KeepsCache (coupledValueOld var_name comp : Acc R _) := by
  unfold coupledValueOld
  repeat' with_reducible first
    | exact cache_pure _
    | exact cache_mooseError _
    | exact cache_get
    | exact cache_checkVar _
    | exact cache_isCoupled _ _
    | exact cache_getFEVar _ _
    | exact cache_getVar _ _
    | exact cache_getVectorVar _ _
    | exact cache_getDefaultValue _
    | exact cache_getVectorDefaultValue _
    | exact cache_validateExecutionerType _ _
    | exact cache_coupledCallback _ _
    | exact cache_needsPreviousNewtonIteration _
    | refine cache_bind _ _ ?_ (fun _ => ?_)
    | apply cache_ite

theorem cache_coupledValueOlder {R : Type} [CommRing R] (var_name : String) (comp : Nat) :
    Acc.Keeps Coupleable.KeepsCache (coupledValueOlder var_name comp : Acc R _) := by
  unfold coupledValueOlder
  repeat' with_reducible first
    | exact cache_pure _
    | exact cache_mooseError _
    | exact cache_get
    | exact cache_checkVar _
    | exact cache_isCoupled _ _
    | exact cache_getFEVar _ _
    | exact cache_getVar _ _
    | exact cache_getVectorVar _ _
    | exact cache_getDefaultValue _
    | exact cache_getVectorDefaultValue _
    | exact cache_validateExecutionerType _ _
    | exact cache_coupledCallback _ _
    | exact cache_needsPreviousNewtonIteration _
    | refine cache_bind _ _ ?_ (fun _ => ?_)
    | apply cache_ite

theorem cache_coupledValuePreviousNL {R : Type} [CommRing R] (var_name : String) (comp : Nat) :
    Acc.Keeps Coupleable.KeepsCache (coupledValuePreviousNL var_name comp : Acc R _) := by
  unfold coupledValuePreviousNL
  repeat' with_reducible first
    | exact cache_pure _
    | exact cache_mooseError _
    | exact cache_get
    | exact cache_checkVar _
    | exact cache_isCoupled _ _
    | exact cache_getFEVar _ _
    | exact cache_getVar _ _
    | exact cache_getVectorVar _ _
    | exact cache_getDefaultValue _
    | exact cache_getVectorDefaultValue _
    | exact cache_validateExecutionerType _ _
    | exact cache_coupledCallback _ _
    | exact cache_needsPreviousNewtonIteration _
    | refine cache_bind _ _ ?_ (fun _ => ?_)
    | apply cache_ite

theorem cache_coupledVectorValueOld {R : Type} [CommRing R] (var_name : String) (comp : Nat) :
    Acc.Keeps Coupleable.KeepsCache (coupledVectorValueOld var_name comp : Acc R _) := by
  unfold coupledVectorValueOld
  repeat' with_reducible first
    | exact cache_pure _
    | exact cache_mooseError _
    | exact cache_get
    | exact cache_checkVar _
    | exact cache_isCoupled _ _
    | exact cache_getFEVar _ _
    | exact cache_getVar _ _
    | exact cache_getVectorVar _ _
    | exact cache_getDefaultValue _
    | exact cache_getVectorDefaultValue _
    | exact cache_validateExecutionerType _ _
    | exact cache_coupledCallback _ _
    | exact cache_needsPreviousNewtonIteration _
    | refine cache_bind _ _ ?_ (fun _ => ?_)
    | apply cache_ite

theorem cache_coupledVectorValueOlder {R : Type} [CommRing R] (var_name : String) (comp : Nat) :
    Acc.Keeps Coupleable.KeepsCache (coupledVectorValueOlder var_name comp : Acc R _) := by
  unfold coupledVectorValueOlder
  repeat' with_reducible first
    | exact cache_pure _
    | exact cache_mooseError _
    | exact cache_get
    | exact cache_checkVar _
    | exact cache_isCoupled _ _
    | exact cache_getFEVar _ _
    | exact cache_getVar _ _
    | exact cache_getVectorVar _ _
    | exact cache_getDefaultValue _
    | exact cache_getVectorDefaultValue _
    | exact cache_validateExecutionerType _ _
    | exact cache_coupledCallback _ _
    | exact cache_needsPreviousNewtonIteration _
    | refine cache_bind _ _ ?_ (fun _ => ?_)
    | apply cache_ite

theorem cache_coupledDot {R : Type} [CommRing R] (var_name : String) (comp : Nat) :
    Acc.Keeps Coupleable.KeepsCache (coupledDot var_name comp : Acc R _) := by
  unfold coupledDot
  repeat' with_reducible first
    | exact cache_pure _
    | exact cache_mooseError _
    | exact cache_get
    | exact cache_checkVar _
    | exact cache_isCoupled _ _
    | exact cache_getFEVar _ _
    | exact cache_getVar _ _
    | exact cache_getVectorVar _ _
    | exact cache_getDefaultValue _
    | exact cache_getVectorDefaultValue _
    | exact cache_validateExecutionerType _ _
    | exact cache_coupledCallback _ _
    | exact cache_needsPreviousNewtonIteration _
    | refine cache_bind _ _ ?_ (fun _ => ?_)
    | apply cache_ite

theorem cache_coupledVectorDot {R : Type} [CommRing R] (var_name : String) (comp : Nat) :
    Acc.Keeps Coupleable.KeepsCache (coupledVectorDot var_name comp : Acc R _) := by
  unfold coupledVectorDot
  repeat' with_reducible first
    | exact cache_pure _
    | exact cache_mooseError _
    | exact cache_get
    | exact cache_checkVar _
    | exact cache_isCoupled _ _
    | exact cache_getFEVar _ _
    | exact cache_getVar _ _
    | exact cache_getVectorVar _ _
    | exact cache_getDefaultValue _
    | exact cache_getVectorDefaultValue _
    | exact cache_validateExecutionerType _ _
    | exact cache_coupledCallback _ _
    | exact cache_needsPreviousNewtonIteration _
    | refine cache_bind _ _ ?_ (fun _ => ?_)
    | apply cache_ite

theorem cache_coupledDotDu {R : Type} [CommRing R] (var_name : String) (comp : Nat) :
    Acc.Keeps Coupleable.KeepsCache (coupledDotDu var_name comp : Acc R _) := by
  unfold coupledDotDu
  repeat' with_reducible first
    | exact cache_pure _
    | exact cache_mooseError _
    | exact cache_get
    | exact cache_checkVar _
    | exact cache_isCoupled _ _
    | exact cache_getFEVar _ _
    | exact cache_getVar _ _
    | exact cache_getVectorVar _ _
    | exact cache_getDefaultValue _
    | exact cache_getVectorDefaultValue _
    | exact cache_validateExecutionerType _ _
    | exact cache_coupledCallback _ _
    | exact cache_needsPreviousNewtonIteration _
    | refine cache_bind _ _ ?_ (fun _ => ?_)
    | apply cache_ite

theorem cache_coupledGradient {R : Type} [CommRing R] (var_name : String) (comp : Nat) :
    Acc.Keeps Coupleable.KeepsCache (coupledGradient var_name comp : Acc R _) := by
  unfold coupledGradient
  repeat' with_reducible first
    | exact cache_pure _
    | exact cache_mooseError _
    | exact cache_get
    | exact cache_checkVar _
    | exact cache_isCoupled _ _
    | exact cache_getFEVar _ _
    | exact cache_getVar _ _
    | exact cache_getVectorVar _ _
    | exact cache_getDefaultValue _
    | exact cache_getVectorDefaultValue _
    | exact cache_validateExecutionerType _ _
    | exact cache_coupledCallback _ _
    | exact cache_needsPreviousNewtonIteration _
    | refine cache_bind _ _ ?_ (fun _ => ?_)
    | apply cache_ite

theorem cache_coupledGradientOld {R : Type} [CommRing R] (var_name : String) (comp : Nat) :
    Acc.Keeps Coupleable.KeepsCache (coupledGradientOld var_name comp : Acc R _) := by
  unfold coupledGradientOld
  repeat' with_reducible first
    | exact cache_pure _
    | exact cache_mooseError _
    | exact cache_get
    | exact cache_checkVar _
    | exact cache_isCoupled _ _
    | exact cache_getFEVar _ _
    | exact cache_getVar _ _
    | exact cache_getVectorVar _ _
    | exact cache_getDefaultValue _
    | exact cache_getVectorDefaultValue _
    | exact cache_validateExecutionerType _ _
    | exact cache_coupledCallback _ _
    | exact cache_needsPreviousNewtonIteration _
    | refine cache_bind _ _ ?_ (fun _ => ?_)
    | apply cache_ite

theorem cache_coupledGradientOlder {R : Type} [CommRing R] (var_name : String) (comp : Nat) :
    Acc.Keeps Coupleable.KeepsCache (coupledGradientOlder var_name comp : Acc R _) := by
  unfold coupledGradientOlder
  repeat' with_reducible first
    | exact cache_pure _
    | exact cache_mooseError _
    | exact cache_get
    | exact cache_checkVar _
    | exact cache_isCoupled _ _
    | exact cache_getFEVar _ _
    | exact cache_getVar _ _
    | exact cache_getVectorVar _ _
    | exact cache_getDefaultValue _
    | exact cache_getVectorDefaultValue _
    | exact cache_validateExecutionerType _ _
    | exact cache_coupledCallback _ _
    | exact cache_needsPreviousNewtonIteration _
    | refine cache_bind _ _ ?_ (fun _ => ?_)
    | apply cache_ite

theorem cache_coupledGradientPreviousNL {R : Type} [CommRing R] (var_name : String) (comp : Nat) :
    Acc.Keeps Coupleable.KeepsCache (coupledGradientPreviousNL var_name comp : Acc R _) := by
  unfold coupledGradientPreviousNL
  repeat' with_reducible first
    | exact cache_pure _
    | exact cache_mooseError _
    | exact cache_get
    | exact cache_checkVar _
    | exact cache_isCoupled _ _
    | exact cache_getFEVar _ _
    | exact cache_getVar _ _
    | exact cache_getVectorVar _ _
    | exact cache_getDefaultValue _
    | exact cache_getVectorDefaultValue _
    | exact cache_validateExecutionerType _ _
    | exact cache_coupledCallback _ _
    | exact cache_needsPreviousNewtonIteration _
    | refine cache_bind _ _ ?_ (fun _ => ?_)
    | apply cache_ite

theorem cache_coupledGradientDot {R : Type} [CommRing R] (var_name : String) (comp : Nat) :
    Acc.Keeps Coupleable.KeepsCache (coupledGradientDot var_name comp : Acc R _) := by
  unfold coupledGradientDot
  repeat' with_reducible first
    | exact cache_pure _
    | exact cache_mooseError _
    | exact cache_get
    | exact cache_checkVar _
    | exact cache_isCoupled _ _
    | exact cache_getFEVar _ _
    | exact cache_getVar _ _
    | exact cache_getVectorVar _ _
    | exact cache_getDefaultValue _
    | exact cache_getVectorDefaultValue _
    | exact cache_validateExecutionerType _ _
    | exact cache_coupledCallback _ _
    | exact cache_needsPreviousNewtonIteration _
    | refine cache_bind _ _ ?_ (fun _ => ?_)
    | apply cache_ite

theorem cache_coupledCurl {R : Type} [CommRing R] (var_name : String) (comp : Nat) :
    Acc.Keeps Coupleable.KeepsCache (coupledCurl var_name comp : Acc R _) := by
  unfold coupledCurl
  repeat' with_reducible first
    | exact cache_pure _
    | exact cache_mooseError _
    | exact cache_get
    | exact cache_checkVar _
    | exact cache_isCoupled _ _
    | exact cache_getFEVar _ _
    | exact cache_getVar _ _
    | exact cache_getVectorVar _ _
    | exact cache_getDefaultValue _
    | exact cache_getVectorDefaultValue _
    | exact cache_validateExecutionerType _ _
    | exact cache_coupledCallback _ _
    | exact cache_needsPreviousNewtonIteration _
    | refine cache_bind _ _ ?_ (fun _ => ?_)
    | apply cache_ite

theorem cache_coupledCurlOld {R : Type} [CommRing R] (var_name : String) (comp : Nat) :
    Acc.Keeps Coupleable.KeepsCache (coupledCurlOld var_name comp : Acc R _) := by
  unfold coupledCurlOld
  repeat' with_reducible first
    | exact cache_pure _
    | exact cache_mooseError _
    | exact cache_get
    | exact cache_checkVar _
    | exact cache_isCoupled _ _
    | exact cache_getFEVar _ _
    | exact cache_getVar _ _
    | exact cache_getVectorVar _ _
    | exact cache_getDefaultValue _
    | exact cache_getVectorDefaultValue _
    | exact cache_validateExecutionerType _ _
    | exact cache_coupledCallback _ _
    | exact cache_needsPreviousNewtonIteration _
    | refine cache_bind _ _ ?_ (fun _ => ?_)
    | apply cache_ite

theorem cache_coupledCurlOlder {R : Type} [CommRing R] (var_name : String) (comp : Nat) :
    Acc.Keeps Coupleable.KeepsCache (coupledCurlOlder var_name comp : Acc R _) := by
  unfold coupledCurlOlder
  repeat' with_reducible first
    | exact cache_pure _
    | exact cache_mooseError _
    | exact cache_get
    | exact cache_checkVar _
    | exact cache_isCoupled _ _
    | exact cache_getFEVar _ _
    | exact cache_getVar _ _
    | exact cache_getVectorVar _ _
    | exact cache_getDefaultValue _
    | exact cache_getVectorDefaultValue _
    | exact cache_validateExecutionerType _ _
    | exact cache_coupledCallback _ _
    | exact cache_needsPreviousNewtonIteration _
    | refine cache_bind _ _ ?_ (fun _ => ?_)
    | apply cache_ite

theorem cache_coupledSecond {R : Type} [CommRing R] (var_name : String) (comp : Nat) :
    Acc.Keeps Coupleable.KeepsCache (coupledSecond var_name comp : Acc R _) := by
  unfold coupledSecond
  repeat' with_reducible first
    | exact cache_pure _
    | exact cache_mooseError _
    | exact cache_get
    | exact cache_checkVar _
    | exact cache_isCoupled _ _
    | exact cache_getFEVar _ _
    | exact cache_getVar _ _
    | exact cache_getVectorVar _ _
    | exact cache_getDefaultValue _
    | exact cache_getVectorDefaultValue _
    | exact cache_validateExecutionerType _ _
    | exact cache_coupledCallback _ _
    | exact cache_needsPreviousNewtonIteration _
    | refine cache_bind _ _ ?_ (fun _ => ?_)
    | apply cache_ite

theorem cache_coupledSecondOld {R : Type} [CommRing R] (var_name : String) (comp : Nat) :
    Acc.Keeps Coupleable.KeepsCache (coupledSecondOld var_name comp : Acc R _) := by
  unfold coupledSecondOld
  repeat' with_reducible first
    | exact cache_pure _
    | exact cache_mooseError _
    | exact cache_get
    | exact cache_checkVar _
    | exact cache_isCoupled _ _
    | exact cache_getFEVar _ _
    | exact cache_getVar _ _
    | exact cache_getVectorVar _ _
    | exact cache_getDefaultValue _
    | exact cache_getVectorDefaultValue _
    | exact cache_validateExecutionerType _ _
    | exact cache_coupledCallback _ _
    | exact cache_needsPreviousNewtonIteration _
    | refine cache_bind _ _ ?_ (fun _ => ?_)
    | apply cache_ite

theorem cache_coupledSecondOlder {R : Type} [CommRing R] (var_name : String) (comp : Nat) :
    Acc.Keeps Coupleable.KeepsCache (coupledSecondOlder var_name comp : Acc R _) := by
  unfold coupledSecondOlder
  repeat' with_reducible first
    | exact cache_pure _
    | exact cache_mooseError _
    | exact cache_get
    | exact cache_checkVar _
    | exact cache_isCoupled _ _
    | exact cache_getFEVar _ _
    | exact cache_getVar _ _
    | exact cache_getVectorVar _ _
    | exact cache_getDefaultValue _
    | exact cache_getVectorDefaultValue _
    | exact cache_validateExecutionerType _ _
    | exact cache_coupledCallback _ _
    | exact cache_needsPreviousNewtonIteration _
    | refine cache_bind _ _ ?_ (fun _ => ?_)
    | apply cache_ite

theorem cache_coupledSecondPreviousNL {R : Type} [CommRing R] (var_name : String) (comp : Nat) :
    Acc.Keeps Coupleable.KeepsCache (coupledSecondPreviousNL var_name comp : Acc R _) := by
  unfold coupledSecondPreviousNL
  repeat' with_reducible first
    | exact cache_pure _
    | exact cache_mooseError _
    | exact cache_get
    | exact cache_checkVar _
    | exact cache_isCoupled _ _
    | exact cache_getFEVar _ _
    | exact cache_getVar _ _
    | exact cache_getVectorVar _ _
    | exact cache_getDefaultValue _
    | exact cache_getVectorDefaultValue _
    | exact cache_validateExecutionerType _ _
    | exact cache_coupledCallback _ _
    | exact cache_needsPreviousNewtonIteration _
    | refine cache_bind _ _ ?_ (fun _ => ?_)
    | apply cache_ite

theorem cache_coupledNodalValue {R : Type} [CommRing R] (var_name : String) (comp : Nat) :
    Acc.Keeps Coupleable.KeepsCache (coupledNodalValue var_name comp : Acc R _) := by
  unfold coupledNodalValue
  repeat' with_reducible first
    | exact cache_pure _
    | exact cache_mooseError _
    | exact cache_get
    | exact cache_checkVar _
    | exact cache_isCoupled _ _
    | exact cache_getFEVar _ _
    | exact cache_getVar _ _
    | exact cache_getVectorVar _ _
    | exact cache_getDefaultValue _
    | exact cache_getVectorDefaultValue _
    | exact cache_validateExecutionerType _ _
    | exact cache_coupledCallback _ _
    | exact cache_needsPreviousNewtonIteration _
    | refine cache_bind _ _ ?_ (fun _ => ?_)
    | apply cache_ite

theorem cache_coupledNodalValueOld {R : Type} [CommRing R] (var_name : String) (comp : Nat) :
    Acc.Keeps Coupleable.KeepsCache (coupledNodalValueOld var_name comp : Acc R _) := by
  unfold coupledNodalValueOld
  repeat' with_reducible first
    | exact cache_pure _
    | exact cache_mooseError _
    | exact cache_get
    | exact cache_checkVar _
    | exact cache_isCoupled _ _
    | exact cache_getFEVar _ _
    | exact cache_getVar _ _
    | exact cache_getVectorVar _ _
    | exact cache_getDefaultValue _
    | exact cache_getVectorDefaultValue _
    | exact cache_validateExecutionerType _ _
    | exact cache_coupledCallback _ _
    | exact cache_needsPreviousNewtonIteration _
    | refine cache_bind _ _ ?_ (fun _ => ?_)
    | apply cache_ite

theorem cache_coupledNodalValueOlder {R : Type} [CommRing R] (var_name : String) (comp : Nat) :
    Acc.Keeps Coupleable.KeepsCache (coupledNodalValueOlder var_name comp : Acc R _) := by
  unfold coupledNodalValueOlder
  repeat' with_reducible first
    | exact cache_pure _
    | exact cache_mooseError _
    | exact cache_get
    | exact cache_checkVar _
    | exact cache_isCoupled _ _
    | exact cache_getFEVar _ _
    | exact cache_getVar _ _
    | exact cache_getVectorVar _ _
    | exact cache_getDefaultValue _
    | exact cache_getVectorDefaultValue _
    | exact cache_validateExecutionerType _ _
    | exact cache_coupledCallback _ _
    | exact cache_needsPreviousNewtonIteration _
    | refine cache_bind _ _ ?_ (fun _ => ?_)
    | apply cache_ite

theorem cache_coupledNodalValuePreviousNL {R : Type} [CommRing R] (var_name : String) (comp : Nat) :
    Acc.Keeps Coupleable.KeepsCache (coupledNodalValuePreviousNL var_name comp : Acc R _) := by
  unfold coupledNodalValuePreviousNL
  repeat' with_reducible first
    | exact cache_pure _
    | exact cache_mooseError _
    | exact cache_get
    | exact cache_checkVar _
    | exact cache_isCoupled _ _
    | exact cache_getFEVar _ _
    | exact cache_getVar _ _
    | exact cache_getVectorVar _ _
    | exact cache_getDefaultValue _
    | exact cache_getVectorDefaultValue _
    | exact cache_validateExecutionerType _ _
    | exact cache_coupledCallback _ _
    | exact cache_needsPreviousNewtonIteration _
    | refine cache_bind _ _ ?_ (fun _ => ?_)
    | apply cache_ite

theorem cache_coupledNodalDot {R : Type} [CommRing R] (var_name : String) (comp : Nat) :
    Acc.Keeps Coupleable.KeepsCache (coupledNodalDot var_name comp : Acc R _) := by
  unfold coupledNodalDot
  repeat' with_reducible first
    | exact cache_pure _
    | exact cache_mooseError _
    | exact cache_get
    | exact cache_checkVar _
    | exact cache_isCoupled _ _
    | exact cache_getFEVar _ _
    | exact cache_getVar _ _
    | exact cache_getVectorVar _ _
    | exact cache_getDefaultValue _
    | exact cache_getVectorDefaultValue _
    | exact cache_validateExecutionerType _ _
    | exact cache_coupledCallback _ _
    | exact cache_needsPreviousNewtonIteration _
    | refine cache_bind _ _ ?_ (fun _ => ?_)
    | apply cache_ite

theorem cache_coupledSolutionDoFs {R : Type} [CommRing R] (var_name : String) (comp : Nat) :
    Acc.Keeps Coupleable.KeepsCache (coupledSolutionDoFs var_name comp : Acc R _) := by
  unfold coupledSolutionDoFs
  repeat' with_reducible first
    | exact cache_pure _
    | exact cache_mooseError _
    | exact cache_get
    | exact cache_checkVar _
    | exact cache_isCoupled _ _
    | exact cache_getFEVar _ _
    | exact cache_getVar _ _
    | exact cache_getVectorVar _ _
    | exact cache_getDefaultValue _
    | exact cache_getVectorDefaultValue _
    | exact cache_validateExecutionerType _ _
    | exact cache_coupledCallback _ _
    | exact cache_needsPreviousNewtonIteration _
    | refine cache_bind _ _ ?_ (fun _ => ?_)
    | apply cache_ite

theorem cache_coupledSolutionDoFsOld {R : Type} [CommRing R] (var_name : String) (comp : Nat) :
    Acc.Keeps Coupleable.KeepsCache (coupledSolutionDoFsOld var_name comp : Acc R _) := by
  unfold coupledSolutionDoFsOld
  repeat' with_reducible first
    | exact cache_pure _
    | exact cache_mooseError _
    | exact cache_get
    | exact cache_checkVar _
    | exact cache_isCoupled _ _
    | exact cache_getFEVar _ _
    | exact cache_getVar _ _
    | exact cache_getVectorVar _ _
    | exact cache_getDefaultValue _
    | exact cache_getVectorDefaultValue _
    | exact cache_validateExecutionerType _ _
    | exact cache_coupledCallback _ _
    | exact cache_needsPreviousNewtonIteration _
    | refine cache_bind _ _ ?_ (fun _ => ?_)
    | apply cache_ite

theorem cache_coupledSolutionDoFsOlder {R : Type} [CommRing R] (var_name : String) (comp : Nat) :
    Acc.Keeps Coupleable.KeepsCache (coupledSolutionDoFsOlder var_name comp : Acc R _) := by
  unfold coupledSolutionDoFsOlder
  repeat' with_reducible first
    | exact cache_pure _
    | exact cache_mooseError _
    | exact cache_get
    | exact cache_checkVar _
    | exact cache_isCoupled _ _
    | exact cache_getFEVar _ _
    | exact cache_getVar _ _
    | exact cache_getVectorVar _ _
    | exact cache_getDefaultValue _
    | exact cache_getVectorDefaultValue _
    | exact cache_validateExecutionerType _ _
    | exact cache_coupledCallback _ _
    | exact cache_needsPreviousNewtonIteration _
    | refine cache_bind _ _ ?_ (fun _ => ?_)
    | apply cache_ite

/-- Every call leaves the caches as `CacheOk` says, if they were. -/
theorem perform_cache {R : Type} [CommRing R] (call : Call) (c : Coupleable R) :
    c.KeepsCache (call.perform c) := by
  cases call
  case coupledCallback n b => exact cache_coupledCallback n b c
  case isCoupled n i => exact cache_isCoupled n i c
  case coupledComponents n => exact cache_coupledComponents n c
  case checkVar n => exact cache_checkVar n c
  case getFEVar n k => exact cache_getFEVar n k c
  case getVar n k => exact cache_getVar n k c
  case getVectorVar n k => exact cache_getVectorVar n k c
  case coupled n k => exact cache_coupled n k c
  case getDefaultValue n => exact cache_getDefaultValue n c
  case getVectorDefaultValue n => exact cache_getVectorDefaultValue n c
  case validateExecutionerType n f => exact cache_validateExecutionerType n f c
  case writableCoupledValue n k => exact cache_coupledValue n k c
  case coupledValue n k => exact cache_coupledValue n k c
  case coupledVectorValue n k => exact cache_coupledVectorValue n k c
  case coupledValueOld n k => exact cache_coupledValueOld n k c
  case coupledValueOlder n k => exact cache_coupledValueOlder n k c
  case coupledValuePreviousNL n k => exact cache_coupledValuePreviousNL n k c
  case coupledVectorValueOld n k => exact cache_coupledVectorValueOld n k c
  case coupledVectorValueOlder n k => exact cache_coupledVectorValueOlder n k c
  case coupledDot n k => exact cache_coupledDot n k c
  case coupledVectorDot n k => exact cache_coupledVectorDot n k c
  case coupledDotDu n k => exact cache_coupledDotDu n k c
  case coupledGradient n k => exact cache_coupledGradient n k c
  case coupledGradientOld n k => exact cache_coupledGradientOld n k c
  case coupledGradientOlder n k => exact cache_coupledGradientOlder n k c
  case coupledGradientPreviousNL n k => exact cache_coupledGradientPreviousNL n k c
  case coupledGradientDot n k => exact cache_coupledGradientDot n k c
  case coupledCurl n k => exact cache_coupledCurl n k c
  case coupledCurlOld n k => exact cache_coupledCurlOld n k c
  case coupledCurlOlder n k => exact cache_coupledCurlOlder n k c
  case coupledSecond n k => exact cache_coupledSecond n k c
  case coupledSecondOld n k => exact cache_coupledSecondOld n k c
  case coupledSecondOlder n k => exact cache_coupledSecondOlder n k c
  case coupledSecondPreviousNL n k => exact cache_coupledSecondPreviousNL n k c
  case coupledNodalValue n k => exact cache_coupledNodalValue n k c
  case coupledNodalValueOld n k => exact cache_coupledNodalValueOld n k c
  case coupledNodalValueOlder n k => exact cache_coupledNodalValueOlder n k c
  case coupledNodalValuePreviousNL n k => exact cache_coupledNodalValuePreviousNL n k c
  case coupledNodalDot n k => exact cache_coupledNodalDot n k c
  case coupledSolutionDoFs n k => exact cache_coupledSolutionDoFs n k c
  case coupledSolutionDoFsOld n k => exact cache_coupledSolutionDoFsOld n k c
  case coupledSolutionDoFsOlder n k => exact cache_coupledSolutionDoFsOlder n k c

/-- Every sequence of calls leaves the caches as `CacheOk` says, if they were. -/
theorem Coupleable.after_cache {R : Type} [CommRing R] (c : Coupleable R) (calls : List Call)
    (h : c.CacheOk) : (c.after calls).CacheOk := by
  unfold Coupleable.after
  induction calls generalizing c with
  | nil => exact h
  | cons call calls ih =>
    simp only [List.foldl_cons]
    exact ih _ (perform_cache call c h)

/-! ## The object after construction and any calls -/

/-- The zero arrays and the caches of a freshly constructed object. -/
theorem construct_defaults {R : Type} [CommRing R] (order : AssignOrder) (p : InputParameters R)
    (problem : Problem) (nodal flag : Bool) (c : Coupleable R)
    (hc : Coupleable.construct order p problem nodal flag = .ok c) :
    c.default_value_zero = List.replicate problem.getMaxQps 0 ∧
    c.default_gradient = List.replicate problem.getMaxQps (0, 0, 0) ∧
    c.default_second = List.replicate problem.getMaxQps ((0, 0, 0), (0, 0, 0), (0, 0, 0)) ∧
    c.default_vector_value_zero = List.replicate problem.getMaxQps (0, 0, 0) ∧
    c.default_vector_curl = List.replicate problem.getMaxQps (0, 0, 0) ∧
    c.default_value = StdMap.empty ∧ c.default_vector_value = StdMap.empty ∧
    c.callbacks = [] := by
  obtain ⟨hbad, hgood⟩ := declare_fold order problem p.coupledVars
    (Coupleable.init p problem nodal flag) p.coupledVars_nodup
    (fun n _ => ⟨rfl, rfl, rfl⟩)
  by_cases hb : p.coupledVars.any
      (fun n => (p.getVecMooseType n).any (unresolvable problem)) = true
  · obtain ⟨e, he, _⟩ := hbad hb
    unfold Coupleable.construct at hc
    rw [he] at hc; cases hc
  · have hb' : p.coupledVars.any
        (fun n => (p.getVecMooseType n).any (unresolvable problem)) = false := by
      simpa using hb
    obtain ⟨c0, hc0, hcfg, _⟩ := hgood hb'
    unfold Coupleable.construct at hc
    rw [hc0] at hc
    have e : c0.sizeDefaults = c := Except.ok.inj hc
    rw [← e]
    have hq : c0.coupleable_max_qps = problem.getMaxQps := hcfg.coupleable_max_qps
    refine ⟨?_, ?_, ?_, ?_, ?_, hcfg.default_value, hcfg.default_vector_value, hcfg.callbacks⟩ <;>
      simp only [Coupleable.sizeDefaults, hq]

/-- What holds of a constructed object after any sequence of calls: the configuration and
the flags are those of construction, the recorded scalar variables and the non-empty lists
of field handles are those construction recorded, a name without field handles has no
entry in `_coupled_vars` or an empty one, the zero arrays are as sized by the constructor,
and the caches hold only arrays of the default constants. -/
theorem after_facts {R : Type} [CommRing R] (order : AssignOrder) (p : InputParameters R)
    (problem : Problem) (nodal flag : Bool) (c : Coupleable R)
    (hc : Coupleable.construct order p problem nodal flag = .ok c) (calls : List Call) :
    (c.after calls).c_parameters = p ∧ (c.after calls).c_name = p.object_name ∧
    (c.after calls).c_fe_problem = problem ∧ (c.after calls).c_nodal = nodal ∧
    (c.after calls).c_is_implicit = p.implicit.getD true ∧
    (c.after calls).coupleable_neighbor = p.neighbor.getD false ∧
    (c.after calls).coupleable_max_qps = problem.getMaxQps ∧
    (∀ k, (c.after calls).c_coupled_scalar_vars.find k =
      if k ∈ p.coupledVars ∧ scalarHandles problem (p.getVecMooseType k) ≠ [] then
        some (scalarHandles problem (p.getVecMooseType k))
      else none) ∧
    (∀ k, k ∈ p.coupledVars → fieldHandles problem (p.getVecMooseType k) ≠ [] →
      (c.after calls).coupled_vars.find k = some (fieldHandles problem (p.getVecMooseType k))) ∧
    (∀ k, (k ∈ p.coupledVars → fieldHandles problem (p.getVecMooseType k) = []) →
      (c.after calls).coupled_vars.find k = none ∨
        (c.after calls).coupled_vars.find k = some []) ∧
    (c.after calls).default_value_zero = List.replicate problem.getMaxQps 0 ∧
    (c.after calls).default_gradient = List.replicate problem.getMaxQps (0, 0, 0) ∧
    (c.after calls).default_second =
      List.replicate problem.getMaxQps ((0, 0, 0), (0, 0, 0), (0, 0, 0)) ∧
    (c.after calls).default_vector_value_zero = List.replicate problem.getMaxQps (0, 0, 0) ∧
    (c.after calls).default_vector_curl = List.replicate problem.getMaxQps (0, 0, 0) ∧
    (c.after calls).CacheOk := by
  obtain ⟨_, hp, hname, hprob, hnod, _, himp, hnb, hq, hv, hs, _⟩ :=
    construct_ok order p problem nodal flag c hc
  obtain ⟨d1, d2, d3, d4, d5, d6, d7, _⟩ := construct_defaults order p problem nodal flag c hc
  have hext := Coupleable.after_extends c calls
  have hcache : c.CacheOk := by
    constructor
    · intro k x hk; rw [d6] at hk; cases hk
    · intro k x hk; rw [d7] at hk; cases hk
  refine ⟨hext.c_parameters.trans hp, hext.c_name.trans hname, hext.c_fe_problem.trans hprob,
    hext.c_nodal.trans hnod, hext.c_is_implicit.trans himp, hext.coupleable_neighbor.trans hnb,
    hext.coupleable_max_qps.trans hq, ?_, ?_, ?_, hext.default_value_zero.trans d1,
    hext.default_gradient.trans d2, hext.default_second.trans d3,
    hext.default_vector_value_zero.trans d4, hext.default_vector_curl.trans d5,
    Coupleable.after_cache c calls hcache⟩
  · intro k; rw [hext.c_coupled_scalar_vars]; exact hs k
  · intro k hk hne
    apply hext.coupled_vars_some
    rw [hv k]; simp [hk, hne]
  · intro k hk
    apply hext.coupled_vars_none
    rw [hv k]
    by_cases hmem : k ∈ p.coupledVars
    · simp [hk hmem]
    · simp [hmem]

/-! ## Accessors on a coupling without field handles -/

theorem checkVar_run_none {R : Type} (name : String) (c : Coupleable R)
    (hs : c.c_coupled_scalar_vars.find name = none) : (checkVar name).run c = (.ok (), c) := by
  rw [checkVar_run, hs]

theorem isCoupled_run_uncoupled {R : Type} (name : String) (i : Nat) (c : Coupleable R)
    (hv : c.coupled_vars.find name = none ∨ c.coupled_vars.find name = some [])
    (hd : c.c_parameters.hasCoupledValue name = true) :
    (isCoupled name i).run c = (.ok false, c) := by
  rw [isCoupled_run]
  rcases hv with hv | hv
  · simp [hv, hd]
  · simp [hv]

theorem value_family_uncoupled {R : Type} (acc : String → Nat → Acc R ArrayRef)
    (hacc : acc ∈ ([coupledValue, coupledValueOld, coupledValueOlder, coupledValuePreviousNL,
      coupledNodalValue, coupledNodalValueOld, coupledNodalValueOlder,
      coupledNodalValuePreviousNL] : List (String → Nat → Acc R ArrayRef)))
    (name : String) (comp : Nat) (c : Coupleable R)
    (hs : c.c_coupled_scalar_vars.find name = none)
    (hv : c.coupled_vars.find name = none ∨ c.coupled_vars.find name = some [])
    (hd : c.c_parameters.hasCoupledValue name = true) :
    (acc name comp).run c = (getDefaultValue name).run c := by
  have hck := checkVar_run_none name c hs
  have hic := isCoupled_run_uncoupled name 0 c hv hd
  simp only [List.mem_cons, List.mem_singleton, List.not_mem_nil, or_false] at hacc
  rcases hacc with rfl | rfl | rfl | rfl | rfl | rfl | rfl | rfl <;>
    simp only [coupledValue, coupledValueOld, coupledValueOlder, coupledValuePreviousNL,
      coupledNodalValue, coupledNodalValueOld, coupledNodalValueOlder,
      coupledNodalValuePreviousNL, run_bind_thenRun, run_ite, hck, hic, thenRun_ok,
      Bool.not_false, if_true]


theorem vector_family_uncoupled {R : Type} [CommRing R] (acc : String → Nat → Acc R ArrayRef)
    (hacc : acc ∈ ([coupledVectorValue, coupledVectorValueOld, coupledVectorValueOlder] :
      List (String → Nat → Acc R ArrayRef)))
    (name : String) (comp : Nat) (c : Coupleable R)
    (hv : c.coupled_vars.find name = none ∨ c.coupled_vars.find name = some [])
    (hd : c.c_parameters.hasCoupledValue name = true) :
    (acc name comp).run c = (getVectorDefaultValue name).run c := by
  have hic := isCoupled_run_uncoupled name 0 c hv hd
  simp only [List.mem_cons, List.mem_singleton, List.not_mem_nil, or_false] at hacc
  rcases hacc with rfl | rfl | rfl <;>
    simp only [coupledVectorValue, coupledVectorValueOld, coupledVectorValueOlder,
      run_bind_thenRun, run_ite, hic, thenRun_ok, Bool.not_false, if_true]

theorem zero_family_uncoupled {R : Type} (pr : (String → Nat → Acc R ArrayRef) × ArrayRef)
    (hpr : pr ∈ ([(coupledDot, .default_value_zero), (coupledDotDu, .default_value_zero),
      (coupledNodalDot, .default_value_zero), (coupledVectorDot, .default_vector_value_zero),
      (coupledGradient, .default_gradient), (coupledGradientOld, .default_gradient),
      (coupledGradientOlder, .default_gradient), (coupledGradientPreviousNL, .default_gradient),
      (coupledGradientDot, .default_gradient), (coupledSecond, .default_second),
      (coupledSecondOld, .default_second), (coupledSecondOlder, .default_second),
      (coupledSecondPreviousNL, .default_second), (coupledCurl, .default_vector_curl),
      (coupledCurlOld, .default_vector_curl), (coupledCurlOlder, .default_vector_curl)] :
      List ((String → Nat → Acc R ArrayRef) × ArrayRef)))
    (name : String) (comp : Nat) (c : Coupleable R)
    (hs : c.c_coupled_scalar_vars.find name = none)
    (hv : c.coupled_vars.find name = none ∨ c.coupled_vars.find name = some [])
    (hd : c.c_parameters.hasCoupledValue name = true) :
    (pr.1 name comp).run c = (.ok pr.2, c) := by
  have hck := checkVar_run_none name c hs
  have hic := isCoupled_run_uncoupled name 0 c hv hd
  simp only [List.mem_cons, List.mem_singleton, List.not_mem_nil, or_false] at hpr
  rcases hpr with rfl | rfl | rfl | rfl | rfl | rfl | rfl | rfl | rfl | rfl | rfl | rfl | rfl |
      rfl | rfl | rfl <;>
    simp only [coupledDot, coupledDotDu, coupledNodalDot, coupledVectorDot, coupledGradient,
      coupledGradientOld, coupledGradientOlder, coupledGradientPreviousNL, coupledGradientDot,
      coupledSecond, coupledSecondOld, coupledSecondOlder, coupledSecondPreviousNL, coupledCurl,
      coupledCurlOld, coupledCurlOlder, run_bind_thenRun, run_ite, hck, hic, thenRun_ok,
      Bool.not_false, if_true, run_pure]

/-- A second `getDefaultValue` finds the array the first one created. -/
theorem getDefaultValue_twice {R : Type} (name : String) (c : Coupleable R) :
    (getDefaultValue name).run ((getDefaultValue name).run c).2 = (getDefaultValue name).run c := by
  simp only [getDefaultValue_run]
  cases h : c.default_value.find name with
  | some x => simp [h]
  | none => simp [StdMap.find_set]

theorem getVectorDefaultValue_twice {R : Type} [CommRing R] (name : String) (c : Coupleable R) :
    (getVectorDefaultValue name).run ((getVectorDefaultValue name).run c).2 =
      (getVectorDefaultValue name).run c := by
  simp only [getVectorDefaultValue_run]
  cases h : c.default_vector_value.find name with
  | some x => simp [h]
  | none => simp [StdMap.find_set]

/-- What `getDefaultValue` leaves under the name, on an object whose cache is in order. -/
theorem getDefaultValue_contents {R : Type} [CommRing R] (name : String) (c : Coupleable R)
    (h : c.CacheOk) :
    ((getDefaultValue name).run c).2.contents (.default_value name) =
      some (.values (List.replicate c.coupleable_max_qps
        (c.c_parameters.defaultCoupledValue name))) := by
  simp only [getDefaultValue_run, Coupleable.contents]
  cases hf : c.default_value.find name with
  | some x => simp [hf, h.1 name x hf]
  | none => simp [StdMap.find_set]

theorem getVectorDefaultValue_contents {R : Type} [CommRing R] (name : String)
    (c : Coupleable R) (h : c.CacheOk) :
    ((getVectorDefaultValue name).run c).2.contents (.default_vector_value name) =
      some (.vectors (List.replicate c.coupleable_max_qps (0, 0, 0))) := by
  simp only [getVectorDefaultValue_run, Coupleable.contents]
  cases hf : c.default_vector_value.find name with
  | some x => simp [hf, h.2 name x hf]
  | none => simp [StdMap.find_set]


/-- The members `getDefaultValue` does not write. -/
theorem getDefaultValue_frame {R : Type} (name : String) (c : Coupleable R) :
    ((getDefaultValue name).run c).2.c_coupled_scalar_vars = c.c_coupled_scalar_vars ∧
    ((getDefaultValue name).run c).2.coupled_vars = c.coupled_vars ∧
    ((getDefaultValue name).run c).2.c_parameters = c.c_parameters := by
  simp only [getDefaultValue_run]
  cases h : c.default_value.find name <;> exact ⟨rfl, rfl, rfl⟩

/-- The members `getVectorDefaultValue` does not write. -/
theorem getVectorDefaultValue_frame {R : Type} [CommRing R] (name : String) (c : Coupleable R) :
    ((getVectorDefaultValue name).run c).2.c_coupled_scalar_vars = c.c_coupled_scalar_vars ∧
    ((getVectorDefaultValue name).run c).2.coupled_vars = c.coupled_vars ∧
    ((getVectorDefaultValue name).run c).2.c_parameters = c.c_parameters := by
  simp only [getVectorDefaultValue_run]
  cases h : c.default_vector_value.find name <;> exact ⟨rfl, rfl, rfl⟩

/-- C11.  On the object a successful construction yields, after any sequence of calls, for
a coupling `name` declared optional and left unsupplied, whatever the nodal, implicit,
neighbor and transient flags are: `isCoupled` is false for every component; the
`coupledValue` and `coupledNodalValue` accessors (current, `Old`, `Older`, `PreviousNL`)
return the array cached under `name`, which holds the default constant of `name` exactly
max-quadrature-point times; the `coupledVectorValue` accessors return the cached vector
array of `name`, that many zero vectors; `coupledDot`, `coupledDotDu`, `coupledNodalDot`,
`coupledVectorDot`, the gradient, the second-derivative and the curl accessors return the
zero array of their kind, that many zeros, and leave the object as it was; and calling an
accessor again on the object it left returns the same array and leaves the object, hence
the contents, as they were. -/
theorem optional_defaults {R : Type} [CommRing R] (order : AssignOrder) (p : InputParameters R)
    (problem : Problem) (nodal flag : Bool) (c : Coupleable R)
    (hc : Coupleable.construct order p problem nodal flag = .ok c)
    (name : String) (hn : name ∈ p.coupledVars) (hopt : p.getVecMooseType name = [])
    (calls : List Call) (comp : Nat) :
    (∀ i, ((isCoupled name i).run (c.after calls)).1 = .ok false) ∧
    (∀ acc ∈ ([coupledValue, coupledValueOld, coupledValueOlder, coupledValuePreviousNL,
        coupledNodalValue, coupledNodalValueOld, coupledNodalValueOlder,
        coupledNodalValuePreviousNL] : List (String → Nat → Acc R ArrayRef)),
      ((acc name comp).run (c.after calls)).1 = .ok (.default_value name) ∧
      ((acc name comp).run (c.after calls)).2.contents (.default_value name) =
        some (.values (List.replicate problem.getMaxQps (p.defaultCoupledValue name))) ∧
      (acc name comp).run ((acc name comp).run (c.after calls)).2 =
        (acc name comp).run (c.after calls)) ∧
    (∀ acc ∈ ([coupledVectorValue, coupledVectorValueOld, coupledVectorValueOlder] :
        List (String → Nat → Acc R ArrayRef)),
      ((acc name comp).run (c.after calls)).1 = .ok (.default_vector_value name) ∧
      ((acc name comp).run (c.after calls)).2.contents (.default_vector_value name) =
        some (.vectors (List.replicate problem.getMaxQps (0, 0, 0))) ∧
      (acc name comp).run ((acc name comp).run (c.after calls)).2 =
        (acc name comp).run (c.after calls)) ∧
    (∀ acc ∈ ([coupledDot, coupledDotDu, coupledNodalDot] :
        List (String → Nat → Acc R ArrayRef)),
      (acc name comp).run (c.after calls) = (.ok .default_value_zero, c.after calls)) ∧
    (c.after calls).contents .default_value_zero =
      some (.values (List.replicate problem.getMaxQps 0)) ∧
    (coupledVectorDot name comp).run (c.after calls) =
      (.ok .default_vector_value_zero, c.after calls) ∧
    (c.after calls).contents .default_vector_value_zero =
      some (.vectors (List.replicate problem.getMaxQps (0, 0, 0))) ∧
    (∀ acc ∈ ([coupledGradient, coupledGradientOld, coupledGradientOlder,
        coupledGradientPreviousNL, coupledGradientDot] : List (String → Nat → Acc R ArrayRef)),
      (acc name comp).run (c.after calls) = (.ok .default_gradient, c.after calls)) ∧
    (c.after calls).contents .default_gradient =
      some (.vectors (List.replicate problem.getMaxQps (0, 0, 0))) ∧
    (∀ acc ∈ ([coupledSecond, coupledSecondOld, coupledSecondOlder, coupledSecondPreviousNL] :
        List (String → Nat → Acc R ArrayRef)),
      (acc name comp).run (c.after calls) = (.ok .default_second, c.after calls)) ∧
    (c.after calls).contents .default_second =
      some (.tensors (List.replicate problem.getMaxQps ((0, 0, 0), (0, 0, 0), (0, 0, 0)))) ∧
    (∀ acc ∈ ([coupledCurl, coupledCurlOld, coupledCurlOlder] :
        List (String → Nat → Acc R ArrayRef)),
      (acc name comp).run (c.after calls) = (.ok .default_vector_curl, c.after calls)) ∧
    (c.after calls).contents .default_vector_curl =
      some (.vectors (List.replicate problem.getMaxQps (0, 0, 0))) := by
  obtain ⟨hp, _, _, _, _, _, hq, hs, _, hv, z1, z2, z3, z4, z5, hcache⟩ :=
    after_facts order p problem nodal flag c hc calls
  have hs' : (c.after calls).c_coupled_scalar_vars.find name = none := by
    rw [hs name]; simp [hopt, scalarHandles]
  have hv' := hv name (fun _ => by simp [hopt, fieldHandles])
  have hd : (c.after calls).c_parameters.hasCoupledValue name = true := by
    rw [hp]; simpa [InputParameters.hasCoupledValue] using hn
  have zero : ∀ pr ∈ ([(coupledDot, .default_value_zero), (coupledDotDu, .default_value_zero),
      (coupledNodalDot, .default_value_zero), (coupledVectorDot, .default_vector_value_zero),
      (coupledGradient, .default_gradient), (coupledGradientOld, .default_gradient),
      (coupledGradientOlder, .default_gradient), (coupledGradientPreviousNL, .default_gradient),
      (coupledGradientDot, .default_gradient), (coupledSecond, .default_second),
      (coupledSecondOld, .default_second), (coupledSecondOlder, .default_second),
      (coupledSecondPreviousNL, .default_second), (coupledCurl, .default_vector_curl),
      (coupledCurlOld, .default_vector_curl), (coupledCurlOlder, .default_vector_curl)] :
      List ((String → Nat → Acc R ArrayRef) × ArrayRef)),
      (pr.1 name comp).run (c.after calls) = (.ok pr.2, c.after calls) :=
    fun pr hpr => zero_family_uncoupled pr hpr name comp _ hs' hv' hd
  refine ⟨?_, ?_, ?_, ?_, ?_, ?_, ?_, ?_, ?_, ?_, ?_, ?_, ?_⟩
  · intro i
    rw [isCoupled_run_uncoupled name i _ hv' hd]
  · intro acc hacc
    have hrun := value_family_uncoupled acc hacc name comp _ hs' hv' hd
    obtain ⟨f1, f2, f3⟩ := getDefaultValue_frame name (c.after calls)
    refine ⟨?_, ?_, ?_⟩
    · rw [hrun, getDefaultValue_run]
    · rw [hrun, getDefaultValue_contents name _ hcache, hq, hp]
    · rw [hrun, value_family_uncoupled acc hacc name comp _ (by rw [f1]; exact hs')
        (by rw [f2]; exact hv') (by rw [f3]; exact hd), getDefaultValue_twice]
  · intro acc hacc
    have hrun := vector_family_uncoupled acc hacc name comp _ hv' hd
    obtain ⟨_, f2, f3⟩ := getVectorDefaultValue_frame name (c.after calls)
    refine ⟨?_, ?_, ?_⟩
    · rw [hrun, getVectorDefaultValue_run]
    · rw [hrun, getVectorDefaultValue_contents name _ hcache, hq]
    · rw [hrun, vector_family_uncoupled acc hacc name comp _
        (by rw [f2]; exact hv') (by rw [f3]; exact hd), getVectorDefaultValue_twice]
  · intro acc hacc
    simp only [List.mem_cons, List.mem_singleton, List.not_mem_nil, or_false] at hacc
    rcases hacc with rfl | rfl | rfl
    · exact zero (coupledDot, .default_value_zero) (by simp)
    · exact zero (coupledDotDu, .default_value_zero) (by simp)
    · exact zero (coupledNodalDot, .default_value_zero) (by simp)
  · simp only [Coupleable.contents, z1]
  · exact zero (coupledVectorDot, .default_vector_value_zero) (by simp)
  · simp only [Coupleable.contents, z4]
  · intro acc hacc
    simp only [List.mem_cons, List.mem_singleton, List.not_mem_nil, or_false] at hacc
    rcases hacc with rfl | rfl | rfl | rfl | rfl
    · exact zero (coupledGradient, .default_gradient) (by simp)
    · exact zero (coupledGradientOld, .default_gradient) (by simp)
    · exact zero (coupledGradientOlder, .default_gradient) (by simp)
    · exact zero (coupledGradientPreviousNL, .default_gradient) (by simp)
    · exact zero (coupledGradientDot, .default_gradient) (by simp)
  · simp only [Coupleable.contents, z2]
  · intro acc hacc
    simp only [List.mem_cons, List.mem_singleton, List.not_mem_nil, or_false] at hacc
    rcases hacc with rfl | rfl | rfl | rfl
    · exact zero (coupledSecond, .default_second) (by simp)
    · exact zero (coupledSecondOld, .default_second) (by simp)
    · exact zero (coupledSecondOlder, .default_second) (by simp)
    · exact zero (coupledSecondPreviousNL, .default_second) (by simp)
  · simp only [Coupleable.contents, z3]
  · intro acc hacc
    simp only [List.mem_cons, List.mem_singleton, List.not_mem_nil, or_false] at hacc
    rcases hacc with rfl | rfl | rfl
    · exact zero (coupledCurl, .default_vector_curl) (by simp)
    · exact zero (coupledCurlOld, .default_vector_curl) (by simp)
    · exact zero (coupledCurlOlder, .default_vector_curl) (by simp)
  · simp only [Coupleable.contents, z5]

/-- On the sample object the coupling `a` is optional and unsupplied, the default constant
is 7 and there are at most three quadrature points: after `coupledValueOld("a")` and a
failing `getVar("a", 2)`, `coupledValue("a")` returns the cached array, which holds
`[7, 7, 7]`, and `coupledGradient("a")` the zero gradient array. -/
theorem optional_defaults_witness :
    Coupleable.construct .rhsFirst sampleParams sampleProblem true false =
      .ok (sampleObject .rhsFirst true) ∧
    "a" ∈ sampleParams.coupledVars ∧ sampleParams.getVecMooseType "a" = [] ∧
    ((coupledValue "a" 0).run ((sampleObject .rhsFirst true).after
      [.coupledValueOld "a" 0, .getVar "a" 2])).1 = .ok (.default_value "a") ∧
    ((coupledValue "a" 0).run ((sampleObject .rhsFirst true).after
      [.coupledValueOld "a" 0, .getVar "a" 2])).2.contents (.default_value "a") =
        some (.values [7, 7, 7]) :=
  ⟨rfl, by decide, by decide,
    ((optional_defaults .rhsFirst sampleParams sampleProblem true false
      (sampleObject .rhsFirst true) rfl "a" (by decide) (by decide)
      [.coupledValueOld "a" 0, .getVar "a" 2] 0).2.1 coupledValue (List.Mem.head _)).1,
    ((optional_defaults .rhsFirst sampleParams sampleProblem true false
      (sampleObject .rhsFirst true) rfl "a" (by decide) (by decide)
      [.coupledValueOld "a" 0, .getVar "a" 2] 0).2.1 coupledValue (List.Mem.head _)).2.1⟩

/-! ## Accessors that must fail -/

/-- C12.  On the object a successful construction with `implicit = false` yields, after any
sequence of calls, for a declared coupling `name` that resolved to at least one field
variable: each of the seven older-state accessors fails for every component, whatever the
nodal, neighbor and transient flags are. -/
theorem older_fails_when_explicit {R : Type} [CommRing R] (order : AssignOrder)
    (p : InputParameters R) (problem : Problem) (nodal flag : Bool) (c : Coupleable R)
    (hc : Coupleable.construct order p problem nodal flag = .ok c)
    (himp : p.implicit = some false)
    (name : String) (hn : name ∈ p.coupledVars)
    (hf : fieldHandles problem (p.getVecMooseType name) ≠ [])
    (calls : List Call) (comp : Nat) :
    ∀ acc ∈ ([coupledValueOlder, coupledVectorValueOlder, coupledGradientOlder,
        coupledCurlOlder, coupledSecondOlder, coupledNodalValueOlder,
        coupledSolutionDoFsOlder] : List (String → Nat → Acc R ArrayRef)),
      ∃ e, ((acc name comp).run (c.after calls)).1 = .error e := by
  obtain ⟨_, _, _, _, hi, _, _, _, hv, _⟩ := after_facts order p problem nodal flag c hc calls
  have hv' := hv name hn hf
  have hlen : 0 < (fieldHandles problem (p.getVecMooseType name)).length :=
    List.length_pos.mpr hf
  have htouch : (c.after calls).coupled_vars.touch name [] = (c.after calls).coupled_vars :=
    StdMap.touch_of_find _ _ _ _ hv'
  have hval : (c.after calls).coupled_vars.valueAt name [] =
      fieldHandles problem (p.getVecMooseType name) := by simp [StdMap.valueAt, hv']
  have hi' : (c.after calls).c_is_implicit = false := by rw [hi, himp]; rfl
  intro acc hacc
  simp only [List.mem_cons, List.mem_singleton, List.not_mem_nil, or_false] at hacc
  rcases hacc with rfl | rfl | rfl | rfl | rfl | rfl | rfl <;>
  · simp only [coupledValueOlder, coupledVectorValueOlder, coupledGradientOlder,
      coupledCurlOlder, coupledSecondOlder, coupledNodalValueOlder, coupledSolutionDoFsOlder,
      run_bind_thenRun, run_ite, checkVar_run, isCoupled_run, validateExecutionerType_run,
      coupledCallback_run, getVar_run, getVectorVar_run, getFEVar_run, run_get, run_pure,
      run_mooseError, hv', hlen, htouch, hval, hi', thenRun_ok, thenRun_error, decide_True,
      Bool.not_true, Bool.false_eq_true, if_false]
    repeat' first
      | exact ⟨_, rfl⟩
      | refine thenRun_fails _ _ _ (fun _ _ => ?_)
      | split


/-- On the sample object with an explicit scheme the coupling `u` resolved to the field
variable `aux1`: `coupledValueOlder("u", 0)` fails. -/
theorem older_fails_when_explicit_witness :
    Coupleable.construct .rhsFirst sampleExplicitParams sampleProblem false false =
      .ok (sampleExplicitObject false) ∧
    sampleExplicitParams.implicit = some false ∧ "u" ∈ sampleExplicitParams.coupledVars ∧
    fieldHandles sampleProblem (sampleExplicitParams.getVecMooseType "u") ≠ [] ∧
    ∃ e, ((coupledValueOlder "u" 0).run ((sampleExplicitObject false).after [])).1 = .error e :=
  ⟨rfl, rfl, by decide, by decide,
    older_fails_when_explicit .rhsFirst sampleExplicitParams sampleProblem false false
      (sampleExplicitObject false) rfl rfl "u" (by decide) (by decide) [] 0
      coupledValueOlder (List.Mem.head _)⟩

/-- C13.  On the object a successful construction on a steady problem yields, after any
sequence of calls, for a declared coupling `name` that resolved to at least one field
variable: each of the fourteen `Old` and `Older` accessors fails for every component,
whatever the nodal, implicit and neighbor flags are. -/
theorem historical_fails_when_steady {R : Type} [CommRing R] (order : AssignOrder)
    (p : InputParameters R) (problem : Problem) (nodal flag : Bool) (c : Coupleable R)
    (hc : Coupleable.construct order p problem nodal flag = .ok c)
    (hsteady : problem.isTransient = false)
    (name : String) (hn : name ∈ p.coupledVars)
    (hf : fieldHandles problem (p.getVecMooseType name) ≠ [])
    (calls : List Call) (comp : Nat) :
    ∀ acc ∈ ([coupledValueOld, coupledValueOlder, coupledVectorValueOld,
        coupledVectorValueOlder, coupledGradientOld, coupledGradientOlder, coupledCurlOld,
        coupledCurlOlder, coupledSecondOld, coupledSecondOlder, coupledNodalValueOld,
        coupledNodalValueOlder, coupledSolutionDoFsOld, coupledSolutionDoFsOlder] :
        List (String → Nat → Acc R ArrayRef)),
      ∃ e, ((acc name comp).run (c.after calls)).1 = .error e := by
  obtain ⟨_, _, hpr, _, _, _, _, _, hv, _⟩ := after_facts order p problem nodal flag c hc calls
  have hv' := hv name hn hf
  have hlen : 0 < (fieldHandles problem (p.getVecMooseType name)).length :=
    List.length_pos.mpr hf
  have htouch : (c.after calls).coupled_vars.touch name [] = (c.after calls).coupled_vars :=
    StdMap.touch_of_find _ _ _ _ hv'
  have hval : (c.after calls).coupled_vars.valueAt name [] =
      fieldHandles problem (p.getVecMooseType name) := by simp [StdMap.valueAt, hv']
  have ht : (c.after calls).c_fe_problem.isTransient = false := by rw [hpr, hsteady]
  intro acc hacc
  simp only [List.mem_cons, List.mem_singleton, List.not_mem_nil, or_false] at hacc
  rcases hacc with rfl | rfl | rfl | rfl | rfl | rfl | rfl | rfl | rfl | rfl | rfl | rfl |
      rfl | rfl <;>
  · simp only [coupledValueOld, coupledValueOlder, coupledVectorValueOld,
      coupledVectorValueOlder, coupledGradientOld, coupledGradientOlder, coupledCurlOld,
      coupledCurlOlder, coupledSecondOld, coupledSecondOlder, coupledNodalValueOld,
      coupledNodalValueOlder, coupledSolutionDoFsOld, coupledSolutionDoFsOlder,
      run_bind_thenRun, run_ite, checkVar_run, isCoupled_run, validateExecutionerType_run,
      coupledCallback_run, getVar_run, getVectorVar_run, getFEVar_run, run_get, run_pure,
      run_mooseError, hv', hlen, htouch, hval, ht, thenRun_ok, thenRun_error, decide_True,
      Bool.not_true, Bool.false_eq_true, if_false]
    repeat' first
      | exact ⟨_, rfl⟩
      | refine thenRun_fails _ _ _ (fun _ _ => ?_)
      | split

/-- On the steady sample object the coupling `v` resolved to field variables:
`coupledGradientOld("v", 1)` fails. -/
theorem historical_fails_when_steady_witness :
    Coupleable.construct .rhsFirst sampleParams sampleSteadyProblem false false =
      .ok (sampleSteadyObject false) ∧
    sampleSteadyProblem.isTransient = false ∧ "v" ∈ sampleParams.coupledVars ∧
    fieldHandles sampleSteadyProblem (sampleParams.getVecMooseType "v") ≠ [] ∧
    ∃ e, ((coupledGradientOld "v" 1).run ((sampleSteadyObject false).after [])).1 = .error e :=
  ⟨rfl, rfl, by decide, by decide,
    historical_fails_when_steady .rhsFirst sampleParams sampleSteadyProblem false false
      (sampleSteadyObject false) rfl rfl "v" (by decide) (by decide) [] 1
      coupledGradientOld (by simp)⟩

/-- C16.  On the nodal object a successful construction yields, after any sequence of
calls, for a declared coupling `name` that resolved to at least one field variable, in
particular to a vector-field variable: each of the seven vector accessors fails for every
component, whatever the implicit, neighbor and transient flags are. -/
theorem vector_fails_when_nodal {R : Type} [CommRing R] (order : AssignOrder)
    (p : InputParameters R) (problem : Problem) (flag : Bool) (c : Coupleable R)
    (hc : Coupleable.construct order p problem true flag = .ok c)
    (name : String) (hn : name ∈ p.coupledVars)
    (hf : fieldHandles problem (p.getVecMooseType name) ≠ [])
    (calls : List Call) (comp : Nat) :
    ∀ acc ∈ ([coupledVectorValue, coupledVectorValueOld, coupledVectorValueOlder,
        coupledVectorDot, coupledCurl, coupledCurlOld, coupledCurlOlder] :
        List (String → Nat → Acc R ArrayRef)),
      ∃ e, ((acc name comp).run (c.after calls)).1 = .error e := by
  obtain ⟨_, _, _, hnod, _, _, _, _, hv, _⟩ := after_facts order p problem true flag c hc calls
  have hv' := hv name hn hf
  have hlen : 0 < (fieldHandles problem (p.getVecMooseType name)).length :=
    List.length_pos.mpr hf
  have htouch : (c.after calls).coupled_vars.touch name [] = (c.after calls).coupled_vars :=
    StdMap.touch_of_find _ _ _ _ hv'
  have hval : (c.after calls).coupled_vars.valueAt name [] =
      fieldHandles problem (p.getVecMooseType name) := by simp [StdMap.valueAt, hv']
  intro acc hacc
  simp only [List.mem_cons, List.mem_singleton, List.not_mem_nil, or_false] at hacc
  rcases hacc with rfl | rfl | rfl | rfl | rfl | rfl | rfl <;>
  · simp only [coupledVectorValue, coupledVectorValueOld, coupledVectorValueOlder,
      coupledVectorDot, coupledCurl, coupledCurlOld, coupledCurlOlder,
      run_bind_thenRun, run_ite, checkVar_run, isCoupled_run, validateExecutionerType_run,
      coupledCallback_run, getVar_run, getVectorVar_run, getFEVar_run, run_get, run_pure,
      run_mooseError, hv', hlen, htouch, hval, hnod, thenRun_ok, thenRun_error, decide_True,
      Bool.not_true, Bool.false_eq_true, if_false, if_true]
    repeat' first
      | exact ⟨_, rfl⟩
      | refine thenRun_fails _ _ _ (fun _ _ => ?_)
      | split

/-- On the nodal sample object component 1 of the coupling `v` resolved to the vector-field
variable `nl1`: `coupledVectorValue("v", 1)` fails. -/
theorem vector_fails_when_nodal_witness :
    Coupleable.construct .rhsFirst sampleParams sampleProblem true false =
      .ok (sampleObject .rhsFirst true) ∧
    "v" ∈ sampleParams.coupledVars ∧
    (fieldHandles sampleProblem (sampleParams.getVecMooseType "v"))[1]? =
      some (sampleField "nl1" 1 .VAR_NONLINEAR false .vector) ∧
    fieldHandles sampleProblem (sampleParams.getVecMooseType "v") ≠ [] ∧
    ∃ e, ((coupledVectorValue "v" 1).run ((sampleObject .rhsFirst true).after [])).1 =
      .error e :=
  ⟨rfl, by decide, by decide, by decide,
    vector_fails_when_nodal .rhsFirst sampleParams sampleProblem false
      (sampleObject .rhsFirst true) rfl "v" (by decide) (by decide) [] 1
      coupledVectorValue (List.Mem.head _)⟩

/-! ## Previous-iterate accessors -/

/-- C15, as amended.  On the object a successful construction yields, on a steady problem
as on a transient one and after any sequence of calls: for a declared coupling `name`
without scalar variables whose component `comp` resolved to the standard field variable
`var`, nodal if the object is nodal, `coupledValuePreviousNL` and
`coupledNodalValuePreviousNL` return the previous-iterate array of `var` that the nodal and
neighbor flags select, and `coupledGradientPreviousNL` and `coupledSecondPreviousNL` return
it on an object that is not nodal and fail with the nodal error on a nodal one.  None of
them asks whether the problem is transient. -/
theorem previousNL_spec {R : Type} [CommRing R] (order : AssignOrder)
    (p : InputParameters R) (problem : Problem) (nodal flag : Bool) (c : Coupleable R)
    (hc : Coupleable.construct order p problem nodal flag = .ok c)
    (name : String) (hn : name ∈ p.coupledVars) (comp : Nat) (var : MooseVariableFE)
    (hvar : (fieldHandles problem (p.getVecMooseType name))[comp]? = some var)
    (hsc : scalarHandles problem (p.getVecMooseType name) = [])
    (hstd : var.fieldType = .standard) (hnodal : nodal = true → var.isNodal = true)
    (calls : List Call) :
    ((coupledValuePreviousNL name comp).run (c.after calls)).1 =
      .ok (.var var
        (if p.neighbor.getD false = true then
          (if nodal = true then .nodalValuePreviousNLNeighbor else .slnPreviousNLNeighbor)
        else (if nodal = true then .nodalValuePreviousNL else .slnPreviousNL))) ∧
    ((coupledNodalValuePreviousNL name comp).run (c.after calls)).1 =
      .ok (.var var
        (if p.neighbor.getD false = true then .nodalValuePreviousNLNeighbor
        else .nodalValuePreviousNL)) ∧
    ((coupledGradientPreviousNL name comp).run (c.after calls)).1 =
      (if nodal = true then .error (.nodalGradientUnsupported p.object_name)
      else .ok (.var var
        (if p.neighbor.getD false = true then .gradSlnPreviousNLNeighbor
        else .gradSlnPreviousNL))) ∧
    ((coupledSecondPreviousNL name comp).run (c.after calls)).1 =
      (if nodal = true then .error (.nodalSecond p.object_name)
      else .ok (.var var
        (if p.neighbor.getD false = true then .secondSlnPreviousNLNeighbor
        else .secondSlnPreviousNL))) := by
  obtain ⟨_, hname, _, hnod, _, hnb, _, hs, hv, _⟩ :=
    after_facts order p problem nodal flag c hc calls
  have hf : fieldHandles problem (p.getVecMooseType name) ≠ [] := by
    intro h; rw [h] at hvar; simp at hvar
  have hv' := hv name hn hf
  have hs' : (c.after calls).c_coupled_scalar_vars.find name = none := by
    rw [hs name]; simp [hsc]
  have hlen : 0 < (fieldHandles problem (p.getVecMooseType name)).length :=
    List.length_pos.mpr hf
  have htouch : (c.after calls).coupled_vars.touch name [] = (c.after calls).coupled_vars :=
    StdMap.touch_of_find _ _ _ _ hv'
  have hval : (c.after calls).coupled_vars.valueAt name [] =
      fieldHandles problem (p.getVecMooseType name) := by simp [StdMap.valueAt, hv']
  have hel : (!var.isNodal && nodal) = false := by
    cases hnv : nodal
    · simp
    · simp [hnodal hnv]
  refine ⟨?_, ?_, ?_, ?_⟩ <;>
  · simp only [coupledValuePreviousNL, coupledNodalValuePreviousNL, coupledGradientPreviousNL,
      coupledSecondPreviousNL, run_bind_thenRun, run_ite, checkVar_run, isCoupled_run,
      needsPreviousNewtonIteration_run, coupledCallback_run, getVar_run, run_get, run_pure,
      run_mooseError, hv', hs', hlen, htouch, hval, hvar, hstd, hel, hnod, hnb, hname,
      thenRun_ok, thenRun_error, decide_True, Bool.not_true, Bool.false_eq_true, if_false,
      if_true]
    cases nodal <;> cases p.neighbor.getD false <;> rfl


/-- C15, counterexample.  On the steady sample problem the coupling `u` resolved to the
standard field variable `aux1`, yet on an object that is not nodal each of the four
previous-iterate accessors returns an array of `aux1` instead of failing. -/
theorem previousNL_counterexample :
    sampleSteadyProblem.isTransient = false ∧
    Coupleable.construct .rhsFirst sampleParams sampleSteadyProblem false false =
      .ok (sampleSteadyObject false) ∧
    fieldHandles sampleSteadyProblem (sampleParams.getVecMooseType "u") =
      [sampleField "aux1" 1 .VAR_AUXILIARY true .standard] ∧
    ((coupledValuePreviousNL "u" 0).run (sampleSteadyObject false)).1 =
      .ok (.var (sampleField "aux1" 1 .VAR_AUXILIARY true .standard) .slnPreviousNL) ∧
    ((coupledGradientPreviousNL "u" 0).run (sampleSteadyObject false)).1 =
      .ok (.var (sampleField "aux1" 1 .VAR_AUXILIARY true .standard) .gradSlnPreviousNL) ∧
    ((coupledSecondPreviousNL "u" 0).run (sampleSteadyObject false)).1 =
      .ok (.var (sampleField "aux1" 1 .VAR_AUXILIARY true .standard) .secondSlnPreviousNL) ∧
    ((coupledNodalValuePreviousNL "u" 0).run (sampleSteadyObject false)).1 =
      .ok (.var (sampleField "aux1" 1 .VAR_AUXILIARY true .standard) .nodalValuePreviousNL) :=
  ⟨rfl, rfl, by decide, by decide, by decide, by decide, by decide⟩

/-- On the nodal steady sample object the coupling `u` resolved to the nodal standard
variable `aux1`: after `coupledComponents("u")`, `coupledValuePreviousNL("u", 0)` returns
its nodal previous-iterate array and `coupledGradientPreviousNL("u", 0)` fails with the
nodal error. -/
theorem previousNL_spec_witness :
    Coupleable.construct .rhsFirst sampleParams sampleSteadyProblem true false =
      .ok (sampleSteadyObject true) ∧
    "u" ∈ sampleParams.coupledVars ∧
    ((coupledValuePreviousNL "u" 0).run
      ((sampleSteadyObject true).after [.coupledComponents "u"])).1 =
      .ok (.var (sampleField "aux1" 1 .VAR_AUXILIARY true .standard) .nodalValuePreviousNL) ∧
    ((coupledGradientPreviousNL "u" 0).run
      ((sampleSteadyObject true).after [.coupledComponents "u"])).1 =
      .error (.nodalGradientUnsupported "obj") :=
  ⟨rfl, by decide,
    (previousNL_spec .rhsFirst sampleParams sampleSteadyProblem true false
      (sampleSteadyObject true) rfl "u" (by decide) 0
      (sampleField "aux1" 1 .VAR_AUXILIARY true .standard) (by decide) (by decide) rfl
      (fun _ => rfl) [.coupledComponents "u"]).1,
    (previousNL_spec .rhsFirst sampleParams sampleSteadyProblem true false
      (sampleSteadyObject true) rfl "u" (by decide) 0
      (sampleField "aux1" 1 .VAR_AUXILIARY true .standard) (by decide) (by decide) rfl
      (fun _ => rfl) [.coupledComponents "u"]).2.2.1⟩

/-! ## Accessors that miss a check -/

/-- C14 at the failing input.  On the steady sample problem the coupling `u` resolved to the
standard field variable `aux1`.  On an object that is not nodal `coupledDot`,
`coupledDotDu` and `coupledNodalDot` on `u`, and `coupledVectorDot` on `v`, fail with the
"Steady executioner" error, but `coupledGradientDot("u", 0)` returns the array `gradSlnDot`
of `aux1`, as it does on the transient sample problem. -/
theorem coupledGradientDot_steady_returns :
    sampleSteadyProblem.isTransient = false ∧
    Coupleable.construct .rhsFirst sampleParams sampleSteadyProblem false false =
      .ok (sampleSteadyObject false) ∧
    fieldHandles sampleSteadyProblem (sampleParams.getVecMooseType "u") =
      [sampleField "aux1" 1 .VAR_AUXILIARY true .standard] ∧
    ((coupledGradientDot "u" 0).run (sampleSteadyObject false)).1 =
      .ok (.var (sampleField "aux1" 1 .VAR_AUXILIARY true .standard) .gradSlnDot) ∧
    ((coupledGradientDot "u" 0).run (sampleObject .rhsFirst false)).1 =
      .ok (.var (sampleField "aux1" 1 .VAR_AUXILIARY true .standard) .gradSlnDot) ∧
    ((coupledDot "u" 0).run (sampleSteadyObject false)).1 =
      .error (.steadyExecutioner "obj" "coupledDot" "u") ∧
    ((coupledDotDu "u" 0).run (sampleSteadyObject false)).1 =
      .error (.steadyExecutioner "obj" "coupledDotDu" "u") ∧
    ((coupledNodalDot "u" 0).run (sampleSteadyObject false)).1 =
      .error (.steadyExecutioner "obj" "coupledNodalDot" "u") ∧
    ((coupledVectorDot "v" 1).run (sampleSteadyObject false)).1 =
      .error (.steadyExecutioner "obj" "coupledVectorDot" "v") :=
  ⟨rfl, rfl, by decide, by decide, by decide, by decide, by decide, by decide, by decide⟩

/-- C17 at the failing input.  On the sample object the declared coupling `s` resolved to
the scalar variable `sc` and to no field variable.  `coupledValue`, `coupledGradient`,
`coupledSecond` and `coupledVectorDot` on `s` fail in `checkVar`; the three
`coupledVectorValue` accessors return the default vector array of `s`, which holds zero
vectors, and the three `coupledCurl` accessors return the zero curl array. -/
theorem vector_accessors_scalar_coupling :
    Coupleable.construct .rhsFirst sampleParams sampleProblem false false =
      .ok (sampleObject .rhsFirst false) ∧
    "s" ∈ sampleParams.coupledVars ∧
    fieldHandles sampleProblem (sampleParams.getVecMooseType "s") = [] ∧
    scalarHandles sampleProblem (sampleParams.getVecMooseType "s") =
      [{ name := "sc", number := 0 }] ∧
    ((coupledValue "s" 0).run (sampleObject .rhsFirst false)).1 =
      .error (.scalarWhereField "obj" "s" ["sc"]) ∧
    ((coupledGradient "s" 0).run (sampleObject .rhsFirst false)).1 =
      .error (.scalarWhereField "obj" "s" ["sc"]) ∧
    ((coupledSecond "s" 0).run (sampleObject .rhsFirst false)).1 =
      .error (.scalarWhereField "obj" "s" ["sc"]) ∧
    ((coupledVectorDot "s" 0).run (sampleObject .rhsFirst false)).1 =
      .error (.scalarWhereField "obj" "s" ["sc"]) ∧
    ((coupledVectorValue "s" 0).run (sampleObject .rhsFirst false)).1 =
      .ok (.default_vector_value "s") ∧
    ((coupledVectorValue "s" 0).run (sampleObject .rhsFirst false)).2.contents
      (.default_vector_value "s") = some (.vectors [(0, 0, 0), (0, 0, 0), (0, 0, 0)]) ∧
    ((coupledVectorValueOld "s" 0).run (sampleObject .rhsFirst false)).1 =
      .ok (.default_vector_value "s") ∧
    ((coupledVectorValueOlder "s" 0).run (sampleObject .rhsFirst false)).1 =
      .ok (.default_vector_value "s") ∧
    ((coupledCurl "s" 0).run (sampleObject .rhsFirst false)).1 = .ok .default_vector_curl ∧
    ((coupledCurlOld "s" 0).run (sampleObject .rhsFirst false)).1 = .ok .default_vector_curl ∧
    ((coupledCurlOlder "s" 0).run (sampleObject .rhsFirst false)).1 =
      .ok .default_vector_curl :=
  ⟨rfl, by decide, by decide, by decide, by decide, by decide, by decide, by decide, by decide,
    by decide, by decide, by decide, by decide, by decide, by decide⟩

/-! ## The guards and the component count -/

theorem scalarHandles_ne_nil (problem : Problem) (vars : List String) :
    scalarHandles problem vars ≠ [] ↔
      ∃ v ∈ vars, problem.hasVariable v = false ∧ problem.hasScalarVariable v = true := by
  unfold scalarHandles
  rw [Ne, List.map_eq_nil_iff, List.filter_eq_nil_iff]
  simp

/-- C18.  On the object a successful construction yields, after any sequence of calls:
`checkVar(name)` fails exactly when `name` is a declared coupling and one of the variable
names listed under it resolved to a scalar variable (the field registry does not know it,
the scalar registry does); the error then carries the names of the scalar variables
recorded under `name`, in recorded order, and these are the scalar variables the listed
names resolved to, in listed order; and, failing or not, the call leaves the object as it
was. -/
theorem checkVar_spec {R : Type} [CommRing R] (order : AssignOrder) (p : InputParameters R)
    (problem : Problem) (nodal flag : Bool) (c : Coupleable R)
    (hc : Coupleable.construct order p problem nodal flag = .ok c)
    (name : String) (calls : List Call) :
    ((∃ e, ((checkVar name).run (c.after calls)).1 = .error e) ↔
      name ∈ p.coupledVars ∧
        ∃ v ∈ p.getVecMooseType name,
          problem.hasVariable v = false ∧ problem.hasScalarVariable v = true) ∧
    (∀ e, ((checkVar name).run (c.after calls)).1 = .error e →
      e = .scalarWhereField p.object_name name
          (((c.after calls).c_coupled_scalar_vars.valueAt name []).map (fun jt => jt.name)) ∧
      (c.after calls).c_coupled_scalar_vars.valueAt name [] =
        ((p.getVecMooseType name).filter
          (fun v => !problem.hasVariable v && problem.hasScalarVariable v)).map
            problem.getScalarVariable) ∧
    ((checkVar name).run (c.after calls)).2 = c.after calls := by
  obtain ⟨_, hname, _, _, _, _, _, hs, _⟩ := after_facts order p problem nodal flag c hc calls
  have hs' := hs name
  rw [checkVar_run]
  by_cases hcond : name ∈ p.coupledVars ∧ scalarHandles problem (p.getVecMooseType name) ≠ []
  · rw [if_pos hcond] at hs'
    have hval : (c.after calls).c_coupled_scalar_vars.valueAt name [] =
        scalarHandles problem (p.getVecMooseType name) := by simp [StdMap.valueAt, hs']
    refine ⟨?_, ?_, rfl⟩
    · rw [← scalarHandles_ne_nil]
      simp only [hs']
      exact ⟨fun _ => hcond, fun _ => ⟨_, rfl⟩⟩
    · intro e he
      simp only [hs'] at he
      have he' := Except.error.inj he
      rw [hval, ← he', hname]
      exact ⟨rfl, rfl⟩
  · rw [if_neg hcond] at hs'
    refine ⟨?_, ?_, rfl⟩
    · rw [← scalarHandles_ne_nil]
      simp only [hs']
      constructor
      · rintro ⟨e, he⟩; cases he
      · intro h; exact absurd h hcond
    · intro e he
      simp only [hs'] at he
      cases he

/-- On the sample object the coupling `s` lists the scalar variable `sc`: `checkVar("s")`
fails, also after other calls. -/
theorem checkVar_spec_witness :
    Coupleable.construct .rhsFirst sampleParams sampleProblem false false =
      .ok (sampleObject .rhsFirst false) ∧
    ∃ e, ((checkVar "s").run ((sampleObject .rhsFirst false).after
      [.coupledComponents "s", .coupledVectorValue "s" 0])).1 = .error e :=
  ⟨rfl,
    ((checkVar_spec .rhsFirst sampleParams sampleProblem false false
      (sampleObject .rhsFirst false) rfl "s"
      [.coupledComponents "s", .coupledVectorValue "s" 0]).1).mpr
      ⟨by decide, "sc", by decide, by decide, by decide⟩⟩

/-- A result is an error exactly when it is no value; with `h`, when no value meets `P`. -/
theorem fails_iff_of_ok_iff {α : Type} (r : Except MooseError α) (P : α → Prop)
    (h : ∀ a, r = .ok a ↔ P a) : (∃ e, r = .error e) ↔ ¬ ∃ a, P a := by
  constructor
  · rintro ⟨e, he⟩ ⟨a, ha⟩
    rw [(h a).mpr ha] at he
    cases he
  · intro hno
    cases r with
    | ok a => exact absurd ⟨a, (h a).mp rfl⟩ hno
    | error e => exact ⟨e, rfl⟩

theorem getVar_ok_iff {R : Type} (c : Coupleable R) (name : String) (comp : Nat)
    (var : MooseVariableFE) :
    ((getVar name comp).run c).1 = .ok var ↔
      comp < (c.coupled_vars.valueAt name []).length ∧
      (c.coupled_vars.valueAt name [])[comp]? = some var ∧
      (c.c_nodal = true → var.isNodal = true) ∧ var.fieldType = .standard := by
  rw [getVar_run]
  cases hg : (c.coupled_vars.valueAt name [])[comp]? with
  | none => simp
  | some v =>
    have hlt : comp < (c.coupled_vars.valueAt name []).length := by
      by_contra hcon
      rw [List.getElem?_eq_none (by omega)] at hg
      cases hg
    cases hn : v.isNodal <;> cases hc : c.c_nodal <;> by_cases ht : v.fieldType = .standard <;>
      simp [hn, hc, ht, hlt] <;> intro h <;> subst h <;> simp_all

theorem getVectorVar_ok_iff {R : Type} (c : Coupleable R) (name : String) (comp : Nat)
    (var : MooseVariableFE) :
    ((getVectorVar name comp).run c).1 = .ok var ↔
      comp < (c.coupled_vars.valueAt name []).length ∧
      (c.coupled_vars.valueAt name [])[comp]? = some var ∧
      (c.c_nodal = true → var.isNodal = true) ∧ var.fieldType = .vector := by
  rw [getVectorVar_run]
  cases hg : (c.coupled_vars.valueAt name [])[comp]? with
  | none => simp
  | some v =>
    have hlt : comp < (c.coupled_vars.valueAt name []).length := by
      by_contra hcon
      rw [List.getElem?_eq_none (by omega)] at hg
      cases hg
    cases hn : v.isNodal <;> cases hc : c.c_nodal <;> by_cases ht : v.fieldType = .vector <;>
      simp [hn, hc, ht, hlt] <;> intro h <;> subst h <;> simp_all

theorem getFEVar_ok_iff {R : Type} (c : Coupleable R) (name : String) (comp : Nat)
    (var : MooseVariableFE) :
    ((getFEVar name comp).run c).1 = .ok var ↔
      comp < (c.coupled_vars.valueAt name []).length ∧
      (c.coupled_vars.valueAt name [])[comp]? = some var ∧
      (c.c_nodal = true → var.isNodal = true) := by
  rw [getFEVar_run]
  cases hg : (c.coupled_vars.valueAt name [])[comp]? with
  | none => simp
  | some v =>
    have hlt : comp < (c.coupled_vars.valueAt name []).length := by
      by_contra hcon
      rw [List.getElem?_eq_none (by omega)] at hg
      cases hg
    cases hn : v.isNodal <;> cases hc : c.c_nodal <;>
      simp [hn, hc, hlt] <;> intro h <;> subst h <;> simp_all

/-- C19.  For every object, coupling name and component: `getVar(name, comp)` returns `var`
exactly when `comp` is below the number of field handles recorded under `name`, `var` is
the `comp`-th of them, `var` is nodal if the object is nodal, and `var` is a standard
field variable; and it fails exactly when no handle meets these conditions.
`getVectorVar` is the same with a vector field variable, `getFEVar` the same without a
condition on the type. -/
theorem getVar_spec {R : Type} (c : Coupleable R) (name : String) (comp : Nat) :
    (∀ var, ((getVar name comp).run c).1 = .ok var ↔
      comp < (c.coupled_vars.valueAt name []).length ∧
      (c.coupled_vars.valueAt name [])[comp]? = some var ∧
      (c.c_nodal = true → var.isNodal = true) ∧ var.fieldType = .standard) ∧
    ((∃ e, ((getVar name comp).run c).1 = .error e) ↔
      ¬ ∃ var, comp < (c.coupled_vars.valueAt name []).length ∧
        (c.coupled_vars.valueAt name [])[comp]? = some var ∧
        (c.c_nodal = true → var.isNodal = true) ∧ var.fieldType = .standard) ∧
    (∀ var, ((getVectorVar name comp).run c).1 = .ok var ↔
      comp < (c.coupled_vars.valueAt name []).length ∧
      (c.coupled_vars.valueAt name [])[comp]? = some var ∧
      (c.c_nodal = true → var.isNodal = true) ∧ var.fieldType = .vector) ∧
    ((∃ e, ((getVectorVar name comp).run c).1 = .error e) ↔
      ¬ ∃ var, comp < (c.coupled_vars.valueAt name []).length ∧
        (c.coupled_vars.valueAt name [])[comp]? = some var ∧
        (c.c_nodal = true → var.isNodal = true) ∧ var.fieldType = .vector) ∧
    (∀ var, ((getFEVar name comp).run c).1 = .ok var ↔
      comp < (c.coupled_vars.valueAt name []).length ∧
      (c.coupled_vars.valueAt name [])[comp]? = some var ∧
      (c.c_nodal = true → var.isNodal = true)) ∧
    ((∃ e, ((getFEVar name comp).run c).1 = .error e) ↔
      ¬ ∃ var, comp < (c.coupled_vars.valueAt name []).length ∧
        (c.coupled_vars.valueAt name [])[comp]? = some var ∧
        (c.c_nodal = true → var.isNodal = true)) :=
  ⟨getVar_ok_iff c name comp, fails_iff_of_ok_iff _ _ (getVar_ok_iff c name comp),
    getVectorVar_ok_iff c name comp, fails_iff_of_ok_iff _ _ (getVectorVar_ok_iff c name comp),
    getFEVar_ok_iff c name comp, fails_iff_of_ok_iff _ _ (getFEVar_ok_iff c name comp)⟩

/-- On the sample object the coupling `v` recorded the standard variable `nl0` and the
vector variable `nl1`: `getVar("v", 0)` returns `nl0` and `getVectorVar("v", 1)` returns
`nl1`. -/
theorem getVar_spec_witness :
    ((getVar "v" 0).run (sampleObject .rhsFirst false)).1 =
      .ok (sampleField "nl0" 0 .VAR_NONLINEAR true .standard) ∧
    ((getVectorVar "v" 1).run (sampleObject .rhsFirst false)).1 =
      .ok (sampleField "nl1" 1 .VAR_NONLINEAR false .vector) :=
  ⟨((getVar_spec (sampleObject .rhsFirst false) "v" 0).1 _).mpr
      ⟨by decide, by decide, by decide, by decide⟩,
    ((getVar_spec (sampleObject .rhsFirst false) "v" 1).2.2.1 _).mpr
      ⟨by decide, by decide, by decide, by decide⟩⟩

/-- C20, as amended.  On the object a successful construction yields, after any sequence of
calls, for a declared coupling `name`: `coupledComponents(name)` is the number of listed
variable names that the field registry knows, that is the number of field handles
recorded under `name`, as an `unsigned int`; scalar variables are not counted; and it is 0
for a coupling that lists no variable. -/
theorem coupledComponents_spec {R : Type} [CommRing R] (order : AssignOrder)
    (p : InputParameters R) (problem : Problem) (nodal flag : Bool) (c : Coupleable R)
    (hc : Coupleable.construct order p problem nodal flag = .ok c)
    (name : String) (hn : name ∈ p.coupledVars) (calls : List Call) :
    ((coupledComponents name).run (c.after calls)).1 =
      .ok (((p.getVecMooseType name).filter problem.hasVariable).length % 2 ^ 32) ∧
    (((p.getVecMooseType name).filter problem.hasVariable).length < 2 ^ 32 →
      ((coupledComponents name).run (c.after calls)).1 =
        .ok ((p.getVecMooseType name).filter problem.hasVariable).length) ∧
    (p.getVecMooseType name = [] →
      ((coupledComponents name).run (c.after calls)).1 = .ok 0) := by
  obtain ⟨_, _, _, _, _, _, _, _, hv, hv0, _⟩ :=
    after_facts order p problem nodal flag c hc calls
  have hval : (c.after calls).coupled_vars.valueAt name [] =
      fieldHandles problem (p.getVecMooseType name) := by
    by_cases hf : fieldHandles problem (p.getVecMooseType name) = []
    · rcases hv0 name (fun _ => hf) with h | h <;> simp [StdMap.valueAt, h, hf]
    · simp [StdMap.valueAt, hv name hn hf]
  have hrun : ((coupledComponents name).run (c.after calls)).1 =
      .ok (((p.getVecMooseType name).filter problem.hasVariable).length % 2 ^ 32) := by
    unfold coupledComponents
    simp only [run_bind, coupledVarsAt_run, run_pure, hval, fieldHandles, List.length_map]
  refine ⟨hrun, ?_, ?_⟩
  · intro hlt
    rw [hrun, Nat.mod_eq_of_lt hlt]
  · intro hopt
    rw [hrun, hopt]
    rfl

/-- C20, counterexample.  The coupling `s` of the sample object lists one variable, `sc`,
which construction resolved to a scalar variable and recorded, yet
`coupledComponents("s")` is 0, not 1. -/
theorem coupledComponents_counterexample :
    Coupleable.construct .rhsFirst sampleParams sampleProblem false false =
      .ok (sampleObject .rhsFirst false) ∧
    "s" ∈ sampleParams.coupledVars ∧ sampleParams.getVecMooseType "s" = ["sc"] ∧
    (sampleObject .rhsFirst false).c_coupled_scalar_vars.find "s" =
      some [sampleProblem.getScalarVariable "sc"] ∧
    ((coupledComponents "s").run (sampleObject .rhsFirst false)).1 = .ok 0 ∧
    ((coupledComponents "s").run (sampleObject .rhsFirst false)).1 ≠ .ok 1 :=
  ⟨rfl, by decide, by decide, by decide, by decide, by decide⟩

/-- On the sample object the coupling `v` lists the two field variables `nl0` and `nl1`:
`coupledComponents("v")` is 2, also after other calls. -/
theorem coupledComponents_spec_witness :
    Coupleable.construct .rhsFirst sampleParams sampleProblem false false =
      .ok (sampleObject .rhsFirst false) ∧
    "v" ∈ sampleParams.coupledVars ∧
    ((coupledComponents "v").run
      ((sampleObject .rhsFirst false).after [.getVar "v" 5, .coupledValue "u" 0])).1 = .ok 2 :=
  ⟨rfl, by decide,
    (coupledComponents_spec .rhsFirst sampleParams sampleProblem false false
      (sampleObject .rhsFirst false) rfl "v" (by decide)
      [.getVar "v" 5, .coupledValue "u" 0]).1⟩

/-! ## The previous-iterate flag and the callback -/

/-- The flag is set after a call whose first part left it set, if every value the first
part can yield makes the rest leave it set. -/
theorem thenRun_flag {R α β : Type} (r : Except MooseError α) (c : Coupleable R)
    (k : α → Except MooseError β × Coupleable R)
    (hc : c.needs_previous_newton_iteration = true)
    (h : ∀ a, r = .ok a → (k a).2.needs_previous_newton_iteration = true) :
    (thenRun r c k).2.needs_previous_newton_iteration = true := by
  cases r with
  | ok a => exact h a rfl
  | error e => exact hc

/-- C23, as amended.  On the object a successful construction yields, after any sequence of
calls: each of the four previous-iterate accessors, called on a declared coupling `name`
that resolved to at least one field variable and to no scalar variable, leaves the flag
"previous nonlinear iterate needed" of the problem set, for every component and whether
the accessor returns or fails afterwards; called on a coupling that lists no variable, it
leaves the flag as it was; called on a coupling that resolved to a scalar variable, it
stops in `checkVar` and leaves the flag as it was. -/
theorem previousNL_flag {R : Type} [CommRing R] (order : AssignOrder)
    (p : InputParameters R) (problem : Problem) (nodal flag : Bool) (c : Coupleable R)
    (hc : Coupleable.construct order p problem nodal flag = .ok c)
    (name : String) (hn : name ∈ p.coupledVars) (calls : List Call) (comp : Nat) :
    (fieldHandles problem (p.getVecMooseType name) ≠ [] →
      scalarHandles problem (p.getVecMooseType name) = [] →
      ∀ acc ∈ ([coupledValuePreviousNL, coupledGradientPreviousNL, coupledSecondPreviousNL,
          coupledNodalValuePreviousNL] : List (String → Nat → Acc R ArrayRef)),
        ((acc name comp).run (c.after calls)).2.needs_previous_newton_iteration = true) ∧
    (p.getVecMooseType name = [] →
      ∀ acc ∈ ([coupledValuePreviousNL, coupledGradientPreviousNL, coupledSecondPreviousNL,
          coupledNodalValuePreviousNL] : List (String → Nat → Acc R ArrayRef)),
        ((acc name comp).run (c.after calls)).2.needs_previous_newton_iteration =
          (c.after calls).needs_previous_newton_iteration) ∧
    (scalarHandles problem (p.getVecMooseType name) ≠ [] →
      ∀ acc ∈ ([coupledValuePreviousNL, coupledGradientPreviousNL, coupledSecondPreviousNL,
          coupledNodalValuePreviousNL] : List (String → Nat → Acc R ArrayRef)),
        ((acc name comp).run (c.after calls)).1 =
          .error (.scalarWhereField p.object_name name
            ((scalarHandles problem (p.getVecMooseType name)).map (fun jt => jt.name))) ∧
        ((acc name comp).run (c.after calls)).2.needs_previous_newton_iteration =
          (c.after calls).needs_previous_newton_iteration) := by
  obtain ⟨hp, hname, _, _, _, _, _, hs, hv, hv0, _⟩ :=
    after_facts order p problem nodal flag c hc calls
  refine ⟨?_, ?_, ?_⟩
  · intro hf hsc
    have hv' := hv name hn hf
    have hs' : (c.after calls).c_coupled_scalar_vars.find name = none := by
      rw [hs name]; simp [hsc]
    have hlen : 0 < (fieldHandles problem (p.getVecMooseType name)).length :=
      List.length_pos.mpr hf
    have htouch : (c.after calls).coupled_vars.touch name [] = (c.after calls).coupled_vars :=
      StdMap.touch_of_find _ _ _ _ hv'
    have hval : (c.after calls).coupled_vars.valueAt name [] =
        fieldHandles problem (p.getVecMooseType name) := by simp [StdMap.valueAt, hv']
    intro acc hacc
    simp only [List.mem_cons, List.mem_singleton, List.not_mem_nil, or_false] at hacc
    rcases hacc with rfl | rfl | rfl | rfl <;>
    · simp only [coupledValuePreviousNL, coupledGradientPreviousNL, coupledSecondPreviousNL,
        coupledNodalValuePreviousNL, run_bind_thenRun, run_ite, checkVar_run, isCoupled_run,
        needsPreviousNewtonIteration_run, coupledCallback_run, getVar_run, run_get, run_pure,
        run_mooseError, hv', hs', hlen, htouch, hval, thenRun_ok, thenRun_error, decide_True,
        Bool.not_true, Bool.false_eq_true, if_false]
      repeat' first
        | rfl
        | refine thenRun_flag _ _ _ rfl (fun _ _ => ?_)
        | split
  · intro hopt
    have hs' : (c.after calls).c_coupled_scalar_vars.find name = none := by
      rw [hs name]; simp [hopt, scalarHandles]
    have hv' := hv0 name (fun _ => by simp [hopt, fieldHandles])
    have hd : (c.after calls).c_parameters.hasCoupledValue name = true := by
      rw [hp]; simpa [InputParameters.hasCoupledValue] using hn
    intro acc hacc
    simp only [List.mem_cons, List.mem_singleton, List.not_mem_nil, or_false] at hacc
    rcases hacc with rfl | rfl | rfl | rfl
    · rw [value_family_uncoupled coupledValuePreviousNL (by simp) name comp _ hs' hv' hd,
        getDefaultValue_run]
      cases (c.after calls).default_value.find name <;> rfl
    · rw [zero_family_uncoupled (coupledGradientPreviousNL, .default_gradient) (by simp)
        name comp _ hs' hv' hd]
    · rw [zero_family_uncoupled (coupledSecondPreviousNL, .default_second) (by simp)
        name comp _ hs' hv' hd]
    · rw [value_family_uncoupled coupledNodalValuePreviousNL (by simp) name comp _ hs' hv' hd,
        getDefaultValue_run]
      cases (c.after calls).default_value.find name <;> rfl
  · intro hsc
    have hs' : (c.after calls).c_coupled_scalar_vars.find name =
        some (scalarHandles problem (p.getVecMooseType name)) := by
      rw [hs name, if_pos ⟨hn, hsc⟩]
    intro acc hacc
    simp only [List.mem_cons, List.mem_singleton, List.not_mem_nil, or_false] at hacc
    rcases hacc with rfl | rfl | rfl | rfl <;>
    · simp only [coupledValuePreviousNL, coupledGradientPreviousNL, coupledSecondPreviousNL,
        coupledNodalValuePreviousNL, run_bind_thenRun, checkVar_run, hs', hname,
        thenRun_error, and_self]


/-- C23, counterexample.  On the object built from `sampleWideParams`, with the flag unset,
the coupling `m` lists the field variable `nl0` and the scalar variable `sc`, so it
resolved to a field variable.  Each of the four previous-iterate accessors, called on
`("m", 0)`, stops in `checkVar` and leaves the flag unset. -/
theorem previousNL_flag_counterexample :
    Coupleable.construct .rhsFirst (sampleWideParams none none) sampleWideProblem false false =
      .ok (sampleWideObject none none false) ∧
    fieldHandles sampleWideProblem ((sampleWideParams none none).getVecMooseType "m") =
      [sampleField "nl0" 0 .VAR_NONLINEAR true .standard] ∧
    (sampleWideObject none none false).needs_previous_newton_iteration = false ∧
    (∀ acc ∈ ([coupledValuePreviousNL, coupledGradientPreviousNL, coupledSecondPreviousNL,
        coupledNodalValuePreviousNL] : List (String → Nat → Acc ℤ ArrayRef)),
      ((acc "m" 0).run (sampleWideObject none none false)).1 =
        .error (.scalarWhereField "obj" "m" ["sc"]) ∧
      ((acc "m" 0).run
        (sampleWideObject none none false)).2.needs_previous_newton_iteration = false) := by
  refine ⟨rfl, by decide, by decide, ?_⟩
  intro acc hacc
  simp only [List.mem_cons, List.mem_singleton, List.not_mem_nil, or_false] at hacc
  rcases hacc with rfl | rfl | rfl | rfl <;> exact ⟨by decide, by decide⟩

/-- The sample object is built with the flag unset.  On the nodal sample object
`coupledGradientPreviousNL("u", 0)` fails with the nodal error and leaves the flag set. -/
theorem previousNL_flag_witness :
    Coupleable.construct .rhsFirst sampleParams sampleProblem true false =
      .ok (sampleObject .rhsFirst true) ∧
    "u" ∈ sampleParams.coupledVars ∧
    (sampleObject .rhsFirst true).needs_previous_newton_iteration = false ∧
    ((coupledGradientPreviousNL "u" 0).run ((sampleObject .rhsFirst true).after [])).1 =
      .error (.nodalGradientUnsupported "obj") ∧
    ((coupledGradientPreviousNL "u" 0).run
      ((sampleObject .rhsFirst true).after [])).2.needs_previous_newton_iteration = true :=
  ⟨rfl, by decide, by decide, by decide,
    (previousNL_flag .rhsFirst sampleParams sampleProblem true false
      (sampleObject .rhsFirst true) rfl "u" (by decide) [] 0).1 (by decide) (by decide)
      coupledGradientPreviousNL (by simp)⟩

/-- The callbacks recorded after a call that returns `x`, if every value the first part can
yield makes the rest record them when it returns `x`. -/
theorem thenRun_callbacks {R α β : Type} (r : Except MooseError α) (c : Coupleable R)
    (k : α → Except MooseError β × Coupleable R) (x : β) (log : List (String × Bool))
    (h : ∀ a, r = .ok a → (k a).1 = .ok x → (k a).2.callbacks = log) :
    (thenRun r c k).1 = .ok x → (thenRun r c k).2.callbacks = log := by
  cases r with
  | ok a => exact h a rfl
  | error e => intro he; cases he

theorem callback_current_a {R : Type} [CommRing R] (c : Coupleable R) (name : String)
    (comp : Nat) (var : MooseVariableFE) (a : FieldArray)
    (acc : String → Nat → Acc R ArrayRef)
    (hacc : acc ∈ ([coupledValue, writableCoupledValue, coupledVectorValue, coupledGradient,
        coupledGradientDot] :
      List (String → Nat → Acc R ArrayRef)))
    (h : ((acc name comp).run c).1 = .ok (.var var a)) :
    ((acc name comp).run c).2.callbacks = c.callbacks ++ [(name, false)] := by
  revert h
  simp only [List.mem_cons, List.mem_singleton, List.not_mem_nil, or_false] at hacc
  rcases hacc with rfl | rfl | rfl | rfl | rfl <;>
  · simp only [coupledValue, writableCoupledValue, coupledVectorValue, coupledGradient,
      coupledGradientDot,
      run_bind_thenRun, run_ite, checkVar_run, isCoupled_run,
      validateExecutionerType_run, needsPreviousNewtonIteration_run, coupledCallback_run,
      getVar_run, getVectorVar_run, getFEVar_run, getDefaultValue_run,
      getVectorDefaultValue_run, run_get, run_pure, run_mooseError, thenRun_ok, thenRun_error]
    repeat' first
      | refine thenRun_callbacks _ _ _ _ _ (fun _ _ => ?_)
      | split
      | with_reducible exact fun _ => rfl
      | (intro h; cases h)

theorem callback_current_b {R : Type} [CommRing R] (c : Coupleable R) (name : String)
    (comp : Nat) (var : MooseVariableFE) (a : FieldArray)
    (acc : String → Nat → Acc R ArrayRef)
    (hacc : acc ∈ ([coupledCurl, coupledSecond, coupledNodalValue, coupledNodalDot,
        coupledSolutionDoFs] :
      List (String → Nat → Acc R ArrayRef)))
    (h : ((acc name comp).run c).1 = .ok (.var var a)) :
    ((acc name comp).run c).2.callbacks = c.callbacks ++ [(name, false)] := by
  revert h
  simp only [List.mem_cons, List.mem_singleton, List.not_mem_nil, or_false] at hacc
  rcases hacc with rfl | rfl | rfl | rfl | rfl <;>
  · simp only [coupledCurl, coupledSecond, coupledNodalValue, coupledNodalDot,
      coupledSolutionDoFs,
      run_bind_thenRun, run_ite, checkVar_run, isCoupled_run,
      validateExecutionerType_run, needsPreviousNewtonIteration_run, coupledCallback_run,
      getVar_run, getVectorVar_run, getFEVar_run, getDefaultValue_run,
      getVectorDefaultValue_run, run_get, run_pure, run_mooseError, thenRun_ok, thenRun_error]
    repeat' first
      | refine thenRun_callbacks _ _ _ _ _ (fun _ _ => ?_)
      | split
      | with_reducible exact fun _ => rfl
      | (intro h; cases h)

theorem callback_old_a {R : Type} [CommRing R] (c : Coupleable R) (name : String)
    (comp : Nat) (var : MooseVariableFE) (a : FieldArray)
    (acc : String → Nat → Acc R ArrayRef)
    (hacc : acc ∈ ([coupledValueOld, coupledValueOlder, coupledValuePreviousNL,
        coupledVectorValueOld, coupledVectorValueOlder, coupledGradientOld] :
      List (String → Nat → Acc R ArrayRef)))
    (h : ((acc name comp).run c).1 = .ok (.var var a)) :
    ((acc name comp).run c).2.callbacks = c.callbacks ++ [(name, true)] := by
  revert h
  simp only [List.mem_cons, List.mem_singleton, List.not_mem_nil, or_false] at hacc
  rcases hacc with rfl | rfl | rfl | rfl | rfl | rfl <;>
  · simp only [coupledValueOld, coupledValueOlder, coupledValuePreviousNL,
      coupledVectorValueOld, coupledVectorValueOlder, coupledGradientOld,
      run_bind_thenRun, run_ite, checkVar_run, isCoupled_run,
      validateExecutionerType_run, needsPreviousNewtonIteration_run, coupledCallback_run,
      getVar_run, getVectorVar_run, getFEVar_run, getDefaultValue_run,
      getVectorDefaultValue_run, run_get, run_pure, run_mooseError, thenRun_ok, thenRun_error]
    repeat' first
      | refine thenRun_callbacks _ _ _ _ _ (fun _ _ => ?_)
      | split
      | with_reducible exact fun _ => rfl
      | (intro h; cases h)

theorem callback_old_b {R : Type} [CommRing R] (c : Coupleable R) (name : String)
    (comp : Nat) (var : MooseVariableFE) (a : FieldArray)
    (acc : String → Nat → Acc R ArrayRef)
    (hacc : acc ∈ ([coupledGradientOlder, coupledGradientPreviousNL, coupledCurlOld,
        coupledCurlOlder, coupledSecondOld, coupledSecondOlder] :
      List (String → Nat → Acc R ArrayRef)))
    (h : ((acc name comp).run c).1 = .ok (.var var a)) :
    ((acc name comp).run c).2.callbacks = c.callbacks ++ [(name, true)] := by
  revert h
  simp only [List.mem_cons, List.mem_singleton, List.not_mem_nil, or_false] at hacc
  rcases hacc with rfl | rfl | rfl | rfl | rfl | rfl <;>
  · simp only [coupledGradientOlder, coupledGradientPreviousNL, coupledCurlOld,
      coupledCurlOlder, coupledSecondOld, coupledSecondOlder,
      run_bind_thenRun, run_ite, checkVar_run, isCoupled_run,
      validateExecutionerType_run, needsPreviousNewtonIteration_run, coupledCallback_run,
      getVar_run, getVectorVar_run, getFEVar_run, getDefaultValue_run,
      getVectorDefaultValue_run, run_get, run_pure, run_mooseError, thenRun_ok, thenRun_error]
    repeat' first
      | refine thenRun_callbacks _ _ _ _ _ (fun _ _ => ?_)
      | split
      | with_reducible exact fun _ => rfl
      | (intro h; cases h)

theorem callback_old_c {R : Type} [CommRing R] (c : Coupleable R) (name : String)
    (comp : Nat) (var : MooseVariableFE) (a : FieldArray)
    (acc : String → Nat → Acc R ArrayRef)
    (hacc : acc ∈ ([coupledSecondPreviousNL, coupledNodalValueOld, coupledNodalValueOlder,
        coupledNodalValuePreviousNL, coupledSolutionDoFsOld, coupledSolutionDoFsOlder] :
      List (String → Nat → Acc R ArrayRef)))
    (h : ((acc name comp).run c).1 = .ok (.var var a)) :
    ((acc name comp).run c).2.callbacks = c.callbacks ++ [(name, true)] := by
  revert h
  simp only [List.mem_cons, List.mem_singleton, List.not_mem_nil, or_false] at hacc
  rcases hacc with rfl | rfl | rfl | rfl | rfl | rfl <;>
  · simp only [coupledSecondPreviousNL, coupledNodalValueOld, coupledNodalValueOlder,
      coupledNodalValuePreviousNL, coupledSolutionDoFsOld, coupledSolutionDoFsOlder,
      run_bind_thenRun, run_ite, checkVar_run, isCoupled_run,
      validateExecutionerType_run, needsPreviousNewtonIteration_run, coupledCallback_run,
      getVar_run, getVectorVar_run, getFEVar_run, getDefaultValue_run,
      getVectorDefaultValue_run, run_get, run_pure, run_mooseError, thenRun_ok, thenRun_error]
    repeat' first
      | refine thenRun_callbacks _ _ _ _ _ (fun _ _ => ?_)
      | split
      | with_reducible exact fun _ => rfl
      | (intro h; cases h)

/-! ## The array an accessor selects -/

/-- The accessors that select by the flags, on an object in which `name` has no scalar
variable and component `comp` is the field variable `var`, which the object can use:
the array each of them returns. -/
theorem selection_run {R : Type} (c : Coupleable R) (name : String) (comp : Nat)
    (vars : List MooseVariableFE) (var : MooseVariableFE)
    (hs : c.c_coupled_scalar_vars.find name = none)
    (hv : c.coupled_vars.find name = some vars) (hvar : vars[comp]? = some var)
    (hel : (!var.isNodal && c.c_nodal) = false) :
    (var.fieldType = .standard →
      ((coupledValue name comp).run c).1 =
        .ok (.var var
          (if c.c_is_implicit = true then
            (if c.coupleable_neighbor = true then
              (if c.c_nodal = true then .nodalValueNeighbor else .slnNeighbor)
            else (if c.c_nodal = true then .nodalValue else .sln))
          else
            (if c.coupleable_neighbor = true then
              (if c.c_nodal = true then .nodalValueOldNeighbor else .slnOldNeighbor)
            else (if c.c_nodal = true then .nodalValueOld else .slnOld))))) ∧
    (var.fieldType = .standard → c.c_fe_problem.isTransient = true →
      ((coupledValueOld name comp).run c).1 =
        .ok (.var var
          (if c.c_is_implicit = true then
            (if c.coupleable_neighbor = true then
              (if c.c_nodal = true then .nodalValueOldNeighbor else .slnOldNeighbor)
            else (if c.c_nodal = true then .nodalValueOld else .slnOld))
          else
            (if c.coupleable_neighbor = true then
              (if c.c_nodal = true then .nodalValueOlderNeighbor else .slnOlderNeighbor)
            else (if c.c_nodal = true then .nodalValueOlder else .slnOlder))))) ∧
    (var.fieldType = .standard → c.c_fe_problem.isTransient = true →
      ((coupledDot name comp).run c).1 =
        .ok (.var var
          (if c.coupleable_neighbor = true then
            (if c.c_nodal = true then .nodalValueDotNeighbor else .uDotNeighbor)
          else (if c.c_nodal = true then .nodalValueDot else .uDot)))) ∧
    (var.fieldType = .standard → c.c_fe_problem.isTransient = true →
      ((coupledDotDu name comp).run c).1 =
        .ok (.var var (if c.c_nodal = true then .nodalValueDuDotDu else .duDotDu))) ∧
    (var.fieldType = .standard → c.c_nodal = false →
      ((coupledGradient name comp).run c).1 =
        .ok (.var var
          (if c.c_is_implicit = true then
            (if c.coupleable_neighbor = true then .gradSlnNeighbor else .gradSln)
          else (if c.coupleable_neighbor = true then .gradSlnOldNeighbor else .gradSlnOld)))) ∧
    (var.fieldType = .standard → c.c_nodal = false →
      ((coupledSecond name comp).run c).1 =
        .ok (.var var
          (if c.c_is_implicit = true then
            (if c.coupleable_neighbor = true then .secondSlnNeighbor else .secondSln)
          else
            (if c.coupleable_neighbor = true then .secondSlnOlderNeighbor
            else .secondSlnOlder)))) ∧
    (var.fieldType = .vector → c.c_nodal = false →
      ((coupledCurl name comp).run c).1 =
        .ok (.var var
          (if c.c_is_implicit = true then
            (if c.coupleable_neighbor = true then .curlSlnNeighbor else .curlSln)
          else (if c.coupleable_neighbor = true then .curlSlnOldNeighbor else .curlSlnOld)))) ∧
    (var.fieldType = .standard → c.c_nodal = false →
      ((coupledCurl name comp).run c).1 = .error .wrongType) := by
  have h0 : vars ≠ [] := by
    intro h; rw [h] at hvar; simp at hvar
  have hlen : 0 < vars.length := List.length_pos.mpr h0
  have htouch : c.coupled_vars.touch name [] = c.coupled_vars := StdMap.touch_of_find _ _ _ _ hv
  have hval : c.coupled_vars.valueAt name [] = vars := by simp [StdMap.valueAt, hv]
  have hnv : ¬ (FieldType.standard = FieldType.vector) := by decide
  refine ⟨?_, ?_, ?_, ?_, ?_, ?_, ?_, ?_⟩
  · intro hstd
    simp only [coupledValue, run_bind_thenRun, run_ite, checkVar_run, isCoupled_run,
      coupledCallback_run, getVar_run, run_get, run_pure, run_mooseError, hv, hs, hlen, htouch,
      hval, hvar, hstd, hel, thenRun_ok, thenRun_error, decide_True, Bool.not_true,
      Bool.false_eq_true, if_false, if_true]
    cases c.c_nodal <;> cases c.coupleable_neighbor <;> cases c.c_is_implicit <;> rfl
  · intro hstd ht
    simp only [coupledValueOld, run_bind_thenRun, run_ite, checkVar_run, isCoupled_run,
      validateExecutionerType_run, coupledCallback_run, getVar_run, run_get, run_pure,
      run_mooseError, hv, hs, hlen, htouch, hval, hvar, hstd, hel, ht, thenRun_ok,
      thenRun_error, decide_True, Bool.not_true, Bool.false_eq_true, if_false, if_true]
    cases c.c_nodal <;> cases c.coupleable_neighbor <;> cases c.c_is_implicit <;> rfl
  · intro hstd ht
    simp only [coupledDot, run_bind_thenRun, run_ite, checkVar_run, isCoupled_run,
      validateExecutionerType_run, getVar_run, run_get, run_pure,
      run_mooseError, hv, hs, hlen, htouch, hval, hvar, hstd, hel, ht, thenRun_ok,
      thenRun_error, decide_True, Bool.not_true, Bool.false_eq_true, if_false, if_true]
    cases c.c_nodal <;> cases c.coupleable_neighbor <;> rfl
  · intro hstd ht
    simp only [coupledDotDu, run_bind_thenRun, run_ite, checkVar_run, isCoupled_run,
      validateExecutionerType_run, getVar_run, run_get, run_pure,
      run_mooseError, hv, hs, hlen, htouch, hval, hvar, hstd, hel, ht, thenRun_ok,
      thenRun_error, decide_True, Bool.not_true, Bool.false_eq_true, if_false, if_true]
    cases c.c_nodal <;> cases c.coupleable_neighbor <;> rfl
  · intro hstd hnod
    simp only [coupledGradient, run_bind_thenRun, run_ite, checkVar_run, isCoupled_run,
      coupledCallback_run, getVar_run, run_get, run_pure, run_mooseError, hv, hs, hlen, htouch,
      hval, hvar, hstd, hel, hnod, Bool.and_false, thenRun_ok, thenRun_error, decide_True, Bool.not_true,
      Bool.false_eq_true, if_false, if_true]
    cases c.coupleable_neighbor <;> cases c.c_is_implicit <;> rfl
  · intro hstd hnod
    simp only [coupledSecond, run_bind_thenRun, run_ite, checkVar_run, isCoupled_run,
      coupledCallback_run, getVar_run, run_get, run_pure, run_mooseError, hv, hs, hlen, htouch,
      hval, hvar, hstd, hel, hnod, Bool.and_false, thenRun_ok, thenRun_error, decide_True, Bool.not_true,
      Bool.false_eq_true, if_false, if_true]
    cases c.coupleable_neighbor <;> cases c.c_is_implicit <;> rfl
  · intro hvec hnod
    simp only [coupledCurl, run_bind_thenRun, run_ite, isCoupled_run,
      coupledCallback_run, getVectorVar_run, run_get, run_pure, run_mooseError, hv, hlen,
      htouch, hval, hvar, hvec, hel, hnod, Bool.and_false, thenRun_ok, thenRun_error, decide_True,
      Bool.not_true, Bool.false_eq_true, if_false, if_true]
    cases c.coupleable_neighbor <;> cases c.c_is_implicit <;> rfl
  · intro hstd hnod
    simp only [coupledCurl, run_bind_thenRun, run_ite, isCoupled_run,
      coupledCallback_run, getVectorVar_run, run_get, run_pure, run_mooseError, hv, hlen,
      htouch, hval, hvar, hstd, hnv, hel, hnod, Bool.and_false, thenRun_ok, thenRun_error, decide_True,
      Bool.not_true, Bool.false_eq_true, if_false, if_true]


/-- What `selection_run` asks of the object, for a constructed object after any calls. -/
theorem field_component_facts {R : Type} [CommRing R] (order : AssignOrder)
    (p : InputParameters R) (problem : Problem) (nodal flag : Bool) (c : Coupleable R)
    (hc : Coupleable.construct order p problem nodal flag = .ok c)
    (name : String) (hn : name ∈ p.coupledVars) (comp : Nat) (var : MooseVariableFE)
    (hvar : (fieldHandles problem (p.getVecMooseType name))[comp]? = some var)
    (hsc : scalarHandles problem (p.getVecMooseType name) = [])
    (hnodal : nodal = true → var.isNodal = true) (calls : List Call) :
    (c.after calls).c_coupled_scalar_vars.find name = none ∧
    (c.after calls).coupled_vars.find name =
      some (fieldHandles problem (p.getVecMooseType name)) ∧
    (!var.isNodal && (c.after calls).c_nodal) = false := by
  obtain ⟨_, _, _, hnod, _, _, _, hs, hv, _⟩ :=
    after_facts order p problem nodal flag c hc calls
  have hf : fieldHandles problem (p.getVecMooseType name) ≠ [] := by
    intro h; rw [h] at hvar; simp at hvar
  refine ⟨?_, hv name hn hf, ?_⟩
  · rw [hs name]; simp [hsc]
  · rw [hnod]
    cases hnv : nodal
    · simp
    · simp [hnodal hnv]

/-- C25, as amended.  On the object a successful construction yields, after any sequence of calls, for
a declared coupling `name` without scalar variables whose component `comp` resolved to the
standard field variable `var`, nodal if the object is nodal: `coupledValue` returns the
current-state array of `var` on an implicit object and the old-state array on an explicit
one; on a transient problem `coupledValueOld` returns the old-state array on an implicit
object and the older-state array on an explicit one; in each case the nodal array on a
nodal object and the neighbor array in neighbor context.  Hence `coupledValue` on an
explicit object returns what `coupledValueOld` returns on the object built from the same
parameters with `implicit = true`. -/
theorem coupledValue_selection {R : Type} [CommRing R] (order : AssignOrder)
    (p : InputParameters R) (problem : Problem) (nodal flag : Bool) (c : Coupleable R)
    (hc : Coupleable.construct order p problem nodal flag = .ok c)
    (name : String) (hn : name ∈ p.coupledVars) (comp : Nat) (var : MooseVariableFE)
    (hvar : (fieldHandles problem (p.getVecMooseType name))[comp]? = some var)
    (hsc : scalarHandles problem (p.getVecMooseType name) = [])
    (hstd : var.fieldType = .standard) (hnodal : nodal = true → var.isNodal = true)
    (calls : List Call) :
    ((coupledValue name comp).run (c.after calls)).1 =
      .ok (.var var
        (if p.implicit.getD true = true then
          (if p.neighbor.getD false = true then
            (if nodal = true then .nodalValueNeighbor else .slnNeighbor)
          else (if nodal = true then .nodalValue else .sln))
        else
          (if p.neighbor.getD false = true then
            (if nodal = true then .nodalValueOldNeighbor else .slnOldNeighbor)
          else (if nodal = true then .nodalValueOld else .slnOld)))) ∧
    (problem.isTransient = true →
      ((coupledValueOld name comp).run (c.after calls)).1 =
        .ok (.var var
          (if p.implicit.getD true = true then
            (if p.neighbor.getD false = true then
              (if nodal = true then .nodalValueOldNeighbor else .slnOldNeighbor)
            else (if nodal = true then .nodalValueOld else .slnOld))
          else
            (if p.neighbor.getD false = true then
              (if nodal = true then .nodalValueOlderNeighbor else .slnOlderNeighbor)
            else (if nodal = true then .nodalValueOlder else .slnOlder))))) ∧
    (p.implicit = some false → problem.isTransient = true →
      ∀ (c₂ : Coupleable R) (flag₂ : Bool) (calls₂ : List Call),
        Coupleable.construct order { p with implicit := some true } problem nodal flag₂ =
          .ok c₂ →
        ((coupledValue name comp).run (c.after calls)).1 =
          ((coupledValueOld name comp).run (c₂.after calls₂)).1) := by
  have key : ∀ (q : InputParameters R) (fl : Bool) (d : Coupleable R) (cl : List Call),
      q.coupledVars = p.coupledVars → q.getVecMooseType = p.getVecMooseType →
      Coupleable.construct order q problem nodal fl = .ok d →
      ((coupledValue name comp).run (d.after cl)).1 =
        .ok (.var var
          (if q.implicit.getD true = true then
            (if q.neighbor.getD false = true then
              (if nodal = true then .nodalValueNeighbor else .slnNeighbor)
            else (if nodal = true then .nodalValue else .sln))
          else
            (if q.neighbor.getD false = true then
              (if nodal = true then .nodalValueOldNeighbor else .slnOldNeighbor)
            else (if nodal = true then .nodalValueOld else .slnOld)))) ∧
      (problem.isTransient = true →
        ((coupledValueOld name comp).run (d.after cl)).1 =
          .ok (.var var
            (if q.implicit.getD true = true then
              (if q.neighbor.getD false = true then
                (if nodal = true then .nodalValueOldNeighbor else .slnOldNeighbor)
              else (if nodal = true then .nodalValueOld else .slnOld))
            else
              (if q.neighbor.getD false = true then
                (if nodal = true then .nodalValueOlderNeighbor else .slnOlderNeighbor)
              else (if nodal = true then .nodalValueOlder else .slnOlder))))) := by
    intro q fl d cl hq1 hq2 hd
    obtain ⟨_, _, hprob, hnod, himp, hnb, _⟩ := after_facts order q problem nodal fl d hd cl
    obtain ⟨hs, hv, hel⟩ := field_component_facts order q problem nodal fl d hd name
      (by rw [hq1]; exact hn) comp var (by rw [hq2]; exact hvar) (by rw [hq2]; exact hsc)
      hnodal cl
    obtain ⟨s1, s2, _⟩ := selection_run (d.after cl) name comp _ var hs hv
      (by rw [hq2]; exact hvar) hel
    refine ⟨?_, fun ht => ?_⟩
    · rw [s1 hstd, himp, hnb, hnod]
    · rw [s2 hstd (by rw [hprob]; exact ht), himp, hnb, hnod]
  refine ⟨(key p flag c calls rfl rfl hc).1, (key p flag c calls rfl rfl hc).2, ?_⟩
  intro himp ht c₂ flag₂ calls₂ hc₂
  rw [(key p flag c calls rfl rfl hc).1,
    (key { p with implicit := some true } flag₂ c₂ calls₂ rfl rfl hc₂).2 ht, himp]
  rfl

/-- C25, counterexample.  On the object built from `sampleWideParams`, implicit and not
nodal, component 0 of the coupling `m` resolved to the standard nodal field variable
`nl0`, and the coupling also lists the scalar variable `sc`: `coupledValue("m", 0)` and
`coupledValueOld("m", 0)` return no array of `nl0`, they stop in `checkVar`. -/
theorem coupledValue_selection_counterexample :
    Coupleable.construct .rhsFirst (sampleWideParams none none) sampleWideProblem false false =
      .ok (sampleWideObject none none false) ∧
    (fieldHandles sampleWideProblem ((sampleWideParams none none).getVecMooseType "m"))[0]? =
      some (sampleField "nl0" 0 .VAR_NONLINEAR true .standard) ∧
    sampleWideProblem.isTransient = true ∧
    ((coupledValue "m" 0).run (sampleWideObject none none false)).1 =
      .error (.scalarWhereField "obj" "m" ["sc"]) ∧
    ((coupledValueOld "m" 0).run (sampleWideObject none none false)).1 =
      .error (.scalarWhereField "obj" "m" ["sc"]) :=
  ⟨rfl, by decide, rfl, by decide, by decide⟩

/-- On the sample objects, on component 0 of the coupling `v`, the standard variable
`nl0`: `coupledValue` on the explicit object and `coupledValueOld` on the implicit one
both return its array `slnOld`. -/
theorem coupledValue_selection_witness :
    Coupleable.construct .rhsFirst sampleExplicitParams sampleProblem false false =
      .ok (sampleExplicitObject false) ∧
    "v" ∈ sampleExplicitParams.coupledVars ∧
    ((coupledValue "v" 0).run ((sampleExplicitObject false).after [])).1 =
      .ok (.var (sampleField "nl0" 0 .VAR_NONLINEAR true .standard) .slnOld) ∧
    ((coupledValueOld "v" 0).run ((sampleObject .rhsFirst false).after [])).1 =
      .ok (.var (sampleField "nl0" 0 .VAR_NONLINEAR true .standard) .slnOld) :=
  ⟨rfl, by decide,
    (coupledValue_selection .rhsFirst sampleExplicitParams sampleProblem false false
      (sampleExplicitObject false) rfl "v" (by decide) 0
      (sampleField "nl0" 0 .VAR_NONLINEAR true .standard) (by decide) (by decide) rfl
      (fun _ => rfl) []).1,
    ((coupledValue_selection .rhsFirst sampleParams sampleProblem false false
      (sampleObject .rhsFirst false) rfl "v" (by decide) 0
      (sampleField "nl0" 0 .VAR_NONLINEAR true .standard) (by decide) (by decide) rfl
      (fun _ => rfl) []).2.1) rfl⟩


/-- C26, as amended.  On an object that is not nodal, constructed with `implicit = false`,
after any sequence of calls, for a declared coupling `name` without scalar variables whose
component `comp` resolved to the field variable `var`: if `var` is a standard variable,
`coupledSecond` returns its older-state array `secondSlnOlder` (`secondSlnOlderNeighbor` in
neighbor context), whereas `coupledValue` and `coupledGradient` return the old-state
arrays `slnOld` and `gradSlnOld` (their neighbor arrays in neighbor context), and
`coupledCurl` fails with "Variable of wrong type"; if `var` is a vector variable,
`coupledCurl` returns its old-state array `curlSlnOld` (`curlSlnOldNeighbor` in neighbor
context). -/
theorem coupledSecond_explicit {R : Type} [CommRing R] (order : AssignOrder)
    (p : InputParameters R) (problem : Problem) (flag : Bool) (c : Coupleable R)
    (hc : Coupleable.construct order p problem false flag = .ok c)
    (himp : p.implicit = some false)
    (name : String) (hn : name ∈ p.coupledVars) (comp : Nat) (var : MooseVariableFE)
    (hvar : (fieldHandles problem (p.getVecMooseType name))[comp]? = some var)
    (hsc : scalarHandles problem (p.getVecMooseType name) = [])
    (calls : List Call) :
    (var.fieldType = .standard →
      ((coupledSecond name comp).run (c.after calls)).1 =
        .ok (.var var
          (if p.neighbor.getD false = true then .secondSlnOlderNeighbor
          else .secondSlnOlder)) ∧
      ((coupledValue name comp).run (c.after calls)).1 =
        .ok (.var var (if p.neighbor.getD false = true then .slnOldNeighbor else .slnOld)) ∧
      ((coupledGradient name comp).run (c.after calls)).1 =
        .ok (.var var
          (if p.neighbor.getD false = true then .gradSlnOldNeighbor else .gradSlnOld)) ∧
      ((coupledCurl name comp).run (c.after calls)).1 = .error .wrongType) ∧
    (var.fieldType = .vector →
      ((coupledCurl name comp).run (c.after calls)).1 =
        .ok (.var var
          (if p.neighbor.getD false = true then .curlSlnOldNeighbor else .curlSlnOld))) := by
  obtain ⟨_, _, _, hnod, hi, hnb, _⟩ := after_facts order p problem false flag c hc calls
  obtain ⟨hs, hv, hel⟩ := field_component_facts order p problem false flag c hc name hn comp
    var hvar hsc (fun h => by cases h) calls
  obtain ⟨s1, _, _, _, s5, s6, s7, s8⟩ := selection_run (c.after calls) name comp _ var hs hv
    hvar hel
  have hi' : (c.after calls).c_is_implicit = false := by rw [hi, himp]; rfl
  refine ⟨fun hstd => ⟨?_, ?_, ?_, s8 hstd hnod⟩, fun hvec => ?_⟩
  · rw [s6 hstd hnod, hi', hnb]; rfl
  · rw [s1 hstd, hi', hnb, hnod]; rfl
  · rw [s5 hstd hnod, hi', hnb]; rfl
  · rw [s7 hvec hnod, hi', hnb]; rfl

/-- C26, counterexample.  On the explicit sample object, which is not nodal, the coupling
`u` resolved to the standard field variable `aux1`: `coupledSecond("u", 0)` returns its
array `secondSlnOlder`, but `coupledCurl("u", 0)` returns no old-state array: it fails.
On the explicit object built from `sampleWideParams`, not nodal, component 0 of the
coupling `m` resolved to the standard field variable `nl0`, and the coupling also lists
the scalar variable `sc`: `coupledSecond`, `coupledValue` and `coupledGradient` return no
array of `nl0`, they stop in `checkVar`. -/
theorem coupledSecond_explicit_counterexample :
    Coupleable.construct .rhsFirst sampleExplicitParams sampleProblem false false =
      .ok (sampleExplicitObject false) ∧
    sampleExplicitParams.implicit = some false ∧
    fieldHandles sampleProblem (sampleExplicitParams.getVecMooseType "u") =
      [sampleField "aux1" 1 .VAR_AUXILIARY true .standard] ∧
    ((coupledSecond "u" 0).run (sampleExplicitObject false)).1 =
      .ok (.var (sampleField "aux1" 1 .VAR_AUXILIARY true .standard) .secondSlnOlder) ∧
    ((coupledCurl "u" 0).run (sampleExplicitObject false)).1 = .error .wrongType ∧
    Coupleable.construct .rhsFirst (sampleWideParams (some false) none) sampleWideProblem
      false false = .ok (sampleWideObject (some false) none false) ∧
    (fieldHandles sampleWideProblem
      ((sampleWideParams (some false) none).getVecMooseType "m"))[0]? =
      some (sampleField "nl0" 0 .VAR_NONLINEAR true .standard) ∧
    ((coupledSecond "m" 0).run (sampleWideObject (some false) none false)).1 =
      .error (.scalarWhereField "obj" "m" ["sc"]) ∧
    ((coupledValue "m" 0).run (sampleWideObject (some false) none false)).1 =
      .error (.scalarWhereField "obj" "m" ["sc"]) ∧
    ((coupledGradient "m" 0).run (sampleWideObject (some false) none false)).1 =
      .error (.scalarWhereField "obj" "m" ["sc"]) :=
  ⟨rfl, rfl, by decide, by decide, by decide, rfl, by decide, by decide, by decide, by decide⟩

/-- On the explicit sample object component 1 of the coupling `v` is the vector variable
`nl1`: `coupledCurl("v", 1)` returns its array `curlSlnOld`. -/
theorem coupledSecond_explicit_witness :
    Coupleable.construct .rhsFirst sampleExplicitParams sampleProblem false false =
      .ok (sampleExplicitObject false) ∧
    sampleExplicitParams.implicit = some false ∧ "v" ∈ sampleExplicitParams.coupledVars ∧
    ((coupledCurl "v" 1).run ((sampleExplicitObject false).after [])).1 =
      .ok (.var (sampleField "nl1" 1 .VAR_NONLINEAR false .vector) .curlSlnOld) :=
  ⟨rfl, rfl, by decide,
    (coupledSecond_explicit .rhsFirst sampleExplicitParams sampleProblem false
      (sampleExplicitObject false) rfl rfl "v" (by decide) 1
      (sampleField "nl1" 1 .VAR_NONLINEAR false .vector) (by decide) (by decide) []).2 rfl⟩

/-- C28, as amended.  On a transient problem, for two objects built from parameters that differ only in
the neighbor flag, after any sequences of calls, for a declared coupling `name` without
scalar variables whose component `comp` resolved to the standard field variable `var`,
nodal if the objects are nodal: `coupledDotDu` returns the same array on both, the local
`duDotDu`, or `nodalValueDuDotDu` on nodal objects; `coupledDot` returns the local array
without neighbor context and the neighbor array in neighbor context, so that its results
differ when the flags differ. -/
theorem coupledDotDu_ignores_neighbor {R : Type} [CommRing R] (order : AssignOrder)
    (p : InputParameters R) (problem : Problem) (nodal flag₁ flag₂ : Bool)
    (neighbor₁ neighbor₂ : Option Bool) (c₁ c₂ : Coupleable R)
    (hc₁ : Coupleable.construct order { p with neighbor := neighbor₁ } problem nodal flag₁ =
      .ok c₁)
    (hc₂ : Coupleable.construct order { p with neighbor := neighbor₂ } problem nodal flag₂ =
      .ok c₂)
    (ht : problem.isTransient = true)
    (name : String) (hn : name ∈ p.coupledVars) (comp : Nat) (var : MooseVariableFE)
    (hvar : (fieldHandles problem (p.getVecMooseType name))[comp]? = some var)
    (hsc : scalarHandles problem (p.getVecMooseType name) = [])
    (hstd : var.fieldType = .standard) (hnodal : nodal = true → var.isNodal = true)
    (calls₁ calls₂ : List Call) :
    ((coupledDotDu name comp).run (c₁.after calls₁)).1 =
      .ok (.var var (if nodal = true then .nodalValueDuDotDu else .duDotDu)) ∧
    ((coupledDotDu name comp).run (c₂.after calls₂)).1 =
      ((coupledDotDu name comp).run (c₁.after calls₁)).1 ∧
    ((coupledDot name comp).run (c₁.after calls₁)).1 =
      .ok (.var var
        (if neighbor₁.getD false = true then
          (if nodal = true then .nodalValueDotNeighbor else .uDotNeighbor)
        else (if nodal = true then .nodalValueDot else .uDot))) ∧
    (neighbor₁.getD false ≠ neighbor₂.getD false →
      ((coupledDot name comp).run (c₁.after calls₁)).1 ≠
        ((coupledDot name comp).run (c₂.after calls₂)).1) := by
  have key : ∀ (nb : Option Bool) (fl : Bool) (d : Coupleable R) (cl : List Call),
      Coupleable.construct order { p with neighbor := nb } problem nodal fl = .ok d →
      ((coupledDotDu name comp).run (d.after cl)).1 =
        .ok (.var var (if nodal = true then .nodalValueDuDotDu else .duDotDu)) ∧
      ((coupledDot name comp).run (d.after cl)).1 =
        .ok (.var var
          (if nb.getD false = true then
            (if nodal = true then .nodalValueDotNeighbor else .uDotNeighbor)
          else (if nodal = true then .nodalValueDot else .uDot))) := by
    intro nb fl d cl hd
    obtain ⟨_, _, hprob, hnod, _, hnb, _⟩ :=
      after_facts order { p with neighbor := nb } problem nodal fl d hd cl
    obtain ⟨hs, hv, hel⟩ := field_component_facts order { p with neighbor := nb } problem nodal
      fl d hd name hn comp var hvar hsc hnodal cl
    obtain ⟨_, _, s3, s4, _⟩ := selection_run (d.after cl) name comp _ var hs hv hvar hel
    have ht' : (d.after cl).c_fe_problem.isTransient = true := by rw [hprob]; exact ht
    exact ⟨by rw [s4 hstd ht', hnod], by rw [s3 hstd ht', hnb, hnod]⟩
  obtain ⟨a1, b1⟩ := key neighbor₁ flag₁ c₁ calls₁ hc₁
  obtain ⟨a2, b2⟩ := key neighbor₂ flag₂ c₂ calls₂ hc₂
  refine ⟨a1, by rw [a1, a2], b1, ?_⟩
  intro hne
  rw [b1, b2]
  cases h1 : neighbor₁.getD false <;> cases h2 : neighbor₂.getD false <;> cases nodal <;>
    simp_all

/-- C28, counterexample.  On the transient registry `sampleWideProblem`, on the two nodal
objects built from `sampleWideParams` with and without neighbor context, component 0 of
the coupling `e` resolved to the standard elemental field variable `el0`: `coupledDot` and
`coupledDotDu` stop with "cannot couple an elemental variable to a nodal variable" on
both objects, so that `coupledDot` does not switch to a neighbor array.  On the two
objects that are not nodal, component 0 of the coupling `m` resolved to the standard field
variable `nl0`, and the coupling also lists the scalar variable `sc`: both accessors stop
in `checkVar` on both objects. -/
theorem coupledDotDu_ignores_neighbor_counterexample :
    sampleWideProblem.isTransient = true ∧
    Coupleable.construct .rhsFirst (sampleWideParams none (some true)) sampleWideProblem
      true false = .ok (sampleWideObject none (some true) true) ∧
    Coupleable.construct .rhsFirst (sampleWideParams none (some false)) sampleWideProblem
      true false = .ok (sampleWideObject none (some false) true) ∧
    (fieldHandles sampleWideProblem
      ((sampleWideParams none (some true)).getVecMooseType "e"))[0]? =
      some (sampleField "el0" 2 .VAR_AUXILIARY false .standard) ∧
    ((coupledDot "e" 0).run (sampleWideObject none (some true) true)).1 =
      .error (.elementalToNodal "obj") ∧
    ((coupledDot "e" 0).run (sampleWideObject none (some false) true)).1 =
      .error (.elementalToNodal "obj") ∧
    ((coupledDotDu "e" 0).run (sampleWideObject none (some true) true)).1 =
      .error (.elementalToNodal "obj") ∧
    ((coupledDotDu "e" 0).run (sampleWideObject none (some false) true)).1 =
      .error (.elementalToNodal "obj") ∧
    (fieldHandles sampleWideProblem
      ((sampleWideParams none (some true)).getVecMooseType "m"))[0]? =
      some (sampleField "nl0" 0 .VAR_NONLINEAR true .standard) ∧
    ((coupledDot "m" 0).run (sampleWideObject none (some true) false)).1 =
      .error (.scalarWhereField "obj" "m" ["sc"]) ∧
    ((coupledDot "m" 0).run (sampleWideObject none (some false) false)).1 =
      .error (.scalarWhereField "obj" "m" ["sc"]) ∧
    ((coupledDotDu "m" 0).run (sampleWideObject none (some true) false)).1 =
      .error (.scalarWhereField "obj" "m" ["sc"]) ∧
    ((coupledDotDu "m" 0).run (sampleWideObject none (some false) false)).1 =
      .error (.scalarWhereField "obj" "m" ["sc"]) :=
  ⟨rfl, rfl, rfl, by decide, by decide, by decide, by decide, by decide, by decide,
    by decide, by decide, by decide, by decide⟩

/-! ## The save-in scatter -/

theorem scatter_fold {R : Type} [CommRing R] (sol : Nat → R) (v : DenseVector R)
    (dofIndices : List Nat) (n d : Nat) :
    (List.range n).foldl
        (fun sol k => Function.update sol (dofIndices.getD k 0)
          (sol (dofIndices.getD k 0) + v.entry k)) sol d =
      sol d + ((List.range n).map
        (fun k => if dofIndices.getD k 0 = d then v.entry k else 0)).sum := by
  induction n with
  | zero => simp
  | succ k ih =>
    rw [List.range_succ, List.foldl_append, List.map_append, List.sum_append]
    simp only [List.foldl_cons, List.foldl_nil, List.map_cons, List.map_nil, List.sum_cons,
      List.sum_nil, add_zero]
    by_cases h : dofIndices.getD k 0 = d
    · subst h
      simp only [Function.update_same, if_true]
      rw [ih]; ring
    · rw [Function.update_noteq (fun e => h e.symm), ih, if_neg h, add_zero]

theorem contributionAt_append {R : Type} [CommRing R] (a b : List ((Nat × Nat) × R))
    (sys d : Nat) :
    contributionAt (a ++ b) sys d = contributionAt a sys d + contributionAt b sys d := by
  simp [contributionAt]

theorem contributions_cons {R : Type} (v : DenseVector R) (a : MooseVariableFE)
    (l : List MooseVariableFE) :
    contributions v (a :: l) =
      (List.range v.size).map (fun k => ((a.sys, a.dofIndices.getD k 0), v.entry k)) ++
        contributions v l := by
  simp [contributions]

/-- One `add_vector`: the entries of the solution vectors afterwards. -/
theorem Run.addVector_solution {R : Type} [CommRing R] (r : Run R) (v : DenseVector R)
    (a : MooseVariableFE) (ha : r.aborted = false) (hl : a.dofIndices.length = v.size)
    (sys d : Nat) :
    (r.addVector v a).aborted = false ∧
    (r.addVector v a).st.solution sys d =
      r.st.solution sys d +
        contributionAt ((List.range v.size).map
          (fun k => ((a.sys, a.dofIndices.getD k 0), v.entry k))) sys d := by
  unfold Run.addVector
  simp only [ha, Bool.false_eq_true, if_false, hl, if_true, true_and]
  by_cases h : a.sys = sys
  · subst h
    simp only [Function.update_same, scatter, hl, scatter_fold, contributionAt, List.map_map]
    congr 2
    apply List.map_congr_left
    intro k _
    simp
  · rw [Function.update_noteq (fun e => h e.symm)]
    have : contributionAt ((List.range v.size).map
        (fun k => ((a.sys, a.dofIndices.getD k 0), v.entry k))) sys d = 0 := by
      simp only [contributionAt, List.map_map]
      apply List.sum_eq_zero
      intro x hx
      simp only [List.mem_map, List.mem_range, Function.comp] at hx
      obtain ⟨k, _, hk⟩ := hx
      rw [← hk]
      simp [h]
    rw [this, add_zero]

/-- The scatter of a fixed vector into targets whose index lists have its size: no abort,
and every solution entry grows by the contributions that go to it. -/
theorem Run.addVector_fold_solution {R : Type} [CommRing R] (v : DenseVector R)
    (l : List MooseVariableFE) (r : Run R) (ha : r.aborted = false)
    (hl : ∀ var ∈ l, var.dofIndices.length = v.size) :
    (l.foldl (fun r var => r.addVector v var) r).aborted = false ∧
    ∀ sys d, (l.foldl (fun r var => r.addVector v var) r).st.solution sys d =
      r.st.solution sys d + contributionAt (contributions v l) sys d := by
  induction l generalizing r with
  | nil => simp [contributions, contributionAt, ha]
  | cons a l ih =>
    simp only [List.foldl_cons]
    have h1 := fun sys d =>
      Run.addVector_solution r v a ha (hl a (List.mem_cons_self _ _)) sys d
    obtain ⟨hab, hsol⟩ := ih (r.addVector v a) (h1 0 0).1
      (fun var hv => hl var (List.mem_cons_of_mem _ hv))
    refine ⟨hab, fun sys d => ?_⟩
    rw [hsol, (h1 sys d).2, contributions_cons, contributionAt_append, add_assoc]

/-- The residual scatter passes the same buffer to every target. -/
theorem Run.addVector_fold_local {R : Type} [CommRing R] (l : List MooseVariableFE)
    (r : Run R) :
    l.foldl (fun r var => r.addVector r.st.local_re var) r =
      l.foldl (fun q var => q.addVector r.st.local_re var) r := by
  induction l generalizing r with
  | nil => rfl
  | cons a l ih =>
    simp only [List.foldl_cons]
    rw [ih]
    have : (r.addVector r.st.local_re a).st.local_re = r.st.local_re := by
      unfold Run.addVector
      split_ifs <;> rfl
    rw [this]

/-- Among contributions to pairwise different entries, the sum that goes to the entry of
one of them is that contribution. -/
theorem contributionAt_of_mem {R : Type} [CommRing R] (cs : List ((Nat × Nat) × R))
    (hnd : (cs.map Prod.fst).Nodup) (e : (Nat × Nat) × R) (he : e ∈ cs) :
    contributionAt cs e.1.1 e.1.2 = e.2 := by
  induction cs with
  | nil => cases he
  | cons x cs ih =>
    simp only [List.map_cons, List.nodup_cons] at hnd
    simp only [contributionAt, List.map_cons, List.sum_cons]
    rcases List.mem_cons.mp he with h | h
    · subst h
      have hz : (cs.map (fun y => if y.1 = (e.1.1, e.1.2) then y.2 else 0)).sum = 0 := by
        apply List.sum_eq_zero
        intro z hz
        obtain ⟨y, hy, hyz⟩ := List.mem_map.mp hz
        rw [← hyz]
        have : y.1 ≠ e.1 := fun hh => hnd.1 (hh ▸ List.mem_map_of_mem _ hy)
        simp [this]
      rw [hz]; simp
    · have hx : x.1 ≠ e.1 := fun hh => hnd.1 (hh ▸ List.mem_map_of_mem _ h)
      have := ih hnd.2 h
      simp only [contributionAt] at this
      rw [this]
      simp [hx]

/-- No contribution goes to an entry that is not among the targets' entries. -/
theorem contributionAt_of_not_mem {R : Type} [CommRing R] (cs : List ((Nat × Nat) × R))
    (sys d : Nat) (h : (sys, d) ∉ cs.map Prod.fst) : contributionAt cs sys d = 0 := by
  simp only [contributionAt]
  apply List.sum_eq_zero
  intro z hz
  obtain ⟨y, hy, hyz⟩ := List.mem_map.mp hz
  rw [← hyz]
  have : y.1 ≠ (sys, d) := fun hh => h (hh ▸ List.mem_map_of_mem _ hy)
  simp [this]

theorem mem_contributions {R : Type} (v : DenseVector R) (l : List MooseVariableFE)
    (var : MooseVariableFE) (hv : var ∈ l) (i : Nat) (hi : i < v.size) :
    ((var.sys, var.dofIndices.getD i 0), v.entry i) ∈ contributions v l := by
  simp only [contributions, List.mem_flatMap, List.mem_map, List.mem_range]
  exact ⟨var, hv, i, hi, rfl⟩


theorem range_map_getD (l : List Nat) :
    (List.range l.length).map (fun k => l.getD k 0) = l := by
  apply List.ext_getElem
  · simp
  · intro i h1 h2
    simp [List.getD_eq_getElem?_getD, List.getElem?_eq_getElem h2]

/-- The entries the contributions go to are the degree-of-freedom indices of the targets,
each with the system of its target. -/
theorem contributions_keys {R : Type} (v : DenseVector R) (l : List MooseVariableFE)
    (hl : ∀ var ∈ l, var.dofIndices.length = v.size) :
    (contributions v l).map Prod.fst =
      l.flatMap (fun var => var.dofIndices.map (fun d => (var.sys, d))) := by
  induction l with
  | nil => rfl
  | cons a l ih =>
    rw [contributions_cons, List.map_append, ih (fun var hv => hl var (List.mem_cons_of_mem _ hv)),
      List.flatMap_cons]
    congr 1
    rw [List.map_map]
    conv_rhs => rw [← range_map_getD a.dofIndices, hl a (List.mem_cons_self _ _), List.map_map]
    rfl

/-- The run of `computeResidual` up to and including `re += _local_re`, with what it
leaves of the solution vectors. -/
theorem computeResidual_unfold_solution {R : Type} [CommRing R] (f : QpFunctions R)
    (s : KernelValue R) (h : s.test_size ≤ (s.residualBlock s.var.number).size) :
    ∃ r2 : Run R,
      r2.aborted = false ∧
      r2.st.local_re.size = (s.residualBlock s.var.number).size ∧
      (∀ i, r2.st.local_re.entry i = if i < s.test_size then
          ∑ qp in Finset.range s.n_points,
            f.precomputeQpResidual qp * s.JxW qp * s.coord qp * s.test i qp
        else 0) ∧
      r2.st.residualBlock s.var.number =
        (s.residualBlock s.var.number).addVec r2.st.local_re ∧
      r2.st.solution = s.solution ∧
      computeResidual f s =
        if s.has_save_in then s.save_in.foldl (fun r var => r.addVector r.st.local_re var) r2
        else r2 := by
  have key := Run.residual_outer
    (fun qp => f.precomputeQpResidual qp * s.JxW qp * s.coord qp) s.test s.test_size s.n_points
    { st := { s with local_re := DenseVector.zeroed (s.residualBlock s.var.number).size },
      aborted := false } rfl (by simpa [DenseVector.zeroed] using h)
  simp only [DenseVector.zeroed, zero_add] at key
  refine ⟨(Run.withLocalRe
      { st := { s with local_re := DenseVector.zeroed (s.residualBlock s.var.number).size },
        aborted := false }
      (fun i => if i < s.test_size then
          ∑ qp in Finset.range s.n_points,
            f.precomputeQpResidual qp * s.JxW qp * s.coord qp * s.test i qp
        else 0)).residualAddLocal s.var.number, ?_, ?_, ?_, ?_, ?_, ?_⟩
  · simp [Run.residualAddLocal, Run.withLocalRe, DenseVector.zeroed]
  · simp [Run.residualAddLocal, Run.withLocalRe, DenseVector.zeroed, KernelValue.setResidualBlock]
  · intro i
    simp [Run.residualAddLocal, Run.withLocalRe, DenseVector.zeroed, KernelValue.setResidualBlock]
  · simp [Run.residualAddLocal, Run.withLocalRe, DenseVector.zeroed, KernelValue.setResidualBlock]
  · simp [Run.residualAddLocal, Run.withLocalRe, DenseVector.zeroed, KernelValue.setResidualBlock]
  · simp only [computeResidual, DenseVector.zeroed]
    rw [key]

theorem foldl_keeps {α β : Type} (P : β → Prop) (g : β → α → β)
    (hg : ∀ b a, P b → P (g b a)) (l : List α) (b : β) (hb : P b) : P (l.foldl g b) := by
  induction l generalizing b with
  | nil => exact hb
  | cons a l ih => exact ih _ (hg b a hb)

/-! ## The scatters are the only writes to the solution vectors -/

theorem Run.localReAdd_solution {R : Type} [CommRing R] (r : Run R) (i : Nat) (x : R) :
    (r.localReAdd i x).st.solution = r.st.solution := by
  unfold Run.localReAdd
  split_ifs <;> rfl

theorem Run.localKeAdd_solution {R : Type} [CommRing R] (r : Run R) (i j : Nat) (x : R) :
    (r.localKeAdd i j x).st.solution = r.st.solution := by
  unfold Run.localKeAdd
  split_ifs <;> rfl

theorem Run.residualAddLocal_solution {R : Type} [CommRing R] (r : Run R) (ivar : Nat) :
    (r.residualAddLocal ivar).st.solution = r.st.solution := by
  unfold Run.residualAddLocal
  split_ifs <;> rfl

theorem Run.jacobianAddLocal_solution {R : Type} [CommRing R] (r : Run R) (ivar jvar : Nat) :
    (r.jacobianAddLocal ivar jvar).st.solution = r.st.solution := by
  unfold Run.jacobianAddLocal
  split_ifs <;> rfl

theorem Run.extractDiag_solution {R : Type} [CommRing R] (r : Run R) (rows : Nat) :
    (r.extractDiag rows).1.st.solution = r.st.solution := by
  unfold Run.extractDiag
  refine foldl_keeps (fun (p : Run R × DenseVector R) => p.1.st.solution = r.st.solution) _
    (fun p i hp => ?_) _ _ rfl
  simp only
  split_ifs
  · exact hp
  · exact hp
  · exact hp

/-- Without a configured save-in target `computeResidual` changes no solution vector, in
every element state. -/
theorem computeResidual_no_save_in {R : Type} [CommRing R] (f : QpFunctions R)
    (s : KernelValue R) (h : s.has_save_in = false ∨ s.save_in = []) :
    (computeResidual f s).st.solution = s.solution := by
  have h1 : ((List.range s.n_points).foldl
      (fun r qp =>
        (List.range s.test_size).foldl
          (fun r i =>
            r.localReAdd i (f.precomputeQpResidual qp * s.JxW qp * s.coord qp * s.test i qp))
          r)
      ({ st := { s with local_re := DenseVector.zeroed (s.residualBlock s.var.number).size },
         aborted := false } : Run R)).st.solution = s.solution :=
    foldl_keeps (fun r : Run R => r.st.solution = s.solution) _
      (fun r qp hr => foldl_keeps (fun r : Run R => r.st.solution = s.solution) _
        (fun r i hr => (Run.localReAdd_solution r i _).trans hr) _ r hr) _ _ rfl
  have e : ∀ (g : Run R → MooseVariableFE → Run R) (b : Run R),
      s.has_save_in = true → s.save_in.foldl g b = b := by
    intro g b hs
    rcases h with h | h
    · rw [h] at hs; cases hs
    · rw [h]; rfl
  unfold computeResidual
  simp only
  split_ifs with hs
  · rw [e _ _ hs, Run.residualAddLocal_solution]; exact h1
  · rw [Run.residualAddLocal_solution]; exact h1

/-- Without a configured diagonal save-in target `computeJacobian` changes no solution
vector, in every element state. -/
theorem computeJacobian_no_diag_save_in {R : Type} [CommRing R] (f : QpFunctions R)
    (s : KernelValue R) (h : s.has_diag_save_in = false ∨ s.diag_save_in = []) :
    (computeJacobian f s).st.solution = s.solution := by
  have h1 : ((List.range s.n_points).foldl
      (fun r qp =>
        (List.range s.phi_size).foldl
          (fun r j =>
            (List.range s.test_size).foldl
              (fun r i =>
                r.localKeAdd i j
                  (f.precomputeQpJacobian qp j * s.JxW qp * s.coord qp * s.test i qp))
              r)
          r)
      (KernelValue.startJacobian s)).st.solution = s.solution :=
    foldl_keeps (fun r : Run R => r.st.solution = s.solution) _
      (fun r qp hr => foldl_keeps (fun r : Run R => r.st.solution = s.solution) _
        (fun r j hr => foldl_keeps (fun r : Run R => r.st.solution = s.solution) _
          (fun r i hr => (Run.localKeAdd_solution r i j _).trans hr) _ r hr) _ r hr) _ _ rfl
  have e : ∀ (g : Run R → MooseVariableFE → Run R) (b : Run R),
      s.has_diag_save_in = true → s.diag_save_in.foldl g b = b := by
    intro g b hs
    rcases h with h | h
    · rw [h] at hs; cases hs
    · rw [h]; rfl
  unfold computeJacobian
  simp only
  split_ifs with hs
  · rw [e _ _ hs, Run.extractDiag_solution, Run.jacobianAddLocal_solution]; exact h1
  · rw [Run.jacobianAddLocal_solution]; exact h1

/-- C21, as amended.  `KernelValue::computeResidual`, in every element state whose residual block of
the kernel's variable has as many entries as there are test functions.  The residual block
grows by the local buffer, entry by entry.  When save-in targets are configured, each with
as many degree-of-freedom indices as the buffer has entries, the call does not abort and
every solution entry grows by the sum of the buffer entries `local(k)` over the targets
and indices `k` whose `k`-th degree-of-freedom index it is; so, when the targets' indices
are pairwise different, the entry at the `i`-th index of a target grows by `local(i)`,
the increment of the residual block, and every other solution entry is unchanged.  When
no save-in target is configured, no solution vector changes, in every element state. -/
theorem computeResidual_save_in {R : Type} [CommRing R] (f : QpFunctions R) (s : KernelValue R) :
    ((s.residualBlock s.var.number).size = s.test_size →
      (∀ i, i < s.test_size →
        ((computeResidual f s).st.residualBlock s.var.number).entry i =
          (s.residualBlock s.var.number).entry i +
            (computeResidual f s).st.local_re.entry i) ∧
      (s.has_save_in = true → (∀ var ∈ s.save_in, var.dofIndices.length = s.test_size) →
        (computeResidual f s).aborted = false ∧
        (∀ sys d, (computeResidual f s).st.solution sys d =
          s.solution sys d +
            contributionAt (contributions (computeResidual f s).st.local_re s.save_in) sys d) ∧
        ((s.save_in.flatMap (fun var => var.dofIndices.map (fun d => (var.sys, d)))).Nodup →
          (∀ var ∈ s.save_in, ∀ i, i < s.test_size →
            (computeResidual f s).st.solution var.sys (var.dofIndices.getD i 0) =
              s.solution var.sys (var.dofIndices.getD i 0) +
                (computeResidual f s).st.local_re.entry i) ∧
          (∀ sys d,
            (sys, d) ∉
              s.save_in.flatMap (fun var => var.dofIndices.map (fun d => (var.sys, d))) →
            (computeResidual f s).st.solution sys d = s.solution sys d)))) ∧
    ((s.has_save_in = false ∨ s.save_in = []) →
      (computeResidual f s).st.solution = s.solution) := by
  refine ⟨fun h => ?_, computeResidual_no_save_in f s⟩
  obtain ⟨r2, ha, hsz, hent, hblk, hsol, heq⟩ :=
    computeResidual_unfold_solution f s (le_of_eq h.symm)
  have hfr := Run.addVector_frame (fun r => r.st.local_re) s.save_in r2
  have hloc : (computeResidual f s).st.local_re = r2.st.local_re := by
    rw [heq]; split_ifs
    · exact hfr.1
    · rfl
  have hres : (computeResidual f s).st.residualBlock = r2.st.residualBlock := by
    rw [heq]; split_ifs
    · exact hfr.2.2.1
    · rfl
  have hsize : r2.st.local_re.size = s.test_size := by rw [hsz, h]
  refine ⟨?_, ?_⟩
  · intro i hi
    rw [hres, hblk, hloc]
    simp [DenseVector.addVec, hi, h]
  · intro hs hl
    have hl' : ∀ var ∈ s.save_in, var.dofIndices.length = r2.st.local_re.size := by
      intro var hv; rw [hsize]; exact hl var hv
    obtain ⟨hab, hfold⟩ := Run.addVector_fold_solution r2.st.local_re s.save_in r2 ha hl'
    have hrun : computeResidual f s =
        s.save_in.foldl (fun q var => q.addVector r2.st.local_re var) r2 := by
      rw [heq, if_pos hs, Run.addVector_fold_local]
    have hkeys := contributions_keys r2.st.local_re s.save_in hl'
    refine ⟨by rw [hrun]; exact hab, ?_, fun hnd => ⟨?_, ?_⟩⟩
    · intro sys d
      rw [hloc, hrun, hfold, hsol]
    · intro var hv i hi
      rw [hloc, hrun, hfold, hsol]
      have hm := mem_contributions r2.st.local_re s.save_in var hv i (by rw [hsize]; exact hi)
      rw [contributionAt_of_mem _ (by rw [hkeys]; exact hnd) _ hm]
    · intro sys d hnot
      rw [hrun, hfold, hsol,
        contributionAt_of_not_mem _ sys d (by rw [hkeys]; exact hnot), add_zero]


/-- C21, counterexample.  On the sample element state the local buffer ends as `[27, 42]`.
With a save-in target of three degree-of-freedom indices the residual block grows to
`[37, 62]`, but `add_vector` aborts and no solution entry changes.  With a save-in target
whose two indices are both 3, solution entry 3 grows by 69, the sum of both buffer
entries, not by `local(0)` or `local(1)`.  With three test functions on the block of two
entries the call aborts before the scatter. -/
theorem computeResidual_save_in_counterexample :
    (computeResidual sampleQp sampleKernel).st.local_re.entry 0 = 27 ∧
    (computeResidual sampleQp sampleKernel).st.local_re.entry 1 = 42 ∧
    sampleLongTarget.dofIndices = [3, 5, 7] ∧
    ((computeResidual sampleQp
      { sampleKernel with save_in := [sampleLongTarget] }).st.residualBlock 0).entry 0 = 37 ∧
    ((computeResidual sampleQp
      { sampleKernel with save_in := [sampleLongTarget] }).st.residualBlock 0).entry 1 = 62 ∧
    (computeResidual sampleQp
      { sampleKernel with save_in := [sampleLongTarget] }).aborted = true ∧
    (computeResidual sampleQp
      { sampleKernel with save_in := [sampleLongTarget] }).st.solution 1 3 = 0 ∧
    (computeResidual sampleQp
      { sampleKernel with save_in := [sampleLongTarget] }).st.solution 1 5 = 0 ∧
    (computeResidual sampleQp
      { sampleKernel with save_in := [sampleLongTarget] }).st.solution 1 7 = 0 ∧
    sampleRepeatTarget.dofIndices = [3, 3] ∧
    (computeResidual sampleQp
      { sampleKernel with save_in := [sampleRepeatTarget] }).aborted = false ∧
    (computeResidual sampleQp
      { sampleKernel with save_in := [sampleRepeatTarget] }).st.solution 1 3 = 69 ∧
    (sampleKernel.residualBlock sampleKernel.var.number).size = 2 ∧
    (computeResidual sampleQp { sampleKernel with test_size := 3 }).aborted = true ∧
    (computeResidual sampleQp { sampleKernel with test_size := 3 }).st.solution 1 3 = 0 ∧
    (computeResidual sampleQp { sampleKernel with test_size := 3 }).st.solution 1 5 = 0 := by
  decide

/-- On the sample element state the save-in target `s` has the indices 3 and 5 in system
1, and `_local_re(1)` is 42: entry 5 of that solution vector grows from 0 by
`_local_re(1)`. -/
theorem computeResidual_save_in_witness :
    (sampleKernel.residualBlock sampleKernel.var.number).size = sampleKernel.test_size ∧
    sampleKernel.has_save_in = true ∧
    sampleKernel.save_in = [sampleField "s" 0 .VAR_AUXILIARY true .standard] ∧
    (computeResidual sampleQp sampleKernel).st.local_re.entry 1 = 42 ∧
    (computeResidual sampleQp sampleKernel).st.solution 1 5 =
      0 + (computeResidual sampleQp sampleKernel).st.local_re.entry 1 :=
  ⟨rfl, rfl, rfl, by decide,
    ((((computeResidual_save_in sampleQp sampleKernel).1 rfl).2 rfl (by decide)).2.2
      (by decide)).1 (sampleField "s" 0 .VAR_AUXILIARY true .standard) (by decide) 1
      (by decide)⟩

/-! ## The diagonal save-in scatter -/

theorem Run.extractDiag_fold_eq {R : Type} [CommRing R] (r : Run R) (z : DenseVector R)
    (k : Nat) (ha : r.aborted = false) (hm : k ≤ r.st.local_ke.m) (hn : k ≤ r.st.local_ke.n) :
    (List.range k).foldl
      (fun (p : Run R × DenseVector R) i =>
        if p.1.aborted then p
        else if i < p.1.st.local_ke.m ∧ i < p.1.st.local_ke.n then
          (p.1, { p.2 with entry := Function.update p.2.entry i (p.1.st.local_ke.entry i i) })
        else ({ p.1 with aborted := true }, p.2))
      (r, z) =
    (r, { z with entry := fun i => if i < k then r.st.local_ke.entry i i else z.entry i }) := by
  induction k with
  | zero => simp
  | succ k ih =>
    rw [List.range_succ, List.foldl_append, ih (by omega) (by omega)]
    simp only [List.foldl_cons, List.foldl_nil, ha, Bool.false_eq_true, if_false]
    have hk : k < r.st.local_ke.m ∧ k < r.st.local_ke.n := ⟨by omega, by omega⟩
    rw [if_pos hk]
    congr 2
    funext i
    by_cases h : i = k
    · subst h; simp
    · have : (i < k + 1) = (i < k) := by
        apply propext; omega
      simp [Function.update_apply, h, this]

/-- The diagonal vector, when every diagonal index below `rows` lies inside `_local_ke`. -/
theorem Run.extractDiag_eq {R : Type} [CommRing R] (r : Run R) (rows : Nat)
    (ha : r.aborted = false) (hm : rows ≤ r.st.local_ke.m) (hn : rows ≤ r.st.local_ke.n) :
    r.extractDiag rows =
      (r, { size := rows, entry := fun i => if i < rows then r.st.local_ke.entry i i else 0 }) := by
  unfold Run.extractDiag
  rw [Run.extractDiag_fold_eq r _ rows ha hm hn]
  rfl

/-- Vectors of one size with the same entries below it make the same contributions. -/
theorem contributions_congr {R : Type} (v w : DenseVector R) (l : List MooseVariableFE)
    (hs : v.size = w.size) (he : ∀ i, i < v.size → v.entry i = w.entry i) :
    contributions v l = contributions w l := by
  unfold contributions
  rw [← hs]
  congr 1
  funext var
  apply List.map_congr_left
  intro k hk
  rw [he k (List.mem_range.mp hk)]

/-- The run of `computeJacobian` up to and including `ke += _local_ke`, with what it
leaves of the solution vectors. -/
theorem computeJacobian_unfold_solution {R : Type} [CommRing R] (f : QpFunctions R)
    (s : KernelValue R)
    (hm : s.test_size ≤ (s.jacobianBlock s.var.number s.var.number).m)
    (hn : s.phi_size ≤ (s.jacobianBlock s.var.number s.var.number).n) :
    ∃ r2 : Run R,
      r2.aborted = false ∧
      r2.st.local_ke.m = (s.jacobianBlock s.var.number s.var.number).m ∧
      r2.st.local_ke.n = (s.jacobianBlock s.var.number s.var.number).n ∧
      (∀ a b, r2.st.local_ke.entry a b = if a < s.test_size ∧ b < s.phi_size then
          ∑ qp in Finset.range s.n_points,
            f.precomputeQpJacobian qp b * s.JxW qp * s.coord qp * s.test a qp
        else 0) ∧
      (r2.st.jacobianBlock s.var.number s.var.number).m =
        (s.jacobianBlock s.var.number s.var.number).m ∧
      r2.st.solution = s.solution ∧
      computeJacobian f s =
        if s.has_diag_save_in then
          s.diag_save_in.foldl
            (fun r var => r.addVector
              (r2.extractDiag (r2.st.jacobianBlock s.var.number s.var.number).m).2 var)
            (r2.extractDiag (r2.st.jacobianBlock s.var.number s.var.number).m).1
        else r2 := by
  have key := Run.jacobian_outer
    (fun qp j => f.precomputeQpJacobian qp j * s.JxW qp * s.coord qp) s.test s.test_size
    s.phi_size s.n_points (KernelValue.startJacobian s) rfl
    (by simpa [KernelValue.startJacobian, DenseMatrix.zeroed] using hm)
    (by simpa [KernelValue.startJacobian, DenseMatrix.zeroed] using hn)
  simp only [KernelValue.startJacobian, DenseMatrix.zeroed, zero_add] at key
  refine ⟨((KernelValue.startJacobian s).withLocalKe
      (fun a b => if a < s.test_size ∧ b < s.phi_size then
          ∑ qp in Finset.range s.n_points,
            f.precomputeQpJacobian qp b * s.JxW qp * s.coord qp * s.test a qp
        else 0)).jacobianAddLocal s.var.number s.var.number, ?_, ?_, ?_, ?_, ?_, ?_, ?_⟩
  · simp [Run.jacobianAddLocal, Run.withLocalKe, DenseMatrix.zeroed,
      KernelValue.startJacobian]
  · simp [Run.jacobianAddLocal, Run.withLocalKe, DenseMatrix.zeroed,
      KernelValue.setJacobianBlock, KernelValue.startJacobian]
  · simp [Run.jacobianAddLocal, Run.withLocalKe, DenseMatrix.zeroed,
      KernelValue.setJacobianBlock, KernelValue.startJacobian]
  · intro a b
    simp [Run.jacobianAddLocal, Run.withLocalKe, DenseMatrix.zeroed,
      KernelValue.setJacobianBlock, KernelValue.startJacobian]
  · simp [Run.jacobianAddLocal, Run.withLocalKe, DenseMatrix.zeroed,
      KernelValue.setJacobianBlock, KernelValue.startJacobian, DenseMatrix.addMat]
  · simp [Run.jacobianAddLocal, Run.withLocalKe, DenseMatrix.zeroed,
      KernelValue.setJacobianBlock, KernelValue.startJacobian]
  · simp only [computeJacobian, DenseMatrix.zeroed, KernelValue.startJacobian]
    rw [key]


/-- C27, as amended.  `KernelValue::computeJacobian`, in every element state whose diagonal block of
the kernel's variable is `n_test x n_phi` with at least as many columns as rows, in
particular a square one.  When diagonal save-in targets are configured, each with as many
degree-of-freedom indices as the block has rows, the call does not abort, and every
solution entry grows by the sum, over the targets and row indices `i` whose `i`-th
degree-of-freedom index it is, of the diagonal entry
`local(i, i) = sum_qp precomputeQpJacobian(qp, i) * JxW[qp] * coord[qp] * test[i][qp]` of
the matrix accumulated in this call; the entries of the global block do not enter.  So,
when the targets' indices are pairwise different, the entry at the `i`-th index of a
target grows by `local(i, i)` and every other solution entry is unchanged.  When no
diagonal save-in target is configured, no solution vector changes, in every element
state. -/
theorem computeJacobian_diag_save_in {R : Type} [CommRing R] (f : QpFunctions R)
    (s : KernelValue R) :
    ((s.jacobianBlock s.var.number s.var.number).m = s.test_size →
      (s.jacobianBlock s.var.number s.var.number).n = s.phi_size →
      s.test_size ≤ s.phi_size →
      s.has_diag_save_in = true →
      (∀ var ∈ s.diag_save_in, var.dofIndices.length = s.test_size) →
      (computeJacobian f s).aborted = false ∧
      (∀ i, i < s.test_size →
        (computeJacobian f s).st.local_ke.entry i i =
          ∑ qp in Finset.range s.n_points,
            f.precomputeQpJacobian qp i * s.JxW qp * s.coord qp * s.test i qp) ∧
      (∀ sys d, (computeJacobian f s).st.solution sys d =
        s.solution sys d +
          contributionAt (contributions
            { size := s.test_size
              entry := fun i => ∑ qp in Finset.range s.n_points,
                f.precomputeQpJacobian qp i * s.JxW qp * s.coord qp * s.test i qp }
            s.diag_save_in) sys d) ∧
      ((s.diag_save_in.flatMap (fun var => var.dofIndices.map (fun d => (var.sys, d)))).Nodup →
        (∀ var ∈ s.diag_save_in, ∀ i, i < s.test_size →
          (computeJacobian f s).st.solution var.sys (var.dofIndices.getD i 0) =
            s.solution var.sys (var.dofIndices.getD i 0) +
              ∑ qp in Finset.range s.n_points,
                f.precomputeQpJacobian qp i * s.JxW qp * s.coord qp * s.test i qp) ∧
        (∀ sys d,
          (sys, d) ∉
            s.diag_save_in.flatMap (fun var => var.dofIndices.map (fun d => (var.sys, d))) →
          (computeJacobian f s).st.solution sys d = s.solution sys d))) ∧
    ((s.has_diag_save_in = false ∨ s.diag_save_in = []) →
      (computeJacobian f s).st.solution = s.solution) := by
  refine ⟨fun hm hn hsq => ?_, computeJacobian_no_diag_save_in f s⟩
  obtain ⟨r2, ha, hlm, hln, hent, hrows, hsol, heq⟩ :=
    computeJacobian_unfold_solution f s (le_of_eq hm.symm) (le_of_eq hn.symm)
  have hr : (r2.st.jacobianBlock s.var.number s.var.number).m = s.test_size := by
    rw [hrows, hm]
  rw [hr] at heq
  have hdiag := Run.extractDiag_eq r2 s.test_size ha (by rw [hlm, hm])
    (by rw [hln, hn]; exact hsq)
  rw [hdiag] at heq
  simp only at heq
  have hcon : ∀ l : List MooseVariableFE,
      contributions
        ({ size := s.test_size
           entry := fun i => if i < s.test_size then r2.st.local_ke.entry i i else 0 } :
          DenseVector R) l =
      contributions
        ({ size := s.test_size
           entry := fun i => ∑ qp in Finset.range s.n_points,
             f.precomputeQpJacobian qp i * s.JxW qp * s.coord qp * s.test i qp } :
          DenseVector R) l := by
    intro l
    refine contributions_congr _ _ l (by rfl) ?_
    intro i hi
    have hi' : i < s.test_size := hi
    have hi2 : i < s.phi_size := by omega
    simp only [hi', if_true, hent, hi2, and_self]
  have hfr := Run.addVector_frame
    (fun _ => ({ size := s.test_size
                 entry := fun i => if i < s.test_size then r2.st.local_ke.entry i i else 0 } :
                DenseVector R))
    s.diag_save_in r2
  intro hs hl
  obtain ⟨hab, hfold⟩ := Run.addVector_fold_solution
    ({ size := s.test_size
       entry := fun i => if i < s.test_size then r2.st.local_ke.entry i i else 0 } :
      DenseVector R) s.diag_save_in r2 ha hl
  have hkeys := contributions_keys
    ({ size := s.test_size
       entry := fun i => ∑ qp in Finset.range s.n_points,
         f.precomputeQpJacobian qp i * s.JxW qp * s.coord qp * s.test i qp } :
      DenseVector R) s.diag_save_in hl
  rw [if_pos hs] at heq
  refine ⟨by rw [heq]; exact hab, ?_, ?_, fun hnd => ⟨?_, ?_⟩⟩
  · intro i hi
    have hi2 : i < s.phi_size := by omega
    rw [heq, hfr.2.1, hent]
    simp [hi, hi2]
  · intro sys d
    rw [heq, hfold, hsol, hcon]
  · intro var hv i hi
    rw [heq, hfold, hsol, hcon]
    have hmem := mem_contributions
      ({ size := s.test_size
         entry := fun i => ∑ qp in Finset.range s.n_points,
           f.precomputeQpJacobian qp i * s.JxW qp * s.coord qp * s.test i qp } :
        DenseVector R) s.diag_save_in var hv i hi
    rw [contributionAt_of_mem _ (by rw [hkeys]; exact hnd) _ hmem]
  · intro sys d hnot
    rw [heq, hfold, hsol, hcon,
      contributionAt_of_not_mem _ sys d (by rw [hkeys]; exact hnot), add_zero]

/-- C27, counterexample.  On the sample element state the diagonal block is 2 x 2 and the
matrix accumulated by the call has the diagonal `[27, 66]`.  With a diagonal save-in
target of three degree-of-freedom indices `add_vector` aborts and no solution entry
changes.  With a target whose two indices are both 3, solution entry 3 grows by 93, the
sum of both diagonal entries.  With three test functions on the square 2 x 2 block the
call aborts before the scatter. -/
theorem computeJacobian_diag_save_in_counterexample :
    (sampleKernel.jacobianBlock sampleKernel.var.number sampleKernel.var.number).m = 2 ∧
    (sampleKernel.jacobianBlock sampleKernel.var.number sampleKernel.var.number).n = 2 ∧
    (computeJacobian sampleQp sampleKernel).st.local_ke.entry 0 0 = 27 ∧
    (computeJacobian sampleQp sampleKernel).st.local_ke.entry 1 1 = 66 ∧
    sampleLongTarget.dofIndices = [3, 5, 7] ∧
    (computeJacobian sampleQp
      { sampleKernel with diag_save_in := [sampleLongTarget] }).aborted = true ∧
    (computeJacobian sampleQp
      { sampleKernel with diag_save_in := [sampleLongTarget] }).st.solution 1 3 = 0 ∧
    (computeJacobian sampleQp
      { sampleKernel with diag_save_in := [sampleLongTarget] }).st.solution 1 5 = 0 ∧
    (computeJacobian sampleQp
      { sampleKernel with diag_save_in := [sampleLongTarget] }).st.solution 1 7 = 0 ∧
    sampleRepeatTarget.dofIndices = [3, 3] ∧
    (computeJacobian sampleQp
      { sampleKernel with diag_save_in := [sampleRepeatTarget] }).aborted = false ∧
    (computeJacobian sampleQp
      { sampleKernel with diag_save_in := [sampleRepeatTarget] }).st.solution 1 3 = 93 ∧
    (computeJacobian sampleQp { sampleKernel with test_size := 3 }).aborted = true ∧
    (computeJacobian sampleQp { sampleKernel with test_size := 3 }).st.solution 1 3 = 0 ∧
    (computeJacobian sampleQp { sampleKernel with test_size := 3 }).st.solution 1 5 = 0 := by
  decide

/-- On the sample element state the block is 2 x 2, the diagonal save-in target `d` has
the indices 3 and 5 in system 1, and `local(1, 1)` is 66: entry 5 of that solution vector
grows from 0 by 66. -/
theorem computeJacobian_diag_save_in_witness :
    (sampleKernel.jacobianBlock sampleKernel.var.number sampleKernel.var.number).m =
      sampleKernel.test_size ∧
    (sampleKernel.jacobianBlock sampleKernel.var.number sampleKernel.var.number).n =
      sampleKernel.phi_size ∧
    sampleKernel.test_size ≤ sampleKernel.phi_size ∧
    sampleKernel.has_diag_save_in = true ∧
    sampleKernel.diag_save_in = [sampleField "d" 1 .VAR_AUXILIARY true .standard] ∧
    (computeJacobian sampleQp sampleKernel).st.solution 1 5 = 0 + 66 :=
  ⟨rfl, rfl, by decide, rfl, rfl,
    ((((computeJacobian_diag_save_in sampleQp sampleKernel).1 rfl rfl (by decide) rfl
      (by decide)).2.2.2 (by decide)).1 (sampleField "d" 1 .VAR_AUXILIARY true .standard)
      (by decide) 1 (by decide)).trans (by decide)⟩


/-! ## Kernels without a contribution -/

theorem DenseVector.addVec_zero {R : Type} [CommRing R] (v w : DenseVector R)
    (hw : ∀ i, w.entry i = 0) : v.addVec w = v := by
  cases v
  simp [DenseVector.addVec, hw]

theorem DenseMatrix.addMat_zero {R : Type} [CommRing R] (a b : DenseMatrix R)
    (hb : ∀ i j, b.entry i j = 0) : a.addMat b = a := by
  cases a
  simp [DenseMatrix.addMat, hb]

theorem scatter_zero {R : Type} [CommRing R] (sol : Nat → R) (v : DenseVector R)
    (dofIndices : List Nat) (hv : ∀ i, v.entry i = 0) : scatter sol v dofIndices = sol := by
  funext d
  unfold scatter
  rw [scatter_fold]
  simp [hv]

theorem Run.localReAdd_zero {R : Type} [CommRing R] (s : KernelValue R) (r : Run R) (i : Nat)
    (h : r.Untouched s ∧ ∀ k, r.st.local_re.entry k = 0) :
    (r.localReAdd i 0).Untouched s ∧ ∀ k, (r.localReAdd i 0).st.local_re.entry k = 0 := by
  unfold Run.localReAdd
  split_ifs
  · exact h
  · refine ⟨h.1, fun k => ?_⟩
    simp only [DenseVector.addAt, add_zero, Function.update_apply]
    split_ifs <;> exact h.2 _
  · exact h

theorem Run.localKeAdd_zero {R : Type} [CommRing R] (s : KernelValue R) (r : Run R) (i j : Nat)
    (h : r.Untouched s ∧ ∀ a b, r.st.local_ke.entry a b = 0) :
    (r.localKeAdd i j 0).Untouched s ∧ ∀ a b, (r.localKeAdd i j 0).st.local_ke.entry a b = 0 := by
  unfold Run.localKeAdd
  split_ifs
  · exact h
  · refine ⟨h.1, fun a b => ?_⟩
    simp only [DenseMatrix.addAt, add_zero, Function.update_eq_self]
    exact h.2 a b
  · exact h

theorem Run.residualAddLocal_zero {R : Type} [CommRing R] (s : KernelValue R) (r : Run R)
    (ivar : Nat) (h : r.Untouched s ∧ ∀ k, r.st.local_re.entry k = 0) :
    (r.residualAddLocal ivar).Untouched s ∧
      ∀ k, (r.residualAddLocal ivar).st.local_re.entry k = 0 := by
  unfold Run.residualAddLocal
  split_ifs
  · exact h
  · refine ⟨⟨?_, h.1.2.1, h.1.2.2⟩, h.2⟩
    simp only [KernelValue.setResidualBlock, DenseVector.addVec_zero _ _ h.2,
      Function.update_eq_self]
    exact h.1.1
  · exact h

theorem Run.jacobianAddLocal_zero {R : Type} [CommRing R] (s : KernelValue R) (r : Run R)
    (ivar jvar : Nat) (h : r.Untouched s ∧ ∀ a b, r.st.local_ke.entry a b = 0) :
    (r.jacobianAddLocal ivar jvar).Untouched s ∧
      ∀ a b, (r.jacobianAddLocal ivar jvar).st.local_ke.entry a b = 0 := by
  unfold Run.jacobianAddLocal
  split_ifs
  · exact h
  · refine ⟨⟨h.1.1, ?_, h.1.2.2⟩, h.2⟩
    simp only [KernelValue.setJacobianBlock, DenseMatrix.addMat_zero _ _ h.2,
      Function.update_eq_self]
    exact h.1.2.1
  · exact h

theorem Run.addVector_zero {R : Type} [CommRing R] (s : KernelValue R) (r : Run R)
    (v : DenseVector R) (var : MooseVariableFE) (hv : ∀ i, v.entry i = 0)
    (h : r.Untouched s) : (r.addVector v var).Untouched s := by
  unfold Run.addVector
  split_ifs
  · exact h
  · refine ⟨h.1, h.2.1, ?_⟩
    simp only [scatter_zero _ _ _ hv, Function.update_eq_self]
    exact h.2.2
  · exact h


/-- With zero per-point functions `computeResidual` leaves the blocks and the solution
vectors as they were, whether or not it aborts. -/
theorem computeResidual_untouched {R : Type} [CommRing R] (f : QpFunctions R)
    (s : KernelValue R) (hres : ∀ qp, f.precomputeQpResidual qp = 0) :
    (computeResidual f s).Untouched s := by
  unfold computeResidual
  simp only [hres, zero_mul]
  have h1 := foldl_keeps
    (fun r : Run R => r.Untouched s ∧ ∀ k, r.st.local_re.entry k = 0)
    (fun r (_ : Nat) => (List.range s.test_size).foldl (fun r i => r.localReAdd i 0) r)
    (fun r _ hr => foldl_keeps _ _ (fun q i hq => Run.localReAdd_zero s q i hq) _ r hr)
    (List.range s.n_points)
    { st := { s with local_re := DenseVector.zeroed (s.residualBlock s.var.number).size },
      aborted := false }
    ⟨⟨rfl, rfl, rfl⟩, fun _ => rfl⟩
  have h2 := Run.residualAddLocal_zero s _ s.var.number h1
  split_ifs
  · exact (foldl_keeps
      (fun r : Run R => r.Untouched s ∧ ∀ k, r.st.local_re.entry k = 0)
      (fun r var => r.addVector r.st.local_re var)
      (fun r var hr => ⟨Run.addVector_zero s r _ var hr.2 hr.1, by
        have : (r.addVector r.st.local_re var).st.local_re = r.st.local_re := by
          unfold Run.addVector
          split_ifs <;> rfl
        rw [this]; exact hr.2⟩)
      s.save_in _ h2).1
  · exact h2.1


/-- The diagonal of a zero matrix is a zero vector, whether or not extracting it aborts. -/
theorem Run.extractDiag_zero {R : Type} [CommRing R] (r : Run R) (rows : Nat)
    (h : ∀ a b, r.st.local_ke.entry a b = 0) :
    (r.extractDiag rows).1.st = r.st ∧ ∀ i, (r.extractDiag rows).2.entry i = 0 := by
  unfold Run.extractDiag
  refine foldl_keeps
    (fun p : Run R × DenseVector R => p.1.st = r.st ∧ ∀ i, p.2.entry i = 0) _ ?_ _ _
    ⟨rfl, fun _ => rfl⟩
  intro p i hp
  split_ifs
  · exact hp
  · refine ⟨hp.1, fun k => ?_⟩
    simp only [Function.update_apply]
    split_ifs
    · rw [hp.1]; exact h i i
    · exact hp.2 k
  · exact hp

/-- With zero per-point functions `computeJacobian` leaves the blocks and the solution
vectors as they were, whether or not it aborts. -/
theorem computeJacobian_untouched {R : Type} [CommRing R] (f : QpFunctions R)
    (s : KernelValue R) (hjac : ∀ qp j, f.precomputeQpJacobian qp j = 0) :
    (computeJacobian f s).Untouched s := by
  unfold computeJacobian
  simp only [hjac, zero_mul]
  have h1 := foldl_keeps
    (fun r : Run R => r.Untouched s ∧ ∀ a b, r.st.local_ke.entry a b = 0)
    (fun r (_ : Nat) => (List.range s.phi_size).foldl
      (fun r j => (List.range s.test_size).foldl (fun r i => r.localKeAdd i j 0) r) r)
    (fun r _ hr => foldl_keeps _ _
      (fun q j hq => foldl_keeps _ _ (fun q' i hq' => Run.localKeAdd_zero s q' i j hq') _ q hq)
      _ r hr)
    (List.range s.n_points)
    (KernelValue.startJacobian s) ⟨⟨rfl, rfl, rfl⟩, fun _ _ => rfl⟩
  have h2 := Run.jacobianAddLocal_zero s _ s.var.number s.var.number h1
  split_ifs
  · obtain ⟨e1, e2⟩ := Run.extractDiag_zero _ _ h2.2
    refine foldl_keeps (fun r : Run R => r.Untouched s) _
      (fun r var hr => Run.addVector_zero s r _ var e2 hr) s.diag_save_in _ ?_
    exact ⟨(congrArg KernelValue.residualBlock e1).trans h2.1.1,
      (congrArg KernelValue.jacobianBlock e1).trans h2.1.2.1,
      (congrArg KernelValue.solution e1).trans h2.1.2.2⟩
  · exact h2.1

/-- C22, as amended.  For every element state, with a per-point residual function that
returns zero and the default per-point Jacobian function of the class, which returns zero:
`computeResidual` leaves the global residual blocks and `computeJacobian` leaves the
global Jacobian blocks as they were, and neither changes a solution vector.
`computeResidual` does not abort when the residual block of the kernel's variable has as
many entries as there are test functions and every save-in target, if any is configured,
has as many degree-of-freedom indices; `computeJacobian` does not abort when the diagonal
block is `n_test x n_phi` and, if diagonal save-in targets are configured, it has at least
as many columns as rows and every target has as many degree-of-freedom indices as it has
rows. -/
theorem zero_functions_no_contribution {R : Type} [CommRing R] (f : QpFunctions R)
    (s : KernelValue R) (hres : ∀ qp, f.precomputeQpResidual qp = 0)
    (hjac : ∀ qp j, f.precomputeQpJacobian qp j = precomputeQpJacobian qp j) :
    (computeResidual f s).st.residualBlock = s.residualBlock ∧
    (computeResidual f s).st.solution = s.solution ∧
    (computeJacobian f s).st.jacobianBlock = s.jacobianBlock ∧
    (computeJacobian f s).st.solution = s.solution ∧
    ((s.residualBlock s.var.number).size = s.test_size →
      (s.has_save_in = true → ∀ var ∈ s.save_in, var.dofIndices.length = s.test_size) →
      (computeResidual f s).aborted = false) ∧
    ((s.jacobianBlock s.var.number s.var.number).m = s.test_size →
      (s.jacobianBlock s.var.number s.var.number).n = s.phi_size →
      (s.has_diag_save_in = true →
        s.test_size ≤ s.phi_size ∧
          ∀ var ∈ s.diag_save_in, var.dofIndices.length = s.test_size) →
      (computeJacobian f s).aborted = false) := by
  have hr := computeResidual_untouched f s hres
  have hj := computeJacobian_untouched f s (fun qp j => by rw [hjac]; rfl)
  refine ⟨hr.1, hr.2.2, hj.2.1, hj.2.2, ?_, ?_⟩
  · intro h hl
    obtain ⟨r2, ha, hsz, _, _, heq⟩ := computeResidual_unfold f s (le_of_eq h.symm)
    rw [heq]
    by_cases hs : s.has_save_in = true
    · rw [if_pos hs, Run.addVector_aborted, ha, Bool.false_or, List.any_eq_false]
      intro var hv
      simp only [decide_eq_true_eq, not_not, hsz, h]
      exact (hl hs var hv).symm
    · simp [hs, ha]
  · intro hm hn hl
    obtain ⟨r2, ha, hlm, hln, _, hblk, heq⟩ :=
      computeJacobian_unfold f s (le_of_eq hm.symm) (le_of_eq hn.symm)
    have hrows : (r2.st.jacobianBlock s.var.number s.var.number).m = s.test_size := by
      rw [hblk]; simpa [DenseMatrix.addMat] using hm
    rw [heq]
    by_cases hs : s.has_diag_save_in = true
    · obtain ⟨hle, hlen⟩ := hl hs
      obtain ⟨_, hd2, hd3⟩ :=
        Run.extractDiag_spec r2 (r2.st.jacobianBlock s.var.number s.var.number).m
      rw [if_pos hs, Run.addVector_const_aborted, hd3, hd2, ha, hrows, hlm, hln, hm, hn]
      simp only [Bool.false_or, Bool.or_eq_false_iff, Bool.not_eq_false', decide_eq_true_eq,
        List.any_eq_false, not_not]
      exact ⟨⟨le_refl _, hle⟩, fun var hv => (hlen var hv).symm⟩
    · simp [hs, ha]

/-- C22, counterexample.  The sample element state with three test functions instead of
two has a residual block of two entries and a 2 x 2 diagonal block.  With zero per-point
functions `computeResidual` and `computeJacobian` abort there, on the first access to
index 2 of the local buffer. -/
theorem zero_functions_counterexample :
    (∀ qp, sampleDefaultQp.precomputeQpResidual qp = 0) ∧
    (∀ qp j, sampleDefaultQp.precomputeQpJacobian qp j = 0) ∧
    (computeResidual sampleDefaultQp { sampleKernel with test_size := 3 }).aborted = true ∧
    (computeJacobian sampleDefaultQp { sampleKernel with test_size := 3 }).aborted = true :=
  ⟨fun _ => rfl, fun _ _ => rfl, by decide, by decide⟩

/-- On the sample element state, whose blocks and save-in targets have matching sizes, the
calls with zero per-point functions do not abort and leave the residual blocks and the
Jacobian blocks as they were. -/
theorem zero_functions_no_contribution_witness :
    (∀ qp, sampleDefaultQp.precomputeQpResidual qp = 0) ∧
    (computeResidual sampleDefaultQp sampleKernel).st.residualBlock =
      sampleKernel.residualBlock ∧
    (computeJacobian sampleDefaultQp sampleKernel).st.jacobianBlock =
      sampleKernel.jacobianBlock ∧
    (computeResidual sampleDefaultQp sampleKernel).aborted = false ∧
    (computeJacobian sampleDefaultQp sampleKernel).aborted = false :=
  ⟨fun _ => rfl,
    (zero_functions_no_contribution sampleDefaultQp sampleKernel (fun _ => rfl)
      (fun _ _ => rfl)).1,
    (zero_functions_no_contribution sampleDefaultQp sampleKernel (fun _ => rfl)
      (fun _ _ => rfl)).2.2.1,
    (zero_functions_no_contribution sampleDefaultQp sampleKernel (fun _ => rfl)
      (fun _ _ => rfl)).2.2.2.2.1 rfl (fun _ => by decide),
    (zero_functions_no_contribution sampleDefaultQp sampleKernel (fun _ => rfl)
      (fun _ _ => rfl)).2.2.2.2.2 rfl rfl (fun _ => ⟨by decide, by decide⟩)⟩



/-! ## The callback, accessor by accessor -/

/-- C24, as amended.  For every object, coupling name and component: a call of an accessor
other than `coupledDot`, `coupledVectorDot` and `coupledDotDu` that returns an array of a
coupled variable has called `coupledCallback` exactly once, for that coupling name: with
`is_old` false for the current-state accessors, and with `is_old` true for the `Old`, the
`Older` and the `PreviousNL` accessors. -/
theorem callback_spec {R : Type} [CommRing R] (c : Coupleable R) (name : String) (comp : Nat)
    (var : MooseVariableFE) (a : FieldArray) :
    (∀ acc ∈ ([coupledValue, writableCoupledValue, coupledVectorValue, coupledGradient,
        coupledGradientDot, coupledCurl, coupledSecond, coupledNodalValue, coupledNodalDot,
        coupledSolutionDoFs] : List (String → Nat → Acc R ArrayRef)),
      ((acc name comp).run c).1 = .ok (.var var a) →
        ((acc name comp).run c).2.callbacks = c.callbacks ++ [(name, false)]) ∧
    (∀ acc ∈ ([coupledValueOld, coupledValueOlder, coupledValuePreviousNL,
        coupledVectorValueOld, coupledVectorValueOlder, coupledGradientOld,
        coupledGradientOlder, coupledGradientPreviousNL, coupledCurlOld, coupledCurlOlder,
        coupledSecondOld, coupledSecondOlder, coupledSecondPreviousNL, coupledNodalValueOld,
        coupledNodalValueOlder, coupledNodalValuePreviousNL, coupledSolutionDoFsOld,
        coupledSolutionDoFsOlder] : List (String → Nat → Acc R ArrayRef)),
      ((acc name comp).run c).1 = .ok (.var var a) →
        ((acc name comp).run c).2.callbacks = c.callbacks ++ [(name, true)]) := by
  constructor
  · intro acc hacc h
    simp only [List.mem_cons, List.mem_singleton, List.not_mem_nil, or_false] at hacc
    rcases hacc with rfl | rfl | rfl | rfl | rfl | rfl | rfl | rfl | rfl | rfl
    · exact callback_current_a c name comp var a _ (by simp) h
    · exact callback_current_a c name comp var a _ (by simp) h
    · exact callback_current_a c name comp var a _ (by simp) h
    · exact callback_current_a c name comp var a _ (by simp) h
    · exact callback_current_a c name comp var a _ (by simp) h
    · exact callback_current_b c name comp var a _ (by simp) h
    · exact callback_current_b c name comp var a _ (by simp) h
    · exact callback_current_b c name comp var a _ (by simp) h
    · exact callback_current_b c name comp var a _ (by simp) h
    · exact callback_current_b c name comp var a _ (by simp) h
  · intro acc hacc h
    simp only [List.mem_cons, List.mem_singleton, List.not_mem_nil, or_false] at hacc
    rcases hacc with rfl | rfl | rfl | rfl | rfl | rfl | rfl | rfl | rfl | rfl | rfl | rfl |
      rfl | rfl | rfl | rfl | rfl | rfl
    · exact callback_old_a c name comp var a _ (by simp) h
    · exact callback_old_a c name comp var a _ (by simp) h
    · exact callback_old_a c name comp var a _ (by simp) h
    · exact callback_old_a c name comp var a _ (by simp) h
    · exact callback_old_a c name comp var a _ (by simp) h
    · exact callback_old_a c name comp var a _ (by simp) h
    · exact callback_old_b c name comp var a _ (by simp) h
    · exact callback_old_b c name comp var a _ (by simp) h
    · exact callback_old_b c name comp var a _ (by simp) h
    · exact callback_old_b c name comp var a _ (by simp) h
    · exact callback_old_b c name comp var a _ (by simp) h
    · exact callback_old_b c name comp var a _ (by simp) h
    · exact callback_old_c c name comp var a _ (by simp) h
    · exact callback_old_c c name comp var a _ (by simp) h
    · exact callback_old_c c name comp var a _ (by simp) h
    · exact callback_old_c c name comp var a _ (by simp) h
    · exact callback_old_c c name comp var a _ (by simp) h
    · exact callback_old_c c name comp var a _ (by simp) h

/-- C24, counterexample.  On the sample object the coupling `u` resolved to the standard
field variable `aux1`, and no callback has been recorded.  `coupledDot("u", 0)`,
`coupledDotDu("u", 0)` and, on the vector variable of `v`, `coupledVectorDot("v", 1)` return
an array of the variable and record no callback; `coupledValuePreviousNL("u", 0)`, which
asks for no `Old` or `Older` state, records the callback with `is_old` true. -/
theorem callback_counterexample :
    (sampleObject .rhsFirst false).callbacks = [] ∧
    ((coupledDot "u" 0).run (sampleObject .rhsFirst false)).1 =
      .ok (.var (sampleField "aux1" 1 .VAR_AUXILIARY true .standard) .uDot) ∧
    ((coupledDot "u" 0).run (sampleObject .rhsFirst false)).2.callbacks = [] ∧
    ((coupledDotDu "u" 0).run (sampleObject .rhsFirst false)).1 =
      .ok (.var (sampleField "aux1" 1 .VAR_AUXILIARY true .standard) .duDotDu) ∧
    ((coupledDotDu "u" 0).run (sampleObject .rhsFirst false)).2.callbacks = [] ∧
    ((coupledVectorDot "v" 1).run (sampleObject .rhsFirst false)).1 =
      .ok (.var (sampleField "nl1" 1 .VAR_NONLINEAR false .vector) .vectorUDot) ∧
    ((coupledVectorDot "v" 1).run (sampleObject .rhsFirst false)).2.callbacks = [] ∧
    ((coupledValuePreviousNL "u" 0).run (sampleObject .rhsFirst false)).1 =
      .ok (.var (sampleField "aux1" 1 .VAR_AUXILIARY true .standard) .slnPreviousNL) ∧
    ((coupledValuePreviousNL "u" 0).run (sampleObject .rhsFirst false)).2.callbacks =
      [("u", true)] :=
  ⟨by decide, by decide, by decide, by decide, by decide, by decide, by decide, by decide,
    by decide⟩

/-- On the sample object `coupledGradientOld("u", 0)` returns the array `gradSlnOld` of
`aux1` and has recorded one callback for `u`, with `is_old` true. -/
theorem callback_spec_witness :
    ((coupledGradientOld "u" 0).run (sampleObject .rhsFirst false)).1 =
      .ok (.var (sampleField "aux1" 1 .VAR_AUXILIARY true .standard) .gradSlnOld) ∧
    ((coupledGradientOld "u" 0).run (sampleObject .rhsFirst false)).2.callbacks =
      [("u", true)] :=
  ⟨by decide,
    (callback_spec (sampleObject .rhsFirst false) "u" 0
      (sampleField "aux1" 1 .VAR_AUXILIARY true .standard) .gradSlnOld).2
      coupledGradientOld (by simp) (by decide)⟩

/-- On the transient sample problem, for the objects with and without neighbor context,
`coupledDotDu("u", 0)` returns the array `duDotDu` of `aux1` on both, whereas
`coupledDot("u", 0)` returns `uDotNeighbor` on the first and `uDot` on the second. -/
theorem coupledDotDu_ignores_neighbor_witness :
    Coupleable.construct .rhsFirst { sampleParams with neighbor := some true } sampleProblem
      false false = .ok (sampleNeighborObject (some true) false) ∧
    Coupleable.construct .rhsFirst { sampleParams with neighbor := some false } sampleProblem
      false false = .ok (sampleNeighborObject (some false) false) ∧
    ((coupledDotDu "u" 0).run ((sampleNeighborObject (some true) false).after [])).1 =
      .ok (.var (sampleField "aux1" 1 .VAR_AUXILIARY true .standard) .duDotDu) ∧
    ((coupledDotDu "u" 0).run ((sampleNeighborObject (some false) false).after [])).1 =
      ((coupledDotDu "u" 0).run ((sampleNeighborObject (some true) false).after [])).1 ∧
    ((coupledDot "u" 0).run ((sampleNeighborObject (some true) false).after [])).1 ≠
      ((coupledDot "u" 0).run ((sampleNeighborObject (some false) false).after [])).1 :=
  ⟨rfl, rfl,
    (coupledDotDu_ignores_neighbor .rhsFirst sampleParams sampleProblem false false false
      (some true) (some false) (sampleNeighborObject (some true) false)
      (sampleNeighborObject (some false) false) rfl rfl rfl "u" (by decide) 0
      (sampleField "aux1" 1 .VAR_AUXILIARY true .standard) (by decide) (by decide) rfl
      (fun _ => rfl) [] []).1,
    (coupledDotDu_ignores_neighbor .rhsFirst sampleParams sampleProblem false false false
      (some true) (some false) (sampleNeighborObject (some true) false)
      (sampleNeighborObject (some false) false) rfl rfl rfl "u" (by decide) 0
      (sampleField "aux1" 1 .VAR_AUXILIARY true .standard) (by decide) (by decide) rfl
      (fun _ => rfl) [] []).2.1,
    (coupledDotDu_ignores_neighbor .rhsFirst sampleParams sampleProblem false false false
      (some true) (some false) (sampleNeighborObject (some true) false)
      (sampleNeighborObject (some false) false) rfl rfl rfl "u" (by decide) 0
      (sampleField "aux1" 1 .VAR_AUXILIARY true .standard) (by decide) (by decide) rfl
      (fun _ => rfl) [] []).2.2.2 (by decide)⟩


end Moose
